import Mathlib

/-!
# Sokol GP: draw-command queue and batch optimizer

A shallow embedding of the command queue, the batch optimizer and the flush
engine of `sokol_gp.h`, followed by theorems about them.

Conventions of the embedding:

* the global context `_sgp` is an explicit value of type `_sgp_context` that
  every operation takes and returns;
* the preallocated C arrays (`vertices`, `uniforms`, `commands`, the stacks) are
  total maps from an index to an element, next to their capacity and cursor, so a
  slot beyond the cursor keeps whatever an earlier segment left there;
* `uint32_t` values are natural numbers and every `uint32_t` addition and
  subtraction of the source is reduced modulo `2^32` (`u32`, `u32_sub`);
* `float` values are exact rationals;
* `memcmp` over a structure without padding is equality of the structure;
* calls into the graphics backend made by `sgp_flush` are recorded, in order, as
  a list of `sg_call` values.
-/

set_option autoImplicit false

namespace SokolGP

/-! ## Machine integers and configuration -/

/-- Reduction of a natural number to the range of `uint32_t`. -/
def u32 (n : Nat) : Nat := n % 4294967296

/-- The `uint32_t` difference `a - b` of two values in range. -/
def u32_sub (a b : Nat) : Nat := (a + 4294967296 - b % 4294967296) % 4294967296

/-- The cast `(int)x` of a `uint32_t` value, as two's complement. -/
def int_of_u32 (x : Nat) : Int :=
  if x % 4294967296 < 2147483648 then ((x % 4294967296 : Nat) : Int)
  else ((x % 4294967296 : Nat) : Int) - 4294967296

/-- Modelled from the spec: the id of an invalid backend handle, `SG_INVALID_ID`
of `sokol_gfx.h`, which is not among the sources; it is zero there. -/
def SG_INVALID_ID : Nat := 0

/-- The id no backend object ever has (`0xffffffffU`); as a uniform index it
stands for "no uniform". -/
def _SGP_IMPOSSIBLE_ID : Nat := 4294967295

/-- Default number of draw commands the batch optimizer looks back at. -/
def SGP_BATCH_OPTIMIZER_DEPTH : Nat := 8

def SGP_UNIFORM_CONTENT_SLOTS : Nat := 8

def SGP_TEXTURE_SLOTS : Nat := 4

def _SGP_MAX_MOVE_VERTICES : Nat := 96

def _SGP_MAX_STACK_DEPTH : Nat := 64

def _SGP_INIT_COOKIE : Nat := 0xCAFED0D

/-- Modelled from the spec: the `_sg_min(a,b)` macro of `sokol_gfx.h`
(`((a)<(b))?(a):(b)`), used for the bounding union of two regions. -/
def _sg_min (a b : ℚ) : ℚ := if a < b then a else b

/-- Modelled from the spec: the `_sg_max(a,b)` macro of `sokol_gfx.h`
(`((a)>(b))?(a):(b)`), used for the bounding union of two regions. -/
def _sg_max (a b : ℚ) : ℚ := if a > b then a else b

/-! ## Data model -/

inductive sgp_error
  | SGP_NO_ERROR
  | SGP_ERROR_SOKOL_INVALID
  | SGP_ERROR_VERTICES_FULL
  | SGP_ERROR_UNIFORMS_FULL
  | SGP_ERROR_COMMANDS_FULL
  | SGP_ERROR_VERTICES_OVERFLOW
  | SGP_ERROR_TRANSFORM_STACK_OVERFLOW
  | SGP_ERROR_TRANSFORM_STACK_UNDERFLOW
  | SGP_ERROR_STATE_STACK_OVERFLOW
  | SGP_ERROR_STATE_STACK_UNDERFLOW
  | SGP_ERROR_ALLOC_FAILED
  | SGP_ERROR_MAKE_VERTEX_BUFFER_FAILED
  | SGP_ERROR_MAKE_WHITE_IMAGE_FAILED
  | SGP_ERROR_MAKE_NEAREST_SAMPLER_FAILED
  | SGP_ERROR_MAKE_COMMON_SHADER_FAILED
  | SGP_ERROR_MAKE_COMMON_PIPELINE_FAILED
  deriving DecidableEq, Repr

inductive sgp_blend_mode
  | SGP_BLENDMODE_NONE
  | SGP_BLENDMODE_BLEND
  | SGP_BLENDMODE_BLEND_PREMULTIPLIED
  | SGP_BLENDMODE_ADD
  | SGP_BLENDMODE_ADD_PREMULTIPLIED
  | SGP_BLENDMODE_MOD
  | SGP_BLENDMODE_MUL
  deriving DecidableEq, Repr

/-- Modelled from the spec: the primitive topologies of the backend
(`sg_primitive_type` of `sokol_gfx.h`), in the order of that enumeration. -/
inductive sg_primitive_type
  | _SG_PRIMITIVETYPE_DEFAULT
  | SG_PRIMITIVETYPE_POINTS
  | SG_PRIMITIVETYPE_LINES
  | SG_PRIMITIVETYPE_LINE_STRIP
  | SG_PRIMITIVETYPE_TRIANGLES
  | SG_PRIMITIVETYPE_TRIANGLE_STRIP
  deriving DecidableEq, Repr

/-- Backend handles are records holding one `uint32_t` id. -/
structure sg_pipeline where
  id : Nat
  deriving DecidableEq, Repr

structure sg_image where
  id : Nat
  deriving DecidableEq, Repr

structure sg_sampler where
  id : Nat
  deriving DecidableEq, Repr

structure sg_buffer where
  id : Nat
  deriving DecidableEq, Repr

structure sg_shader where
  id : Nat
  deriving DecidableEq, Repr

structure sgp_isize where
  w : Int
  h : Int
  deriving DecidableEq, Repr

structure sgp_irect where
  x : Int
  y : Int
  w : Int
  h : Int
  deriving DecidableEq, Repr

structure sgp_vec2 where
  x : ℚ
  y : ℚ
  deriving DecidableEq

/-- The 2x3 matrix `v[2][3]`, one field per entry. -/
structure sgp_mat2x3 where
  v00 : ℚ
  v01 : ℚ
  v02 : ℚ
  v10 : ℚ
  v11 : ℚ
  v12 : ℚ
  deriving DecidableEq

structure sgp_color_ub4 where
  r : Nat
  g : Nat
  b : Nat
  a : Nat
  deriving DecidableEq, Repr

structure sgp_vertex where
  position : sgp_vec2
  texcoord : sgp_vec2
  color : sgp_color_ub4
  deriving DecidableEq

/-- A uniform snapshot: the two declared sizes and the
`SGP_UNIFORM_CONTENT_SLOTS * sizeof(float)` data bytes. -/
structure sgp_uniform where
  vs_size : Nat
  fs_size : Nat
  data : List Nat
  deriving DecidableEq, Repr

/-- A texture binding set: the active count and `SGP_TEXTURE_SLOTS` images and
samplers. -/
structure sgp_textures_uniform where
  count : Nat
  images : List sg_image
  samplers : List sg_sampler
  deriving DecidableEq, Repr

structure sgp_state where
  frame_size : sgp_isize
  viewport : sgp_irect
  scissor : sgp_irect
  proj : sgp_mat2x3
  transform : sgp_mat2x3
  mvp : sgp_mat2x3
  thickness : ℚ
  color : sgp_color_ub4
  textures : sgp_textures_uniform
  uniform : sgp_uniform
  blend_mode : sgp_blend_mode
  pipeline : sg_pipeline
  _base_vertex : Nat
  _base_uniform : Nat
  _base_command : Nat
  deriving DecidableEq

structure sgp_desc where
  max_vertices : Nat
  max_commands : Nat
  color_format : Nat
  depth_format : Nat
  sample_count : Int
  deriving DecidableEq, Repr

structure _sgp_region where
  x1 : ℚ
  y1 : ℚ
  x2 : ℚ
  y2 : ℚ
  deriving DecidableEq

structure _sgp_draw_args where
  pip : sg_pipeline
  textures : sgp_textures_uniform
  region : _sgp_region
  uniform_index : Nat
  vertex_index : Nat
  num_vertices : Nat
  deriving DecidableEq

/-- The argument union of a command. The source reads only the member that the
command's tag selects (a command turned into `SGP_COMMAND_NONE` keeps its draw
arguments and they are not read again), so the two members are kept side by
side; `viewport` is also the storage of the `scissor` member. -/
structure _sgp_command_args where
  draw : _sgp_draw_args
  viewport : sgp_irect
  deriving DecidableEq

inductive _sgp_command_type
  | SGP_COMMAND_NONE
  | SGP_COMMAND_DRAW
  | SGP_COMMAND_VIEWPORT
  | SGP_COMMAND_SCISSOR
  deriving DecidableEq, Repr

structure _sgp_command where
  cmd : _sgp_command_type
  args : _sgp_command_args
  deriving DecidableEq

/-- The context `_sgp`. -/
structure _sgp_context where
  init_cookie : Nat
  last_error : sgp_error
  desc : sgp_desc
  shader : sg_shader
  vertex_buf : sg_buffer
  white_img : sg_image
  nearest_smp : sg_sampler
  pipelines : Nat → sg_pipeline
  cur_vertex : Nat
  cur_uniform : Nat
  cur_command : Nat
  num_vertices : Nat
  num_uniforms : Nat
  num_commands : Nat
  vertices : Nat → sgp_vertex
  uniforms : Nat → sgp_uniform
  commands : Nat → _sgp_command
  state : sgp_state
  cur_transform : Nat
  cur_state : Nat
  transform_stack : Nat → sgp_mat2x3
  state_stack : Nat → sgp_state

/-! ## Arena cursors -/

open sgp_error _sgp_command_type sg_primitive_type

def _sgp_set_error (s : _sgp_context) (error : sgp_error) : _sgp_context :=
  { s with last_error := error }

/-- Reserves `count` vertices: the index of the first one and the advanced
cursor, or no index and `SGP_ERROR_VERTICES_FULL`. -/
def _sgp_next_vertices (s : _sgp_context) (count : Nat) : Option Nat × _sgp_context :=
  if u32 (s.cur_vertex + count) ≤ s.num_vertices then
    (some s.cur_vertex, { s with cur_vertex := u32 (s.cur_vertex + count) })
  else
    (none, _sgp_set_error s SGP_ERROR_VERTICES_FULL)

/-- Index of the most recently stored uniform, if there is one. -/
def _sgp_prev_uniform (s : _sgp_context) : Option Nat :=
  if s.cur_uniform > 0 then some (u32_sub s.cur_uniform 1) else none

def _sgp_next_uniform (s : _sgp_context) : Option Nat × _sgp_context :=
  if s.cur_uniform < s.num_uniforms then
    (some s.cur_uniform, { s with cur_uniform := u32 (s.cur_uniform + 1) })
  else
    (none, _sgp_set_error s SGP_ERROR_UNIFORMS_FULL)

/-- Index of the command `count` places before the cursor, when the segment
holds that many commands. -/
def _sgp_prev_command (s : _sgp_context) (count : Nat) : Option Nat :=
  if u32_sub s.cur_command s.state._base_command ≥ count then
    some (u32_sub s.cur_command count)
  else none

def _sgp_next_command (s : _sgp_context) : Option Nat × _sgp_context :=
  if s.cur_command < s.num_commands then
    (some s.cur_command, { s with cur_command := u32 (s.cur_command + 1) })
  else
    (none, _sgp_set_error s SGP_ERROR_COMMANDS_FULL)

/-! ## Batch optimizer -/

def _sgp_region_overlaps (a b : _sgp_region) : Bool :=
  !(decide (a.x2 ≤ b.x1) || decide (b.x2 ≤ a.x1) || decide (a.y2 ≤ b.y1) || decide (b.y2 ≤ a.y1))

/-- The test of the backward scan: same pipeline id, byte-equal texture set
and, when the new draw carries a uniform, byte-equal uniform. -/
def _sgp_batch_match (s : _sgp_context) (pip : sg_pipeline) (textures : sgp_textures_uniform)
    (uniform : Option sgp_uniform) (cmd : _sgp_command) : Bool :=
  decide (cmd.args.draw.pip.id = pip.id) &&
  decide (textures = cmd.args.draw.textures) &&
  (match uniform with
   | none => true
   | some u => decide (u = s.uniforms cmd.args.draw.uniform_index))

/-- The candidate search loop of `_sgp_merge_batch_command`, one iteration per
unit of fuel; the arguments after the fuel are `depth`, `lookup_depth` and the
intermediate commands collected so far (`inter_cmds`, nearest first). The
result is `prev_cmd` and `inter_cmds`, as indices into the command array. -/
def _sgp_merge_scan (s : _sgp_context) (pip : sg_pipeline) (textures : sgp_textures_uniform)
    (uniform : Option sgp_uniform) : Nat → Nat → Nat → List Nat → Option Nat × List Nat
  | 0, _, _, inter_cmds => (none, inter_cmds)
  | fuel + 1, depth, lookup_depth, inter_cmds =>
    if depth < lookup_depth then
      match _sgp_prev_command s (u32 (depth + 1)) with
      | none => (none, inter_cmds)
      | some i =>
        if (s.commands i).cmd = SGP_COMMAND_NONE then
          _sgp_merge_scan s pip textures uniform fuel (u32 (depth + 1)) (u32 (lookup_depth + 1))
            inter_cmds
        else if (s.commands i).cmd ≠ SGP_COMMAND_DRAW then
          (none, inter_cmds)
        else if _sgp_batch_match s pip textures uniform (s.commands i) then
          (some i, inter_cmds)
        else
          _sgp_merge_scan s pip textures uniform fuel (u32 (depth + 1)) lookup_depth
            (inter_cmds ++ [i])
    else (none, inter_cmds)

/-- The overlap loop of `_sgp_merge_batch_command` over the intermediate
commands, carrying `overlaps_next` and `overlaps_prev`; `none` is the early
`return false`. -/
def _sgp_merge_overlaps (s : _sgp_context) (region prev_region : _sgp_region) :
    List Nat → Bool → Bool → Option (Bool × Bool)
  | [], overlaps_next, overlaps_prev => some (overlaps_next, overlaps_prev)
  | i :: rest, overlaps_next, overlaps_prev =>
    let inter_region := (s.commands i).args.draw.region
    let overlaps_next1 := if _sgp_region_overlaps region inter_region then true else overlaps_next
    if _sgp_region_overlaps region inter_region && overlaps_prev then none
    else
      let overlaps_prev1 :=
        if _sgp_region_overlaps prev_region inter_region then true else overlaps_prev
      if _sgp_region_overlaps prev_region inter_region && overlaps_next1 then none
      else _sgp_merge_overlaps s region prev_region rest overlaps_next1 overlaps_prev1

/-- The block move `memmove(&a[dst], &a[src], n * sizeof(element))`. -/
def memmove_at {α : Type} (a : Nat → α) (dst src n : Nat) : Nat → α :=
  fun i => if dst ≤ i ∧ i < dst + n then a (src + (i - dst)) else a i

/-- The loop adding `num_vertices` to the `vertex_index` of every intermediate
command. -/
def _sgp_offset_inter_cmds (commands : Nat → _sgp_command) (num_vertices : Nat) :
    List Nat → Nat → _sgp_command
  | [] => commands
  | i :: rest =>
    _sgp_offset_inter_cmds
      (Function.update commands i
        { commands i with args := { (commands i).args with draw :=
            { (commands i).args.draw with
              vertex_index := u32 ((commands i).args.draw.vertex_index + num_vertices) } } })
      num_vertices rest

/-- The bounding union computed with `_sg_min` and `_sg_max`. -/
def _sgp_region_union (prev_region region : _sgp_region) : _sgp_region :=
  { x1 := _sg_min prev_region.x1 region.x1
    y1 := _sg_min prev_region.y1 region.y1
    x2 := _sg_max prev_region.x2 region.x2
    y2 := _sg_max prev_region.y2 region.y2 }

/-- The branch "batch in the previous draw command" of
`_sgp_merge_batch_command`: `prev` is the index of `prev_cmd`, `inter_cmds` the
indices of the intermediate commands, `prev_region` the candidate's region read
before the overlap loop. -/
def _sgp_merge_into_prev (s : _sgp_context) (prev : Nat) (inter_cmds : List Nat)
    (prev_region region : _sgp_region) (vertex_index num_vertices : Nat) :
    Bool × _sgp_context :=
  if inter_cmds.length > 0 then
    -- not enough vertices space, can't do this batch
    if u32 (s.cur_vertex + num_vertices) > s.num_vertices then (false, s)
    else
      let prev_end_vertex :=
        u32 ((s.commands prev).args.draw.vertex_index + (s.commands prev).args.draw.num_vertices)
      let prev_num_vertices := u32_sub s.cur_vertex prev_end_vertex
      -- avoid moving too much memory, to not downgrade performance
      if prev_num_vertices > _SGP_MAX_MOVE_VERTICES then (false, s)
      else
        -- rearrange vertices memory for the batch
        let vertices1 := memmove_at s.vertices (u32 (prev_end_vertex + num_vertices))
          prev_end_vertex prev_num_vertices
        let vertices2 := memmove_at vertices1 prev_end_vertex
          (u32 (vertex_index + num_vertices)) num_vertices
        -- offset vertices of intermediate draw commands
        let commands1 := _sgp_offset_inter_cmds s.commands num_vertices inter_cmds
        -- update draw region and vertices
        let draw : _sgp_draw_args :=
          { (commands1 prev).args.draw with
            num_vertices := u32 ((commands1 prev).args.draw.num_vertices + num_vertices)
            region := _sgp_region_union prev_region region }
        let command : _sgp_command :=
          { commands1 prev with args := { (commands1 prev).args with draw := draw } }
        (true, { s with vertices := vertices2, commands := Function.update commands1 prev command })
  else
    -- update draw region and vertices
    let draw : _sgp_draw_args :=
      { (s.commands prev).args.draw with
        num_vertices := u32 ((s.commands prev).args.draw.num_vertices + num_vertices)
        region := _sgp_region_union prev_region region }
    let command : _sgp_command :=
      { s.commands prev with args := { (s.commands prev).args with draw := draw } }
    (true, { s with commands := Function.update s.commands prev command })

/-- The branch "batch in the next draw command" of
`_sgp_merge_batch_command`. -/
def _sgp_merge_into_next (s : _sgp_context) (prev : Nat) (pip : sg_pipeline)
    (textures : sgp_textures_uniform) (prev_region region : _sgp_region)
    (vertex_index num_vertices : Nat) : Bool × _sgp_context :=
  -- append new draw command
  match _sgp_next_command s with
  | (none, s1) => (false, s1)
  | (some cmd, s1) =>
    let prev_num_vertices := (s1.commands prev).args.draw.num_vertices
    -- not enough vertices space, can't do this batch
    if u32 (s1.cur_vertex + prev_num_vertices) > s1.num_vertices then (false, s1)
    -- avoid moving too much memory, to not downgrade performance
    else if num_vertices > _SGP_MAX_MOVE_VERTICES then (false, s1)
    else
      -- rearrange vertices memory for the batch
      let vertices1 := memmove_at s1.vertices (u32 (vertex_index + prev_num_vertices))
        vertex_index num_vertices
      let vertices2 := memmove_at vertices1 vertex_index
        (s1.commands prev).args.draw.vertex_index prev_num_vertices
      -- configure the draw command
      let draw : _sgp_draw_args :=
        { pip := pip
          textures := textures
          region := _sgp_region_union prev_region region
          uniform_index := (s1.commands prev).args.draw.uniform_index
          vertex_index := vertex_index
          num_vertices := u32 (num_vertices + prev_num_vertices) }
      let command : _sgp_command :=
        { cmd := SGP_COMMAND_DRAW, args := { (s1.commands cmd).args with draw := draw } }
      let commands1 := Function.update s1.commands cmd command
      -- force skipping the previous draw command
      let commands2 := Function.update commands1 prev
        { commands1 prev with cmd := SGP_COMMAND_NONE }
      (true, { s1 with
        vertices := vertices2
        cur_vertex := u32 (s1.cur_vertex + prev_num_vertices)
        commands := commands2 })

/-- The batch optimizer. `depth` is the configured `SGP_BATCH_OPTIMIZER_DEPTH`
(with 0 the body is compiled out and the function returns false); `uniform` is
the pointer argument, `none` for `NULL`. The result is the returned flag and the
context afterwards. -/
def _sgp_merge_batch_command (depth : Nat) (s : _sgp_context) (pip : sg_pipeline)
    (textures : sgp_textures_uniform) (uniform : Option sgp_uniform) (region : _sgp_region)
    (vertex_index num_vertices : Nat) : Bool × _sgp_context :=
  if depth = 0 then (false, s)
  else
    -- find a command that is a good candidate to batch
    match _sgp_merge_scan s pip textures uniform
        (u32_sub s.cur_command s.state._base_command + 1) 0 depth [] with
    | (none, _) => (false, s)
    | (some prev, inter_cmds) =>
      -- allow batching only if the region of the current or previous draw
      -- is not touched by intermediate commands
      let prev_region := (s.commands prev).args.draw.region
      match _sgp_merge_overlaps s region prev_region inter_cmds false false with
      | none => (false, s)
      | some (overlaps_next, _) =>
        if !overlaps_next then
          _sgp_merge_into_prev s prev inter_cmds prev_region region vertex_index num_vertices
        else
          _sgp_merge_into_next s prev pip textures prev_region region vertex_index num_vertices

/-- The last step of `_sgp_queue_draw`, "append new draw command": takes the
next command slot and fills it, or rolls the reserved vertices back when the
queue is full. -/
def _sgp_queue_draw_append (s : _sgp_context) (pip : sg_pipeline) (region : _sgp_region)
    (uniform_index vertex_index num_vertices : Nat) : _sgp_context :=
  match _sgp_next_command s with
  | (none, s1) => { s1 with cur_vertex := u32_sub s1.cur_vertex num_vertices }
  | (some cmd, s1) =>
    let draw : _sgp_draw_args :=
      { pip := pip
        textures := s1.state.textures
        region := region
        uniform_index := uniform_index
        vertex_index := vertex_index
        num_vertices := num_vertices }
    let command : _sgp_command :=
      { cmd := SGP_COMMAND_DRAW, args := { (s1.commands cmd).args with draw := draw } }
    { s1 with commands := Function.update s1.commands cmd command }

/-- The step "setup uniform, try to reuse previous uniform when possible" of
`_sgp_queue_draw`, followed by the append step. `uniform` is the pointer
`uniform` of the source, which is `NULL` or the address of the state's
uniform. -/
def _sgp_queue_draw_fresh (s : _sgp_context) (pip : sg_pipeline) (uniform : Option sgp_uniform)
    (region : _sgp_region) (vertex_index num_vertices : Nat) : _sgp_context :=
  match uniform with
  | none => _sgp_queue_draw_append s pip region _SGP_IMPOSSIBLE_ID vertex_index num_vertices
  | some _ =>
    let reuse_uniform : Bool :=
      match _sgp_prev_uniform s with
      | none => false
      | some prev_uniform => decide (s.uniforms prev_uniform = s.state.uniform)
    if !reuse_uniform then
      -- append new uniform
      match _sgp_next_uniform s with
      | (none, s2) => { s2 with cur_vertex := u32_sub s2.cur_vertex num_vertices }
      | (some next_uniform, s2) =>
        _sgp_queue_draw_append
          { s2 with uniforms := Function.update s2.uniforms next_uniform s2.state.uniform }
          pip region (u32_sub s2.cur_uniform 1) vertex_index num_vertices
    else
      _sgp_queue_draw_append s pip region (u32_sub s.cur_uniform 1) vertex_index num_vertices

/-- Queues a draw of the `num_vertices` vertices already reserved at
`vertex_index`: rolls them back, merges them into a recent command, or appends a
new draw command. `depth` is the configured `SGP_BATCH_OPTIMIZER_DEPTH`. -/
def _sgp_queue_draw (depth : Nat) (s : _sgp_context) (pip : sg_pipeline) (region : _sgp_region)
    (vertex_index num_vertices : Nat) (primitive_type : sg_primitive_type) : _sgp_context :=
  -- override pipeline
  let uniform : Option sgp_uniform :=
    if s.state.pipeline.id ≠ SG_INVALID_ID then some s.state.uniform else none
  let pip : sg_pipeline := if s.state.pipeline.id ≠ SG_INVALID_ID then s.state.pipeline else pip
  if pip.id = SG_INVALID_ID then
    -- invalid pipeline
    { s with cur_vertex := u32_sub s.cur_vertex num_vertices }
  else if region.x1 > 1 ∨ region.y1 > 1 ∨ region.x2 < -1 ∨ region.y2 < -1 then
    -- region is out of screen bounds
    { s with cur_vertex := u32_sub s.cur_vertex num_vertices }
  else
    -- try to merge on previous command to draw in a batch
    let merged : Bool × _sgp_context :=
      if primitive_type ≠ SG_PRIMITIVETYPE_TRIANGLE_STRIP
          ∧ primitive_type ≠ SG_PRIMITIVETYPE_LINE_STRIP then
        _sgp_merge_batch_command depth s pip s.state.textures uniform region vertex_index
          num_vertices
      else (false, s)
    if merged.1 then merged.2
    else _sgp_queue_draw_fresh merged.2 pip uniform region vertex_index num_vertices

/-! ## Segments and flush -/

def _sgp_mat3_identity : sgp_mat2x3 :=
  { v00 := 1, v01 := 0, v02 := 0, v10 := 0, v11 := 1, v12 := 0 }

def _sgp_white_color : sgp_color_ub4 := { r := 255, g := 255, b := 255, a := 255 }

def _sgp_default_proj (width height : Int) : sgp_mat2x3 :=
  { v00 := 2 / (width : ℚ), v01 := 0, v02 := -1
    v10 := 0, v11 := -2 / (height : ℚ), v12 := 1 }

/-- The uniform snapshot after `memset(&uniform, 0, sizeof(sgp_uniform))`. -/
def _sgp_zero_uniform : sgp_uniform :=
  { vs_size := 0, fs_size := 0, data := List.replicate (SGP_UNIFORM_CONTENT_SLOTS * 4) 0 }

def sgp_begin (s : _sgp_context) (width height : Int) : _sgp_context :=
  if s.cur_state ≥ _SGP_MAX_STACK_DEPTH then
    _sgp_set_error s SGP_ERROR_STATE_STACK_OVERFLOW
  else
    let invalid_img : sg_image := { id := SG_INVALID_ID }
    { s with
      -- begin reset last error
      last_error := SGP_NO_ERROR
      -- save current state
      state_stack := Function.update s.state_stack s.cur_state s.state
      cur_state := u32 (s.cur_state + 1)
      -- reset to default state
      state :=
        { s.state with
          frame_size := { w := width, h := height }
          viewport := { x := 0, y := 0, w := width, h := height }
          scissor := { x := 0, y := 0, w := -1, h := -1 }
          proj := _sgp_default_proj width height
          transform := _sgp_mat3_identity
          mvp := _sgp_default_proj width height
          thickness := _sg_max (1 / (width : ℚ)) (1 / (height : ℚ))
          color := _sgp_white_color
          uniform := _sgp_zero_uniform
          blend_mode := sgp_blend_mode.SGP_BLENDMODE_NONE
          _base_vertex := s.cur_vertex
          _base_uniform := s.cur_uniform
          _base_command := s.cur_command
          textures :=
            { count := 1
              images := [s.white_img, invalid_img, invalid_img, invalid_img]
              samplers := [s.nearest_smp, s.nearest_smp, s.nearest_smp, s.nearest_smp] } } }

def sgp_end (s : _sgp_context) : _sgp_context :=
  if s.cur_state ≤ 0 then
    _sgp_set_error s SGP_ERROR_STATE_STACK_UNDERFLOW
  else
    { s with
      cur_state := u32_sub s.cur_state 1
      state := s.state_stack (u32_sub s.cur_state 1) }

/-- The part of the backend's `sg_bindings` that `sgp_flush` fills: vertex
buffer 0 with its offset and the image and sampler ids of the texture slots. -/
structure sg_bindings where
  vertex_buffer : sg_buffer
  vertex_buffer_offset : Int
  images : List Nat
  samplers : List Nat
  deriving DecidableEq, Repr

/-- A call into the graphics backend, with the arguments `sgp_flush` passes. An
upload names the first vertex of the range and its size in bytes; a uniform
application carries the bytes of the range. -/
inductive sg_call
  | append_buffer (buf : sg_buffer) (first_vertex : Nat) (num_bytes : Nat)
  | apply_viewport (x y w h : Int) (origin_top_left : Bool)
  | apply_scissor_rect (x y w h : Int) (origin_top_left : Bool)
  | apply_pipeline (pip : sg_pipeline)
  | apply_bindings (bind : sg_bindings)
  | apply_uniforms (slot : Nat) (data : List Nat)
  | draw (base_element num_elements num_instances : Int)
  deriving DecidableEq, Repr

def SGP_UNIFORM_SLOT_VERTEX : Nat := 0

def SGP_UNIFORM_SLOT_FRAGMENT : Nat := 1

/-- The locals of the command loop of `sgp_flush`, with the backend calls issued
so far. -/
structure _sgp_flush_locals where
  cur_pip_id : Nat
  cur_uniform_index : Nat
  cur_imgs_id : List Nat
  bind : sg_bindings
  calls : List sg_call
  deriving DecidableEq

/-- One pass of the bindings loop of `sgp_flush`, for texture slot `j`; the
flag is `apply_bindings`. -/
def _sgp_flush_slot (args : _sgp_draw_args) (acc : _sgp_flush_locals × Bool) (j : Nat) :
    _sgp_flush_locals × Bool :=
  let img_id : Nat :=
    if j < args.textures.count then (args.textures.images.getD j { id := SG_INVALID_ID }).id
    else SG_INVALID_ID
  let smp_id : Nat :=
    if j < args.textures.count ∧ img_id ≠ SG_INVALID_ID then
      (args.textures.samplers.getD j { id := SG_INVALID_ID }).id
    else SG_INVALID_ID
  if acc.1.cur_imgs_id.getD j 0 ≠ img_id then
    ({ acc.1 with
        cur_imgs_id := acc.1.cur_imgs_id.set j img_id
        bind := { acc.1.bind with
          images := acc.1.bind.images.set j img_id
          samplers := acc.1.bind.samplers.set j smp_id } }, true)
  else acc

/-- The body of the command loop of `sgp_flush` for the command at index `i`. -/
def _sgp_flush_command (s : _sgp_context) (base_vertex : Nat) (l : _sgp_flush_locals) (i : Nat) :
    _sgp_flush_locals :=
  match (s.commands i).cmd with
  | SGP_COMMAND_VIEWPORT =>
    let args := (s.commands i).args.viewport
    { l with calls := l.calls ++ [sg_call.apply_viewport args.x args.y args.w args.h true] }
  | SGP_COMMAND_SCISSOR =>
    let args := (s.commands i).args.viewport
    { l with calls := l.calls ++ [sg_call.apply_scissor_rect args.x args.y args.w args.h true] }
  | SGP_COMMAND_DRAW =>
    let args := (s.commands i).args.draw
    if args.num_vertices = 0 then l
    else
      -- pipeline
      let l1 : _sgp_flush_locals × Bool :=
        if args.pip.id ≠ l.cur_pip_id then
          ({ l with
              cur_uniform_index := _SGP_IMPOSSIBLE_ID
              cur_pip_id := args.pip.id
              calls := l.calls ++ [sg_call.apply_pipeline args.pip] }, true)
        else (l, false)
      -- bindings
      let l2 : _sgp_flush_locals × Bool :=
        (List.range SGP_TEXTURE_SLOTS).foldl (_sgp_flush_slot args) l1
      let l3 : _sgp_flush_locals × Bool :=
        if l2.2 then
          ({ l2.1 with calls := l2.1.calls ++ [sg_call.apply_bindings l2.1.bind] }, true)
        else (l2.1, false)
      -- uniforms
      let l4 : _sgp_flush_locals × Bool :=
        if l3.1.cur_uniform_index ≠ args.uniform_index then
          ({ l3.1 with cur_uniform_index := args.uniform_index }, true)
        else l3
      let l5 : _sgp_flush_locals :=
        if l4.2 ∧ l4.1.cur_uniform_index ≠ _SGP_IMPOSSIBLE_ID then
          let uniform := s.uniforms l4.1.cur_uniform_index
          let vs_calls : List sg_call :=
            if uniform.vs_size > 0 then
              [sg_call.apply_uniforms SGP_UNIFORM_SLOT_VERTEX (uniform.data.take uniform.vs_size)]
            else []
          let fs_calls : List sg_call :=
            if uniform.fs_size > 0 then
              [sg_call.apply_uniforms SGP_UNIFORM_SLOT_FRAGMENT
                ((uniform.data.drop uniform.vs_size).take uniform.fs_size)]
            else []
          { l4.1 with calls := l4.1.calls ++ vs_calls ++ fs_calls }
        else l4.1
      -- draw
      { l5 with calls := l5.calls ++
          [sg_call.draw (int_of_u32 (u32_sub args.vertex_index base_vertex))
            (int_of_u32 args.num_vertices) 1] }
  | SGP_COMMAND_NONE => l

/-- Size in bytes of one `sgp_vertex` (four floats and four colour bytes). -/
def sizeof_sgp_vertex : Nat := 20

/-- Flushes the segment. `offset` and `overflow` are what the backend answers
to `sg_append_buffer` and `sg_query_buffer_overflow`; the result is the context
afterwards and the backend calls made, in order. -/
def sgp_flush (s : _sgp_context) (offset : Int) (overflow : Bool) :
    _sgp_context × List sg_call :=
  let end_command := s.cur_command
  let end_vertex := s.cur_vertex
  -- rewind indexes
  let s1 : _sgp_context :=
    { s with
      cur_vertex := s.state._base_vertex
      cur_uniform := s.state._base_uniform
      cur_command := s.state._base_command }
  if s1.last_error ≠ SGP_NO_ERROR then (s1, [])
  else if end_command ≤ s1.state._base_command then (s1, [])
  else
    -- upload vertices
    let base_vertex := s1.state._base_vertex
    let num_vertices := u32 (u32_sub end_vertex base_vertex * sizeof_sgp_vertex)
    let upload : List sg_call := [sg_call.append_buffer s1.vertex_buf base_vertex num_vertices]
    if overflow then (_sgp_set_error s1 SGP_ERROR_VERTICES_OVERFLOW, upload)
    else
      let locals : _sgp_flush_locals :=
        { cur_pip_id := _SGP_IMPOSSIBLE_ID
          cur_uniform_index := _SGP_IMPOSSIBLE_ID
          cur_imgs_id := List.replicate SGP_TEXTURE_SLOTS _SGP_IMPOSSIBLE_ID
          bind :=
            { vertex_buffer := s1.vertex_buf
              vertex_buffer_offset := offset
              images := List.replicate SGP_TEXTURE_SLOTS 0
              samplers := List.replicate SGP_TEXTURE_SLOTS 0 }
          calls := upload }
      -- flush commands
      (s1, ((List.range' s1.state._base_command
              (end_command - s1.state._base_command)).foldl
            (_sgp_flush_command s1 base_vertex) locals).calls)

/-! ## Custom pipeline -/

def sgp_set_pipeline (s : _sgp_context) (pipeline : sg_pipeline) : _sgp_context :=
  { s with state := { s.state with
      pipeline := pipeline
      -- reset uniforms
      uniform := _sgp_zero_uniform } }

def sgp_reset_pipeline (s : _sgp_context) : _sgp_context :=
  sgp_set_pipeline s { id := SG_INVALID_ID }

/-! ## Reference definitions for the candidate search -/

/-- Indices of the commands of the current segment, most recent first. -/
def segment_commands_rev (s : _sgp_context) : List Nat :=
  (List.range' s.state._base_command (s.cur_command - s.state._base_command)).reverse

/-- The candidate search restated over a list of command indices and a budget
of live commands `k`, with the intermediate commands collected so far. -/
def scan_list (s : _sgp_context) (pip : sg_pipeline) (textures : sgp_textures_uniform)
    (uniform : Option sgp_uniform) : List Nat → Nat → List Nat → Option Nat × List Nat
  | [], _, inter_cmds => (none, inter_cmds)
  | i :: rest, k, inter_cmds =>
    if k = 0 then (none, inter_cmds)
    else if (s.commands i).cmd = SGP_COMMAND_NONE then
      scan_list s pip textures uniform rest k inter_cmds
    else if (s.commands i).cmd ≠ SGP_COMMAND_DRAW then (none, inter_cmds)
    else if _sgp_batch_match s pip textures uniform (s.commands i) then (some i, inter_cmds)
    else scan_list s pip textures uniform rest (k - 1) (inter_cmds ++ [i])

/-- The commands the optimizer may look at, in the words of the
specification: walking back from the most recent command of the segment and
ignoring NoOp entries, the `depth` most recent commands, up to the first one
that is not a draw (a viewport or scissor command). -/
def reference_window (s : _sgp_context) (depth : Nat) : List Nat :=
  (((segment_commands_rev s).filter
      (fun i => decide ((s.commands i).cmd ≠ SGP_COMMAND_NONE))).take depth).takeWhile
    (fun i => decide ((s.commands i).cmd = SGP_COMMAND_DRAW))

/-- The candidate in the words of the specification: the nearest command of the
reference window with matching pipeline, textures and uniform. -/
def reference_candidate (s : _sgp_context) (pip : sg_pipeline) (textures : sgp_textures_uniform)
    (uniform : Option sgp_uniform) (depth : Nat) : Option Nat :=
  (reference_window s depth).find? (fun i => _sgp_batch_match s pip textures uniform (s.commands i))

/-- The gap in the words of the specification: the commands of the reference
window that are more recent than the candidate. -/
def reference_gap (s : _sgp_context) (pip : sg_pipeline) (textures : sgp_textures_uniform)
    (uniform : Option sgp_uniform) (depth : Nat) : List Nat :=
  (reference_window s depth).takeWhile
    (fun i => !_sgp_batch_match s pip textures uniform (s.commands i))

/-! ## Vocabulary of the statements -/

/-- The pipeline `_sgp_queue_draw` draws with: the custom pipeline of the state
when one is set, the given pipeline otherwise. -/
def queue_pipeline (s : _sgp_context) (pip : sg_pipeline) : sg_pipeline :=
  if s.state.pipeline.id ≠ SG_INVALID_ID then s.state.pipeline else pip

/-- The uniform `_sgp_queue_draw` draws with: the uniform of the state when a
custom pipeline is set, none otherwise. -/
def queue_uniform (s : _sgp_context) : Option sgp_uniform :=
  if s.state.pipeline.id ≠ SG_INVALID_ID then some s.state.uniform else none

/-- The region test of `_sgp_queue_draw`: the region lies entirely outside the
clip bounds. -/
def region_out_of_bounds (region : _sgp_region) : Prop :=
  region.x1 > 1 ∨ region.y1 > 1 ∨ region.x2 < -1 ∨ region.y2 < -1

instance (region : _sgp_region) : Decidable (region_out_of_bounds region) := by
  unfold region_out_of_bounds; infer_instance

/-- Context `t` is context `s` with one draw command appended at the command
cursor, holding the given pipeline, the textures of the state, the region and
the vertex span, and a uniform index that is "none" when the draw has no uniform
and otherwise points at a stored snapshot equal to the draw's uniform; no
other command and no vertex differs, and the vertex cursor is the same. -/
def appended_as_new_draw (s t : _sgp_context) (pip : sg_pipeline)
    (uniform : Option sgp_uniform) (region : _sgp_region)
    (vertex_index num_vertices : Nat) : Prop :=
  t.cur_command = s.cur_command + 1
  ∧ (t.commands s.cur_command).cmd = SGP_COMMAND_DRAW
  ∧ (t.commands s.cur_command).args.draw.pip = pip
  ∧ (t.commands s.cur_command).args.draw.textures = s.state.textures
  ∧ (t.commands s.cur_command).args.draw.region = region
  ∧ (t.commands s.cur_command).args.draw.vertex_index = vertex_index
  ∧ (t.commands s.cur_command).args.draw.num_vertices = num_vertices
  ∧ (match uniform with
     | none => (t.commands s.cur_command).args.draw.uniform_index = _SGP_IMPOSSIBLE_ID
     | some u => t.uniforms (t.commands s.cur_command).args.draw.uniform_index = u)
  ∧ (∀ i, i ≠ s.cur_command → t.commands i = s.commands i)
  ∧ t.vertices = s.vertices
  ∧ t.cur_vertex = s.cur_vertex

/-- Some command of the list has a region overlapping `region`. -/
def gap_overlaps (s : _sgp_context) (region : _sgp_region) (gap : List Nat) : Bool :=
  gap.any (fun i => _sgp_region_overlaps region (s.commands i).args.draw.region)

/-! ## Sample contexts -/

/-- A binding set with one texture, image `img` in slot 0. -/
def sample_textures (img : Nat) : sgp_textures_uniform :=
  { count := 1
    images := [{ id := img }, { id := 0 }, { id := 0 }, { id := 0 }]
    samplers := [{ id := 1 }, { id := 1 }, { id := 1 }, { id := 1 }] }

def sample_region (x1 y1 x2 y2 : ℚ) : _sgp_region := { x1 := x1, y1 := y1, x2 := x2, y2 := y2 }

def zero_rect : sgp_irect := { x := 0, y := 0, w := 0, h := 0 }

/-- A draw command with pipeline id `pip`, image `img`, the given region, no
uniform, and the vertex span `[vertex_index, vertex_index + num_vertices)`. -/
def sample_draw (pip img : Nat) (region : _sgp_region) (vertex_index num_vertices : Nat) :
    _sgp_command :=
  { cmd := SGP_COMMAND_DRAW
    args :=
      { draw :=
          { pip := { id := pip }, textures := sample_textures img, region := region,
            uniform_index := _SGP_IMPOSSIBLE_ID, vertex_index := vertex_index,
            num_vertices := num_vertices }
        viewport := zero_rect } }

/-- A command slot as `sgp_setup` leaves it: all bytes zero. -/
def zero_command : _sgp_command :=
  { cmd := SGP_COMMAND_NONE
    args :=
      { draw :=
          { pip := { id := 0 }, textures := { count := 0, images := [], samplers := [] },
            region := sample_region 0 0 0 0, uniform_index := 0, vertex_index := 0,
            num_vertices := 0 }
        viewport := zero_rect } }

def sample_viewport_command (x y w h : Int) : _sgp_command :=
  { zero_command with
    cmd := SGP_COMMAND_VIEWPORT
    args := { zero_command.args with viewport := { x := x, y := y, w := w, h := h } } }

/-- The vertex stored at index `i` of the sample arena; its red byte tells the
index. -/
def sample_vertex (i : Nat) : sgp_vertex :=
  { position := { x := 0, y := 0 }, texcoord := { x := 0, y := 0 },
    color := { r := i, g := 0, b := 0, a := 255 } }

def sample_state (img pipeline : Nat) : sgp_state :=
  { frame_size := { w := 2, h := 2 }
    viewport := { x := 0, y := 0, w := 2, h := 2 }
    scissor := { x := 0, y := 0, w := -1, h := -1 }
    proj := { v00 := 1, v01 := 0, v02 := -1, v10 := 0, v11 := -1, v12 := 1 }
    transform := _sgp_mat3_identity
    mvp := { v00 := 1, v01 := 0, v02 := -1, v10 := 0, v11 := -1, v12 := 1 }
    thickness := 1
    color := _sgp_white_color
    textures := sample_textures img
    uniform := _sgp_zero_uniform
    blend_mode := sgp_blend_mode.SGP_BLENDMODE_NONE
    pipeline := { id := pipeline }
    _base_vertex := 0
    _base_uniform := 0
    _base_command := 0 }

/-- A context inside a segment that began with empty arenas: the queue holds
`commands`, `cur_vertex` vertices are reserved, image `img` is bound in slot 0
and `pipeline` is the id of the custom pipeline (0 for none). The arenas have
room for 1024 vertices and 64 commands and uniforms. -/
def sample_context (commands : List _sgp_command) (cur_vertex img pipeline : Nat) :
    _sgp_context :=
  { init_cookie := _SGP_INIT_COOKIE
    last_error := SGP_NO_ERROR
    desc := { max_vertices := 1024, max_commands := 64, color_format := 0, depth_format := 0,
              sample_count := 1 }
    shader := { id := 1 }
    vertex_buf := { id := 1 }
    white_img := { id := 1 }
    nearest_smp := { id := 1 }
    pipelines := fun _ => { id := 1 }
    cur_vertex := cur_vertex
    cur_uniform := 0
    cur_command := commands.length
    num_vertices := 1024
    num_uniforms := 64
    num_commands := 64
    vertices := sample_vertex
    uniforms := fun _ => _sgp_zero_uniform
    commands := fun i => commands.getD i zero_command
    state := sample_state img pipeline
    cur_transform := 0
    cur_state := 1
    transform_stack := fun _ => _sgp_mat3_identity
    state_stack := fun _ => sample_state 1 0 }

/-- The queue of the overlap example: draw A with image 1 in the lower left
quarter, then draw X with image 2 over the whole clip space. -/
def overlap_both_context : _sgp_context :=
  sample_context
    [sample_draw 1 1 (sample_region (-1) (-1) 0 0) 0 6,
     sample_draw 1 2 (sample_region (-1) (-1) 1 1) 6 6] 18 1 0

/-- The arena layout a merge of the new draw into the candidate `prev` across
the commands `gap` relies on: the new draw's vertices are the last
`num_vertices` reserved ones, the candidate's span ends where they start or
earlier (exactly there when the gap is empty), and the spans of the gap commands
lie in between. -/
structure merge_layout (s : _sgp_context) (prev : Nat) (gap : List Nat)
    (vertex_index num_vertices : Nat) : Prop where
  capacity : s.num_vertices < 4294967296
  in_arena : s.cur_vertex ≤ s.num_vertices
  reserved : vertex_index + num_vertices = s.cur_vertex
  prev_before : (s.commands prev).args.draw.vertex_index + (s.commands prev).args.draw.num_vertices
    ≤ vertex_index
  gap_between : ∀ i ∈ gap,
    (s.commands prev).args.draw.vertex_index + (s.commands prev).args.draw.num_vertices
      ≤ (s.commands i).args.draw.vertex_index
    ∧ (s.commands i).args.draw.vertex_index + (s.commands i).args.draw.num_vertices
      ≤ vertex_index
  adjacent : gap = [] →
    (s.commands prev).args.draw.vertex_index + (s.commands prev).args.draw.num_vertices
      = vertex_index

/-- The bounding union of two regions, with the minimum and maximum of the
rationals. -/
def bounding_union (a b : _sgp_region) : _sgp_region :=
  { x1 := min a.x1 b.x1, y1 := min a.y1 b.y1, x2 := max a.x2 b.x2, y2 := max a.y2 b.y2 }

/-- Context `t` is context `s` after the new draw (region `region`, vertices
`[vertex_index, vertex_index + num_vertices)`) was folded into the candidate
`prev` across the commands `gap`: the candidate's span holds its previous
vertices followed by the new ones, its vertex count has grown by the new count
and its region is the bounding union; every gap command has its vertex index
raised by the new count and finds its own vertices there; no other command
differs and both cursors are where they were. -/
def extended_in_place (s t : _sgp_context) (prev : Nat) (gap : List Nat) (region : _sgp_region)
    (vertex_index num_vertices : Nat) : Prop :=
  (∀ k, k < (s.commands prev).args.draw.num_vertices →
      t.vertices ((s.commands prev).args.draw.vertex_index + k)
        = s.vertices ((s.commands prev).args.draw.vertex_index + k))
  ∧ (∀ k, k < num_vertices →
      t.vertices ((s.commands prev).args.draw.vertex_index
          + (s.commands prev).args.draw.num_vertices + k)
        = s.vertices (vertex_index + k))
  ∧ (t.commands prev).cmd = (s.commands prev).cmd
  ∧ (t.commands prev).args.draw
      = { (s.commands prev).args.draw with
          num_vertices := (s.commands prev).args.draw.num_vertices + num_vertices
          region := bounding_union (s.commands prev).args.draw.region region }
  ∧ (∀ i ∈ gap,
      (t.commands i).cmd = (s.commands i).cmd
      ∧ (t.commands i).args.draw
          = { (s.commands i).args.draw with
              vertex_index := (s.commands i).args.draw.vertex_index + num_vertices }
      ∧ ∀ k, k < (s.commands i).args.draw.num_vertices →
          t.vertices ((t.commands i).args.draw.vertex_index + k)
            = s.vertices ((s.commands i).args.draw.vertex_index + k))
  ∧ (∀ i, i ∉ gap → i ≠ prev → t.commands i = s.commands i)
  ∧ t.cur_command = s.cur_command
  ∧ t.cur_vertex = s.cur_vertex

/-- The queue of Scenario 3 before the third rectangle: rectangle A with image
1 in the lower left quarter (vertices 0 to 5), rectangle B with image 2 in the
upper right quarter (vertices 6 to 11); the six vertices of the third rectangle
are reserved (12 to 17) and image 1 is bound. -/
def scenario3_context : _sgp_context :=
  sample_context
    [sample_draw 1 1 (sample_region (-1) (-1) 0 0) 0 6,
     sample_draw 1 2 (sample_region 0 0 1 1) 6 6] 18 1 0

/-- A segment in which a draw was queued under a custom pipeline whose id is
that of the default pipeline (1), and the custom pipeline was reset afterwards:
`sgp_set_pipeline`, six vertices reserved and queued, `sgp_reset_pipeline`, six
more vertices reserved for the next draw. -/
def forged_pipeline_context : _sgp_context :=
  (_sgp_next_vertices
    (sgp_reset_pipeline
      (_sgp_queue_draw 8
        (_sgp_next_vertices (sgp_set_pipeline (sample_context [] 0 1 0) { id := 1 }) 6).2
        { id := 1 } (sample_region (-1) (-1) 0 0) 0 6 SG_PRIMITIVETYPE_TRIANGLES)) 6).2

/-- A queue with a viewport command between a draw with image 1 and the
cursor; six vertices of a new draw are reserved and image 1 is bound. -/
def barrier_context : _sgp_context :=
  sample_context
    [sample_draw 1 1 (sample_region (-1) (-1) 0 0) 0 6,
     sample_viewport_command 0 0 1 1] 12 1 0

/-- A queue with NoOp entries: a draw with image 1, a NoOp, a draw with image
2 and two NoOps; image 1 is bound. -/
def noop_context : _sgp_context :=
  sample_context
    [sample_draw 1 1 (sample_region (-1) (-1) 0 0) 0 6,
     zero_command,
     sample_draw 1 2 (sample_region 0 0 1 1) 6 6,
     zero_command,
     zero_command] 18 1 0

/-- A queue holding one rectangle with image 1 (vertices 0 to 5); the six
vertices of a second rectangle are reserved (6 to 11) and image 1 is bound. -/
def scenario2_context : _sgp_context :=
  sample_context [sample_draw 1 1 (sample_region (-1) (-1) 0 0) 0 6] 12 1 0

/-- The context right after a successful `sgp_setup`: no segment is open, the
cursors are zero and the arenas (1024 vertices, 64 commands and uniforms) are
zeroed. -/
def setup_context : _sgp_context :=
  { sample_context [] 0 1 0 with
    cur_state := 0
    state := { sample_state 0 0 with textures := { count := 0, images := [], samplers := [] } } }

/-- The steps every drawing function takes around its vertex writes: reserve
`count` vertices, then queue the draw for them. -/
def reserve_and_queue (depth : Nat) (s : _sgp_context) (pip : sg_pipeline) (region : _sgp_region)
    (count : Nat) (primitive_type : sg_primitive_type) : _sgp_context :=
  match _sgp_next_vertices s count with
  | (none, s1) => s1
  | (some vertex_index, s1) =>
    _sgp_queue_draw depth s1 pip region vertex_index count primitive_type

/-- A first frame that leaves three draw commands behind in the command array:
begin, three line strips of six vertices, flush, end. -/
def stale_frame (depth : Nat) : _sgp_context :=
  sgp_end
    (sgp_flush
      (reserve_and_queue depth
        (reserve_and_queue depth
          (reserve_and_queue depth (sgp_begin setup_context 2 2)
            { id := 2 } (sample_region (-1) (-1) 1 1) 6 SG_PRIMITIVETYPE_LINE_STRIP)
          { id := 2 } (sample_region (-1) (-1) 1 1) 6 SG_PRIMITIVETYPE_LINE_STRIP)
        { id := 2 } (sample_region (-1) (-1) 1 1) 6 SG_PRIMITIVETYPE_LINE_STRIP)
      0 false).1

/-- A second frame, up to its flush: begin, a rectangle A in the lower left
quarter (6 vertices, triangles pipeline 1), a line X in the upper right quarter
(2 vertices, lines pipeline 3), and a batch B of 17 rectangles in the upper
right quarter (102 vertices, triangles pipeline 1). -/
def large_batch_frame (depth : Nat) : _sgp_context :=
  reserve_and_queue depth
    (reserve_and_queue depth
      (reserve_and_queue depth (sgp_begin (stale_frame depth) 2 2)
        { id := 1 } (sample_region (-1) (-1) 0 0) 6 SG_PRIMITIVETYPE_TRIANGLES)
      { id := 3 } (sample_region 0 0 1 1) 2 SG_PRIMITIVETYPE_LINES)
    { id := 1 } (sample_region 0 0 1 1) 102 SG_PRIMITIVETYPE_TRIANGLES

/-- The draw dispatches among a list of backend calls, as pairs of first vertex
and vertex count. -/
def dispatched_draws : List sg_call → List (Int × Int)
  | [] => []
  | sg_call.draw base_element num_elements _ :: rest =>
    (base_element, num_elements) :: dispatched_draws rest
  | _ :: rest => dispatched_draws rest

/-! ## Geometry emitter -/

structure sgp_rect where
  x : ℚ
  y : ℚ
  w : ℚ
  h : ℚ
  deriving DecidableEq

structure sgp_textured_rect where
  dst : sgp_rect
  src : sgp_rect
  deriving DecidableEq

structure sgp_line where
  a : sgp_vec2
  b : sgp_vec2
  deriving DecidableEq

structure sgp_triangle where
  a : sgp_vec2
  b : sgp_vec2
  c : sgp_vec2
  deriving DecidableEq

/-- What the graphics backend answers to the calls the emitter makes:
`make_pipeline` is the result of `_sgp_make_pipeline` for a primitive type and a
blend mode (an invalid handle when the creation fails), `image_size` the result
of `_sgp_query_image_size`. -/
structure sg_backend where
  make_pipeline : sg_primitive_type → sgp_blend_mode → sg_pipeline
  image_size : sg_image → sgp_isize

/-- The constant `FLT_MAX` of `float.h`, the largest finite `float`. -/
def FLT_MAX : ℚ := 340282346638528859811704183484516925440

def _SGP_BLENDMODE_NUM : Nat := 7

/-- The value of a primitive type in the backend's enumeration. -/
def primitive_type_value : sg_primitive_type → Nat
  | _SG_PRIMITIVETYPE_DEFAULT => 0
  | SG_PRIMITIVETYPE_POINTS => 1
  | SG_PRIMITIVETYPE_LINES => 2
  | SG_PRIMITIVETYPE_LINE_STRIP => 3
  | SG_PRIMITIVETYPE_TRIANGLES => 4
  | SG_PRIMITIVETYPE_TRIANGLE_STRIP => 5

/-- The value of a blend mode in `sgp_blend_mode`. -/
def blend_mode_value : sgp_blend_mode → Nat
  | sgp_blend_mode.SGP_BLENDMODE_NONE => 0
  | sgp_blend_mode.SGP_BLENDMODE_BLEND => 1
  | sgp_blend_mode.SGP_BLENDMODE_BLEND_PREMULTIPLIED => 2
  | sgp_blend_mode.SGP_BLENDMODE_ADD => 3
  | sgp_blend_mode.SGP_BLENDMODE_ADD_PREMULTIPLIED => 4
  | sgp_blend_mode.SGP_BLENDMODE_MOD => 5
  | sgp_blend_mode.SGP_BLENDMODE_MUL => 6

/-- The cached default pipeline for a primitive type and a blend mode, created
through the backend and stored when it is not cached yet. -/
def _sgp_lookup_pipeline (be : sg_backend) (s : _sgp_context)
    (primitive_type : sg_primitive_type) (blend_mode : sgp_blend_mode) :
    sg_pipeline × _sgp_context :=
  let pip_index := u32 (primitive_type_value primitive_type * _SGP_BLENDMODE_NUM
    + blend_mode_value blend_mode)
  if (s.pipelines pip_index).id ≠ SG_INVALID_ID then (s.pipelines pip_index, s)
  else
    let pip := be.make_pipeline primitive_type blend_mode
    if pip.id ≠ SG_INVALID_ID then
      (pip, { s with pipelines := Function.update s.pipelines pip_index pip })
    else (pip, s)

def _sgp_mat3_vec2_mul (m : sgp_mat2x3) (v : sgp_vec2) : sgp_vec2 :=
  { x := m.v00 * v.x + m.v01 * v.y + m.v02
    y := m.v10 * v.x + m.v11 * v.y + m.v12 }

/-- The region every emitter starts from. -/
def _sgp_region_empty : _sgp_region :=
  { x1 := FLT_MAX, y1 := FLT_MAX, x2 := -FLT_MAX, y2 := -FLT_MAX }

/-- One step of the region computation: the region grown to hold the point `p`
widened by `thickness`. -/
def _sgp_region_add (thickness : ℚ) (region : _sgp_region) (p : sgp_vec2) : _sgp_region :=
  { x1 := _sg_min region.x1 (p.x - thickness)
    y1 := _sg_min region.y1 (p.y - thickness)
    x2 := _sg_max region.x2 (p.x + thickness)
    y2 := _sg_max region.y2 (p.y + thickness) }

/-- The thickness an emitter folds into the region: the state's thickness for
points, lines and line strips, zero otherwise. -/
def _sgp_primitive_thickness (s : _sgp_context) (primitive_type : sg_primitive_type) : ℚ :=
  if primitive_type = SG_PRIMITIVETYPE_POINTS ∨ primitive_type = SG_PRIMITIVETYPE_LINES
      ∨ primitive_type = SG_PRIMITIVETYPE_LINE_STRIP then s.state.thickness
  else 0

def sgp_clear (depth : Nat) (be : sg_backend) (s : _sgp_context) : _sgp_context :=
  -- setup vertices
  let num_vertices := 6
  let vertex_index := s.cur_vertex
  match _sgp_next_vertices s num_vertices with
  | (none, s1) => s1
  | (some v, s1) =>
    -- compute vertices
    let quad : List sgp_vec2 :=
      [{ x := -1, y := -1 }, { x := 1, y := -1 }, { x := 1, y := 1 }, { x := -1, y := 1 }]
    let order : List Nat := [0, 1, 2, 3, 0, 2]
    let s2 : _sgp_context :=
      { s1 with vertices := fun k =>
          if v ≤ k ∧ k < v + 6 then
            { position := quad.getD (order.getD (k - v) 0) { x := 0, y := 0 }
              texcoord := { x := 0, y := 0 }
              color := s1.state.color }
          else s1.vertices k }
    let region : _sgp_region := { x1 := -1, y1 := -1, x2 := 1, y2 := 1 }
    let pip := _sgp_lookup_pipeline be s2 SG_PRIMITIVETYPE_TRIANGLES
      sgp_blend_mode.SGP_BLENDMODE_NONE
    _sgp_queue_draw depth pip.2 pip.1 region vertex_index num_vertices SG_PRIMITIVETYPE_TRIANGLES

/-- The low level drawing function; `vertices` is the input array, read at the
indices below `count`. -/
def sgp_draw (depth : Nat) (be : sg_backend) (s : _sgp_context)
    (primitive_type : sg_primitive_type) (vertices : Nat → sgp_vertex) (count : Nat) :
    _sgp_context :=
  if count = 0 then s
  else
    -- setup vertices
    let vertex_index := s.cur_vertex
    match _sgp_next_vertices s count with
    | (none, s1) => s1
    | (some v, s1) =>
      -- fill vertices
      let thickness := _sgp_primitive_thickness s1 primitive_type
      let mvp := s1.state.mvp
      let region := (List.range count).foldl
        (fun region i => _sgp_region_add thickness region
          (_sgp_mat3_vec2_mul mvp (vertices i).position)) _sgp_region_empty
      let s2 : _sgp_context :=
        { s1 with vertices := fun k =>
            if v ≤ k ∧ k < v + count then
              { position := _sgp_mat3_vec2_mul mvp (vertices (k - v)).position
                texcoord := (vertices (k - v)).texcoord
                color := (vertices (k - v)).color }
            else s1.vertices k }
      -- queue draw
      let pip := _sgp_lookup_pipeline be s2 primitive_type s2.state.blend_mode
      _sgp_queue_draw depth pip.2 pip.1 region vertex_index count primitive_type

def _sgp_draw_solid_pip (depth : Nat) (be : sg_backend) (s : _sgp_context)
    (primitive_type : sg_primitive_type) (vertices : Nat → sgp_vec2) (num_vertices : Nat) :
    _sgp_context :=
  if num_vertices = 0 then s
  else
    -- setup vertices
    let vertex_index := s.cur_vertex
    match _sgp_next_vertices s num_vertices with
    | (none, s1) => s1
    | (some v, s1) =>
      -- fill vertices
      let thickness := _sgp_primitive_thickness s1 primitive_type
      let color := s1.state.color
      let mvp := s1.state.mvp
      let region := (List.range num_vertices).foldl
        (fun region i => _sgp_region_add thickness region (_sgp_mat3_vec2_mul mvp (vertices i)))
        _sgp_region_empty
      let s2 : _sgp_context :=
        { s1 with vertices := fun k =>
            if v ≤ k ∧ k < v + num_vertices then
              { position := _sgp_mat3_vec2_mul mvp (vertices (k - v))
                texcoord := { x := 0, y := 0 }
                color := color }
            else s1.vertices k }
      -- queue draw
      let pip := _sgp_lookup_pipeline be s2 primitive_type s2.state.blend_mode
      _sgp_queue_draw depth pip.2 pip.1 region vertex_index num_vertices primitive_type

def sgp_draw_points (depth : Nat) (be : sg_backend) (s : _sgp_context)
    (points : Nat → sgp_vec2) (count : Nat) : _sgp_context :=
  _sgp_draw_solid_pip depth be s SG_PRIMITIVETYPE_POINTS points count

def sgp_draw_point (depth : Nat) (be : sg_backend) (s : _sgp_context) (x y : ℚ) :
    _sgp_context :=
  sgp_draw_points depth be s (fun _ => { x := x, y := y }) 1

/-- The array of lines read as an array of points (the cast
`(const sgp_point*)lines`). -/
def points_of_lines (lines : Nat → sgp_line) : Nat → sgp_vec2 :=
  fun j => if j % 2 = 0 then (lines (j / 2)).a else (lines (j / 2)).b

def sgp_draw_lines (depth : Nat) (be : sg_backend) (s : _sgp_context)
    (lines : Nat → sgp_line) (count : Nat) : _sgp_context :=
  _sgp_draw_solid_pip depth be s SG_PRIMITIVETYPE_LINES (points_of_lines lines) (u32 (count * 2))

def sgp_draw_line (depth : Nat) (be : sg_backend) (s : _sgp_context) (ax ay bx b_y : ℚ) :
    _sgp_context :=
  sgp_draw_lines depth be s (fun _ => { a := { x := ax, y := ay }, b := { x := bx, y := b_y } }) 1

def sgp_draw_lines_strip (depth : Nat) (be : sg_backend) (s : _sgp_context)
    (points : Nat → sgp_vec2) (count : Nat) : _sgp_context :=
  _sgp_draw_solid_pip depth be s SG_PRIMITIVETYPE_LINE_STRIP points count

/-- The array of triangles read as an array of points (the cast
`(const sgp_point*)triangles`). -/
def points_of_triangles (triangles : Nat → sgp_triangle) : Nat → sgp_vec2 :=
  fun j =>
    if j % 3 = 0 then (triangles (j / 3)).a
    else if j % 3 = 1 then (triangles (j / 3)).b
    else (triangles (j / 3)).c

def sgp_draw_filled_triangles (depth : Nat) (be : sg_backend) (s : _sgp_context)
    (triangles : Nat → sgp_triangle) (count : Nat) : _sgp_context :=
  _sgp_draw_solid_pip depth be s SG_PRIMITIVETYPE_TRIANGLES (points_of_triangles triangles)
    (u32 (count * 3))

def sgp_draw_filled_triangle (depth : Nat) (be : sg_backend) (s : _sgp_context)
    (ax ay bx b_y cx cy : ℚ) : _sgp_context :=
  sgp_draw_filled_triangles depth be s
    (fun _ => { a := { x := ax, y := ay }, b := { x := bx, y := b_y }, c := { x := cx, y := cy } })
    1

def sgp_draw_filled_triangles_strip (depth : Nat) (be : sg_backend) (s : _sgp_context)
    (points : Nat → sgp_vec2) (count : Nat) : _sgp_context :=
  _sgp_draw_solid_pip depth be s SG_PRIMITIVETYPE_TRIANGLE_STRIP points count

/-- The four corners of a rectangle, bottom left, bottom right, top right, top
left, transformed by `mvp`. -/
def _sgp_rect_quad (mvp : sgp_mat2x3) (rect : sgp_rect) : List sgp_vec2 :=
  [_sgp_mat3_vec2_mul mvp { x := rect.x, y := rect.y + rect.h },
   _sgp_mat3_vec2_mul mvp { x := rect.x + rect.w, y := rect.y + rect.h },
   _sgp_mat3_vec2_mul mvp { x := rect.x + rect.w, y := rect.y },
   _sgp_mat3_vec2_mul mvp { x := rect.x, y := rect.y }]

/-- The corner each of the six vertices of a quad takes: two triangles sharing
the diagonal. -/
def _sgp_quad_order : List Nat := [0, 1, 2, 3, 0, 2]

/-- The region grown by the four corners of a quad. -/
def _sgp_region_add_quad (region : _sgp_region) (quad : List sgp_vec2) : _sgp_region :=
  quad.foldl (_sgp_region_add 0) region

def sgp_draw_filled_rects (depth : Nat) (be : sg_backend) (s : _sgp_context)
    (rects : Nat → sgp_rect) (count : Nat) : _sgp_context :=
  if count = 0 then s
  else
    -- setup vertices
    let num_vertices := u32 (count * 6)
    let vertex_index := s.cur_vertex
    match _sgp_next_vertices s num_vertices with
    | (none, s1) => s1
    | (some v, s1) =>
      -- compute vertices
      let color := s1.state.color
      let mvp := s1.state.mvp
      let region := (List.range count).foldl
        (fun region i => _sgp_region_add_quad region (_sgp_rect_quad mvp (rects i)))
        _sgp_region_empty
      let vtexquad : List sgp_vec2 :=
        [{ x := 0, y := 1 }, { x := 1, y := 1 }, { x := 1, y := 0 }, { x := 0, y := 0 }]
      let s2 : _sgp_context :=
        { s1 with vertices := fun k =>
            if v ≤ k ∧ k < v + count * 6 then
              { position := (_sgp_rect_quad mvp (rects ((k - v) / 6))).getD
                  (_sgp_quad_order.getD ((k - v) % 6) 0) { x := 0, y := 0 }
                texcoord := vtexquad.getD (_sgp_quad_order.getD ((k - v) % 6) 0) { x := 0, y := 0 }
                color := color }
            else s1.vertices k }
      -- queue draw
      let pip := _sgp_lookup_pipeline be s2 SG_PRIMITIVETYPE_TRIANGLES s2.state.blend_mode
      _sgp_queue_draw depth pip.2 pip.1 region vertex_index num_vertices
        SG_PRIMITIVETYPE_TRIANGLES

def sgp_draw_filled_rect (depth : Nat) (be : sg_backend) (s : _sgp_context) (x y w h : ℚ) :
    _sgp_context :=
  sgp_draw_filled_rects depth be s (fun _ => { x := x, y := y, w := w, h := h }) 1

/-- The texture coordinates of the four corners of a source rectangle, for an
image whose inverse width and height are `iw` and `ih`. -/
def _sgp_texture_quad (iw ih : ℚ) (src : sgp_rect) : List sgp_vec2 :=
  [{ x := src.x * iw, y := (src.y + src.h) * ih },
   { x := (src.x + src.w) * iw, y := (src.y + src.h) * ih },
   { x := (src.x + src.w) * iw, y := src.y * ih },
   { x := src.x * iw, y := src.y * ih }]

/-- The six vertices of one quad written at index `first`: corner positions,
corner texture coordinates and one color. -/
def _sgp_write_quad (vertices : Nat → sgp_vertex) (first : Nat) (quad vtexquad : List sgp_vec2)
    (color : sgp_color_ub4) : Nat → sgp_vertex :=
  fun k =>
    if first ≤ k ∧ k < first + 6 then
      { position := quad.getD (_sgp_quad_order.getD (k - first) 0) { x := 0, y := 0 }
        texcoord := vtexquad.getD (_sgp_quad_order.getD (k - first) 0) { x := 0, y := 0 }
        color := color }
    else vertices k

def sgp_draw_textured_rects (depth : Nat) (be : sg_backend) (s : _sgp_context) (channel : Nat)
    (rects : Nat → sgp_textured_rect) (count : Nat) : _sgp_context :=
  let image := s.state.textures.images.getD channel { id := SG_INVALID_ID }
  if count = 0 ∨ image.id = SG_INVALID_ID then s
  else
    -- setup vertices
    let num_vertices := u32 (count * 6)
    let vertex_index := s.cur_vertex
    match _sgp_next_vertices s num_vertices with
    | (none, s1) => s1
    | (some v, s1) =>
      -- compute image values used for texture coords transform
      let image_size := be.image_size image
      if image_size.w = 0 ∨ image_size.h = 0 then s1
      else
        let iw : ℚ := 1 / (image_size.w : ℚ)
        let ih : ℚ := 1 / (image_size.h : ℚ)
        -- compute vertices
        let mvp := s1.state.mvp
        let region := (List.range count).foldl
          (fun region i => _sgp_region_add_quad region (_sgp_rect_quad mvp (rects i).dst))
          _sgp_region_empty
        -- compute texture coords; quad `i` is written at `&vertices[i*6]`
        let color := s1.state.color
        let written : Nat → sgp_vertex := (List.range count).foldl
          (fun vs i => _sgp_write_quad vs (v + u32 (i * 6))
            (_sgp_rect_quad mvp (rects i).dst) (_sgp_texture_quad iw ih (rects i).src) color)
          s1.vertices
        let s2 : _sgp_context := { s1 with vertices := written }
        -- queue draw
        let pip := _sgp_lookup_pipeline be s2 SG_PRIMITIVETYPE_TRIANGLES s2.state.blend_mode
        _sgp_queue_draw depth pip.2 pip.1 region vertex_index num_vertices
          SG_PRIMITIVETYPE_TRIANGLES

def sgp_draw_textured_rect (depth : Nat) (be : sg_backend) (s : _sgp_context) (channel : Nat)
    (dest_rect src_rect : sgp_rect) : _sgp_context :=
  sgp_draw_textured_rects depth be s channel (fun _ => { dst := dest_rect, src := src_rect }) 1

/-- The merge attempt of `_sgp_queue_draw`, made once the pipeline and region
guards have passed: the optimizer for a primitive type that is not a strip,
no attempt for a strip. -/
def merge_attempt (depth : Nat) (s : _sgp_context) (pip : sg_pipeline) (region : _sgp_region)
    (vertex_index num_vertices : Nat) (primitive_type : sg_primitive_type) :
    Bool × _sgp_context :=
  if primitive_type ≠ SG_PRIMITIVETYPE_TRIANGLE_STRIP
      ∧ primitive_type ≠ SG_PRIMITIVETYPE_LINE_STRIP then
    _sgp_merge_batch_command depth s (queue_pipeline s pip) s.state.textures (queue_uniform s)
      region vertex_index num_vertices
  else (false, s)

/-- A backend that hands out pipeline 1 for every request and knows every image
as 2 by 2 pixels. -/
def sample_backend : sg_backend :=
  { make_pipeline := fun _ _ => { id := 1 }
    image_size := fun _ => { w := 2, h := 2 } }

/-- A queue of two commands, draw A with image 1 in the lower left quarter
(vertices 0 to 5) and draw X with image 2 in the upper right quarter (vertices 6
to 11), in a command array whose slot 2 still holds a line-strip draw command
of an earlier frame; the 102 vertices of a new draw are reserved (12 to 113)
and image 1 is bound. -/
def large_draw_context : _sgp_context :=
  let s := sample_context
    [sample_draw 1 1 (sample_region (-1) (-1) 0 0) 0 6,
     sample_draw 1 2 (sample_region 0 0 1 1) 6 6,
     sample_draw 2 1 (sample_region (-1) (-1) 1 1) 12 6] 114 1 0
  { s with cur_command := 2 }

/-- The same queue and command array with the vertex arena nearly full: the
six vertices of a new draw are reserved at 1014 to 1019, of 1024. -/
def no_staging_room_context : _sgp_context :=
  let s := sample_context
    [sample_draw 1 1 (sample_region (-1) (-1) 0 0) 0 6,
     sample_draw 1 2 (sample_region 0 0 1 1) 6 6,
     sample_draw 2 1 (sample_region (-1) (-1) 1 1) 12 6] 1020 1 0
  { s with cur_command := 2 }

/-- A queue whose candidate holds 200 vertices: draw A with image 1 in the lower
left quarter (vertices 0 to 199), draw X with image 2 in the upper right
quarter (vertices 200 to 205); the six vertices of a new draw are reserved (206
to 211) and image 1 is bound. -/
def long_candidate_context : _sgp_context :=
  sample_context
    [sample_draw 1 1 (sample_region (-1) (-1) 0 0) 0 200,
     sample_draw 1 2 (sample_region 0 0 1 1) 200 6] 212 1 0

/-- The parts of the context the batch optimizer never writes: the uniform arena
and its cursor, the render state and the two capacities. -/
def merge_preserved (s t : _sgp_context) : Prop :=
  t.uniforms = s.uniforms ∧ t.cur_uniform = s.cur_uniform ∧ t.state = s.state
    ∧ t.num_commands = s.num_commands ∧ t.num_uniforms = s.num_uniforms

/-- The test "reuse previous uniform" of `_sgp_queue_draw`: a snapshot is stored
right below the uniform cursor and equals the uniform of the state. -/
def last_uniform_matches (s : _sgp_context) : Prop :=
  0 < s.cur_uniform ∧ s.uniforms (s.cur_uniform - 1) = s.state.uniform

instance (s : _sgp_context) : Decidable (last_uniform_matches s) := by
  unfold last_uniform_matches; infer_instance

/-- A segment under the custom pipeline 5 whose uniform arena holds two
snapshots, the older one with vertex-stage size 4 and the newer one with
vertex-stage size 8; the uniform of the state has vertex-stage size `vs_size`.
The queue holds one draw with image 2 and the newer snapshot (vertices 0 to 5),
image 1 is bound, and six vertices of a new draw are reserved (6 to 11). -/
def uniform_context (vs_size : Nat) : _sgp_context :=
  let s := sample_context [sample_draw 5 2 (sample_region (-1) (-1) 0 0) 0 6] 12 1 5
  let draw : _sgp_draw_args := { (s.commands 0).args.draw with uniform_index := 1 }
  { s with
    cur_uniform := 2
    uniforms := fun i =>
      if i = 0 then { _sgp_zero_uniform with vs_size := 4 }
      else if i = 1 then { _sgp_zero_uniform with vs_size := 8 }
      else _sgp_zero_uniform
    commands := Function.update s.commands 0
      { cmd := SGP_COMMAND_DRAW, args := { (s.commands 0).args with draw := draw } }
    state := { s.state with uniform := { _sgp_zero_uniform with vs_size := vs_size } } }

/-- A call of one of the drawing functions, with its arguments. -/
inductive draw_call
  | clear
  | draw (primitive_type : sg_primitive_type) (vertices : Nat → sgp_vertex) (count : Nat)
  | points (points : Nat → sgp_vec2) (count : Nat)
  | point (x y : ℚ)
  | lines (lines : Nat → sgp_line) (count : Nat)
  | line (ax ay bx b_y : ℚ)
  | lines_strip (points : Nat → sgp_vec2) (count : Nat)
  | filled_triangles (triangles : Nat → sgp_triangle) (count : Nat)
  | filled_triangle (ax ay bx b_y cx cy : ℚ)
  | filled_triangles_strip (points : Nat → sgp_vec2) (count : Nat)
  | filled_rects (rects : Nat → sgp_rect) (count : Nat)
  | filled_rect (x y w h : ℚ)
  | textured_rects (channel : Nat) (rects : Nat → sgp_textured_rect) (count : Nat)
  | textured_rect (channel : Nat) (dest_rect src_rect : sgp_rect)

/-- The context after a drawing call. -/
def run_draw_call (depth : Nat) (be : sg_backend) (s : _sgp_context) : draw_call → _sgp_context
  | draw_call.clear => sgp_clear depth be s
  | draw_call.draw primitive_type vertices count => sgp_draw depth be s primitive_type vertices count
  | draw_call.points points count => sgp_draw_points depth be s points count
  | draw_call.point x y => sgp_draw_point depth be s x y
  | draw_call.lines lines count => sgp_draw_lines depth be s lines count
  | draw_call.line ax ay bx b_y => sgp_draw_line depth be s ax ay bx b_y
  | draw_call.lines_strip points count => sgp_draw_lines_strip depth be s points count
  | draw_call.filled_triangles triangles count =>
    sgp_draw_filled_triangles depth be s triangles count
  | draw_call.filled_triangle ax ay bx b_y cx cy =>
    sgp_draw_filled_triangle depth be s ax ay bx b_y cx cy
  | draw_call.filled_triangles_strip points count =>
    sgp_draw_filled_triangles_strip depth be s points count
  | draw_call.filled_rects rects count => sgp_draw_filled_rects depth be s rects count
  | draw_call.filled_rect x y w h => sgp_draw_filled_rect depth be s x y w h
  | draw_call.textured_rects channel rects count =>
    sgp_draw_textured_rects depth be s channel rects count
  | draw_call.textured_rect channel dest_rect src_rect =>
    sgp_draw_textured_rect depth be s channel dest_rect src_rect

/-- The number of vertices a drawing call needs, as a natural number: six for a
rectangle, two for a line, three for a triangle, one for a point or an input
vertex. -/
def draw_call_vertices : draw_call → Nat
  | draw_call.clear => 6
  | draw_call.draw _ _ count => count
  | draw_call.points _ count => count
  | draw_call.point _ _ => 1
  | draw_call.lines _ count => count * 2
  | draw_call.line _ _ _ _ => 2
  | draw_call.lines_strip _ count => count
  | draw_call.filled_triangles _ count => count * 3
  | draw_call.filled_triangle _ _ _ _ _ _ => 3
  | draw_call.filled_triangles_strip _ count => count
  | draw_call.filled_rects _ count => count * 6
  | draw_call.filled_rect _ _ _ _ => 6
  | draw_call.textured_rects _ _ count => count * 6
  | draw_call.textured_rect _ _ _ => 6

/-- The texture channel a drawing call reads its image from, for the calls
that return at once when no image is bound there. -/
def draw_call_channel : draw_call → Option Nat
  | draw_call.textured_rects channel _ _ => some channel
  | draw_call.textured_rect channel _ _ => some channel
  | _ => none

/-- The drawing call gets as far as reserving vertices: it has something to
draw and, for a textured rectangle, an image is bound in its channel. -/
def draw_call_reserves (s : _sgp_context) (call : draw_call) : Prop :=
  draw_call_vertices call ≠ 0
  ∧ ∀ channel, draw_call_channel call = some channel →
      (s.state.textures.images.getD channel { id := SG_INVALID_ID }).id ≠ SG_INVALID_ID

/-- The errors a drawing call can record. -/
def draw_error (e : sgp_error) : Prop :=
  e = SGP_ERROR_VERTICES_FULL ∨ e = SGP_ERROR_UNIFORMS_FULL ∨ e = SGP_ERROR_COMMANDS_FULL

instance (e : sgp_error) : Decidable (draw_error e) := by
  unfold draw_error; infer_instance

/-- Context `t` holds the error of context `s` or one a drawing call records:
going from `s` to `t` has not cleared an error. -/
def error_kept (s t : _sgp_context) : Prop :=
  t.last_error = s.last_error ∨ draw_error t.last_error

/-- An array of lines whose end points are all at the origin. -/
def zero_lines : Nat → sgp_line :=
  fun _ => { a := { x := 0, y := 0 }, b := { x := 0, y := 0 } }

/-- An array of unit squares at the origin. -/
def unit_rects : Nat → sgp_rect :=
  fun _ => { x := 0, y := 0, w := 1, h := 1 }

/-- A segment that runs out of vertices: begin, `sgp_clear` (six vertices, one
draw command), then `sgp_draw_filled_rects` with 400 rectangles, which need
2400 vertices of the 1018 that are free. -/
def exhausted_frame (depth : Nat) : _sgp_context :=
  sgp_draw_filled_rects depth sample_backend
    (sgp_clear depth sample_backend (sgp_begin setup_context 2 2)) unit_rects 400

/-- The same segment with a nested segment begun and ended after the failed
draw. -/
def nested_segment_frame (depth : Nat) : _sgp_context :=
  sgp_end (sgp_begin (exhausted_frame depth) 2 2)

/-! ## Projection and transform -/

/-- The product of a projection and a transform matrix, computed "in an
optimized way": only the diagonal and the last column of `proj` are read. -/
def _sgp_mul_proj_transform (proj transform : sgp_mat2x3) : sgp_mat2x3 :=
  { v00 := proj.v00 * transform.v00
    v01 := proj.v00 * transform.v01
    v02 := proj.v00 * transform.v02 + proj.v02
    v10 := proj.v11 * transform.v10
    v11 := proj.v11 * transform.v11
    v12 := proj.v11 * transform.v12 + proj.v12 }

def sgp_project (s : _sgp_context) (left right top bottom : ℚ) : _sgp_context :=
  let w := right - left
  let h := top - bottom
  let proj : sgp_mat2x3 :=
    { v00 := 2 / w, v01 := 0, v02 := -(right + left) / w
      v10 := 0, v11 := 2 / h, v12 := -(top + bottom) / h }
  { s with state := { s.state with
      proj := proj
      mvp := _sgp_mul_proj_transform proj s.state.transform } }

def sgp_reset_project (s : _sgp_context) : _sgp_context :=
  let proj := _sgp_default_proj s.state.viewport.w s.state.viewport.h
  { s with state := { s.state with
      proj := proj
      mvp := _sgp_mul_proj_transform proj s.state.transform } }

def sgp_push_transform (s : _sgp_context) : _sgp_context :=
  if s.cur_transform ≥ _SGP_MAX_STACK_DEPTH then
    _sgp_set_error s SGP_ERROR_TRANSFORM_STACK_OVERFLOW
  else
    { s with
      transform_stack := Function.update s.transform_stack s.cur_transform s.state.transform
      cur_transform := u32 (s.cur_transform + 1) }

def sgp_pop_transform (s : _sgp_context) : _sgp_context :=
  if s.cur_transform ≤ 0 then
    _sgp_set_error s SGP_ERROR_TRANSFORM_STACK_UNDERFLOW
  else
    let transform := s.transform_stack (u32_sub s.cur_transform 1)
    { s with
      cur_transform := u32_sub s.cur_transform 1
      state := { s.state with
        transform := transform
        mvp := _sgp_mul_proj_transform s.state.proj transform } }

def sgp_reset_transform (s : _sgp_context) : _sgp_context :=
  { s with state := { s.state with
      transform := _sgp_mat3_identity
      mvp := _sgp_mul_proj_transform s.state.proj _sgp_mat3_identity } }

def sgp_translate (s : _sgp_context) (x y : ℚ) : _sgp_context :=
  -- multiply by translate matrix
  let t := s.state.transform
  let transform : sgp_mat2x3 :=
    { t with
      v02 := t.v02 + (x * t.v00 + y * t.v01)
      v12 := t.v12 + (x * t.v10 + y * t.v11) }
  { s with state := { s.state with
      transform := transform
      mvp := _sgp_mul_proj_transform s.state.proj transform } }

/-- The rotation by `theta`; `sint` and `cost` are the values `sinf(theta)` and
`cosf(theta)` the C library returns. -/
def sgp_rotate (s : _sgp_context) (sint cost : ℚ) : _sgp_context :=
  -- multiply by rotation matrix
  let t := s.state.transform
  let transform : sgp_mat2x3 :=
    { v00 := cost * t.v00 + sint * t.v01, v01 := -sint * t.v00 + cost * t.v01, v02 := t.v02
      v10 := cost * t.v10 + sint * t.v11, v11 := -sint * t.v10 + cost * t.v11, v12 := t.v12 }
  { s with state := { s.state with
      transform := transform
      mvp := _sgp_mul_proj_transform s.state.proj transform } }

def sgp_rotate_at (s : _sgp_context) (sint cost x y : ℚ) : _sgp_context :=
  sgp_translate (sgp_rotate (sgp_translate s x y) sint cost) (-x) (-y)

def sgp_scale (s : _sgp_context) (sx sy : ℚ) : _sgp_context :=
  -- multiply by scale matrix
  let t := s.state.transform
  let transform : sgp_mat2x3 :=
    { t with v00 := t.v00 * sx, v10 := t.v10 * sx, v01 := t.v01 * sy, v11 := t.v11 * sy }
  { s with state := { s.state with
      transform := transform
      mvp := _sgp_mul_proj_transform s.state.proj transform } }

def sgp_scale_at (s : _sgp_context) (sx sy x y : ℚ) : _sgp_context :=
  sgp_translate (sgp_scale (sgp_translate s x y) sx sy) (-x) (-y)

/-! ## State changes -/

/-- Offset of the member `data` in `sgp_uniform`: it follows the two `uint16_t`
sizes. -/
def _sgp_uniform_data_offset : Nat := 4

/-- The bytes of `data` after `memcpy(&data[offset], src, n)`. -/
def _sgp_write_bytes (data : List Nat) (offset : Nat) (src : Nat → Nat) (n : Nat) : List Nat :=
  (List.range data.length).map
    (fun k => if offset ≤ k ∧ k < offset + n then src (k - offset) else data.getD k 0)

/-- The data bytes of a uniform after `memset((uint8_t*)(&uniform) + first, 0,
n)`: the range is counted from the start of the structure, so that data byte
`k` lies at `_sgp_uniform_data_offset + k`. -/
def _sgp_zero_uniform_bytes (data : List Nat) (first n : Nat) : List Nat :=
  (List.range data.length).map
    (fun k =>
      if first ≤ _sgp_uniform_data_offset + k ∧ _sgp_uniform_data_offset + k < first + n then 0
      else data.getD k 0)

/-- Sets the uniform of the state; `vs_data` and `fs_data` are the byte arrays
behind the two pointers. -/
def sgp_set_uniform (s : _sgp_context) (vs_data : Nat → Nat) (vs_size : Nat)
    (fs_data : Nat → Nat) (fs_size : Nat) : _sgp_context :=
  let size := u32 (vs_size + fs_size)
  let data1 :=
    if vs_size > 0 then _sgp_write_bytes s.state.uniform.data 0 vs_data vs_size
    else s.state.uniform.data
  let data2 := if fs_size > 0 then _sgp_write_bytes data1 vs_size fs_data fs_size else data1
  let old_size := s.state.uniform.vs_size + s.state.uniform.fs_size
  -- zero old uniform data
  let data3 :=
    if size < old_size then _sgp_zero_uniform_bytes data2 size (old_size - size) else data2
  { s with state := { s.state with
      uniform := { vs_size := vs_size % 65536, fs_size := fs_size % 65536, data := data3 } } }

def sgp_reset_uniform (s : _sgp_context) : _sgp_context :=
  sgp_set_uniform s (fun _ => 0) 0 (fun _ => 0) 0

def sgp_set_blend_mode (s : _sgp_context) (blend_mode : sgp_blend_mode) : _sgp_context :=
  { s with state := { s.state with blend_mode := blend_mode } }

def sgp_reset_blend_mode (s : _sgp_context) : _sgp_context :=
  sgp_set_blend_mode s sgp_blend_mode.SGP_BLENDMODE_NONE

/-- The macro `_sg_clamp(v,v0,v1)` of `sokol_gfx.h`. -/
def _sg_clamp (v v0 v1 : ℚ) : ℚ := if v < v0 then v0 else if v > v1 then v1 else v

/-- The cast `(uint8_t)` of a value between 0 and 255: the fraction is cut
off. -/
def _sgp_color_byte (v : ℚ) : Nat := (Int.floor (_sg_clamp (v * 255) 0 255)).toNat

def sgp_set_color (s : _sgp_context) (r g b a : ℚ) : _sgp_context :=
  { s with state := { s.state with
      color := { r := _sgp_color_byte r, g := _sgp_color_byte g, b := _sgp_color_byte b,
                 a := _sgp_color_byte a } } }

def sgp_reset_color (s : _sgp_context) : _sgp_context :=
  { s with state := { s.state with color := _sgp_white_color } }

def sgp_set_image (s : _sgp_context) (channel : Nat) (image : sg_image) : _sgp_context :=
  if (s.state.textures.images.getD channel { id := SG_INVALID_ID }).id = image.id then s
  else
    let images := s.state.textures.images.set channel image
    -- recalculate textures count
    let textures_count : Int := s.state.textures.count
    let start : Int := if (channel : Int) > textures_count - 1 then channel else textures_count - 1
    let count : Nat :=
      match (List.range (start.toNat + 1)).reverse.find?
          (fun i => decide ((images.getD i { id := SG_INVALID_ID }).id ≠ SG_INVALID_ID)) with
      | some i => i + 1
      | none => s.state.textures.count
    { s with state := { s.state with
        textures := { s.state.textures with images := images, count := count } } }

def sgp_unset_image (s : _sgp_context) (channel : Nat) : _sgp_context :=
  sgp_set_image s channel { id := SG_INVALID_ID }

def sgp_reset_image (s : _sgp_context) (channel : Nat) : _sgp_context :=
  if channel = 0 then
    -- channel 0 always use white image
    sgp_set_image s channel s.white_img
  else sgp_set_image s channel { id := SG_INVALID_ID }

def sgp_set_sampler (s : _sgp_context) (channel : Nat) (sampler : sg_sampler) : _sgp_context :=
  { s with state := { s.state with
      textures := { s.state.textures with
        samplers := s.state.textures.samplers.set channel sampler } } }

def sgp_reset_sampler (s : _sgp_context) (channel : Nat) : _sgp_context :=
  sgp_set_sampler s channel s.nearest_smp

/-- The command slot a viewport or scissor call writes: the last command of the
segment when it has the tag `tag`, the next free slot otherwise. -/
def _sgp_reuse_or_next_command (s : _sgp_context) (tag : _sgp_command_type) :
    Option Nat × _sgp_context :=
  match _sgp_prev_command s 1 with
  | none => _sgp_next_command s
  | some cmd => if (s.commands cmd).cmd ≠ tag then _sgp_next_command s else (some cmd, s)

/-- A command slot after `memset(cmd, 0, sizeof(_sgp_command))` and the
assignment of a tag and a rectangle. -/
def _sgp_rect_command (tag : _sgp_command_type) (rect : sgp_irect) : _sgp_command :=
  { cmd := tag, args := { zero_command.args with viewport := rect } }

def sgp_viewport (s : _sgp_context) (x y w h : Int) : _sgp_context :=
  -- skip in case of the same viewport
  if s.state.viewport.x = x ∧ s.state.viewport.y = y ∧ s.state.viewport.w = w
      ∧ s.state.viewport.h = h then s
  else
    -- try to reuse last command otherwise use the next one
    match _sgp_reuse_or_next_command s SGP_COMMAND_VIEWPORT with
    | (none, s1) => s1
    | (some cmd, s1) =>
      let viewport : sgp_irect := { x := x, y := y, w := w, h := h }
      -- adjust current scissor relative offset
      let scissor : sgp_irect :=
        if ¬ (s1.state.scissor.w < 0 ∧ s1.state.scissor.h < 0) then
          { s1.state.scissor with
            x := s1.state.scissor.x + (x - s1.state.viewport.x)
            y := s1.state.scissor.y + (y - s1.state.viewport.y) }
        else s1.state.scissor
      { s1 with
        commands := Function.update s1.commands cmd
          (_sgp_rect_command SGP_COMMAND_VIEWPORT viewport)
        state := { s1.state with
          scissor := scissor
          viewport := viewport
          thickness := _sg_max (1 / (w : ℚ)) (1 / (h : ℚ))
          proj := _sgp_default_proj w h
          mvp := _sgp_mul_proj_transform (_sgp_default_proj w h) s1.state.transform } }

def sgp_reset_viewport (s : _sgp_context) : _sgp_context :=
  sgp_viewport s 0 0 s.state.frame_size.w s.state.frame_size.h

/-- The rectangle a scissor call stores in its command: the scissor rectangle
moved into the viewport, or the whole frame for a reset (negative `w` and
`h`). -/
def _sgp_viewport_scissor (s : _sgp_context) (x y w h : Int) : sgp_irect :=
  if w < 0 ∧ h < 0 then { x := 0, y := 0, w := s.state.frame_size.w, h := s.state.frame_size.h }
  else { x := s.state.viewport.x + x, y := s.state.viewport.y + y, w := w, h := h }

def sgp_scissor (s : _sgp_context) (x y w h : Int) : _sgp_context :=
  -- skip in case of the same scissor
  if s.state.scissor.x = x ∧ s.state.scissor.y = y ∧ s.state.scissor.w = w
      ∧ s.state.scissor.h = h then s
  else
    -- try to reuse last command otherwise use the next one
    match _sgp_reuse_or_next_command s SGP_COMMAND_SCISSOR with
    | (none, s1) => s1
    | (some cmd, s1) =>
      -- coordinate scissor in viewport subspace
      let viewport_scissor := _sgp_viewport_scissor s1 x y w h
      { s1 with
        commands := Function.update s1.commands cmd
          (_sgp_rect_command SGP_COMMAND_SCISSOR viewport_scissor)
        state := { s1.state with scissor := { x := x, y := y, w := w, h := h } } }

def sgp_reset_scissor (s : _sgp_context) : _sgp_context :=
  sgp_scissor s 0 0 (-1) (-1)

def sgp_reset_state (s : _sgp_context) : _sgp_context :=
  sgp_reset_pipeline
    (sgp_reset_uniform
      (sgp_reset_color
        (sgp_reset_blend_mode
          (sgp_reset_transform
            (sgp_reset_project
              (sgp_reset_scissor
                (sgp_reset_viewport s)))))))

/-! ## Calls and call sequences -/

/-- A call of the library inside a frame, with its arguments. The rotations
carry the sine and cosine of their angle; `sgp_flush` carries the answers of the
backend to the vertex upload. -/
inductive sgp_call
  | draw (call : draw_call)
  | sgp_begin (width height : Int)
  | sgp_flush (offset : Int) (overflow : Bool)
  | sgp_end
  | sgp_project (left right top bottom : ℚ)
  | sgp_reset_project
  | sgp_push_transform
  | sgp_pop_transform
  | sgp_reset_transform
  | sgp_translate (x y : ℚ)
  | sgp_rotate (sint cost : ℚ)
  | sgp_rotate_at (sint cost x y : ℚ)
  | sgp_scale (sx sy : ℚ)
  | sgp_scale_at (sx sy x y : ℚ)
  | sgp_set_pipeline (pipeline : sg_pipeline)
  | sgp_reset_pipeline
  | sgp_set_uniform (vs_data : Nat → Nat) (vs_size : Nat) (fs_data : Nat → Nat) (fs_size : Nat)
  | sgp_reset_uniform
  | sgp_set_blend_mode (blend_mode : sgp_blend_mode)
  | sgp_reset_blend_mode
  | sgp_set_color (r g b a : ℚ)
  | sgp_reset_color
  | sgp_set_image (channel : Nat) (image : sg_image)
  | sgp_unset_image (channel : Nat)
  | sgp_reset_image (channel : Nat)
  | sgp_set_sampler (channel : Nat) (sampler : sg_sampler)
  | sgp_reset_sampler (channel : Nat)
  | sgp_viewport (x y w h : Int)
  | sgp_reset_viewport
  | sgp_scissor (x y w h : Int)
  | sgp_reset_scissor
  | sgp_reset_state

/-- The context after a call. -/
def run_call (depth : Nat) (be : sg_backend) (s : _sgp_context) : sgp_call → _sgp_context
  | sgp_call.draw call => run_draw_call depth be s call
  | sgp_call.sgp_begin width height => sgp_begin s width height
  | sgp_call.sgp_flush offset overflow => (sgp_flush s offset overflow).1
  | sgp_call.sgp_end => sgp_end s
  | sgp_call.sgp_project left right top bottom => sgp_project s left right top bottom
  | sgp_call.sgp_reset_project => sgp_reset_project s
  | sgp_call.sgp_push_transform => sgp_push_transform s
  | sgp_call.sgp_pop_transform => sgp_pop_transform s
  | sgp_call.sgp_reset_transform => sgp_reset_transform s
  | sgp_call.sgp_translate x y => sgp_translate s x y
  | sgp_call.sgp_rotate sint cost => sgp_rotate s sint cost
  | sgp_call.sgp_rotate_at sint cost x y => sgp_rotate_at s sint cost x y
  | sgp_call.sgp_scale sx sy => sgp_scale s sx sy
  | sgp_call.sgp_scale_at sx sy x y => sgp_scale_at s sx sy x y
  | sgp_call.sgp_set_pipeline pipeline => sgp_set_pipeline s pipeline
  | sgp_call.sgp_reset_pipeline => sgp_reset_pipeline s
  | sgp_call.sgp_set_uniform vs_data vs_size fs_data fs_size =>
    sgp_set_uniform s vs_data vs_size fs_data fs_size
  | sgp_call.sgp_reset_uniform => sgp_reset_uniform s
  | sgp_call.sgp_set_blend_mode blend_mode => sgp_set_blend_mode s blend_mode
  | sgp_call.sgp_reset_blend_mode => sgp_reset_blend_mode s
  | sgp_call.sgp_set_color r g b a => sgp_set_color s r g b a
  | sgp_call.sgp_reset_color => sgp_reset_color s
  | sgp_call.sgp_set_image channel image => sgp_set_image s channel image
  | sgp_call.sgp_unset_image channel => sgp_unset_image s channel
  | sgp_call.sgp_reset_image channel => sgp_reset_image s channel
  | sgp_call.sgp_set_sampler channel sampler => sgp_set_sampler s channel sampler
  | sgp_call.sgp_reset_sampler channel => sgp_reset_sampler s channel
  | sgp_call.sgp_viewport x y w h => sgp_viewport s x y w h
  | sgp_call.sgp_reset_viewport => sgp_reset_viewport s
  | sgp_call.sgp_scissor x y w h => sgp_scissor s x y w h
  | sgp_call.sgp_reset_scissor => sgp_reset_scissor s
  | sgp_call.sgp_reset_state => sgp_reset_state s

/-- What a call does to a stack: it saves an entry, takes one back, or leaves
the stack alone. -/
inductive stack_move
  | save
  | restore
  | keep
  deriving DecidableEq

/-- The move of a call on the transform stack. -/
def transform_move : sgp_call → stack_move
  | sgp_call.sgp_push_transform => stack_move.save
  | sgp_call.sgp_pop_transform => stack_move.restore
  | _ => stack_move.keep

/-- The move of a call on the state stack. -/
def state_move : sgp_call → stack_move
  | sgp_call.sgp_begin _ _ => stack_move.save
  | sgp_call.sgp_end => stack_move.restore
  | _ => stack_move.keep

/-- The nesting level after a list of moves that starts at level `level`, when
the list is well nested in a stack with `room` free entries: no restore at
level 0 and no save at level `room`. -/
def stack_walk (room : Nat) : List stack_move → Nat → Option Nat
  | [], level => some level
  | stack_move.save :: rest, level =>
    if level < room then stack_walk room rest (level + 1) else none
  | stack_move.restore :: rest, level =>
    if 0 < level then stack_walk room rest (level - 1) else none
  | stack_move.keep :: rest, level => stack_walk room rest level

/-- The parts of the context no drawing function writes: the render state, the
two stacks with their depths and the capacities of the arenas. -/
def draw_kept (s t : _sgp_context) : Prop :=
  t.state = s.state ∧ t.cur_state = s.cur_state ∧ t.state_stack = s.state_stack
    ∧ t.cur_transform = s.cur_transform ∧ t.transform_stack = s.transform_stack
    ∧ t.num_vertices = s.num_vertices ∧ t.num_uniforms = s.num_uniforms
    ∧ t.num_commands = s.num_commands

/-- The two stacks and their depths are the same in `s` and `t`. -/
def stacks_kept (s t : _sgp_context) : Prop :=
  t.cur_state = s.cur_state ∧ t.state_stack = s.state_stack
    ∧ t.cur_transform = s.cur_transform ∧ t.transform_stack = s.transform_stack

/-- A context inside a segment whose transform stack holds 63 entries, all of
them the identity, while the model transform is a translation by (1, 0). -/
def deep_transform_context : _sgp_context :=
  let s := sample_context [] 0 1 0
  let transform : sgp_mat2x3 := { v00 := 1, v01 := 0, v02 := 1, v10 := 0, v11 := 1, v12 := 0 }
  { s with cur_transform := 63, state := { s.state with transform := transform } }

/-- A context at segment depth 63, every saved state binding image 1, while
the current state binds image 7. -/
def deep_state_context : _sgp_context :=
  let s := sample_context [] 0 7 0
  { s with cur_state := 63 }

/-- A segment under the custom pipeline 5 whose uniform holds 16 bytes for the
vertex stage, the values 1 to 16. -/
def uniform16_context : _sgp_context :=
  sgp_set_uniform (sgp_set_pipeline (sample_context [] 0 1 0) { id := 5 })
    (fun k => k + 1) 16 (fun _ => 0) 0

/-- A queue whose last command is a scissor command; the scissor of the state
is the one the command was queued for. -/
def scissor_context : _sgp_context :=
  let s := sample_context
    [sample_draw 1 1 (sample_region (-1) (-1) 0 0) 0 6,
     { sample_viewport_command 0 0 1 1 with cmd := SGP_COMMAND_SCISSOR }] 6 1 0
  { s with state := { s.state with scissor := { x := 0, y := 0, w := 1, h := 1 } } }

/-- A segment that is ended without a flush: begin, `sgp_clear`, end. -/
def unflushed_frame (depth : Nat) : _sgp_context :=
  sgp_end (sgp_clear depth sample_backend (sgp_begin setup_context 2 2))

/-- An outer segment around a nested segment that is ended without a flush:
begin, begin, `sgp_clear`, end. -/
def unflushed_nested_frame (depth : Nat) : _sgp_context :=
  sgp_end (sgp_clear depth sample_backend (sgp_begin (sgp_begin setup_context 2 2) 2 2))

/-- A first frame that leaves three draw commands behind in the command array,
the last one with a long vertex span: begin, line strips of 6, 6 and 500
vertices, flush, end. -/
def long_stale_frame (depth : Nat) : _sgp_context :=
  sgp_end
    (sgp_flush
      (reserve_and_queue depth
        (reserve_and_queue depth
          (reserve_and_queue depth (sgp_begin setup_context 2 2)
            { id := 2 } (sample_region (-1) (-1) 1 1) 6 SG_PRIMITIVETYPE_LINE_STRIP)
          { id := 2 } (sample_region (-1) (-1) 1 1) 6 SG_PRIMITIVETYPE_LINE_STRIP)
        { id := 2 } (sample_region (-1) (-1) 1 1) 500 SG_PRIMITIVETYPE_LINE_STRIP)
      0 false).1

/-- A second frame after it: begin, a rectangle A in the lower left quarter (6
vertices, triangles pipeline 1), a line X in the upper right quarter (2
vertices, lines pipeline 3), and a batch B of 17 rectangles in the upper right
quarter (102 vertices, triangles pipeline 1). -/
def stale_span_frame (depth : Nat) : _sgp_context :=
  reserve_and_queue depth
    (reserve_and_queue depth
      (reserve_and_queue depth (sgp_begin (long_stale_frame depth) 2 2)
        { id := 1 } (sample_region (-1) (-1) 0 0) 6 SG_PRIMITIVETYPE_TRIANGLES)
      { id := 3 } (sample_region 0 0 1 1) 2 SG_PRIMITIVETYPE_LINES)
    { id := 1 } (sample_region 0 0 1 1) 102 SG_PRIMITIVETYPE_TRIANGLES

/-- Every draw command of the command array has a region that is not entirely
outside the clip bounds. -/
def draw_regions_visible (s : _sgp_context) : Prop :=
  ∀ i, (s.commands i).cmd = SGP_COMMAND_DRAW →
    ¬ region_out_of_bounds (s.commands i).args.draw.region

/-! ## Reference definitions for the flush -/

/-- The backend calls that change what is on the screen or where it goes:
viewport, scissor and draw calls. -/
def is_dispatch_call : sg_call → Bool
  | sg_call.apply_viewport _ _ _ _ _ => true
  | sg_call.apply_scissor_rect _ _ _ _ _ => true
  | sg_call.draw _ _ _ => true
  | _ => false

/-- The call a command of the queue stands for: none for a NoOp and for a draw
command of zero vertices, the stored rectangle for a viewport or scissor
command, and for a draw command the draw of its vertices, counted from the base
vertex of the segment, with one instance. -/
def reference_command_call (s : _sgp_context) (i : Nat) : Option sg_call :=
  match (s.commands i).cmd with
  | SGP_COMMAND_NONE => none
  | SGP_COMMAND_VIEWPORT =>
    some (sg_call.apply_viewport (s.commands i).args.viewport.x (s.commands i).args.viewport.y
      (s.commands i).args.viewport.w (s.commands i).args.viewport.h true)
  | SGP_COMMAND_SCISSOR =>
    some (sg_call.apply_scissor_rect (s.commands i).args.viewport.x
      (s.commands i).args.viewport.y (s.commands i).args.viewport.w
      (s.commands i).args.viewport.h true)
  | SGP_COMMAND_DRAW =>
    if (s.commands i).args.draw.num_vertices = 0 then none
    else
      some (sg_call.draw
        (((s.commands i).args.draw.vertex_index : Int) - (s.state._base_vertex : Int))
        ((s.commands i).args.draw.num_vertices : Int) 1)

/-- The commands of the segment, from base to cursor in queue order, as the
calls they stand for. -/
def reference_dispatch (s : _sgp_context) : List sg_call :=
  (List.range' s.state._base_command (s.cur_command - s.state._base_command)).filterMap
    (reference_command_call s)

/-- A segment with two clears and a change of the sampler in between: begin,
`sgp_clear`, `sgp_set_sampler` of channel 0 to sampler 7, `sgp_clear`. -/
def sampler_change_frame (depth : Nat) : _sgp_context :=
  sgp_clear depth sample_backend
    (sgp_set_sampler (sgp_clear depth sample_backend (sgp_begin setup_context 2 2)) 0 { id := 7 })

/-! ## Reference definitions for the matrices -/

/-- The 2x3 matrix of "apply `b`, then `a`": the product of the two matrices,
each completed to a 3x3 matrix by the row (0, 0, 1). -/
def reference_compose (a b : sgp_mat2x3) : sgp_mat2x3 :=
  { v00 := a.v00 * b.v00 + a.v01 * b.v10
    v01 := a.v00 * b.v01 + a.v01 * b.v11
    v02 := a.v00 * b.v02 + a.v01 * b.v12 + a.v02
    v10 := a.v10 * b.v00 + a.v11 * b.v10
    v11 := a.v10 * b.v01 + a.v11 * b.v11
    v12 := a.v10 * b.v02 + a.v11 * b.v12 + a.v12 }

/-- The off-diagonal entries `v[0][1]` and `v[1][0]` of a matrix are zero. -/
def off_diagonal_zero (m : sgp_mat2x3) : Prop :=
  m.v01 = 0 ∧ m.v10 = 0

instance (m : sgp_mat2x3) : Decidable (off_diagonal_zero m) := by
  unfold off_diagonal_zero; infer_instance

/-- The projection of context `t` is the one of context `s`, or one whose
off-diagonal entries are zero: what a call from `s` to `t` stored, if it stored
a projection, has zero off-diagonal entries. -/
def stored_proj_diagonal (s t : _sgp_context) : Prop :=
  t.state.proj = s.state.proj ∨ off_diagonal_zero t.state.proj

/-- The cached matrix `mvp` of a state is the product of its projection and its
model transform. -/
def mvp_current (state : sgp_state) : Prop :=
  state.mvp = _sgp_mul_proj_transform state.proj state.transform

instance (state : sgp_state) : Decidable (mvp_current state) := by
  unfold mvp_current; infer_instance

/-- The cached matrix is up to date in the state of the context and in every
state saved on the state stack. -/
def mvp_up_to_date (s : _sgp_context) : Prop :=
  mvp_current s.state ∧ ∀ i, i < s.cur_state → mvp_current (s.state_stack i)

/-- The four corners of a rectangle in the order bottom left, bottom right, top
right, top left, as the six vertices of its two triangles take them: bottom
left, bottom right, top right, top left, bottom left, top right. -/
def rect_triangle_corners (rect : sgp_rect) : List sgp_vec2 :=
  [{ x := rect.x, y := rect.y + rect.h }, { x := rect.x + rect.w, y := rect.y + rect.h },
   { x := rect.x + rect.w, y := rect.y }, { x := rect.x, y := rect.y },
   { x := rect.x, y := rect.y + rect.h }, { x := rect.x + rect.w, y := rect.y }]

/-- Context `t` is context `s` after one filled rectangle was drawn as a new
draw command: one command is appended at the command cursor, a draw of the six
vertices reserved at the vertex cursor with pipeline `pip`, the textures of the
state, no uniform and the bounding region of the transformed corners; the six
vertices are the corners of the two triangles transformed by the matrix of the
state, all with the color of the state; no other command and no other vertex
differs, and no error is recorded. -/
def rect_drawn_as_new_draw (s t : _sgp_context) (pip : sg_pipeline) (rect : sgp_rect) : Prop :=
  t.cur_command = s.cur_command + 1
  ∧ (∀ i, i ≠ s.cur_command → t.commands i = s.commands i)
  ∧ (t.commands s.cur_command).cmd = SGP_COMMAND_DRAW
  ∧ (t.commands s.cur_command).args.draw.num_vertices = 6
  ∧ (t.commands s.cur_command).args.draw.vertex_index = s.cur_vertex
  ∧ (t.commands s.cur_command).args.draw.pip = pip
  ∧ (t.commands s.cur_command).args.draw.textures = s.state.textures
  ∧ (t.commands s.cur_command).args.draw.uniform_index = _SGP_IMPOSSIBLE_ID
  ∧ (t.commands s.cur_command).args.draw.region
      = _sgp_region_add_quad _sgp_region_empty (_sgp_rect_quad s.state.mvp rect)
  ∧ t.cur_vertex = s.cur_vertex + 6
  ∧ (List.range 6).map (fun k => (t.vertices (s.cur_vertex + k)).position)
      = (rect_triangle_corners rect).map (_sgp_mat3_vec2_mul s.state.mvp)
  ∧ (∀ k, k < 6 → (t.vertices (s.cur_vertex + k)).color = s.state.color)
  ∧ (∀ k, k < s.cur_vertex ∨ s.cur_vertex + 6 ≤ k → t.vertices k = s.vertices k)
  ∧ t.last_error = s.last_error

/-! ## Assertions -/

/-- The assertions `SOKOL_ASSERT(...)` of `sgp_viewport`, tested on the context
the function is called in. -/
def sgp_viewport_asserts (s : _sgp_context) : Bool :=
  decide (s.init_cookie = _SGP_INIT_COOKIE) && decide (s.cur_state > 0)

/-- The assertions of `sgp_reset_viewport` and of the `sgp_viewport` it
calls. -/
def sgp_reset_viewport_asserts (s : _sgp_context) : Bool :=
  decide (s.init_cookie = _SGP_INIT_COOKIE) && decide (s.cur_state > 0)
    && sgp_viewport_asserts s

def sgp_scissor_asserts (s : _sgp_context) : Bool :=
  decide (s.init_cookie = _SGP_INIT_COOKIE) && decide (s.cur_state > 0)

def sgp_reset_scissor_asserts (s : _sgp_context) : Bool :=
  decide (s.init_cookie = _SGP_INIT_COOKIE) && decide (s.cur_state > 0)
    && sgp_scissor_asserts s

def sgp_reset_project_asserts (s : _sgp_context) : Bool :=
  decide (s.init_cookie = _SGP_INIT_COOKIE) && decide (s.cur_state > 0)

def sgp_reset_transform_asserts (s : _sgp_context) : Bool :=
  decide (s.init_cookie = _SGP_INIT_COOKIE) && decide (s.cur_state > 0)

def sgp_set_blend_mode_asserts (s : _sgp_context) : Bool :=
  decide (s.init_cookie = _SGP_INIT_COOKIE)

def sgp_reset_blend_mode_asserts (s : _sgp_context) : Bool :=
  decide (s.init_cookie = _SGP_INIT_COOKIE) && sgp_set_blend_mode_asserts s

def sgp_reset_color_asserts (s : _sgp_context) : Bool :=
  decide (s.init_cookie = _SGP_INIT_COOKIE) && decide (s.cur_state > 0)

/-- The assertions of `sgp_set_uniform`; `vs_data` and `fs_data` tell whether
the two pointers are not `NULL`. -/
def sgp_set_uniform_asserts (s : _sgp_context) (vs_data : Bool) (vs_size : Nat) (fs_data : Bool)
    (fs_size : Nat) : Bool :=
  decide (s.init_cookie = _SGP_INIT_COOKIE)
    && decide (s.state.pipeline.id ≠ SG_INVALID_ID)
    && decide (u32 (vs_size + fs_size) ≤ 4 * SGP_UNIFORM_CONTENT_SLOTS)
    && (if vs_size > 0 then vs_data else true)
    && (if fs_size > 0 then fs_data else true)

/-- The assertions of `sgp_reset_uniform` and of the call
`sgp_set_uniform(NULL, 0, NULL, 0)` it makes. -/
def sgp_reset_uniform_asserts (s : _sgp_context) : Bool :=
  decide (s.init_cookie = _SGP_INIT_COOKIE)
    && decide (s.state.pipeline.id ≠ SG_INVALID_ID)
    && sgp_set_uniform_asserts s false 0 false 0

def sgp_set_pipeline_asserts (s : _sgp_context) : Bool :=
  decide (s.init_cookie = _SGP_INIT_COOKIE)

def sgp_reset_pipeline_asserts (s : _sgp_context) : Bool :=
  decide (s.init_cookie = _SGP_INIT_COOKIE) && sgp_set_pipeline_asserts s

/-- All assertions met while `sgp_reset_state` runs hold: its own and, call by
call, those of the eight functions it calls, each tested on the context the
call is made in. -/
def sgp_reset_state_asserts (s : _sgp_context) : Bool :=
  decide (s.init_cookie = _SGP_INIT_COOKIE) && decide (s.cur_state > 0)
    && sgp_reset_viewport_asserts s
    && sgp_reset_scissor_asserts (sgp_reset_viewport s)
    && sgp_reset_project_asserts (sgp_reset_scissor (sgp_reset_viewport s))
    && sgp_reset_transform_asserts
        (sgp_reset_project (sgp_reset_scissor (sgp_reset_viewport s)))
    && sgp_reset_blend_mode_asserts
        (sgp_reset_transform (sgp_reset_project (sgp_reset_scissor (sgp_reset_viewport s))))
    && sgp_reset_color_asserts
        (sgp_reset_blend_mode
          (sgp_reset_transform (sgp_reset_project (sgp_reset_scissor (sgp_reset_viewport s)))))
    && sgp_reset_uniform_asserts
        (sgp_reset_color
          (sgp_reset_blend_mode
            (sgp_reset_transform
              (sgp_reset_project (sgp_reset_scissor (sgp_reset_viewport s))))))
    && sgp_reset_pipeline_asserts
        (sgp_reset_uniform
          (sgp_reset_color
            (sgp_reset_blend_mode
              (sgp_reset_transform
                (sgp_reset_project (sgp_reset_scissor (sgp_reset_viewport s)))))))

/-! ## Sample frames for the state changes -/

/-- A segment of 100 by 100 pixels with a scissor rectangle set at the offset
(10, 10), 20 by 20 pixels: begin, `sgp_scissor`. -/
def scissor_frame : _sgp_context :=
  sgp_scissor (sgp_begin setup_context 100 100) 10 10 20 20

/-- The same segment after the viewport is moved to the origin (5, 5) with 50 by
50 pixels. -/
def moved_viewport_frame : _sgp_context :=
  sgp_viewport scissor_frame 5 5 50 50

/-- A backend that hands out pipeline 1 for every request and in which the
image 9 has the size 0 by 0, as an image does whose creation failed; every
other image has 2 by 2 pixels. -/
def failed_image_backend : sg_backend :=
  { make_pipeline := fun _ _ => { id := 1 }
    image_size := fun img => if img.id = 9 then { w := 0, h := 0 } else { w := 2, h := 2 } }

/-- A segment with the image 9 bound to channel 0: begin, `sgp_set_image`. -/
def failed_image_frame : _sgp_context :=
  sgp_set_image (sgp_begin setup_context 100 100) 0 { id := 9 }

/-- A segment without commands in which 10 of the 1024 vertices are in use. -/
def ten_vertex_context : _sgp_context :=
  sample_context [] 10 1 0

/-- A frame in which a draw is followed by a textured rectangle whose image has
no size: begin, `sgp_clear`, `sgp_set_image` of image 9 (0 by 0 pixels in
`failed_image_backend`) on channel 0, `sgp_draw_textured_rect` on channel 0,
`sgp_reset_image` of channel 0. -/
def leaked_vertices_frame (depth : Nat) : _sgp_context :=
  [sgp_call.sgp_begin 2 2, sgp_call.draw draw_call.clear, sgp_call.sgp_set_image 0 { id := 9 },
    sgp_call.draw (draw_call.textured_rect 0 { x := 0, y := 0, w := 1, h := 1 }
      { x := 0, y := 0, w := 1, h := 1 }),
    sgp_call.sgp_reset_image 0].foldl (run_call depth failed_image_backend) setup_context

/-- The frame `leaked_vertices_frame` at the point where the next draw of six
vertices has reserved its vertices and calls the optimizer. -/
def leaked_vertices_reserved (depth : Nat) : _sgp_context :=
  (_sgp_next_vertices (leaked_vertices_frame depth) 6).2

/-- A pipeline handle as the application passes it to `sgp_set_pipeline`: the
invalid handle, or the handle of a pipeline the application made, whose id is
none of the ids `default_id` of the pipelines the backend makes for the
library. -/
def custom_pipeline (default_id : Nat → Prop) (p : sg_pipeline) : Prop :=
  p.id = SG_INVALID_ID ∨ ¬ default_id p.id

/-- The command carries one of the library's default pipelines and no uniform
snapshot (uniform index `_SGP_IMPOSSIBLE_ID`), or another pipeline and the
index of a snapshot. -/
def draw_uniform_classified (default_id : Nat → Prop) (c : _sgp_command) : Prop :=
  (default_id c.args.draw.pip.id ∧ c.args.draw.uniform_index = _SGP_IMPOSSIBLE_ID)
  ∨ (¬ default_id c.args.draw.pip.id ∧ c.args.draw.uniform_index ≠ _SGP_IMPOSSIBLE_ID)

/-- The pipelines of the context are told apart by their ids: `default_id`
holds of the ids of the library's own pipelines. Every draw command of the
command array has a uniform snapshot exactly when its pipeline is not one of
those, the cached pipelines are among them, the custom pipeline of the state and
of every saved state is not, and the uniform cursor, the uniform capacity and
the saved uniform bases are values of `uint32_t`. -/
structure pipelines_sound (default_id : Nat → Prop) (s : _sgp_context) : Prop where
  commands : ∀ i, (s.commands i).cmd = SGP_COMMAND_DRAW →
    draw_uniform_classified default_id (s.commands i)
  cache : ∀ k, (s.pipelines k).id ≠ SG_INVALID_ID → default_id (s.pipelines k).id
  custom : custom_pipeline default_id s.state.pipeline
  saved : ∀ j, custom_pipeline default_id (s.state_stack j).pipeline
  uniforms : s.num_uniforms < 4294967296 ∧ s.cur_uniform < 4294967296
  bases : s.state._base_uniform < 4294967296
    ∧ ∀ j, (s.state_stack j)._base_uniform < 4294967296

/-- Every pipeline the backend makes for the library has an id of which
`default_id` holds. -/
def backend_sound (default_id : Nat → Prop) (be : sg_backend) : Prop :=
  ∀ primitive_type blend_mode,
    (be.make_pipeline primitive_type blend_mode).id ≠ SG_INVALID_ID →
    default_id (be.make_pipeline primitive_type blend_mode).id

/-- The pipeline and the context a drawing function hands to `_sgp_queue_draw`
when it is called in context `s`: the vertices are reserved (`cur_vertex`) and
written (`vertices`), and the default pipeline for the primitive type and the
blend mode has been looked up. -/
def queue_draw_entry (be : sg_backend) (s : _sgp_context) (vertices : Nat → sgp_vertex)
    (cur_vertex : Nat) (primitive_type : sg_primitive_type) (blend_mode : sgp_blend_mode) :
    sg_pipeline × _sgp_context :=
  _sgp_lookup_pipeline be { s with cur_vertex := cur_vertex, vertices := vertices }
    primitive_type blend_mode

/-- What the merge test lets through, for a draw queued in context `s` with
the looked-up pipeline `pip`. A merge attempt that returns true has acted, by
one of the two merge branches, on a draw command `prev` with the pipeline id
and the texture set of the new draw; when the new draw has no uniform snapshot
that command has none, and when it has one the command has one, equal to it.
And every draw command that passes the pipeline test, after which alone the
snapshots are compared, has a snapshot when the new draw has one. -/
def merged_only_into_match (depth : Nat) (s : _sgp_context) (pip : sg_pipeline) : Prop :=
  (∀ (region : _sgp_region) (vertex_index num_vertices : Nat)
      (primitive_type : sg_primitive_type),
      (merge_attempt depth s pip region vertex_index num_vertices primitive_type).1 = true →
      ∃ prev inter_cmds,
        (s.commands prev).cmd = SGP_COMMAND_DRAW
        ∧ (s.commands prev).args.draw.pip.id = (queue_pipeline s pip).id
        ∧ (s.commands prev).args.draw.textures = s.state.textures
        ∧ (queue_uniform s = none →
            (s.commands prev).args.draw.uniform_index = _SGP_IMPOSSIBLE_ID)
        ∧ (∀ u, queue_uniform s = some u →
            (s.commands prev).args.draw.uniform_index ≠ _SGP_IMPOSSIBLE_ID
            ∧ s.uniforms (s.commands prev).args.draw.uniform_index = u)
        ∧ (merge_attempt depth s pip region vertex_index num_vertices primitive_type
              = _sgp_merge_into_prev s prev inter_cmds (s.commands prev).args.draw.region
                  region vertex_index num_vertices
            ∨ merge_attempt depth s pip region vertex_index num_vertices primitive_type
              = _sgp_merge_into_next s prev (queue_pipeline s pip) s.state.textures
                  (s.commands prev).args.draw.region region vertex_index num_vertices))
  ∧ (∀ i u, (s.commands i).cmd = SGP_COMMAND_DRAW →
      (s.commands i).args.draw.pip.id = (queue_pipeline s pip).id →
      queue_uniform s = some u →
      (s.commands i).args.draw.uniform_index ≠ _SGP_IMPOSSIBLE_ID)

/-- The calls of a segment that draws under a custom pipeline: begin,
`sgp_set_pipeline` with a pipeline of id 7, `sgp_clear`. -/
def custom_pipeline_calls : List sgp_call :=
  [sgp_call.sgp_begin 2 2, sgp_call.sgp_set_pipeline { id := 7 }, sgp_call.draw draw_call.clear]

/-! ## Theorems -/

/-! ### Machine integers -/

theorem u32_of_lt {n : Nat} (h : n < 4294967296) : u32 n = n := by
  unfold u32; omega

theorem u32_sub_of_le {a b : Nat} (hb : b ≤ a) (ha : a < 4294967296) : u32_sub a b = a - b := by
  unfold u32_sub; omega

theorem _sg_min_eq (a b : ℚ) : _sg_min a b = min a b := by
  unfold _sg_min
  split
  · rename_i h; exact (min_eq_left h.le).symm
  · rename_i h; exact (min_eq_right (not_lt.mp h)).symm

theorem _sg_max_eq (a b : ℚ) : _sg_max a b = max a b := by
  unfold _sg_max
  split
  · rename_i h; exact (max_eq_left (le_of_lt h)).symm
  · rename_i h; exact (max_eq_right (not_lt.mp h)).symm

/-! ### The candidate search -/

theorem range_rev_succ (b m : Nat) :
    (List.range' b (m + 1)).reverse = (b + m) :: (List.range' b m).reverse := by
  rw [List.range'_concat]
  simp

/-- The fuelled loop agrees with the list form of the search: with `m` commands
of the segment left to visit and more fuel than that, the loop at `depth`
visits the indices `base + m - 1, ..., base` with budget `lookup_depth - depth`. -/
theorem scan_eq_scan_list (s : _sgp_context) (pip : sg_pipeline) (textures : sgp_textures_uniform)
    (uniform : Option sgp_uniform)
    (hb : s.state._base_command ≤ s.cur_command) (bound : Nat)
    (hc : s.cur_command + bound < 4294967295) :
    ∀ (m fuel depth lookup_depth : Nat) (inter_cmds : List Nat),
      depth + m = s.cur_command - s.state._base_command → m < fuel →
      lookup_depth ≤ bound + depth →
      _sgp_merge_scan s pip textures uniform fuel depth lookup_depth inter_cmds
        = scan_list s pip textures uniform (List.range' s.state._base_command m).reverse
            (lookup_depth - depth) inter_cmds := by
  intro m
  induction m with
  | zero =>
    intro fuel depth lookup_depth inter_cmds hm hf hl
    obtain ⟨f, rfl⟩ : ∃ f, fuel = f + 1 := ⟨fuel - 1, by omega⟩
    have h1 : u32_sub s.cur_command s.state._base_command = depth := by
      rw [u32_sub_of_le hb (by omega)]; omega
    have h2 : u32 (depth + 1) = depth + 1 := u32_of_lt (by omega)
    simp [_sgp_merge_scan, scan_list, _sgp_prev_command, h1, h2]
  | succ m ih =>
    intro fuel depth lookup_depth inter_cmds hm hf hl
    obtain ⟨f, rfl⟩ : ∃ f, fuel = f + 1 := ⟨fuel - 1, by omega⟩
    have h1 : u32_sub s.cur_command s.state._base_command = depth + (m + 1) := by
      rw [u32_sub_of_le hb (by omega)]; omega
    have h2 : u32 (depth + 1) = depth + 1 := u32_of_lt (by omega)
    have h3 : u32_sub s.cur_command (depth + 1) = s.state._base_command + m := by
      rw [u32_sub_of_le (by omega) (by omega)]; omega
    have h4 : u32 (lookup_depth + 1) = lookup_depth + 1 := u32_of_lt (by omega)
    rw [range_rev_succ]
    unfold _sgp_merge_scan scan_list
    by_cases hd : depth < lookup_depth
    · have hk : ¬ (lookup_depth - depth = 0) := by omega
      simp only [hd, if_true, hk, if_false, _sgp_prev_command, h1, h2, h3, h4]
      have hge : depth + (m + 1) ≥ depth + 1 := by omega
      simp only [hge, if_true]
      have e1 := ih f (depth + 1) (lookup_depth + 1) inter_cmds (by omega) (by omega) (by omega)
      have e2 := ih f (depth + 1) lookup_depth (inter_cmds ++ [s.state._base_command + m])
        (by omega) (by omega) (by omega)
      have a1 : lookup_depth + 1 - (depth + 1) = lookup_depth - depth := by omega
      have a2 : lookup_depth - (depth + 1) = lookup_depth - depth - 1 := by omega
      rw [e1, e2, a1, a2]
    · have hk : lookup_depth - depth = 0 := by omega
      simp [hd, hk]

/-- The list form of the search computes the reference candidate and gap of the
window cut from the list. -/
theorem scan_list_eq (s : _sgp_context) (pip : sg_pipeline) (textures : sgp_textures_uniform)
    (uniform : Option sgp_uniform) :
    ∀ (l : List Nat) (k : Nat) (inter_cmds : List Nat),
      scan_list s pip textures uniform l k inter_cmds
        = ((((l.filter (fun i => decide ((s.commands i).cmd ≠ SGP_COMMAND_NONE))).take k).takeWhile
              (fun i => decide ((s.commands i).cmd = SGP_COMMAND_DRAW))).find?
              (fun i => _sgp_batch_match s pip textures uniform (s.commands i)),
           inter_cmds ++
            (((l.filter (fun i => decide ((s.commands i).cmd ≠ SGP_COMMAND_NONE))).take k).takeWhile
              (fun i => decide ((s.commands i).cmd = SGP_COMMAND_DRAW))).takeWhile
              (fun i => !_sgp_batch_match s pip textures uniform (s.commands i))) := by
  intro l
  induction l with
  | nil => intro k inter_cmds; simp [scan_list]
  | cons i rest ih =>
    intro k inter_cmds
    unfold scan_list
    by_cases hk : k = 0
    · subst hk; simp
    · obtain ⟨k1, rfl⟩ : ∃ k1, k = k1 + 1 := ⟨k - 1, by omega⟩
      by_cases hn : (s.commands i).cmd = SGP_COMMAND_NONE
      · simp [hn, ih]
      · by_cases hd : (s.commands i).cmd = SGP_COMMAND_DRAW
        · by_cases hm : _sgp_batch_match s pip textures uniform (s.commands i) = true
          · simp [hn, hd, hm, List.filter_cons, List.take_succ_cons, List.takeWhile_cons]
          · simp [hn, hd, hm, ih, List.filter_cons, List.take_succ_cons, List.takeWhile_cons]
        · simp [hn, hd, List.filter_cons, List.take_succ_cons, List.takeWhile_cons]

/-- The search loop of the optimizer, run with the fuel the optimizer gives it,
returns the reference candidate and, next to it, the reference gap. -/
theorem merge_scan_eq_reference (s : _sgp_context) (pip : sg_pipeline)
    (textures : sgp_textures_uniform) (uniform : Option sgp_uniform) (depth : Nat)
    (hb : s.state._base_command ≤ s.cur_command)
    (hc : s.cur_command + depth < 4294967295) :
    _sgp_merge_scan s pip textures uniform
        (u32_sub s.cur_command s.state._base_command + 1) 0 depth []
      = (reference_candidate s pip textures uniform depth,
         reference_gap s pip textures uniform depth) := by
  have h1 : u32_sub s.cur_command s.state._base_command
      = s.cur_command - s.state._base_command := u32_sub_of_le hb (by omega)
  rw [h1, scan_eq_scan_list s pip textures uniform hb depth hc
    (s.cur_command - s.state._base_command) _ 0 depth [] (by omega) (by omega) (by omega),
    scan_list_eq]
  simp [reference_candidate, reference_gap, reference_window, segment_commands_rev]

/-- More fuel does not change the result of the search loop: the fuel the
optimizer gives it is enough for the loop to end by itself. -/
theorem merge_scan_fuel_enough (s : _sgp_context) (pip : sg_pipeline)
    (textures : sgp_textures_uniform) (uniform : Option sgp_uniform) (depth extra : Nat)
    (hb : s.state._base_command ≤ s.cur_command)
    (hc : s.cur_command + depth < 4294967295) :
    _sgp_merge_scan s pip textures uniform
        (u32_sub s.cur_command s.state._base_command + 1 + extra) 0 depth []
      = _sgp_merge_scan s pip textures uniform
        (u32_sub s.cur_command s.state._base_command + 1) 0 depth [] := by
  have h1 : u32_sub s.cur_command s.state._base_command
      = s.cur_command - s.state._base_command := u32_sub_of_le hb (by omega)
  rw [h1, scan_eq_scan_list s pip textures uniform hb depth hc
    (s.cur_command - s.state._base_command) _ 0 depth [] (by omega) (by omega) (by omega),
    scan_eq_scan_list s pip textures uniform hb depth hc
    (s.cur_command - s.state._base_command) _ 0 depth [] (by omega) (by omega) (by omega)]

theorem mem_segment_commands_rev (s : _sgp_context) (i : Nat) :
    i ∈ segment_commands_rev s ↔ s.state._base_command ≤ i ∧ i < s.cur_command := by
  unfold segment_commands_rev
  rw [List.mem_reverse, List.mem_range'_1]
  omega

theorem segment_commands_rev_pairwise (s : _sgp_context) :
    (segment_commands_rev s).Pairwise (fun a b => b < a) := by
  unfold segment_commands_rev
  rw [List.pairwise_reverse]
  exact List.pairwise_lt_range' _ _

theorem reference_window_sublist (s : _sgp_context) (depth : Nat) :
    (reference_window s depth).Sublist (segment_commands_rev s) :=
  ((List.takeWhile_sublist _).trans (List.take_sublist _ _)).trans (List.filter_sublist _)

/-- Every command of the reference window is a draw command of the segment. -/
theorem mem_reference_window (s : _sgp_context) (depth i : Nat)
    (h : i ∈ reference_window s depth) :
    (s.state._base_command ≤ i ∧ i < s.cur_command)
      ∧ (s.commands i).cmd = SGP_COMMAND_DRAW := by
  refine ⟨(mem_segment_commands_rev s i).1 ((reference_window_sublist s depth).subset h), ?_⟩
  have := List.mem_takeWhile_imp h
  simpa using this

theorem reference_window_pairwise (s : _sgp_context) (depth : Nat) :
    (reference_window s depth).Pairwise (fun a b => b < a) :=
  (segment_commands_rev_pairwise s).sublist (reference_window_sublist s depth)

/-- The reference candidate is a command of the window that passes the match
test. -/
theorem reference_candidate_spec (s : _sgp_context) (pip : sg_pipeline)
    (textures : sgp_textures_uniform) (uniform : Option sgp_uniform) (depth prev : Nat)
    (h : reference_candidate s pip textures uniform depth = some prev) :
    prev ∈ reference_window s depth
      ∧ _sgp_batch_match s pip textures uniform (s.commands prev) = true := by
  unfold reference_candidate at h
  have hm := List.find?_some h
  exact ⟨List.mem_of_find?_eq_some h, by simpa using hm⟩

theorem reference_gap_sublist (s : _sgp_context) (pip : sg_pipeline)
    (textures : sgp_textures_uniform) (uniform : Option sgp_uniform) (depth : Nat) :
    (reference_gap s pip textures uniform depth).Sublist (reference_window s depth) :=
  List.takeWhile_sublist _

theorem reference_gap_nodup (s : _sgp_context) (pip : sg_pipeline)
    (textures : sgp_textures_uniform) (uniform : Option sgp_uniform) (depth : Nat) :
    (reference_gap s pip textures uniform depth).Nodup := by
  have h : (reference_gap s pip textures uniform depth).Pairwise (fun a b => b < a) :=
    (reference_window_pairwise s depth).sublist (reference_gap_sublist s pip textures uniform depth)
  exact h.imp (fun hab => by omega)

theorem find_lt_takeWhile (m : Nat → Bool) :
    ∀ (w : List Nat) (p : Nat), w.Pairwise (fun a b => b < a) → w.find? m = some p →
      ∀ i ∈ w.takeWhile (fun i => !m i), p < i := by
  intro w
  induction w with
  | nil => intro p _ h; simp at h
  | cons j w ih =>
    intro p hp h i hi
    by_cases hj : m j = true
    · simp [List.takeWhile_cons, hj] at hi
    · have hj2 : m j = false := by simpa using hj
      rw [List.find?_cons, hj2] at h
      rw [List.takeWhile_cons] at hi
      simp only [hj2, Bool.not_false, if_true, List.mem_cons] at hi
      rw [List.pairwise_cons] at hp
      rcases hi with rfl | hi
      · exact hp.1 p (List.mem_of_find?_eq_some h)
      · exact ih p hp.2 h i hi

/-- The commands of the gap are more recent than the candidate. -/
theorem reference_gap_after_candidate (s : _sgp_context) (pip : sg_pipeline)
    (textures : sgp_textures_uniform) (uniform : Option sgp_uniform) (depth prev i : Nat)
    (h : reference_candidate s pip textures uniform depth = some prev)
    (hi : i ∈ reference_gap s pip textures uniform depth) : prev < i :=
  find_lt_takeWhile (fun i => _sgp_batch_match s pip textures uniform (s.commands i))
    (reference_window s depth) prev (reference_window_pairwise s depth) h i hi

theorem candidate_not_mem_gap (s : _sgp_context) (pip : sg_pipeline)
    (textures : sgp_textures_uniform) (uniform : Option sgp_uniform) (depth prev : Nat)
    (h : reference_candidate s pip textures uniform depth = some prev) :
    prev ∉ reference_gap s pip textures uniform depth := by
  intro hi
  have := reference_gap_after_candidate s pip textures uniform depth prev prev h hi
  omega

theorem take_takeWhile_above (p : Nat → Bool) (b : Nat) (hb : p b = false) :
    ∀ (l : List Nat) (k : Nat), l.Pairwise (fun a c => c < a) → b ∈ l →
      ∀ i ∈ (l.take k).takeWhile p, b < i := by
  intro l
  induction l with
  | nil => intro k _ h; simp at h
  | cons j l ih =>
    intro k hp hmem i hi
    cases k with
    | zero => simp at hi
    | succ k =>
      rw [List.take_succ_cons, List.takeWhile_cons] at hi
      rw [List.pairwise_cons] at hp
      by_cases hj : p j = true
      · simp only [hj, if_true, List.mem_cons] at hi
        have hne : b ≠ j := by
          intro e; subst e; rw [hb] at hj; exact Bool.false_ne_true hj
        have hbl : b ∈ l := by
          rcases List.mem_cons.1 hmem with e | e
          · exact absurd e hne
          · exact e
        rcases hi with rfl | hi
        · exact hp.1 b hbl
        · exact ih k hp.2 hbl i hi
      · simp [hj] at hi

/-- A viewport or scissor command of the segment lies below every command of the
reference window. -/
theorem reference_window_above_barrier (s : _sgp_context) (depth b i : Nat)
    (hb1 : s.state._base_command ≤ b) (hb2 : b < s.cur_command)
    (hb : (s.commands b).cmd = SGP_COMMAND_VIEWPORT ∨ (s.commands b).cmd = SGP_COMMAND_SCISSOR)
    (hi : i ∈ reference_window s depth) : b < i := by
  unfold reference_window at hi
  refine take_takeWhile_above _ b ?_ _ depth
    ((segment_commands_rev_pairwise s).sublist (List.filter_sublist _)) ?_ i hi
  · rcases hb with h | h <;> simp [h]
  · rw [List.mem_filter]
    refine ⟨(mem_segment_commands_rev s b).2 ⟨hb1, hb2⟩, ?_⟩
    rcases hb with h | h <;> simp [h]

theorem prefix_closed_above (t p : List Nat) (x y : Nat)
    (ht : t.Pairwise (fun a b => b < a)) (hp : p <+: t) (hx : x ∈ p) (hy : y ∈ t)
    (hxy : x < y) : y ∈ p := by
  obtain ⟨r, rfl⟩ := hp
  rcases List.mem_append.1 hy with h | h
  · exact h
  · have := (List.pairwise_append.1 ht).2.2 x hx y h
    omega

theorem takeWhile_complete_above (m : Nat → Bool) :
    ∀ (w : List Nat) (p : Nat), w.Pairwise (fun a b => b < a) → w.find? m = some p →
      ∀ y ∈ w, p < y → y ∈ w.takeWhile (fun i => !m i) := by
  intro w
  induction w with
  | nil => intro p _ h; simp at h
  | cons j w ih =>
    intro p hp h y hy hpy
    rw [List.pairwise_cons] at hp
    by_cases hj : m j = true
    · rw [List.find?_cons, hj] at h
      simp only [Option.some.injEq] at h
      subst h
      rcases List.mem_cons.1 hy with e | e
      · omega
      · have := hp.1 y e
        omega
    · have hj2 : m j = false := by simpa using hj
      rw [List.find?_cons, hj2] at h
      rw [List.takeWhile_cons]
      simp only [hj2, Bool.not_false, if_true, List.mem_cons]
      rcases List.mem_cons.1 hy with e | e
      · exact Or.inl e
      · exact Or.inr (ih p hp.2 h y e hpy)

/-- The gap is complete: every command of the segment that is more recent than
the candidate and is not a NoOp belongs to the gap. -/
theorem reference_gap_complete (s : _sgp_context) (pip : sg_pipeline)
    (textures : sgp_textures_uniform) (uniform : Option sgp_uniform) (depth prev i : Nat)
    (h : reference_candidate s pip textures uniform depth = some prev)
    (h1 : prev < i) (h2 : i < s.cur_command)
    (hlive : (s.commands i).cmd ≠ SGP_COMMAND_NONE) :
    i ∈ reference_gap s pip textures uniform depth := by
  have hpw := (reference_candidate_spec s pip textures uniform depth prev h).1
  have hpr := (mem_reference_window s depth prev hpw).1
  have hf : i ∈ (segment_commands_rev s).filter
      (fun i => decide ((s.commands i).cmd ≠ SGP_COMMAND_NONE)) := by
    rw [List.mem_filter]
    exact ⟨(mem_segment_commands_rev s i).2 ⟨by omega, h2⟩, by simpa using hlive⟩
  have hfp : ((segment_commands_rev s).filter
      (fun i => decide ((s.commands i).cmd ≠ SGP_COMMAND_NONE))).Pairwise (fun a b => b < a) :=
    (segment_commands_rev_pairwise s).sublist (List.filter_sublist _)
  have hpt : prev ∈ ((segment_commands_rev s).filter
      (fun i => decide ((s.commands i).cmd ≠ SGP_COMMAND_NONE))).take depth :=
    (List.takeWhile_sublist _).subset hpw
  have ht := prefix_closed_above _ _ prev i hfp (List.take_prefix depth _) hpt hf h1
  have hw : i ∈ reference_window s depth :=
    prefix_closed_above _ _ prev i (hfp.sublist (List.take_sublist _ _))
      (List.takeWhile_prefix _) hpw ht h1
  exact takeWhile_complete_above
    (fun i => _sgp_batch_match s pip textures uniform (s.commands i))
    (reference_window s depth) prev (reference_window_pairwise s depth) h i hw h1

/-! ### The overlap loop and the index offset loop -/

/-- The overlap loop gives up exactly when some intermediate command overlaps
the new region and some intermediate command overlaps the candidate's region;
otherwise it reports, for each of the two regions, whether some intermediate
command overlaps it. -/
theorem merge_overlaps_eq (s : _sgp_context) (region prev_region : _sgp_region) :
    ∀ (l : List Nat) (overlaps_next overlaps_prev : Bool),
      ¬ (overlaps_next = true ∧ overlaps_prev = true) →
      _sgp_merge_overlaps s region prev_region l overlaps_next overlaps_prev
        = if (overlaps_next || l.any (fun i =>
                _sgp_region_overlaps region (s.commands i).args.draw.region))
              && (overlaps_prev || l.any (fun i =>
                _sgp_region_overlaps prev_region (s.commands i).args.draw.region))
          then none
          else some
            (overlaps_next || l.any (fun i =>
                _sgp_region_overlaps region (s.commands i).args.draw.region),
             overlaps_prev || l.any (fun i =>
                _sgp_region_overlaps prev_region (s.commands i).args.draw.region)) := by
  intro l
  induction l with
  | nil =>
    intro a b h
    cases a <;> cases b <;> simp_all [_sgp_merge_overlaps]
  | cons i rest ih =>
    intro a b h
    unfold _sgp_merge_overlaps
    cases hx : _sgp_region_overlaps region (s.commands i).args.draw.region <;>
    cases hy : _sgp_region_overlaps prev_region (s.commands i).args.draw.region <;>
    cases a <;> cases b <;> simp_all

/-- The offset loop over a list without repetition adds `num_vertices` to the
vertex index of the listed commands and changes nothing else. -/
theorem offset_inter_cmds_eq (num_vertices : Nat) :
    ∀ (l : List Nat) (commands : Nat → _sgp_command), l.Nodup → ∀ i,
      _sgp_offset_inter_cmds commands num_vertices l i
        = if i ∈ l then
            { commands i with args := { (commands i).args with draw :=
                { (commands i).args.draw with
                  vertex_index := u32 ((commands i).args.draw.vertex_index + num_vertices) } } }
          else commands i := by
  intro l
  induction l with
  | nil => intro commands _ i; simp [_sgp_offset_inter_cmds]
  | cons j l ih =>
    intro commands hnd i
    rw [List.nodup_cons] at hnd
    unfold _sgp_offset_inter_cmds
    rw [ih _ hnd.2 i]
    by_cases hij : i = j
    · subst hij
      simp [hnd.1]
    · by_cases hil : i ∈ l
      · simp [hij, hil, Function.update_noteq hij]
      · simp [hij, hil, Function.update_noteq hij]

/-! ### Fresh append -/

/-- The append step with room in the queue writes one draw command at the
cursor and advances the cursor by one. -/
theorem queue_draw_append_spec (s : _sgp_context) (pip : sg_pipeline) (region : _sgp_region)
    (uniform_index vertex_index num_vertices : Nat)
    (hroom : s.cur_command < s.num_commands) (hc : s.cur_command < 4294967295) :
    (_sgp_queue_draw_append s pip region uniform_index vertex_index num_vertices).cur_command
        = s.cur_command + 1
    ∧ ((_sgp_queue_draw_append s pip region uniform_index vertex_index num_vertices).commands
        s.cur_command).cmd = SGP_COMMAND_DRAW
    ∧ ((_sgp_queue_draw_append s pip region uniform_index vertex_index num_vertices).commands
        s.cur_command).args.draw
        = { pip := pip, textures := s.state.textures, region := region,
            uniform_index := uniform_index, vertex_index := vertex_index,
            num_vertices := num_vertices }
    ∧ (∀ i, i ≠ s.cur_command →
        (_sgp_queue_draw_append s pip region uniform_index vertex_index num_vertices).commands i
          = s.commands i)
    ∧ (_sgp_queue_draw_append s pip region uniform_index vertex_index num_vertices).vertices
        = s.vertices
    ∧ (_sgp_queue_draw_append s pip region uniform_index vertex_index num_vertices).cur_vertex
        = s.cur_vertex
    ∧ (_sgp_queue_draw_append s pip region uniform_index vertex_index num_vertices).uniforms
        = s.uniforms := by
  have h1 : u32 (s.cur_command + 1) = s.cur_command + 1 := u32_of_lt (by omega)
  have e : _sgp_queue_draw_append s pip region uniform_index vertex_index num_vertices
      = { s with
          cur_command := s.cur_command + 1
          commands := Function.update s.commands s.cur_command
            { cmd := SGP_COMMAND_DRAW
              args := { (s.commands s.cur_command).args with draw :=
                { pip := pip, textures := s.state.textures, region := region,
                  uniform_index := uniform_index, vertex_index := vertex_index,
                  num_vertices := num_vertices } } } } := by
    simp [_sgp_queue_draw_append, _sgp_next_command, hroom, h1]
  rw [e]
  refine ⟨rfl, ?_, ?_, ?_, rfl, rfl, rfl⟩
  · simp
  · simp
  · intro i hi
    simp [Function.update_noteq hi]

/-- The uniform and append steps, with room in the command queue and the
uniform arena, append the draw as a new draw command. -/
theorem queue_draw_fresh_spec (s : _sgp_context) (pip : sg_pipeline)
    (region : _sgp_region) (vertex_index num_vertices : Nat)
    (hcmd : s.cur_command < s.num_commands) (huni : s.cur_uniform < s.num_uniforms)
    (hc : s.cur_command < 4294967295) (hu : s.cur_uniform < 4294967295) :
    appended_as_new_draw s
      (_sgp_queue_draw_fresh s pip (queue_uniform s) region vertex_index num_vertices)
      pip (queue_uniform s) region vertex_index num_vertices := by
  unfold appended_as_new_draw queue_uniform
  by_cases hcustom : s.state.pipeline.id ≠ SG_INVALID_ID
  · rw [if_pos hcustom]
    have hcur1 : u32 (s.cur_uniform + 1) = s.cur_uniform + 1 := u32_of_lt (by omega)
    by_cases hreuse : s.cur_uniform > 0 ∧ s.uniforms (u32_sub s.cur_uniform 1) = s.state.uniform
    · have e : _sgp_queue_draw_fresh s pip (some s.state.uniform) region vertex_index num_vertices
          = _sgp_queue_draw_append s pip region (u32_sub s.cur_uniform 1) vertex_index
              num_vertices := by
        simp [_sgp_queue_draw_fresh, _sgp_prev_uniform, hreuse.1, hreuse.2]
      rw [e]
      obtain ⟨h1, h2, h3, h4, h5, h6, h7⟩ := queue_draw_append_spec s pip region
        (u32_sub s.cur_uniform 1) vertex_index num_vertices hcmd hc
      refine ⟨h1, h2, by rw [h3], by rw [h3], by rw [h3], by rw [h3], by rw [h3], ?_, h4, h5, h6⟩
      show (_sgp_queue_draw_append s pip region (u32_sub s.cur_uniform 1) vertex_index
        num_vertices).uniforms _ = _
      rw [h3, h7]
      exact hreuse.2
    · have e : _sgp_queue_draw_fresh s pip (some s.state.uniform) region vertex_index num_vertices
          = _sgp_queue_draw_append
              { s with cur_uniform := s.cur_uniform + 1,
                       uniforms := Function.update s.uniforms s.cur_uniform s.state.uniform }
              pip region s.cur_uniform vertex_index num_vertices := by
        have hr : (match _sgp_prev_uniform s with
            | none => false
            | some prev_uniform => decide (s.uniforms prev_uniform = s.state.uniform)) = false := by
          unfold _sgp_prev_uniform
          by_cases h0 : s.cur_uniform > 0
          · have : ¬ s.uniforms (u32_sub s.cur_uniform 1) = s.state.uniform :=
              fun h => hreuse ⟨h0, h⟩
            simp [h0, this]
          · simp [h0]
        have hs : u32_sub (s.cur_uniform + 1) 1 = s.cur_uniform :=
          by rw [u32_sub_of_le (by omega) (by omega)]; omega
        simp [_sgp_queue_draw_fresh, hr, _sgp_next_uniform, huni, hcur1, hs]
      rw [e]
      obtain ⟨h1, h2, h3, h4, h5, h6, h7⟩ := queue_draw_append_spec
        { s with cur_uniform := s.cur_uniform + 1,
                 uniforms := Function.update s.uniforms s.cur_uniform s.state.uniform }
        pip region s.cur_uniform vertex_index num_vertices hcmd hc
      refine ⟨h1, h2, by rw [h3], by rw [h3], by rw [h3], by rw [h3], by rw [h3], ?_, h4, h5, h6⟩
      show (_sgp_queue_draw_append _ pip region s.cur_uniform vertex_index
        num_vertices).uniforms _ = _
      rw [h3, h7]
      simp
  · rw [if_neg hcustom]
    have e : _sgp_queue_draw_fresh s pip none region vertex_index num_vertices
        = _sgp_queue_draw_append s pip region _SGP_IMPOSSIBLE_ID vertex_index num_vertices := rfl
    rw [e]
    obtain ⟨h1, h2, h3, h4, h5, h6, -⟩ := queue_draw_append_spec s pip region
      _SGP_IMPOSSIBLE_ID vertex_index num_vertices hcmd hc
    exact ⟨h1, h2, by rw [h3], by rw [h3], by rw [h3], by rw [h3], by rw [h3], by rw [h3], h4, h5,
      h6⟩

/-- The guards of `_sgp_queue_draw` passed and the merge attempt answered, the
draw is either merged or handed to the uniform and append steps. -/
theorem queue_draw_unfold (depth : Nat) (s : _sgp_context) (pip : sg_pipeline)
    (region : _sgp_region) (vertex_index num_vertices : Nat) (primitive_type : sg_primitive_type)
    (hpip : (queue_pipeline s pip).id ≠ SG_INVALID_ID)
    (hreg : ¬ region_out_of_bounds region)
    (merged : Bool × _sgp_context)
    (hmerge : (if primitive_type ≠ SG_PRIMITIVETYPE_TRIANGLE_STRIP
          ∧ primitive_type ≠ SG_PRIMITIVETYPE_LINE_STRIP then
        _sgp_merge_batch_command depth s (queue_pipeline s pip) s.state.textures (queue_uniform s)
          region vertex_index num_vertices
      else (false, s)) = merged) :
    _sgp_queue_draw depth s pip region vertex_index num_vertices primitive_type
      = if merged.1 then merged.2
        else _sgp_queue_draw_fresh merged.2 (queue_pipeline s pip) (queue_uniform s) region
          vertex_index num_vertices := by
  unfold region_out_of_bounds at hreg
  unfold queue_pipeline at hpip hmerge
  unfold queue_uniform at hmerge
  unfold _sgp_queue_draw queue_pipeline queue_uniform
  simp only [hpip, if_false, hreg, hmerge]

/-! ### The merge decision -/

/-- The optimizer in terms of the reference candidate and gap: nothing
happens without a candidate or when the gap overlaps both the new region and the
candidate's region; else the draw is merged into the candidate when the gap does
not overlap the new region, and into a new command when it does. -/
theorem merge_batch_command_eq (depth : Nat) (s : _sgp_context) (pip : sg_pipeline)
    (textures : sgp_textures_uniform) (uniform : Option sgp_uniform) (region : _sgp_region)
    (vertex_index num_vertices : Nat)
    (hd : depth ≠ 0)
    (hb : s.state._base_command ≤ s.cur_command)
    (hc : s.cur_command + depth < 4294967295) :
    _sgp_merge_batch_command depth s pip textures uniform region vertex_index num_vertices
      = match reference_candidate s pip textures uniform depth with
        | none => (false, s)
        | some prev =>
          if gap_overlaps s region (reference_gap s pip textures uniform depth)
              && gap_overlaps s (s.commands prev).args.draw.region
                  (reference_gap s pip textures uniform depth) then (false, s)
          else if gap_overlaps s region (reference_gap s pip textures uniform depth) then
            _sgp_merge_into_next s prev pip textures (s.commands prev).args.draw.region region
              vertex_index num_vertices
          else
            _sgp_merge_into_prev s prev (reference_gap s pip textures uniform depth)
              (s.commands prev).args.draw.region region vertex_index num_vertices := by
  unfold _sgp_merge_batch_command
  rw [if_neg hd, merge_scan_eq_reference s pip textures uniform depth hb hc]
  cases hcand : reference_candidate s pip textures uniform depth with
  | none => rfl
  | some prev =>
    simp only []
    rw [merge_overlaps_eq s region _ _ false false (by simp)]
    simp only [Bool.false_or, gap_overlaps]
    rcases Bool.eq_false_or_eq_true ((reference_gap s pip textures uniform depth).any (fun i =>
        _sgp_region_overlaps region (s.commands i).args.draw.region)) with h1 | h1 <;>
    rcases Bool.eq_false_or_eq_true ((reference_gap s pip textures uniform depth).any (fun i =>
        _sgp_region_overlaps (s.commands prev).args.draw.region
          (s.commands i).args.draw.region)) with h2 | h2 <;> simp [h1, h2]

theorem gap_overlaps_iff (s : _sgp_context) (region : _sgp_region) (gap : List Nat) :
    gap_overlaps s region gap = true
      ↔ ∃ i ∈ gap, _sgp_region_overlaps region (s.commands i).args.draw.region = true := by
  simp [gap_overlaps, List.any_eq_true]

/-! ### Claims on the merge decision -/

/-- C2: when the nearest matching candidate A and the new draw B are separated
by intermediate draw commands, one of which overlaps A's region and one of
which overlaps B's region, `_sgp_merge_batch_command` returns false and leaves
the context (every command and every vertex) unchanged, and the draw call, for a
draw that passes the pipeline and clip-bounds guards and finds room in the
arenas, appends B as a new draw command. -/
theorem overlap_on_both_sides_appends (depth : Nat) (s : _sgp_context) (pip : sg_pipeline)
    (region : _sgp_region) (vertex_index num_vertices : Nat) (primitive_type : sg_primitive_type)
    (prev : Nat)
    (hb : s.state._base_command ≤ s.cur_command)
    (hc : s.cur_command + depth < 4294967295)
    (hpip : (queue_pipeline s pip).id ≠ SG_INVALID_ID)
    (hreg : ¬ region_out_of_bounds region)
    (hcmd : s.cur_command < s.num_commands) (huni : s.cur_uniform < s.num_uniforms)
    (hu : s.cur_uniform < 4294967295)
    (hcand : reference_candidate s (queue_pipeline s pip) s.state.textures (queue_uniform s) depth
      = some prev)
    (hA : ∃ i ∈ reference_gap s (queue_pipeline s pip) s.state.textures (queue_uniform s) depth,
      _sgp_region_overlaps (s.commands prev).args.draw.region (s.commands i).args.draw.region
        = true)
    (hB : ∃ j ∈ reference_gap s (queue_pipeline s pip) s.state.textures (queue_uniform s) depth,
      _sgp_region_overlaps region (s.commands j).args.draw.region = true) :
    _sgp_merge_batch_command depth s (queue_pipeline s pip) s.state.textures (queue_uniform s)
        region vertex_index num_vertices = (false, s)
    ∧ appended_as_new_draw s
        (_sgp_queue_draw depth s pip region vertex_index num_vertices primitive_type)
        (queue_pipeline s pip) (queue_uniform s) region vertex_index num_vertices := by
  have hmerge : _sgp_merge_batch_command depth s (queue_pipeline s pip) s.state.textures
      (queue_uniform s) region vertex_index num_vertices = (false, s) := by
    by_cases hd : depth = 0
    · simp [_sgp_merge_batch_command, hd]
    · rw [merge_batch_command_eq depth s _ _ _ region vertex_index num_vertices hd hb hc, hcand]
      simp only []
      rw [(gap_overlaps_iff s region _).2 hB, (gap_overlaps_iff s _ _).2 hA]
      simp
  refine ⟨hmerge, ?_⟩
  rw [queue_draw_unfold depth s pip region vertex_index num_vertices primitive_type hpip hreg
    (false, s) (by rw [hmerge]; simp)]
  simp only [Bool.false_eq_true, if_false]
  exact queue_draw_fresh_spec s _ region vertex_index num_vertices hcmd huni (by omega) hu

/-- C2 at the overlap example: A in the lower left quarter, X over the whole
clip space, B in the upper right quarter with A's bindings. -/
theorem overlap_on_both_sides_appends_witness :
    _sgp_merge_batch_command 8 overlap_both_context
        (queue_pipeline overlap_both_context { id := 1 }) overlap_both_context.state.textures
        (queue_uniform overlap_both_context) (sample_region 0 0 1 1) 12 6
      = (false, overlap_both_context)
    ∧ appended_as_new_draw overlap_both_context
        (_sgp_queue_draw 8 overlap_both_context { id := 1 } (sample_region 0 0 1 1) 12 6
          SG_PRIMITIVETYPE_TRIANGLES)
        (queue_pipeline overlap_both_context { id := 1 }) (queue_uniform overlap_both_context)
        (sample_region 0 0 1 1) 12 6 :=
  overlap_on_both_sides_appends 8 overlap_both_context { id := 1 } (sample_region 0 0 1 1) 12 6
    SG_PRIMITIVETYPE_TRIANGLES 0 (by decide) (by decide) (by decide) (by decide) (by decide)
    (by decide) (by decide) (by decide) ⟨1, by decide, by decide⟩ ⟨1, by decide, by decide⟩

/-! ### The two merge branches -/

theorem memmove_at_apply {α : Type} (a : Nat → α) (dst src n i : Nat) :
    memmove_at a dst src n i = if dst ≤ i ∧ i < dst + n then a (src + (i - dst)) else a i := rfl

/-- The branch "batch in the previous draw command" across a non-empty gap,
when its two guards pass: the context it returns. -/
theorem merge_into_prev_eq (s : _sgp_context) (prev : Nat) (gap : List Nat)
    (prev_region region : _sgp_region) (vertex_index num_vertices : Nat)
    (hgap : gap ≠ [])
    (hl : merge_layout s prev gap vertex_index num_vertices)
    (hroom : s.cur_vertex + num_vertices ≤ s.num_vertices)
    (hmove : s.cur_vertex - ((s.commands prev).args.draw.vertex_index
      + (s.commands prev).args.draw.num_vertices) ≤ _SGP_MAX_MOVE_VERTICES) :
    _sgp_merge_into_prev s prev gap prev_region region vertex_index num_vertices
      = (true, { s with
          vertices :=
            memmove_at
              (memmove_at s.vertices
                ((s.commands prev).args.draw.vertex_index
                  + (s.commands prev).args.draw.num_vertices + num_vertices)
                ((s.commands prev).args.draw.vertex_index
                  + (s.commands prev).args.draw.num_vertices)
                (s.cur_vertex - ((s.commands prev).args.draw.vertex_index
                  + (s.commands prev).args.draw.num_vertices)))
              ((s.commands prev).args.draw.vertex_index
                + (s.commands prev).args.draw.num_vertices)
              (vertex_index + num_vertices) num_vertices
          commands := Function.update (_sgp_offset_inter_cmds s.commands num_vertices gap) prev
            { _sgp_offset_inter_cmds s.commands num_vertices gap prev with
              args := { (_sgp_offset_inter_cmds s.commands num_vertices gap prev).args with
                draw := { (_sgp_offset_inter_cmds s.commands num_vertices gap prev).args.draw with
                  num_vertices := u32
                    ((_sgp_offset_inter_cmds s.commands num_vertices gap prev).args.draw.num_vertices
                      + num_vertices)
                  region := _sgp_region_union prev_region region } } } }) := by
  obtain ⟨hcap, hin, hres, hpb, -, -⟩ := hl
  have hlen : gap.length > 0 := List.length_pos.2 hgap
  have e1 : u32 (s.cur_vertex + num_vertices) = s.cur_vertex + num_vertices :=
    u32_of_lt (by omega)
  have e2 : u32 ((s.commands prev).args.draw.vertex_index
      + (s.commands prev).args.draw.num_vertices)
      = (s.commands prev).args.draw.vertex_index + (s.commands prev).args.draw.num_vertices :=
    u32_of_lt (by omega)
  have e3 : u32_sub s.cur_vertex ((s.commands prev).args.draw.vertex_index
      + (s.commands prev).args.draw.num_vertices)
      = s.cur_vertex - ((s.commands prev).args.draw.vertex_index
        + (s.commands prev).args.draw.num_vertices) :=
    u32_sub_of_le (by omega) (by omega)
  have e4 : u32 ((s.commands prev).args.draw.vertex_index
      + (s.commands prev).args.draw.num_vertices + num_vertices)
      = (s.commands prev).args.draw.vertex_index + (s.commands prev).args.draw.num_vertices
        + num_vertices := u32_of_lt (by omega)
  have e5 : u32 (vertex_index + num_vertices) = vertex_index + num_vertices :=
    u32_of_lt (by omega)
  unfold _sgp_merge_into_prev
  simp only [hlen, if_true, e1, e2, e3, e4, e5]
  rw [if_neg (by omega), if_neg (by omega)]

theorem region_union_eq (a b : _sgp_region) : _sgp_region_union a b = bounding_union a b := by
  simp [_sgp_region_union, bounding_union, _sg_min_eq, _sg_max_eq]

/-- The branch "batch in the previous draw command", when its guards pass (there
are none for an empty gap), returns true and extends the candidate in place. -/
theorem merge_into_prev_spec (s : _sgp_context) (prev : Nat) (gap : List Nat)
    (region : _sgp_region) (vertex_index num_vertices : Nat)
    (hl : merge_layout s prev gap vertex_index num_vertices)
    (hnd : gap.Nodup) (hp : prev ∉ gap)
    (hroom : gap ≠ [] → s.cur_vertex + num_vertices ≤ s.num_vertices)
    (hmove : gap ≠ [] → s.cur_vertex - ((s.commands prev).args.draw.vertex_index
      + (s.commands prev).args.draw.num_vertices) ≤ _SGP_MAX_MOVE_VERTICES) :
    (_sgp_merge_into_prev s prev gap (s.commands prev).args.draw.region region vertex_index
        num_vertices).1 = true
    ∧ extended_in_place s
        (_sgp_merge_into_prev s prev gap (s.commands prev).args.draw.region region vertex_index
          num_vertices).2 prev gap region vertex_index num_vertices := by
  have hsum : u32 ((s.commands prev).args.draw.num_vertices + num_vertices)
      = (s.commands prev).args.draw.num_vertices + num_vertices :=
    u32_of_lt (by have := hl.capacity; have := hl.in_arena; have := hl.reserved
                  have := hl.prev_before; omega)
  by_cases hgap : gap = []
  · subst hgap
    have hadj := hl.adjacent rfl
    simp only [_sgp_merge_into_prev, List.length_nil, gt_iff_lt, lt_self_iff_false, if_false,
      extended_in_place, hsum, region_union_eq]
    refine ⟨trivial, fun _ _ => trivial, ?_, by simp, by simp, by simp, ?_, trivial, trivial⟩
    · intro k _; rw [hadj]
    · intro i _ hi; simp [Function.update_noteq hi]
  · rw [merge_into_prev_eq s prev gap _ region vertex_index num_vertices hgap hl (hroom hgap)
      (hmove hgap)]
    obtain ⟨hcap, hin, hres, hpb, hgb, -⟩ := hl
    have hoff : ∀ i, _sgp_offset_inter_cmds s.commands num_vertices gap i
        = if i ∈ gap then
            { s.commands i with args := { (s.commands i).args with draw :=
                { (s.commands i).args.draw with
                  vertex_index := u32 ((s.commands i).args.draw.vertex_index + num_vertices) } } }
          else s.commands i := offset_inter_cmds_eq num_vertices gap s.commands hnd
    simp only [extended_in_place]
    refine ⟨trivial, ?_, ?_, ?_, ?_, ?_, ?_, trivial, trivial⟩
    · intro k hk
      simp only [memmove_at_apply]
      rw [if_neg (by omega), if_neg (by omega)]
    · intro k hk
      simp only [memmove_at_apply]
      rw [if_pos (by omega), if_pos (by omega)]
      congr 1
      omega
    · simp [hoff, hp]
    · simp [hoff, hp, hsum, region_union_eq]
    · intro i hi
      have hne : i ≠ prev := fun e => hp (e ▸ hi)
      have hb := hgb i hi
      have hv : u32 ((s.commands i).args.draw.vertex_index + num_vertices)
          = (s.commands i).args.draw.vertex_index + num_vertices := u32_of_lt (by omega)
      simp only [Function.update_noteq hne, hoff, hi, if_true, hv]
      refine ⟨trivial, trivial, ?_⟩
      intro k hk
      simp only [memmove_at_apply]
      rw [if_neg (by omega), if_pos (by omega)]
      congr 1
      omega
    · intro i hi hne
      simp [Function.update_noteq hne, hoff, hi]

/-- Whenever the branch "batch in the previous draw command" returns true, the
command cursor is where it was and the candidate's slot keeps its tag. -/
theorem merge_into_prev_true (s : _sgp_context) (prev : Nat) (gap : List Nat)
    (prev_region region : _sgp_region) (vertex_index num_vertices : Nat)
    (hnd : gap.Nodup) (hp : prev ∉ gap)
    (hm : (_sgp_merge_into_prev s prev gap prev_region region vertex_index num_vertices).1
      = true) :
    (_sgp_merge_into_prev s prev gap prev_region region vertex_index num_vertices).2.cur_command
        = s.cur_command
    ∧ ((_sgp_merge_into_prev s prev gap prev_region region vertex_index
          num_vertices).2.commands prev).cmd = (s.commands prev).cmd := by
  unfold _sgp_merge_into_prev at hm ⊢
  by_cases hlen : gap.length > 0
  · simp only [hlen, if_true] at hm ⊢
    by_cases h1 : u32 (s.cur_vertex + num_vertices) > s.num_vertices
    · simp [h1] at hm
    · simp only [h1, if_false] at hm ⊢
      by_cases h2 : u32_sub s.cur_vertex (u32 ((s.commands prev).args.draw.vertex_index
          + (s.commands prev).args.draw.num_vertices)) > _SGP_MAX_MOVE_VERTICES
      · simp [h2] at hm
      · simp only [h2, if_false]
        simp [offset_inter_cmds_eq num_vertices gap s.commands hnd prev, hp]
  · simp [hlen]

/-- Whenever the branch "batch in the next draw command" returns true, the
command cursor has advanced by one and the candidate's slot is a NoOp. -/
theorem merge_into_next_true (s : _sgp_context) (prev : Nat) (pip : sg_pipeline)
    (textures : sgp_textures_uniform) (prev_region region : _sgp_region)
    (vertex_index num_vertices : Nat)
    (hm : (_sgp_merge_into_next s prev pip textures prev_region region vertex_index
      num_vertices).1 = true) :
    (_sgp_merge_into_next s prev pip textures prev_region region vertex_index
        num_vertices).2.cur_command = u32 (s.cur_command + 1)
    ∧ ((_sgp_merge_into_next s prev pip textures prev_region region vertex_index
          num_vertices).2.commands prev).cmd = SGP_COMMAND_NONE := by
  unfold _sgp_merge_into_next at hm ⊢
  by_cases hcmd : s.cur_command < s.num_commands
  · simp only [_sgp_next_command, hcmd, if_true] at hm ⊢
    by_cases h1 : u32 (s.cur_vertex + (s.commands prev).args.draw.num_vertices) > s.num_vertices
    · simp [h1] at hm
    · simp only [h1, if_false] at hm ⊢
      by_cases h2 : num_vertices > _SGP_MAX_MOVE_VERTICES
      · simp [h2] at hm
      · simp [h2]
  · simp [_sgp_next_command, hcmd] at hm

/-- What the reference candidate and gap are: the candidate is a draw command of
the segment, the gap has no repetition and does not hold the candidate. -/
theorem reference_candidate_facts (s : _sgp_context) (pip : sg_pipeline)
    (textures : sgp_textures_uniform) (uniform : Option sgp_uniform) (depth prev : Nat)
    (h : reference_candidate s pip textures uniform depth = some prev) :
    (s.state._base_command ≤ prev ∧ prev < s.cur_command)
      ∧ (s.commands prev).cmd = SGP_COMMAND_DRAW
      ∧ (reference_gap s pip textures uniform depth).Nodup
      ∧ prev ∉ reference_gap s pip textures uniform depth
      ∧ depth ≠ 0 := by
  have h1 := reference_candidate_spec s pip textures uniform depth prev h
  have h2 := mem_reference_window s depth prev h1.1
  refine ⟨h2.1, h2.2, reference_gap_nodup s pip textures uniform depth,
    candidate_not_mem_gap s pip textures uniform depth prev h, ?_⟩
  intro hd
  subst hd
  simp [reference_window] at h1

theorem gap_overlaps_false_iff (s : _sgp_context) (region : _sgp_region) (gap : List Nat) :
    gap_overlaps s region gap = false
      ↔ ∀ i ∈ gap, _sgp_region_overlaps region (s.commands i).args.draw.region = false := by
  simp [gap_overlaps, List.any_eq_false]

/-- C3: whenever a merge succeeds, the draw that is moved past the intermediate
commands (the commands of the queue after the candidate that are not NoOps)
overlaps none of them. Either the new draw was folded into the candidate (the
candidate's slot is still a draw command and the command cursor is where it
was), and then the new region overlaps no intermediate command's region; or the
candidate was moved into a new command after the gap (the candidate's slot is a
NoOp and the command cursor has advanced by one), and then the candidate's
region overlaps no intermediate command's region. -/
theorem merge_moves_only_clear_draw (depth : Nat) (s : _sgp_context) (pip : sg_pipeline)
    (textures : sgp_textures_uniform) (uniform : Option sgp_uniform) (region : _sgp_region)
    (vertex_index num_vertices prev : Nat)
    (hb : s.state._base_command ≤ s.cur_command)
    (hc : s.cur_command + depth < 4294967295)
    (hcand : reference_candidate s pip textures uniform depth = some prev)
    (hm : (_sgp_merge_batch_command depth s pip textures uniform region vertex_index
      num_vertices).1 = true) :
    (((_sgp_merge_batch_command depth s pip textures uniform region vertex_index
          num_vertices).2.commands prev).cmd = SGP_COMMAND_DRAW
      ∧ (_sgp_merge_batch_command depth s pip textures uniform region vertex_index
          num_vertices).2.cur_command = s.cur_command
      ∧ ∀ i, prev < i → i < s.cur_command → (s.commands i).cmd ≠ SGP_COMMAND_NONE →
          _sgp_region_overlaps region (s.commands i).args.draw.region = false)
    ∨ (((_sgp_merge_batch_command depth s pip textures uniform region vertex_index
          num_vertices).2.commands prev).cmd = SGP_COMMAND_NONE
      ∧ (_sgp_merge_batch_command depth s pip textures uniform region vertex_index
          num_vertices).2.cur_command = s.cur_command + 1
      ∧ ∀ i, prev < i → i < s.cur_command → (s.commands i).cmd ≠ SGP_COMMAND_NONE →
          _sgp_region_overlaps (s.commands prev).args.draw.region
            (s.commands i).args.draw.region = false) := by
  obtain ⟨-, hdraw, hnd, hp, hd⟩ := reference_candidate_facts s pip textures uniform depth prev hcand
  have hgap : ∀ i, prev < i → i < s.cur_command → (s.commands i).cmd ≠ SGP_COMMAND_NONE →
      i ∈ reference_gap s pip textures uniform depth :=
    fun i h1 h2 h3 => reference_gap_complete s pip textures uniform depth prev i hcand h1 h2 h3
  rw [merge_batch_command_eq depth s pip textures uniform region vertex_index num_vertices hd hb
    hc, hcand] at hm ⊢
  simp only [] at hm ⊢
  rcases Bool.eq_false_or_eq_true
    (gap_overlaps s region (reference_gap s pip textures uniform depth)) with hn | hn
  · rcases Bool.eq_false_or_eq_true (gap_overlaps s (s.commands prev).args.draw.region
      (reference_gap s pip textures uniform depth)) with ho | ho
    · simp [hn, ho] at hm
    · simp only [hn, ho, Bool.and_false, Bool.false_eq_true, if_false, if_true] at hm ⊢
      obtain ⟨h1, h2⟩ := merge_into_next_true s prev pip textures _ region vertex_index
        num_vertices hm
      refine Or.inr ⟨h2, ?_, fun i a b c => (gap_overlaps_false_iff s _ _).1 ho i (hgap i a b c)⟩
      rw [h1, u32_of_lt (by omega)]
  · simp only [hn, Bool.false_and, Bool.false_eq_true, if_false] at hm ⊢
    obtain ⟨h1, h2⟩ := merge_into_prev_true s prev _ _ region vertex_index num_vertices hnd hp hm
    exact Or.inl ⟨h2.trans hdraw, h1,
      fun i a b c => (gap_overlaps_false_iff s _ _).1 hn i (hgap i a b c)⟩

/-- C3 at Scenario 3: the third rectangle (upper left quarter, image 1) is
folded into rectangle A across rectangle B, whose region it does not overlap. -/
theorem merge_moves_only_clear_draw_witness :
    ((((_sgp_merge_batch_command 8 scenario3_context { id := 1 } (sample_textures 1) none
          (sample_region (-1) 0 0 1) 12 6).2.commands 0).cmd = SGP_COMMAND_DRAW
      ∧ (_sgp_merge_batch_command 8 scenario3_context { id := 1 } (sample_textures 1) none
          (sample_region (-1) 0 0 1) 12 6).2.cur_command = scenario3_context.cur_command
      ∧ ∀ i, 0 < i → i < scenario3_context.cur_command →
          (scenario3_context.commands i).cmd ≠ SGP_COMMAND_NONE →
          _sgp_region_overlaps (sample_region (-1) 0 0 1)
            (scenario3_context.commands i).args.draw.region = false)
    ∨ (((_sgp_merge_batch_command 8 scenario3_context { id := 1 } (sample_textures 1) none
          (sample_region (-1) 0 0 1) 12 6).2.commands 0).cmd = SGP_COMMAND_NONE
      ∧ (_sgp_merge_batch_command 8 scenario3_context { id := 1 } (sample_textures 1) none
          (sample_region (-1) 0 0 1) 12 6).2.cur_command = scenario3_context.cur_command + 1
      ∧ ∀ i, 0 < i → i < scenario3_context.cur_command →
          (scenario3_context.commands i).cmd ≠ SGP_COMMAND_NONE →
          _sgp_region_overlaps (scenario3_context.commands 0).args.draw.region
            (scenario3_context.commands i).args.draw.region = false))
    ∧ reference_gap scenario3_context { id := 1 } (sample_textures 1) none 8 = [1] :=
  ⟨merge_moves_only_clear_draw 8 scenario3_context { id := 1 } (sample_textures 1) none
    (sample_region (-1) 0 0 1) 12 6 0 (by decide) (by decide) (by decide) (by decide),
    by decide⟩

/-- The merge into the candidate on an arena with the layout `merge_layout`, in
which the new vertices directly follow the candidate's span when there is no
gap command: when a candidate is found, the new draw's region overlaps no gap
command and the relocation guards pass (room to stage the move and at most 96
vertices to move; none for an empty gap), the optimizer returns true and extends
the candidate in place: `extended_in_place` says that the candidate's span holds
its previous vertices followed by the new draw's, that its count has grown by
the new count and its region is the bounding union, that every gap command has
its vertex index raised by the new count and finds the same vertices in its
span, and that the command cursor and the vertex cursor are unchanged. -/
theorem merge_extends_candidate_in_place (depth : Nat) (s : _sgp_context) (pip : sg_pipeline)
    (textures : sgp_textures_uniform) (uniform : Option sgp_uniform) (region : _sgp_region)
    (vertex_index num_vertices prev : Nat)
    (hb : s.state._base_command ≤ s.cur_command)
    (hc : s.cur_command + depth < 4294967295)
    (hcand : reference_candidate s pip textures uniform depth = some prev)
    (hclear : ∀ i ∈ reference_gap s pip textures uniform depth,
      _sgp_region_overlaps region (s.commands i).args.draw.region = false)
    (hl : merge_layout s prev (reference_gap s pip textures uniform depth) vertex_index
      num_vertices)
    (hroom : reference_gap s pip textures uniform depth ≠ [] →
      s.cur_vertex + num_vertices ≤ s.num_vertices)
    (hmove : reference_gap s pip textures uniform depth ≠ [] →
      s.cur_vertex - ((s.commands prev).args.draw.vertex_index
        + (s.commands prev).args.draw.num_vertices) ≤ _SGP_MAX_MOVE_VERTICES) :
    (_sgp_merge_batch_command depth s pip textures uniform region vertex_index
        num_vertices).1 = true
    ∧ extended_in_place s
        (_sgp_merge_batch_command depth s pip textures uniform region vertex_index
          num_vertices).2
        prev (reference_gap s pip textures uniform depth) region vertex_index num_vertices := by
  obtain ⟨-, -, hnd, hp, hd⟩ := reference_candidate_facts s pip textures uniform depth prev hcand
  rw [merge_batch_command_eq depth s pip textures uniform region vertex_index num_vertices hd hb
    hc, hcand]
  simp only [(gap_overlaps_false_iff s region _).2 hclear, Bool.false_and, Bool.false_eq_true,
    if_false]
  exact merge_into_prev_spec s prev _ region vertex_index num_vertices hl hnd hp hroom hmove

/-- The merge into the candidate at Scenario 3: the third rectangle is folded
into rectangle A, and the queue holds two draw commands, not three. -/
theorem merge_extends_candidate_in_place_witness :
    ((_sgp_merge_batch_command 8 scenario3_context { id := 1 } (sample_textures 1) none
        (sample_region (-1) 0 0 1) 12 6).1 = true
      ∧ extended_in_place scenario3_context
        (_sgp_merge_batch_command 8 scenario3_context { id := 1 } (sample_textures 1) none
          (sample_region (-1) 0 0 1) 12 6).2
        0 (reference_gap scenario3_context { id := 1 } (sample_textures 1) none 8)
        (sample_region (-1) 0 0 1) 12 6)
    ∧ reference_gap scenario3_context { id := 1 } (sample_textures 1) none 8 = [1]
    ∧ (_sgp_queue_draw 8 scenario3_context { id := 1 } (sample_region (-1) 0 0 1) 12 6
        SG_PRIMITIVETYPE_TRIANGLES).cur_command = 2 :=
  ⟨merge_extends_candidate_in_place 8 scenario3_context { id := 1 } (sample_textures 1) none
    (sample_region (-1) 0 0 1) 12 6 0 (by decide) (by decide) (by decide) (by decide)
    ⟨by decide, by decide, by decide, by decide, by decide, by decide⟩
    (fun _ => by decide) (fun _ => by decide), by decide, by decide⟩

/-- The branch "batch in the previous draw command" never touches a command
other than the candidate and the gap commands, and leaves the command cursor,
whatever it returns. -/
theorem merge_into_prev_frame (s : _sgp_context) (prev : Nat) (gap : List Nat)
    (prev_region region : _sgp_region) (vertex_index num_vertices : Nat) (hnd : gap.Nodup) :
    (_sgp_merge_into_prev s prev gap prev_region region vertex_index num_vertices).2.cur_command
        = s.cur_command
    ∧ ∀ i, i ∉ gap → i ≠ prev →
        (_sgp_merge_into_prev s prev gap prev_region region vertex_index
          num_vertices).2.commands i = s.commands i := by
  unfold _sgp_merge_into_prev
  by_cases hlen : gap.length > 0
  · simp only [hlen, if_true]
    by_cases h1 : u32 (s.cur_vertex + num_vertices) > s.num_vertices
    · simp [h1]
    · simp only [h1, if_false]
      by_cases h2 : u32_sub s.cur_vertex (u32 ((s.commands prev).args.draw.vertex_index
          + (s.commands prev).args.draw.num_vertices)) > _SGP_MAX_MOVE_VERTICES
      · simp [h2]
      · simp only [h2, if_false]
        refine ⟨trivial, ?_⟩
        intro i hi hne
        simp [Function.update_noteq hne, offset_inter_cmds_eq num_vertices gap s.commands hnd i, hi]
  · simp only [hlen, if_false]
    refine ⟨trivial, ?_⟩
    intro i _ hne
    simp [Function.update_noteq hne]

/-- The branch "batch in the next draw command" never touches a command other
than the candidate and the slot at the cursor, and never moves the command
cursor back, whatever it returns. -/
theorem merge_into_next_frame (s : _sgp_context) (prev : Nat) (pip : sg_pipeline)
    (textures : sgp_textures_uniform) (prev_region region : _sgp_region)
    (vertex_index num_vertices : Nat) (hc : s.cur_command < 4294967295) :
    s.cur_command ≤ (_sgp_merge_into_next s prev pip textures prev_region region vertex_index
        num_vertices).2.cur_command
    ∧ ∀ i, i ≠ prev → i ≠ s.cur_command →
        (_sgp_merge_into_next s prev pip textures prev_region region vertex_index
          num_vertices).2.commands i = s.commands i := by
  have e1 : u32 (s.cur_command + 1) = s.cur_command + 1 := u32_of_lt (by omega)
  unfold _sgp_merge_into_next
  by_cases hcmd : s.cur_command < s.num_commands
  · simp only [_sgp_next_command, hcmd, if_true, e1]
    by_cases h1 : u32 (s.cur_vertex + (s.commands prev).args.draw.num_vertices) > s.num_vertices
    · simp [h1]
    · simp only [h1, if_false]
      by_cases h2 : num_vertices > _SGP_MAX_MOVE_VERTICES
      · simp [h2]
      · simp only [h2, if_false]
        refine ⟨by simp, ?_⟩
        intro i hi1 hi2
        simp [Function.update_noteq hi1, Function.update_noteq hi2]
  · simp [_sgp_next_command, hcmd, _sgp_set_error]

/-- The optimizer never touches a command of the queue outside the reference
window and never moves the command cursor back, whatever it returns. -/
theorem merge_batch_command_frame (depth : Nat) (s : _sgp_context) (pip : sg_pipeline)
    (textures : sgp_textures_uniform) (uniform : Option sgp_uniform) (region : _sgp_region)
    (vertex_index num_vertices : Nat)
    (hb : s.state._base_command ≤ s.cur_command)
    (hc : s.cur_command + depth < 4294967295) :
    s.cur_command ≤ (_sgp_merge_batch_command depth s pip textures uniform region vertex_index
        num_vertices).2.cur_command
    ∧ ∀ i, i < s.cur_command → i ∉ reference_window s depth →
        (_sgp_merge_batch_command depth s pip textures uniform region vertex_index
          num_vertices).2.commands i = s.commands i := by
  by_cases hd : depth = 0
  · simp [_sgp_merge_batch_command, hd]
  · rw [merge_batch_command_eq depth s pip textures uniform region vertex_index num_vertices hd
      hb hc]
    cases hcand : reference_candidate s pip textures uniform depth with
    | none => simp
    | some prev =>
      have hpw := (reference_candidate_spec s pip textures uniform depth prev hcand).1
      have hnd := reference_gap_nodup s pip textures uniform depth
      simp only []
      split
      · simp
      · split
        · obtain ⟨h1, h2⟩ := merge_into_next_frame s prev pip textures
            (s.commands prev).args.draw.region region vertex_index num_vertices (by omega)
          refine ⟨h1, ?_⟩
          intro i hi hw
          exact h2 i (fun e => hw (e ▸ hpw)) (by omega)
        · obtain ⟨h1, h2⟩ := merge_into_prev_frame s prev
            (reference_gap s pip textures uniform depth)
            (s.commands prev).args.draw.region region vertex_index num_vertices hnd
          refine ⟨by omega, ?_⟩
          intro i _ hw
          exact h2 i (fun hg => hw ((reference_gap_sublist s pip textures uniform depth).subset hg))
            (fun e => hw (e ▸ hpw))

/-- The append step never touches a command below the cursor. -/
theorem queue_draw_append_frame (s : _sgp_context) (pip : sg_pipeline) (region : _sgp_region)
    (uniform_index vertex_index num_vertices : Nat) :
    ∀ i, i < s.cur_command →
      (_sgp_queue_draw_append s pip region uniform_index vertex_index num_vertices).commands i
        = s.commands i := by
  intro i hi
  unfold _sgp_queue_draw_append _sgp_next_command
  by_cases hcmd : s.cur_command < s.num_commands
  · have hne : i ≠ s.cur_command := by omega
    simp [hcmd, Function.update_noteq hne]
  · simp [hcmd, _sgp_set_error]

/-- The uniform and append steps never touch a command below the cursor. -/
theorem queue_draw_fresh_frame (s : _sgp_context) (pip : sg_pipeline)
    (uniform : Option sgp_uniform) (region : _sgp_region) (vertex_index num_vertices : Nat) :
    ∀ i, i < s.cur_command →
      (_sgp_queue_draw_fresh s pip uniform region vertex_index num_vertices).commands i
        = s.commands i := by
  intro i hi
  unfold _sgp_queue_draw_fresh
  cases uniform with
  | none => exact queue_draw_append_frame s pip region _ vertex_index num_vertices i hi
  | some u =>
    simp only []
    split
    · unfold _sgp_next_uniform
      by_cases huni : s.cur_uniform < s.num_uniforms
      · simp only [huni, if_true]
        exact queue_draw_append_frame _ pip region _ vertex_index num_vertices i hi
      · simp [huni, _sgp_set_error]
    · exact queue_draw_append_frame s pip region _ vertex_index num_vertices i hi

/-- A draw without a valid pipeline is rolled back. -/
theorem queue_draw_invalid_pipeline (depth : Nat) (s : _sgp_context) (pip : sg_pipeline)
    (region : _sgp_region) (vertex_index num_vertices : Nat) (primitive_type : sg_primitive_type)
    (hpip : (queue_pipeline s pip).id = SG_INVALID_ID) :
    _sgp_queue_draw depth s pip region vertex_index num_vertices primitive_type
      = { s with cur_vertex := u32_sub s.cur_vertex num_vertices } := by
  unfold queue_pipeline at hpip
  unfold _sgp_queue_draw
  simp only []
  rw [if_pos hpip]

/-- A draw whose region lies outside the clip bounds is rolled back. -/
theorem queue_draw_out_of_bounds (depth : Nat) (s : _sgp_context) (pip : sg_pipeline)
    (region : _sgp_region) (vertex_index num_vertices : Nat) (primitive_type : sg_primitive_type)
    (hpip : (queue_pipeline s pip).id ≠ SG_INVALID_ID)
    (hreg : region_out_of_bounds region) :
    _sgp_queue_draw depth s pip region vertex_index num_vertices primitive_type
      = { s with cur_vertex := u32_sub s.cur_vertex num_vertices } := by
  unfold queue_pipeline at hpip
  unfold region_out_of_bounds at hreg
  unfold _sgp_queue_draw
  simp only []
  rw [if_neg hpip, if_pos hreg]

/-- A draw call never touches a command of the queue outside the reference
window of the optimizer. -/
theorem queue_draw_frame (depth : Nat) (s : _sgp_context) (pip : sg_pipeline)
    (region : _sgp_region) (vertex_index num_vertices : Nat) (primitive_type : sg_primitive_type)
    (hb : s.state._base_command ≤ s.cur_command)
    (hc : s.cur_command + depth < 4294967295) :
    ∀ i, i < s.cur_command → i ∉ reference_window s depth →
      (_sgp_queue_draw depth s pip region vertex_index num_vertices primitive_type).commands i
        = s.commands i := by
  intro i hi hw
  by_cases hpip : (queue_pipeline s pip).id = SG_INVALID_ID
  · rw [queue_draw_invalid_pipeline depth s pip region vertex_index num_vertices primitive_type
      hpip]
  · by_cases hreg : region_out_of_bounds region
    · rw [queue_draw_out_of_bounds depth s pip region vertex_index num_vertices primitive_type
        hpip hreg]
    · obtain ⟨m, hm⟩ : ∃ m, (if primitive_type ≠ SG_PRIMITIVETYPE_TRIANGLE_STRIP
              ∧ primitive_type ≠ SG_PRIMITIVETYPE_LINE_STRIP then
            _sgp_merge_batch_command depth s (queue_pipeline s pip) s.state.textures
              (queue_uniform s) region vertex_index num_vertices
          else (false, s)) = m := ⟨_, rfl⟩
      rw [queue_draw_unfold depth s pip region vertex_index num_vertices primitive_type hpip hreg
        m hm]
      have hframe : s.cur_command ≤ m.2.cur_command ∧ m.2.commands i = s.commands i := by
        rw [← hm]
        split
        · obtain ⟨h1, h2⟩ := merge_batch_command_frame depth s (queue_pipeline s pip)
            s.state.textures (queue_uniform s) region vertex_index num_vertices hb hc
          exact ⟨h1, h2 i hi hw⟩
        · exact ⟨le_refl _, rfl⟩
      by_cases h1 : m.1 = true
      · rw [if_pos h1]; exact hframe.2
      · rw [if_neg h1,
          queue_draw_fresh_frame _ _ _ region vertex_index num_vertices i (by omega)]
        exact hframe.2

/-! ### Claims on the candidate -/

/-- A handle given to `sgp_set_pipeline` that carries the id of one of the
library's default pipelines is not told apart from it: a draw without a
uniform snapshot (no custom pipeline set) is then merged into a command that
has one. The command in slot 0 was queued under a custom pipeline with id 1
and holds uniform index 0; the new draw comes with the default pipeline of id 1
and the same textures; the optimizer picks slot 0 and returns true, and the
draw call leaves one command of 12 vertices with uniform index 0. The backend
hands out no two pipelines with one id, so that an application gets to such a
handle only by making it up. -/
theorem forged_pipeline_id_merges :
    queue_uniform forged_pipeline_context = none
    ∧ (forged_pipeline_context.commands 0).cmd = SGP_COMMAND_DRAW
    ∧ (forged_pipeline_context.commands 0).args.draw.uniform_index = 0
    ∧ (forged_pipeline_context.commands 0).args.draw.uniform_index ≠ _SGP_IMPOSSIBLE_ID
    ∧ reference_candidate forged_pipeline_context { id := 1 }
        forged_pipeline_context.state.textures none 8 = some 0
    ∧ (_sgp_merge_batch_command 8 forged_pipeline_context { id := 1 }
        forged_pipeline_context.state.textures none (sample_region (-1) (-1) 0 0) 6 6).1 = true
    ∧ (_sgp_queue_draw 8 forged_pipeline_context { id := 1 } (sample_region (-1) (-1) 0 0) 6 6
        SG_PRIMITIVETYPE_TRIANGLES).cur_command = 1
    ∧ ((_sgp_queue_draw 8 forged_pipeline_context { id := 1 } (sample_region (-1) (-1) 0 0) 6 6
        SG_PRIMITIVETYPE_TRIANGLES).commands 0).args.draw.num_vertices = 12
    ∧ ((_sgp_queue_draw 8 forged_pipeline_context { id := 1 } (sample_region (-1) (-1) 0 0) 6 6
        SG_PRIMITIVETYPE_TRIANGLES).commands 0).args.draw.uniform_index = 0 := by
  decide

theorem batch_match_iff (s : _sgp_context) (pip : sg_pipeline) (textures : sgp_textures_uniform)
    (uniform : Option sgp_uniform) (cmd : _sgp_command) :
    _sgp_batch_match s pip textures uniform cmd = true
      ↔ cmd.args.draw.pip.id = pip.id ∧ textures = cmd.args.draw.textures
        ∧ ∀ u, uniform = some u → u = s.uniforms cmd.args.draw.uniform_index := by
  unfold _sgp_batch_match
  cases uniform with
  | none => simp
  | some u => simp [and_assoc]

/-- The merge test on any queue: a new draw is merged only into a draw command
of the segment
(the reference candidate, on which one of the two merge branches then acts)
whose pipeline id is equal and whose texture binding set is equal to the new
draw's; when the new draw has a uniform snapshot, the snapshot stored at the
command's uniform index is equal to it; when it has none, the command's
uniform is not examined. In a queue where the draw commands with the new
draw's pipeline id have a uniform exactly when the new draw has one, a draw
without a snapshot is merged only into a command that has none, and a draw with
a snapshot only into a command that has one. -/
theorem merge_only_into_matching_command (depth : Nat) (s : _sgp_context) (pip : sg_pipeline)
    (textures : sgp_textures_uniform) (uniform : Option sgp_uniform) (region : _sgp_region)
    (vertex_index num_vertices : Nat)
    (hb : s.state._base_command ≤ s.cur_command)
    (hc : s.cur_command + depth < 4294967295)
    (hm : (_sgp_merge_batch_command depth s pip textures uniform region vertex_index
      num_vertices).1 = true) :
    ∃ prev, reference_candidate s pip textures uniform depth = some prev
      ∧ (s.state._base_command ≤ prev ∧ prev < s.cur_command)
      ∧ (s.commands prev).cmd = SGP_COMMAND_DRAW
      ∧ (s.commands prev).args.draw.pip.id = pip.id
      ∧ (s.commands prev).args.draw.textures = textures
      ∧ (∀ u, uniform = some u → s.uniforms (s.commands prev).args.draw.uniform_index = u)
      ∧ (_sgp_merge_batch_command depth s pip textures uniform region vertex_index num_vertices
            = _sgp_merge_into_prev s prev (reference_gap s pip textures uniform depth)
                (s.commands prev).args.draw.region region vertex_index num_vertices
          ∨ _sgp_merge_batch_command depth s pip textures uniform region vertex_index num_vertices
            = _sgp_merge_into_next s prev pip textures (s.commands prev).args.draw.region region
                vertex_index num_vertices)
      ∧ ((∀ i, s.state._base_command ≤ i → i < s.cur_command →
            (s.commands i).cmd = SGP_COMMAND_DRAW → (s.commands i).args.draw.pip.id = pip.id →
            ((s.commands i).args.draw.uniform_index = _SGP_IMPOSSIBLE_ID ↔ uniform = none)) →
          ((s.commands prev).args.draw.uniform_index = _SGP_IMPOSSIBLE_ID ↔ uniform = none)) := by
  have hd : depth ≠ 0 := by
    intro hd
    simp [_sgp_merge_batch_command, hd] at hm
  rw [merge_batch_command_eq depth s pip textures uniform region vertex_index num_vertices hd hb
    hc] at hm ⊢
  cases hcand : reference_candidate s pip textures uniform depth with
  | none => simp [hcand] at hm
  | some prev =>
    obtain ⟨hr, hdraw, -, -, -⟩ := reference_candidate_facts s pip textures uniform depth prev hcand
    have hmatch := (batch_match_iff s pip textures uniform _).1
      (reference_candidate_spec s pip textures uniform depth prev hcand).2
    rw [hcand] at hm
    simp only [] at hm ⊢
    refine ⟨prev, rfl, hr, hdraw, hmatch.1, hmatch.2.1.symm, fun u hu => (hmatch.2.2 u hu).symm,
      ?_, fun h => h prev hr.1 hr.2 hdraw hmatch.1⟩
    by_cases h1 : (gap_overlaps s region (reference_gap s pip textures uniform depth)
        && gap_overlaps s (s.commands prev).args.draw.region
            (reference_gap s pip textures uniform depth)) = true
    · rw [if_pos h1] at hm
      simp at hm
    · rw [if_neg h1]
      by_cases h2 : gap_overlaps s region (reference_gap s pip textures uniform depth) = true
      · rw [if_pos h2]; exact Or.inr rfl
      · rw [if_neg h2]; exact Or.inl rfl

/-- The merge test at Scenario 3: the third rectangle is merged into slot 0. -/
theorem merge_only_into_matching_command_witness :
    ∃ prev, reference_candidate scenario3_context { id := 1 } (sample_textures 1) none 8
        = some prev
      ∧ (scenario3_context.state._base_command ≤ prev ∧ prev < scenario3_context.cur_command)
      ∧ (scenario3_context.commands prev).cmd = SGP_COMMAND_DRAW
      ∧ (scenario3_context.commands prev).args.draw.pip.id = ({ id := 1 } : sg_pipeline).id
      ∧ (scenario3_context.commands prev).args.draw.textures = sample_textures 1
      ∧ (∀ u, (none : Option sgp_uniform) = some u →
          scenario3_context.uniforms (scenario3_context.commands prev).args.draw.uniform_index = u)
      ∧ (_sgp_merge_batch_command 8 scenario3_context { id := 1 } (sample_textures 1) none
              (sample_region (-1) 0 0 1) 12 6
            = _sgp_merge_into_prev scenario3_context prev
                (reference_gap scenario3_context { id := 1 } (sample_textures 1) none 8)
                (scenario3_context.commands prev).args.draw.region (sample_region (-1) 0 0 1) 12 6
          ∨ _sgp_merge_batch_command 8 scenario3_context { id := 1 } (sample_textures 1) none
              (sample_region (-1) 0 0 1) 12 6
            = _sgp_merge_into_next scenario3_context prev { id := 1 } (sample_textures 1)
                (scenario3_context.commands prev).args.draw.region (sample_region (-1) 0 0 1) 12 6)
      ∧ ((∀ i, scenario3_context.state._base_command ≤ i → i < scenario3_context.cur_command →
            (scenario3_context.commands i).cmd = SGP_COMMAND_DRAW →
            (scenario3_context.commands i).args.draw.pip.id = ({ id := 1 } : sg_pipeline).id →
            ((scenario3_context.commands i).args.draw.uniform_index = _SGP_IMPOSSIBLE_ID
              ↔ (none : Option sgp_uniform) = none)) →
          ((scenario3_context.commands prev).args.draw.uniform_index = _SGP_IMPOSSIBLE_ID
            ↔ (none : Option sgp_uniform) = none)) :=
  merge_only_into_matching_command 8 scenario3_context { id := 1 } (sample_textures 1) none
    (sample_region (-1) 0 0 1) 12 6 (by decide) (by decide) (by decide)

/-- C7: a viewport or scissor command of the segment is a hard barrier. With
such a command at index `b`, the candidate of the optimizer, the only command
a new draw is merged into, lies after `b`, and the draw call leaves every
command at or before `b` unchanged. -/
theorem barrier_stops_optimizer (depth : Nat) (s : _sgp_context) (pip : sg_pipeline)
    (region : _sgp_region) (vertex_index num_vertices : Nat) (primitive_type : sg_primitive_type)
    (b : Nat)
    (hb : s.state._base_command ≤ s.cur_command)
    (hc : s.cur_command + depth < 4294967295)
    (hb1 : s.state._base_command ≤ b) (hb2 : b < s.cur_command)
    (hbar : (s.commands b).cmd = SGP_COMMAND_VIEWPORT ∨ (s.commands b).cmd = SGP_COMMAND_SCISSOR) :
    (∀ prev, reference_candidate s (queue_pipeline s pip) s.state.textures (queue_uniform s) depth
        = some prev → b < prev)
    ∧ (∀ i, i ≤ b →
        (_sgp_queue_draw depth s pip region vertex_index num_vertices primitive_type).commands i
          = s.commands i) := by
  constructor
  · intro prev hcand
    exact reference_window_above_barrier s depth b prev hb1 hb2 hbar
      (reference_candidate_spec s _ _ _ depth prev hcand).1
  · intro i hi
    refine queue_draw_frame depth s pip region vertex_index num_vertices primitive_type hb hc i
      (by omega) ?_
    intro hw
    have := reference_window_above_barrier s depth b i hb1 hb2 hbar hw
    omega

/-- C7 at a queue with a viewport command after a matching draw: the new draw
is not merged into slot 0 but appended in slot 2. -/
theorem barrier_stops_optimizer_witness :
    ((∀ prev, reference_candidate barrier_context (queue_pipeline barrier_context { id := 1 })
        barrier_context.state.textures (queue_uniform barrier_context) 8 = some prev → 1 < prev)
    ∧ (∀ i, i ≤ 1 →
        (_sgp_queue_draw 8 barrier_context { id := 1 } (sample_region (-1) (-1) 0 0) 6 6
          SG_PRIMITIVETYPE_TRIANGLES).commands i = barrier_context.commands i))
    ∧ (_sgp_queue_draw 8 barrier_context { id := 1 } (sample_region (-1) (-1) 0 0) 6 6
          SG_PRIMITIVETYPE_TRIANGLES).cur_command = 3 :=
  ⟨barrier_stops_optimizer 8 barrier_context { id := 1 } (sample_region (-1) (-1) 0 0) 6 6
    SG_PRIMITIVETYPE_TRIANGLES 1 (by decide) (by decide) (by decide) (by decide)
    (Or.inl (by decide)), by decide⟩

/-- C8: the candidate chosen by the backward scan is the reference candidate:
among the commands of the segment, walking back from the most recent one and
ignoring NoOp entries, the nearest draw command with matching pipeline,
textures and uniform within the `depth` (8 by default) most recent non-NoOp
commands and not behind a viewport or scissor command. The intermediate
commands the scan collects are the reference gap, more fuel does not change the
result of the scan, and without a reference candidate no merge happens. -/
theorem scan_finds_reference_candidate (depth : Nat) (s : _sgp_context) (pip : sg_pipeline)
    (textures : sgp_textures_uniform) (uniform : Option sgp_uniform)
    (hb : s.state._base_command ≤ s.cur_command)
    (hc : s.cur_command + depth < 4294967295) :
    _sgp_merge_scan s pip textures uniform
        (u32_sub s.cur_command s.state._base_command + 1) 0 depth []
      = (reference_candidate s pip textures uniform depth,
         reference_gap s pip textures uniform depth)
    ∧ (∀ extra, _sgp_merge_scan s pip textures uniform
          (u32_sub s.cur_command s.state._base_command + 1 + extra) 0 depth []
        = _sgp_merge_scan s pip textures uniform
          (u32_sub s.cur_command s.state._base_command + 1) 0 depth [])
    ∧ (reference_candidate s pip textures uniform depth = none →
        ∀ region vertex_index num_vertices,
          _sgp_merge_batch_command depth s pip textures uniform region vertex_index num_vertices
            = (false, s)) := by
  refine ⟨merge_scan_eq_reference s pip textures uniform depth hb hc,
    fun extra => merge_scan_fuel_enough s pip textures uniform depth extra hb hc, ?_⟩
  intro hnone region vertex_index num_vertices
  by_cases hd : depth = 0
  · simp [_sgp_merge_batch_command, hd]
  · rw [merge_batch_command_eq depth s pip textures uniform region vertex_index num_vertices hd
      hb hc, hnone]

/-- C8 at a queue with NoOp entries: with depth 8 and with depth 2 the scan
skips the three NoOps and finds the draw in slot 0 behind the draw in slot 2;
with depth 1 it finds none. -/
theorem scan_finds_reference_candidate_witness :
    (_sgp_merge_scan noop_context { id := 1 } (sample_textures 1) none
        (u32_sub noop_context.cur_command noop_context.state._base_command + 1) 0 8 []
      = (reference_candidate noop_context { id := 1 } (sample_textures 1) none 8,
         reference_gap noop_context { id := 1 } (sample_textures 1) none 8)
    ∧ (∀ extra, _sgp_merge_scan noop_context { id := 1 } (sample_textures 1) none
          (u32_sub noop_context.cur_command noop_context.state._base_command + 1 + extra) 0 8 []
        = _sgp_merge_scan noop_context { id := 1 } (sample_textures 1) none
          (u32_sub noop_context.cur_command noop_context.state._base_command + 1) 0 8 [])
    ∧ (reference_candidate noop_context { id := 1 } (sample_textures 1) none 8 = none →
        ∀ region vertex_index num_vertices,
          _sgp_merge_batch_command 8 noop_context { id := 1 } (sample_textures 1) none region
            vertex_index num_vertices = (false, noop_context)))
    ∧ reference_candidate noop_context { id := 1 } (sample_textures 1) none 8 = some 0
    ∧ reference_gap noop_context { id := 1 } (sample_textures 1) none 8 = [2]
    ∧ reference_candidate noop_context { id := 1 } (sample_textures 1) none 2 = some 0
    ∧ reference_candidate noop_context { id := 1 } (sample_textures 1) none 1 = none :=
  ⟨scan_finds_reference_candidate 8 noop_context { id := 1 } (sample_textures 1) none
    (by decide) (by decide), by decide, by decide, by decide, by decide⟩

/-- C9: a draw whose primitive type is triangle-strip or line-strip, with a
valid pipeline, a region not outside the clip bounds and room in the command
queue and the uniform arena, is always appended as a new draw command, whatever
the queue holds: the command cursor grows by exactly one, the new command
holds the draw, and no other command and no vertex is modified. -/
theorem strip_is_always_appended (depth : Nat) (s : _sgp_context) (pip : sg_pipeline)
    (region : _sgp_region) (vertex_index num_vertices : Nat) (primitive_type : sg_primitive_type)
    (hstrip : primitive_type = SG_PRIMITIVETYPE_TRIANGLE_STRIP
      ∨ primitive_type = SG_PRIMITIVETYPE_LINE_STRIP)
    (hpip : (queue_pipeline s pip).id ≠ SG_INVALID_ID)
    (hreg : ¬ region_out_of_bounds region)
    (hcmd : s.cur_command < s.num_commands) (huni : s.cur_uniform < s.num_uniforms)
    (hc : s.cur_command < 4294967295) (hu : s.cur_uniform < 4294967295) :
    appended_as_new_draw s
      (_sgp_queue_draw depth s pip region vertex_index num_vertices primitive_type)
      (queue_pipeline s pip) (queue_uniform s) region vertex_index num_vertices := by
  have hm : (if primitive_type ≠ SG_PRIMITIVETYPE_TRIANGLE_STRIP
          ∧ primitive_type ≠ SG_PRIMITIVETYPE_LINE_STRIP then
        _sgp_merge_batch_command depth s (queue_pipeline s pip) s.state.textures (queue_uniform s)
          region vertex_index num_vertices
      else (false, s)) = (false, s) := by
    rw [if_neg]
    rcases hstrip with h | h <;> simp [h]
  rw [queue_draw_unfold depth s pip region vertex_index num_vertices primitive_type hpip hreg
    (false, s) hm]
  simp only [Bool.false_eq_true, if_false]
  exact queue_draw_fresh_spec s _ region vertex_index num_vertices hcmd huni hc hu

/-- C9 at a queue whose most recent command has the pipeline and textures of
the new strip: the strip is appended in slot 1 all the same. -/
theorem strip_is_always_appended_witness :
    appended_as_new_draw scenario2_context
      (_sgp_queue_draw 8 scenario2_context { id := 1 } (sample_region (-1) (-1) 0 0) 6 6
        SG_PRIMITIVETYPE_TRIANGLE_STRIP)
      (queue_pipeline scenario2_context { id := 1 }) (queue_uniform scenario2_context)
      (sample_region (-1) (-1) 0 0) 6 6
    ∧ _sgp_batch_match scenario2_context { id := 1 } scenario2_context.state.textures
        (queue_uniform scenario2_context) (scenario2_context.commands 0) = true
    ∧ (_sgp_queue_draw 8 scenario2_context { id := 1 } (sample_region (-1) (-1) 0 0) 6 6
        SG_PRIMITIVETYPE_TRIANGLE_STRIP).cur_command = 2 :=
  ⟨strip_is_always_appended 8 scenario2_context { id := 1 } (sample_region (-1) (-1) 0 0) 6 6
    SG_PRIMITIVETYPE_TRIANGLE_STRIP (Or.inl rfl) (by decide) (by decide) (by decide) (by decide)
    (by decide) (by decide), by decide, by decide⟩

/-- When the most recent command of the segment is a draw command that passes
the match test, it is the reference candidate and the gap is empty. -/
theorem reference_candidate_last (depth : Nat) (s : _sgp_context) (pip : sg_pipeline)
    (textures : sgp_textures_uniform) (uniform : Option sgp_uniform)
    (hd : depth ≠ 0) (hlast : s.state._base_command < s.cur_command)
    (hdraw : (s.commands (s.cur_command - 1)).cmd = SGP_COMMAND_DRAW)
    (hmatch : _sgp_batch_match s pip textures uniform (s.commands (s.cur_command - 1)) = true) :
    reference_candidate s pip textures uniform depth = some (s.cur_command - 1)
      ∧ reference_gap s pip textures uniform depth = [] := by
  obtain ⟨m, hm⟩ : ∃ m, s.cur_command - s.state._base_command = m + 1 :=
    ⟨s.cur_command - s.state._base_command - 1, by omega⟩
  obtain ⟨k, rfl⟩ : ∃ k, depth = k + 1 := ⟨depth - 1, by omega⟩
  have hidx : s.state._base_command + m = s.cur_command - 1 := by omega
  have hw : ∃ rest, reference_window s (k + 1) = (s.cur_command - 1) :: rest := by
    unfold reference_window segment_commands_rev
    rw [hm, range_rev_succ, hidx]
    simp [List.filter_cons, hdraw, List.take_succ_cons, List.takeWhile_cons]
  obtain ⟨rest, hw⟩ := hw
  unfold reference_candidate reference_gap
  rw [hw]
  simp [List.find?_cons, List.takeWhile_cons, hmatch]

/-- The merge into the most recent command on an arena in which the new
vertices directly follow that command's span (`hadj`): when the most recent
command of the segment is a draw command with the
pipeline id, the textures and (when the new draw has one) the uniform of a new
non-strip draw that passes the pipeline and clip-bounds guards, and the new
draw's vertices are the ones reserved right behind that command's span, the
draw call merges the draw into that command without moving any vertex: the
vertex array, the command cursor and the vertex cursor are unchanged, the
command's vertex count grows by the new count, its region becomes the bounding
union, its span is its old vertices followed by the new draw's, and no other
command changes. -/
theorem adjacent_draw_merges_in_place (depth : Nat) (s : _sgp_context) (pip : sg_pipeline)
    (region : _sgp_region) (vertex_index num_vertices : Nat) (primitive_type : sg_primitive_type)
    (hd : depth ≠ 0)
    (hlast : s.state._base_command < s.cur_command)
    (hc : s.cur_command + depth < 4294967295)
    (hdraw : (s.commands (s.cur_command - 1)).cmd = SGP_COMMAND_DRAW)
    (hsame_pip : (s.commands (s.cur_command - 1)).args.draw.pip.id = (queue_pipeline s pip).id)
    (hsame_tex : (s.commands (s.cur_command - 1)).args.draw.textures = s.state.textures)
    (hsame_uni : ∀ u, queue_uniform s = some u →
      s.uniforms (s.commands (s.cur_command - 1)).args.draw.uniform_index = u)
    (hprim : primitive_type ≠ SG_PRIMITIVETYPE_TRIANGLE_STRIP
      ∧ primitive_type ≠ SG_PRIMITIVETYPE_LINE_STRIP)
    (hpip : (queue_pipeline s pip).id ≠ SG_INVALID_ID)
    (hreg : ¬ region_out_of_bounds region)
    (hadj : (s.commands (s.cur_command - 1)).args.draw.vertex_index
      + (s.commands (s.cur_command - 1)).args.draw.num_vertices = vertex_index)
    (hres : vertex_index + num_vertices = s.cur_vertex)
    (hin : s.cur_vertex ≤ s.num_vertices) (hcap : s.num_vertices < 4294967296) :
    (_sgp_queue_draw depth s pip region vertex_index num_vertices primitive_type).vertices
        = s.vertices
    ∧ extended_in_place s
        (_sgp_queue_draw depth s pip region vertex_index num_vertices primitive_type)
        (s.cur_command - 1) [] region vertex_index num_vertices := by
  have hmatch : _sgp_batch_match s (queue_pipeline s pip) s.state.textures (queue_uniform s)
      (s.commands (s.cur_command - 1)) = true :=
    (batch_match_iff s _ _ _ _).2 ⟨hsame_pip, hsame_tex.symm, fun u hu => (hsame_uni u hu).symm⟩
  obtain ⟨hcand, hgap⟩ := reference_candidate_last depth s (queue_pipeline s pip) s.state.textures
    (queue_uniform s) hd hlast hdraw hmatch
  have hl : merge_layout s (s.cur_command - 1) [] vertex_index num_vertices :=
    ⟨hcap, hin, hres, by omega, by simp, fun _ => hadj⟩
  have hmerge : _sgp_merge_batch_command depth s (queue_pipeline s pip) s.state.textures
      (queue_uniform s) region vertex_index num_vertices
      = _sgp_merge_into_prev s (s.cur_command - 1) []
          (s.commands (s.cur_command - 1)).args.draw.region region vertex_index num_vertices := by
    rw [merge_batch_command_eq depth s _ _ _ region vertex_index num_vertices hd (by omega) hc,
      hcand, hgap]
    simp [gap_overlaps]
  obtain ⟨h1, h2⟩ := merge_into_prev_spec s (s.cur_command - 1) [] region vertex_index
    num_vertices hl List.nodup_nil (by simp) (by simp) (by simp)
  rw [queue_draw_unfold depth s pip region vertex_index num_vertices primitive_type hpip hreg
    _ (by rw [if_pos hprim])]
  rw [hmerge, if_pos h1]
  refine ⟨?_, h2⟩
  simp [_sgp_merge_into_prev]

/-- The merge into the most recent command at Scenario 2: a second rectangle
with identical state right after the first gives one draw command with 12
vertices. -/
theorem adjacent_draw_merges_in_place_witness :
    ((_sgp_queue_draw 8 scenario2_context { id := 1 } (sample_region (-1) (-1) 0 0) 6 6
          SG_PRIMITIVETYPE_TRIANGLES).vertices = scenario2_context.vertices
      ∧ extended_in_place scenario2_context
          (_sgp_queue_draw 8 scenario2_context { id := 1 } (sample_region (-1) (-1) 0 0) 6 6
            SG_PRIMITIVETYPE_TRIANGLES)
          (scenario2_context.cur_command - 1) [] (sample_region (-1) (-1) 0 0) 6 6)
    ∧ (_sgp_queue_draw 8 scenario2_context { id := 1 } (sample_region (-1) (-1) 0 0) 6 6
          SG_PRIMITIVETYPE_TRIANGLES).cur_command = 1
    ∧ ((_sgp_queue_draw 8 scenario2_context { id := 1 } (sample_region (-1) (-1) 0 0) 6 6
          SG_PRIMITIVETYPE_TRIANGLES).commands 0).args.draw.num_vertices = 12 :=
  ⟨adjacent_draw_merges_in_place 8 scenario2_context { id := 1 } (sample_region (-1) (-1) 0 0) 6 6
    SG_PRIMITIVETYPE_TRIANGLES (by decide) (by decide) (by decide) (by decide) (by decide)
    (by decide) (by decide) (by decide) (by decide) (by decide) (by decide) (by decide)
    (by decide) (by decide), by decide, by decide⟩

/-! ### The optimizer against the plain queue -/

set_option maxRecDepth 100000 in
/-- C1 fails on the code. After a frame that left three draw commands in the
command array, a frame draws a rectangle A, a line X and a batch B of 102
vertices that overlaps X and has A's bindings. With the optimizer disabled
(depth 0) the flush dispatches three draws: A, X and B. With depth 8 the
optimizer takes slot 2 for the merged command, gives up because B has more than
96 vertices, and B is appended in slot 3; the flush then dispatches four draws,
and the third one is the stale line strip of the first frame over the vertices
12 to 17, which belong to B and are dispatched again with B (vertices 8 to
109). -/
theorem optimizer_dispatches_stale_command :
    (large_batch_frame 0).last_error = SGP_NO_ERROR
    ∧ (large_batch_frame 8).last_error = SGP_NO_ERROR
    ∧ (large_batch_frame 0).cur_command = 3
    ∧ (large_batch_frame 8).cur_command = 4
    ∧ dispatched_draws (sgp_flush (large_batch_frame 0) 0 false).2
        = [(0, 6), (6, 2), (8, 102)]
    ∧ dispatched_draws (sgp_flush (large_batch_frame 8) 0 false).2
        = [(0, 6), (6, 2), (12, 6), (8, 102)]
    ∧ ((large_batch_frame 8).commands 2).cmd = SGP_COMMAND_DRAW
    ∧ ((large_batch_frame 8).commands 2).args.draw.pip = { id := 2 }
    ∧ (large_batch_frame 8).commands 2 = (stale_frame 8).commands 2 := by
  decide

/-! ### Abandoned merges -/

theorem merge_into_prev_preserves (s : _sgp_context) (prev : Nat) (gap : List Nat)
    (prev_region region : _sgp_region) (vertex_index num_vertices : Nat) :
    merge_preserved s (_sgp_merge_into_prev s prev gap prev_region region vertex_index
      num_vertices).2 := by
  unfold _sgp_merge_into_prev merge_preserved
  by_cases hlen : gap.length > 0
  · simp only [hlen, if_true]
    by_cases h1 : u32 (s.cur_vertex + num_vertices) > s.num_vertices
    · simp [h1]
    · simp only [h1, if_false]
      by_cases h2 : u32_sub s.cur_vertex (u32 ((s.commands prev).args.draw.vertex_index
          + (s.commands prev).args.draw.num_vertices)) > _SGP_MAX_MOVE_VERTICES
      · simp [h2]
      · simp [h2]
  · simp [hlen]

theorem merge_into_next_preserves (s : _sgp_context) (prev : Nat) (pip : sg_pipeline)
    (textures : sgp_textures_uniform) (prev_region region : _sgp_region)
    (vertex_index num_vertices : Nat) :
    merge_preserved s (_sgp_merge_into_next s prev pip textures prev_region region vertex_index
      num_vertices).2 := by
  unfold _sgp_merge_into_next merge_preserved
  by_cases hcmd : s.cur_command < s.num_commands
  · simp only [_sgp_next_command, hcmd, if_true]
    by_cases h1 : u32 (s.cur_vertex + (s.commands prev).args.draw.num_vertices) > s.num_vertices
    · simp [h1]
    · simp only [h1, if_false]
      by_cases h2 : num_vertices > _SGP_MAX_MOVE_VERTICES
      · simp [h2]
      · simp [h2]
  · simp [_sgp_next_command, hcmd, _sgp_set_error]

/-- The optimizer leaves the uniform arena, its cursor, the state and the
capacities alone, whatever it returns. -/
theorem merge_batch_command_preserves (depth : Nat) (s : _sgp_context) (pip : sg_pipeline)
    (textures : sgp_textures_uniform) (uniform : Option sgp_uniform) (region : _sgp_region)
    (vertex_index num_vertices : Nat) :
    merge_preserved s (_sgp_merge_batch_command depth s pip textures uniform region vertex_index
      num_vertices).2 := by
  unfold _sgp_merge_batch_command
  by_cases hd : depth = 0
  · simp [hd, merge_preserved]
  · simp only [hd, if_false]
    rcases hscan : _sgp_merge_scan s pip textures uniform
        (u32_sub s.cur_command s.state._base_command + 1) 0 depth [] with ⟨cand, inter⟩
    cases cand with
    | none => simp [merge_preserved]
    | some prev =>
      simp only []
      rcases hov : _sgp_merge_overlaps s region (s.commands prev).args.draw.region inter
          false false with _ | ⟨a, b⟩
      · simp [merge_preserved]
      · simp only []
        cases a with
        | false =>
          simp only [Bool.not_false, if_true]
          exact merge_into_prev_preserves _ _ _ _ _ _ _
        | true =>
          simp only [Bool.not_true, Bool.false_eq_true, if_false]
          exact merge_into_next_preserves _ _ _ _ _ _ _ _

/-- C11 fails on the code. The queue holds draw A and draw X, only the new draw
overlaps X, and the merge into a new command is abandoned: in the first context
because the new draw has 102 vertices, in the second because the arena has no
room to stage A's six vertices. In both the command cursor goes from 2 to 4:
the optimizer has taken slot 2 before its guards, the new draw is appended in
slot 3, and slot 2 is part of the queue with the stale line-strip command the
array held there. With the optimizer disabled the same draw goes to slot 2 and
the cursor to 3. -/
theorem abandoned_merge_exposes_slot :
    reference_candidate large_draw_context { id := 1 } (sample_textures 1) none 8 = some 0
    ∧ (_sgp_merge_batch_command 8 large_draw_context { id := 1 } (sample_textures 1) none
        (sample_region 0 0 1 1) 12 102).1 = false
    ∧ (_sgp_queue_draw 8 large_draw_context { id := 1 } (sample_region 0 0 1 1) 12 102
        SG_PRIMITIVETYPE_TRIANGLES).cur_command = 4
    ∧ (_sgp_queue_draw 8 large_draw_context { id := 1 } (sample_region 0 0 1 1) 12 102
        SG_PRIMITIVETYPE_TRIANGLES).commands 2
        = sample_draw 2 1 (sample_region (-1) (-1) 1 1) 12 6
    ∧ (_sgp_queue_draw 8 large_draw_context { id := 1 } (sample_region 0 0 1 1) 12 102
        SG_PRIMITIVETYPE_TRIANGLES).commands 3
        = sample_draw 1 1 (sample_region 0 0 1 1) 12 102
    ∧ (_sgp_queue_draw 8 large_draw_context { id := 1 } (sample_region 0 0 1 1) 12 102
        SG_PRIMITIVETYPE_TRIANGLES).last_error = SGP_NO_ERROR
    ∧ (_sgp_queue_draw 0 large_draw_context { id := 1 } (sample_region 0 0 1 1) 12 102
        SG_PRIMITIVETYPE_TRIANGLES).cur_command = 3
    ∧ (_sgp_queue_draw 0 large_draw_context { id := 1 } (sample_region 0 0 1 1) 12 102
        SG_PRIMITIVETYPE_TRIANGLES).commands 2
        = sample_draw 1 1 (sample_region 0 0 1 1) 12 102
    ∧ (_sgp_merge_batch_command 8 no_staging_room_context { id := 1 } (sample_textures 1) none
        (sample_region 0 0 1 1) 1014 6).1 = false
    ∧ (_sgp_queue_draw 8 no_staging_room_context { id := 1 } (sample_region 0 0 1 1) 1014 6
        SG_PRIMITIVETYPE_TRIANGLES).cur_command = 4
    ∧ (_sgp_queue_draw 8 no_staging_room_context { id := 1 } (sample_region 0 0 1 1) 1014 6
        SG_PRIMITIVETYPE_TRIANGLES).commands 2
        = sample_draw 2 1 (sample_region (-1) (-1) 1 1) 12 6
    ∧ (_sgp_queue_draw 8 no_staging_room_context { id := 1 } (sample_region 0 0 1 1) 1014 6
        SG_PRIMITIVETYPE_TRIANGLES).commands 3
        = sample_draw 1 1 (sample_region 0 0 1 1) 1014 6 := by
  decide

set_option maxRecDepth 100000 in
/-- C12 fails on the code. The candidate A holds 200 vertices, draw X overlaps
only the new draw of six vertices, and the merge into a new command succeeds:
its only size guard is on the six new vertices, and the block copied to the new
span is A's 200 vertices (now at 206 to 405, where other vertices were), more
than `_SGP_MAX_MOVE_VERTICES`. -/
theorem merge_copies_whole_candidate :
    (_sgp_merge_batch_command 8 long_candidate_context { id := 1 } (sample_textures 1) none
        (sample_region 0 0 1 1) 206 6).1 = true
    ∧ (long_candidate_context.commands 0).args.draw.num_vertices = 200
    ∧ _SGP_MAX_MOVE_VERTICES < 200
    ∧ (∀ k, k < 200 →
        (_sgp_merge_batch_command 8 long_candidate_context { id := 1 } (sample_textures 1) none
          (sample_region 0 0 1 1) 206 6).2.vertices (206 + k)
          = long_candidate_context.vertices k)
    ∧ (∀ k, k < 200 →
        long_candidate_context.vertices (206 + k) ≠ long_candidate_context.vertices k)
    ∧ ((_sgp_merge_batch_command 8 long_candidate_context { id := 1 } (sample_textures 1) none
        (sample_region 0 0 1 1) 206 6).2.commands 2).args.draw.num_vertices = 206
    ∧ (_sgp_merge_batch_command 8 long_candidate_context { id := 1 } (sample_textures 1) none
        (sample_region 0 0 1 1) 206 6).2.cur_vertex = 412 := by
  decide

/-! ### Uniform snapshots of a fresh append -/

theorem merge_attempt_preserves (depth : Nat) (s : _sgp_context) (pip : sg_pipeline)
    (region : _sgp_region) (vertex_index num_vertices : Nat) (primitive_type : sg_primitive_type) :
    merge_preserved s
      (merge_attempt depth s pip region vertex_index num_vertices primitive_type).2 := by
  unfold merge_attempt
  split
  · exact merge_batch_command_preserves _ _ _ _ _ _ _ _
  · simp [merge_preserved]

/-- The guards of `_sgp_queue_draw` passed and the merge attempt failed, the
draw goes through the uniform and append steps on the context the attempt
left. -/
theorem queue_draw_fresh_of_attempt (depth : Nat) (s : _sgp_context) (pip : sg_pipeline)
    (region : _sgp_region) (vertex_index num_vertices : Nat) (primitive_type : sg_primitive_type)
    (hpip : (queue_pipeline s pip).id ≠ SG_INVALID_ID)
    (hreg : ¬ region_out_of_bounds region)
    (hfresh : (merge_attempt depth s pip region vertex_index num_vertices primitive_type).1
      = false) :
    _sgp_queue_draw depth s pip region vertex_index num_vertices primitive_type
      = _sgp_queue_draw_fresh
          (merge_attempt depth s pip region vertex_index num_vertices primitive_type).2
          (queue_pipeline s pip) (queue_uniform s) region vertex_index num_vertices := by
  rw [queue_draw_unfold depth s pip region vertex_index num_vertices primitive_type hpip hreg
    (merge_attempt depth s pip region vertex_index num_vertices primitive_type) rfl, hfresh]
  simp

/-- With the snapshot below the cursor equal to the state's uniform, the uniform
step stores nothing and hands the index below the cursor to the append step. -/
theorem queue_draw_fresh_reuse (s : _sgp_context) (pip : sg_pipeline) (u : sgp_uniform)
    (region : _sgp_region) (vertex_index num_vertices : Nat)
    (hu : s.cur_uniform < 4294967296) (hlast : last_uniform_matches s) :
    _sgp_queue_draw_fresh s pip (some u) region vertex_index num_vertices
      = _sgp_queue_draw_append s pip region (s.cur_uniform - 1) vertex_index num_vertices := by
  obtain ⟨hpos, heq⟩ := hlast
  have e : u32_sub s.cur_uniform 1 = s.cur_uniform - 1 := by unfold u32_sub; omega
  simp [_sgp_queue_draw_fresh, _sgp_prev_uniform, hpos, e, heq]

/-- Without such a snapshot and with room in the uniform arena, the uniform step
stores the state's uniform at the cursor, advances the cursor by one and hands
the stored index to the append step. -/
theorem queue_draw_fresh_store (s : _sgp_context) (pip : sg_pipeline) (u : sgp_uniform)
    (region : _sgp_region) (vertex_index num_vertices : Nat)
    (hcap : s.num_uniforms < 4294967296) (hroom : s.cur_uniform < s.num_uniforms)
    (hlast : ¬ last_uniform_matches s) :
    _sgp_queue_draw_fresh s pip (some u) region vertex_index num_vertices
      = _sgp_queue_draw_append
          { s with
            cur_uniform := s.cur_uniform + 1
            uniforms := Function.update s.uniforms s.cur_uniform s.state.uniform }
          pip region s.cur_uniform vertex_index num_vertices := by
  have e1 : u32 (s.cur_uniform + 1) = s.cur_uniform + 1 := u32_of_lt (by omega)
  have e2 : u32_sub (s.cur_uniform + 1) 1 = s.cur_uniform := by unfold u32_sub; omega
  by_cases hpos : 0 < s.cur_uniform
  · have e3 : u32_sub s.cur_uniform 1 = s.cur_uniform - 1 := by unfold u32_sub; omega
    have hne : ¬ s.uniforms (s.cur_uniform - 1) = s.state.uniform := fun h => hlast ⟨hpos, h⟩
    simp [_sgp_queue_draw_fresh, _sgp_prev_uniform, _sgp_next_uniform, hpos, e1, e2, e3, hne,
      hroom]
  · simp [_sgp_queue_draw_fresh, _sgp_prev_uniform, _sgp_next_uniform, hpos, e1, e2, hroom]

/-- C13: on a fresh append with a custom pipeline set (the guards of
`_sgp_queue_draw` passed, the merge attempt failed, room for one command), the
new draw command is written at the command cursor the attempt left. If the
snapshot right below the uniform cursor equals the state's uniform
(`last_uniform_matches`), the uniform cursor and the uniform arena are unchanged
and the command holds the index below the cursor. Otherwise, with room in the
uniform arena, the cursor advances by one, the arena differs from before
exactly by the state's uniform stored at the old cursor, and the command holds
that index. In both cases the snapshot at the command's uniform index equals
the state's uniform. The choice depends on no snapshot other than the one below
the cursor. -/
theorem fresh_append_reuses_last_uniform (depth : Nat) (s : _sgp_context) (pip : sg_pipeline)
    (region : _sgp_region) (vertex_index num_vertices : Nat) (primitive_type : sg_primitive_type)
    (hpip : s.state.pipeline.id ≠ SG_INVALID_ID)
    (hreg : ¬ region_out_of_bounds region)
    (hfresh : (merge_attempt depth s pip region vertex_index num_vertices primitive_type).1
      = false)
    (hcmd : (merge_attempt depth s pip region vertex_index num_vertices
      primitive_type).2.cur_command < s.num_commands)
    (hccap : s.num_commands < 4294967296)
    (hu : s.cur_uniform < 4294967296) (hucap : s.num_uniforms < 4294967296) :
    (last_uniform_matches s →
      (_sgp_queue_draw depth s pip region vertex_index num_vertices primitive_type).cur_uniform
          = s.cur_uniform
      ∧ (_sgp_queue_draw depth s pip region vertex_index num_vertices primitive_type).uniforms
          = s.uniforms
      ∧ ((_sgp_queue_draw depth s pip region vertex_index num_vertices primitive_type).commands
          (merge_attempt depth s pip region vertex_index num_vertices
            primitive_type).2.cur_command).args.draw.uniform_index = s.cur_uniform - 1)
    ∧ (¬ last_uniform_matches s → s.cur_uniform < s.num_uniforms →
      (_sgp_queue_draw depth s pip region vertex_index num_vertices primitive_type).cur_uniform
          = s.cur_uniform + 1
      ∧ (_sgp_queue_draw depth s pip region vertex_index num_vertices primitive_type).uniforms
          = Function.update s.uniforms s.cur_uniform s.state.uniform
      ∧ ((_sgp_queue_draw depth s pip region vertex_index num_vertices primitive_type).commands
          (merge_attempt depth s pip region vertex_index num_vertices
            primitive_type).2.cur_command).args.draw.uniform_index = s.cur_uniform)
    ∧ (last_uniform_matches s ∨ s.cur_uniform < s.num_uniforms →
      (_sgp_queue_draw depth s pip region vertex_index num_vertices primitive_type).cur_command
          = (merge_attempt depth s pip region vertex_index num_vertices
              primitive_type).2.cur_command + 1
      ∧ ((_sgp_queue_draw depth s pip region vertex_index num_vertices primitive_type).commands
          (merge_attempt depth s pip region vertex_index num_vertices
            primitive_type).2.cur_command).cmd = SGP_COMMAND_DRAW
      ∧ (_sgp_queue_draw depth s pip region vertex_index num_vertices primitive_type).uniforms
          ((_sgp_queue_draw depth s pip region vertex_index num_vertices primitive_type).commands
            (merge_attempt depth s pip region vertex_index num_vertices
              primitive_type).2.cur_command).args.draw.uniform_index = s.state.uniform) := by
  have hqp : (queue_pipeline s pip).id ≠ SG_INVALID_ID := by
    unfold queue_pipeline; rw [if_pos hpip]; exact hpip
  have hqu : queue_uniform s = some s.state.uniform := by
    unfold queue_uniform; rw [if_pos hpip]
  obtain ⟨pu, pc, ps, pn, pm⟩ := merge_attempt_preserves depth s pip region vertex_index
    num_vertices primitive_type
  rw [queue_draw_fresh_of_attempt depth s pip region vertex_index num_vertices primitive_type
    hqp hreg hfresh, hqu]
  generalize merge_attempt depth s pip region vertex_index num_vertices primitive_type = m
    at hcmd pu pc ps pn pm
  have hmatch : last_uniform_matches m.2 ↔ last_uniform_matches s := by
    unfold last_uniform_matches; rw [pu, pc, ps]
  have hc : m.2.cur_command < m.2.num_commands := by rw [pn]; exact hcmd
  have reuse : last_uniform_matches s →
      (_sgp_queue_draw_fresh m.2 (queue_pipeline s pip) (some s.state.uniform) region
          vertex_index num_vertices).cur_uniform = s.cur_uniform
      ∧ (_sgp_queue_draw_fresh m.2 (queue_pipeline s pip) (some s.state.uniform) region
          vertex_index num_vertices).uniforms = s.uniforms
      ∧ ((_sgp_queue_draw_fresh m.2 (queue_pipeline s pip) (some s.state.uniform) region
          vertex_index num_vertices).commands m.2.cur_command).args.draw.uniform_index
          = s.cur_uniform - 1
      ∧ (_sgp_queue_draw_fresh m.2 (queue_pipeline s pip) (some s.state.uniform) region
          vertex_index num_vertices).cur_command = m.2.cur_command + 1
      ∧ ((_sgp_queue_draw_fresh m.2 (queue_pipeline s pip) (some s.state.uniform) region
          vertex_index num_vertices).commands m.2.cur_command).cmd = SGP_COMMAND_DRAW := by
    intro hl
    rw [queue_draw_fresh_reuse m.2 _ _ region vertex_index num_vertices (by rw [pc]; exact hu)
      (hmatch.2 hl)]
    obtain ⟨h1, h2, h3, -, -, -, h7⟩ := queue_draw_append_spec m.2 (queue_pipeline s pip) region
      (m.2.cur_uniform - 1) vertex_index num_vertices hc (by omega)
    refine ⟨?_, by rw [h7, pu], by rw [h3, pc], h1, h2⟩
    simp only [_sgp_queue_draw_append, _sgp_next_command, hc, if_true]
    exact pc
  have store : ¬ last_uniform_matches s → s.cur_uniform < s.num_uniforms →
      (_sgp_queue_draw_fresh m.2 (queue_pipeline s pip) (some s.state.uniform) region
          vertex_index num_vertices).cur_uniform = s.cur_uniform + 1
      ∧ (_sgp_queue_draw_fresh m.2 (queue_pipeline s pip) (some s.state.uniform) region
          vertex_index num_vertices).uniforms
          = Function.update s.uniforms s.cur_uniform s.state.uniform
      ∧ ((_sgp_queue_draw_fresh m.2 (queue_pipeline s pip) (some s.state.uniform) region
          vertex_index num_vertices).commands m.2.cur_command).args.draw.uniform_index
          = s.cur_uniform
      ∧ (_sgp_queue_draw_fresh m.2 (queue_pipeline s pip) (some s.state.uniform) region
          vertex_index num_vertices).cur_command = m.2.cur_command + 1
      ∧ ((_sgp_queue_draw_fresh m.2 (queue_pipeline s pip) (some s.state.uniform) region
          vertex_index num_vertices).commands m.2.cur_command).cmd = SGP_COMMAND_DRAW := by
    intro hl hroom
    rw [queue_draw_fresh_store m.2 _ _ region vertex_index num_vertices (by rw [pm]; exact hucap)
      (by rw [pc, pm]; exact hroom) (fun h => hl (hmatch.1 h))]
    obtain ⟨h1, h2, h3, -, -, -, h7⟩ := queue_draw_append_spec
      { m.2 with
        cur_uniform := m.2.cur_uniform + 1
        uniforms := Function.update m.2.uniforms m.2.cur_uniform m.2.state.uniform }
      (queue_pipeline s pip) region m.2.cur_uniform vertex_index num_vertices hc
      (by show m.2.cur_command < 4294967295; omega)
    refine ⟨?_, by rw [h7]; simp only []; rw [pu, pc, ps], by rw [h3, pc], h1, h2⟩
    simp only [_sgp_queue_draw_append, _sgp_next_command, hc, if_true]
    rw [pc]
  refine ⟨fun hl => ⟨(reuse hl).1, (reuse hl).2.1, (reuse hl).2.2.1⟩,
    fun hl hroom => ⟨(store hl hroom).1, (store hl hroom).2.1, (store hl hroom).2.2.1⟩, ?_⟩
  intro h
  by_cases hl : last_uniform_matches s
  · obtain ⟨-, h2, h3, h4, h5⟩ := reuse hl
    refine ⟨h4, h5, ?_⟩
    rw [h2, h3]
    exact hl.2
  · obtain ⟨-, h2, h3, h4, h5⟩ := store hl (h.resolve_left hl)
    refine ⟨h4, h5, ?_⟩
    rw [h2, h3]
    simp

set_option maxRecDepth 100000 in
/-- C13 at a segment whose uniform arena holds two snapshots. With the state's
uniform equal to the newer one the draw reuses index 1 and the cursor stays at
2; with the state's uniform equal to the older one only, a third snapshot is
stored at index 2 and the cursor goes to 3. -/
theorem fresh_append_reuses_last_uniform_witness :
    (last_uniform_matches (uniform_context 8)
      ∧ (_sgp_queue_draw 8 (uniform_context 8) { id := 1 } (sample_region 0 0 1 1) 6 6
          SG_PRIMITIVETYPE_TRIANGLES).cur_uniform = 2
      ∧ ((_sgp_queue_draw 8 (uniform_context 8) { id := 1 } (sample_region 0 0 1 1) 6 6
          SG_PRIMITIVETYPE_TRIANGLES).commands 1).args.draw.uniform_index = 1)
    ∧ (¬ last_uniform_matches (uniform_context 4)
      ∧ (uniform_context 4).uniforms 0 = (uniform_context 4).state.uniform
      ∧ (_sgp_queue_draw 8 (uniform_context 4) { id := 1 } (sample_region 0 0 1 1) 6 6
          SG_PRIMITIVETYPE_TRIANGLES).cur_uniform = 3
      ∧ ((_sgp_queue_draw 8 (uniform_context 4) { id := 1 } (sample_region 0 0 1 1) 6 6
          SG_PRIMITIVETYPE_TRIANGLES).commands 1).args.draw.uniform_index = 2) :=
  ⟨⟨by decide,
    ((fresh_append_reuses_last_uniform 8 (uniform_context 8) { id := 1 } (sample_region 0 0 1 1)
      6 6 SG_PRIMITIVETYPE_TRIANGLES (by decide) (by decide) (by decide) (by decide) (by decide)
      (by decide) (by decide)).1 (by decide)).1,
    ((fresh_append_reuses_last_uniform 8 (uniform_context 8) { id := 1 } (sample_region 0 0 1 1)
      6 6 SG_PRIMITIVETYPE_TRIANGLES (by decide) (by decide) (by decide) (by decide) (by decide)
      (by decide) (by decide)).1 (by decide)).2.2⟩,
   ⟨by decide, by decide,
    ((fresh_append_reuses_last_uniform 8 (uniform_context 4) { id := 1 } (sample_region 0 0 1 1)
      6 6 SG_PRIMITIVETYPE_TRIANGLES (by decide) (by decide) (by decide) (by decide) (by decide)
      (by decide) (by decide)).2.1 (by decide) (by decide)).1,
    ((fresh_append_reuses_last_uniform 8 (uniform_context 4) { id := 1 } (sample_region 0 0 1 1)
      6 6 SG_PRIMITIVETYPE_TRIANGLES (by decide) (by decide) (by decide) (by decide) (by decide)
      (by decide) (by decide)).2.1 (by decide) (by decide)).2.2⟩⟩

/-! ### A full command queue -/

theorem next_vertices_full (s : _sgp_context) (count : Nat)
    (hfull : s.num_vertices < u32 (s.cur_vertex + count)) :
    _sgp_next_vertices s count = (none, _sgp_set_error s SGP_ERROR_VERTICES_FULL) := by
  unfold _sgp_next_vertices
  rw [if_neg (by omega)]

theorem draw_solid_pip_full (depth : Nat) (be : sg_backend) (s : _sgp_context)
    (primitive_type : sg_primitive_type) (vertices : Nat → sgp_vec2) (num_vertices : Nat)
    (hcount : num_vertices ≠ 0) (hfull : s.num_vertices < u32 (s.cur_vertex + num_vertices)) :
    _sgp_draw_solid_pip depth be s primitive_type vertices num_vertices
      = _sgp_set_error s SGP_ERROR_VERTICES_FULL := by
  unfold _sgp_draw_solid_pip
  rw [if_neg hcount]
  simp only [next_vertices_full s num_vertices hfull]

/-- A drawing call that needs more vertices than the arena has free (the sum
of cursor and count being in the range of `uint32_t`) records
`SGP_ERROR_VERTICES_FULL` and changes nothing else. -/
theorem draw_call_vertices_full (depth : Nat) (be : sg_backend) (s : _sgp_context)
    (call : draw_call) (hres : draw_call_reserves s call)
    (hrange : s.cur_vertex + draw_call_vertices call < 4294967296)
    (hfull : s.num_vertices < s.cur_vertex + draw_call_vertices call) :
    run_draw_call depth be s call = _sgp_set_error s SGP_ERROR_VERTICES_FULL := by
  obtain ⟨hcount, himg⟩ := hres
  have key : ∀ n, n = draw_call_vertices call → n ≠ 0 ∧ u32 n = n
      ∧ s.num_vertices < u32 (s.cur_vertex + u32 n) := by
    intro n hn
    have e1 : u32 n = n := u32_of_lt (by omega)
    have e2 : u32 (s.cur_vertex + n) = s.cur_vertex + n := u32_of_lt (by omega)
    refine ⟨by omega, e1, ?_⟩
    rw [e1, e2]; omega
  cases call with
  | clear =>
    obtain ⟨-, e, h⟩ := key 6 rfl
    rw [e] at h
    simp only [run_draw_call, sgp_clear, next_vertices_full s 6 h]
  | draw primitive_type vertices count =>
    obtain ⟨h0, e, h⟩ := key count rfl
    rw [e] at h
    simp only [run_draw_call, sgp_draw]
    rw [if_neg h0]
    simp only [next_vertices_full s count h]
  | points points count =>
    obtain ⟨h0, e, h⟩ := key count rfl
    rw [e] at h
    simp only [run_draw_call, sgp_draw_points]
    exact draw_solid_pip_full depth be s _ _ _ h0 h
  | point x y =>
    obtain ⟨h0, e, h⟩ := key 1 rfl
    rw [e] at h
    simp only [run_draw_call, sgp_draw_point, sgp_draw_points]
    exact draw_solid_pip_full depth be s _ _ _ h0 h
  | lines lines count =>
    obtain ⟨h0, e, h⟩ := key (count * 2) rfl
    simp only [run_draw_call, sgp_draw_lines]
    exact draw_solid_pip_full depth be s _ _ _ (by rw [e]; exact h0) h
  | line ax ay bx b_y =>
    obtain ⟨h0, e, h⟩ := key (1 * 2) rfl
    simp only [run_draw_call, sgp_draw_line, sgp_draw_lines]
    exact draw_solid_pip_full depth be s _ _ _ (by rw [e]; exact h0) h
  | lines_strip points count =>
    obtain ⟨h0, e, h⟩ := key count rfl
    rw [e] at h
    simp only [run_draw_call, sgp_draw_lines_strip]
    exact draw_solid_pip_full depth be s _ _ _ h0 h
  | filled_triangles triangles count =>
    obtain ⟨h0, e, h⟩ := key (count * 3) rfl
    simp only [run_draw_call, sgp_draw_filled_triangles]
    exact draw_solid_pip_full depth be s _ _ _ (by rw [e]; exact h0) h
  | filled_triangle ax ay bx b_y cx cy =>
    obtain ⟨h0, e, h⟩ := key (1 * 3) rfl
    simp only [run_draw_call, sgp_draw_filled_triangle, sgp_draw_filled_triangles]
    exact draw_solid_pip_full depth be s _ _ _ (by rw [e]; exact h0) h
  | filled_triangles_strip points count =>
    obtain ⟨h0, e, h⟩ := key count rfl
    rw [e] at h
    simp only [run_draw_call, sgp_draw_filled_triangles_strip]
    exact draw_solid_pip_full depth be s _ _ _ h0 h
  | filled_rects rects count =>
    obtain ⟨h0, -, h⟩ := key (count * 6) rfl
    have hc : count ≠ 0 := fun hz => h0 (by rw [hz])
    simp only [run_draw_call, sgp_draw_filled_rects]
    rw [if_neg hc]
    simp only [next_vertices_full s _ h]
  | filled_rect x y w h =>
    obtain ⟨-, -, h⟩ := key (1 * 6) rfl
    simp only [run_draw_call, sgp_draw_filled_rect, sgp_draw_filled_rects]
    rw [if_neg (by decide)]
    simp only [next_vertices_full s _ h]
  | textured_rects channel rects count =>
    obtain ⟨h0, -, h⟩ := key (count * 6) rfl
    have hc : count ≠ 0 := fun hz => h0 (by rw [hz])
    have hi := himg channel rfl
    simp only [run_draw_call, sgp_draw_textured_rects]
    rw [if_neg (fun hor => hor.elim hc hi)]
    simp only [next_vertices_full s _ h]
  | textured_rect channel dest_rect src_rect =>
    obtain ⟨-, -, h⟩ := key (1 * 6) rfl
    have hi := himg channel rfl
    simp only [run_draw_call, sgp_draw_textured_rect, sgp_draw_textured_rects]
    rw [if_neg (fun hor => hor.elim (by decide) hi)]
    simp only [next_vertices_full s _ h]

/-! ### Drawing calls never clear the error -/

theorem error_kept_trans {s t r : _sgp_context} (h1 : error_kept s t) (h2 : error_kept t r) :
    error_kept s r := by
  unfold error_kept at *
  rcases h2 with h2 | h2
  · rcases h1 with h1 | h1
    · exact Or.inl (h2.trans h1)
    · exact Or.inr (by rw [h2]; exact h1)
  · exact Or.inr h2

theorem error_kept_of_error {s t : _sgp_context} (h : error_kept s t)
    (he : s.last_error ≠ SGP_NO_ERROR) : t.last_error ≠ SGP_NO_ERROR := by
  rcases h with h | h | h | h
  · rw [h]; exact he
  · rw [h]; decide
  · rw [h]; decide
  · rw [h]; decide

theorem merge_into_prev_error (s : _sgp_context) (prev : Nat) (gap : List Nat)
    (prev_region region : _sgp_region) (vertex_index num_vertices : Nat) :
    error_kept s (_sgp_merge_into_prev s prev gap prev_region region vertex_index
      num_vertices).2 := by
  unfold _sgp_merge_into_prev error_kept
  by_cases hlen : gap.length > 0
  · simp only [hlen, if_true]
    by_cases h1 : u32 (s.cur_vertex + num_vertices) > s.num_vertices
    · simp [h1]
    · simp only [h1, if_false]
      by_cases h2 : u32_sub s.cur_vertex (u32 ((s.commands prev).args.draw.vertex_index
          + (s.commands prev).args.draw.num_vertices)) > _SGP_MAX_MOVE_VERTICES
      · simp [h2]
      · simp [h2]
  · simp [hlen]

theorem merge_into_next_error (s : _sgp_context) (prev : Nat) (pip : sg_pipeline)
    (textures : sgp_textures_uniform) (prev_region region : _sgp_region)
    (vertex_index num_vertices : Nat) :
    error_kept s (_sgp_merge_into_next s prev pip textures prev_region region vertex_index
      num_vertices).2 := by
  unfold _sgp_merge_into_next error_kept
  by_cases hcmd : s.cur_command < s.num_commands
  · simp only [_sgp_next_command, hcmd, if_true]
    by_cases h1 : u32 (s.cur_vertex + (s.commands prev).args.draw.num_vertices) > s.num_vertices
    · simp [h1]
    · simp only [h1, if_false]
      by_cases h2 : num_vertices > _SGP_MAX_MOVE_VERTICES
      · simp [h2]
      · simp [h2]
  · simp [_sgp_next_command, hcmd, _sgp_set_error, draw_error]

theorem merge_batch_command_error (depth : Nat) (s : _sgp_context) (pip : sg_pipeline)
    (textures : sgp_textures_uniform) (uniform : Option sgp_uniform) (region : _sgp_region)
    (vertex_index num_vertices : Nat) :
    error_kept s (_sgp_merge_batch_command depth s pip textures uniform region vertex_index
      num_vertices).2 := by
  unfold _sgp_merge_batch_command
  by_cases hd : depth = 0
  · simp [hd, error_kept]
  · simp only [hd, if_false]
    rcases hscan : _sgp_merge_scan s pip textures uniform
        (u32_sub s.cur_command s.state._base_command + 1) 0 depth [] with ⟨cand, inter⟩
    cases cand with
    | none => simp [error_kept]
    | some prev =>
      simp only []
      rcases hov : _sgp_merge_overlaps s region (s.commands prev).args.draw.region inter
          false false with _ | ⟨a, b⟩
      · simp [error_kept]
      · simp only []
        cases a with
        | false =>
          simp only [Bool.not_false, if_true]
          exact merge_into_prev_error _ _ _ _ _ _ _
        | true =>
          simp only [Bool.not_true, Bool.false_eq_true, if_false]
          exact merge_into_next_error _ _ _ _ _ _ _ _

theorem queue_draw_append_error (s : _sgp_context) (pip : sg_pipeline) (region : _sgp_region)
    (uniform_index vertex_index num_vertices : Nat) :
    error_kept s
      (_sgp_queue_draw_append s pip region uniform_index vertex_index num_vertices) := by
  unfold _sgp_queue_draw_append error_kept
  by_cases hcmd : s.cur_command < s.num_commands
  · simp [_sgp_next_command, hcmd]
  · simp [_sgp_next_command, hcmd, _sgp_set_error, draw_error]

theorem queue_draw_fresh_error (s : _sgp_context) (pip : sg_pipeline)
    (uniform : Option sgp_uniform) (region : _sgp_region) (vertex_index num_vertices : Nat) :
    error_kept s (_sgp_queue_draw_fresh s pip uniform region vertex_index num_vertices) := by
  unfold _sgp_queue_draw_fresh
  cases uniform with
  | none => exact queue_draw_append_error _ _ _ _ _ _
  | some u =>
    simp only []
    split
    · by_cases huni : s.cur_uniform < s.num_uniforms
      · simp only [_sgp_next_uniform, huni, if_true]
        exact error_kept_trans (Or.inl rfl) (queue_draw_append_error _ _ _ _ _ _)
      · simp [_sgp_next_uniform, huni, _sgp_set_error, error_kept, draw_error]
    · exact queue_draw_append_error _ _ _ _ _ _

theorem queue_draw_error (depth : Nat) (s : _sgp_context) (pip : sg_pipeline)
    (region : _sgp_region) (vertex_index num_vertices : Nat) (primitive_type : sg_primitive_type) :
    error_kept s
      (_sgp_queue_draw depth s pip region vertex_index num_vertices primitive_type) := by
  by_cases hpip : (queue_pipeline s pip).id = SG_INVALID_ID
  · rw [queue_draw_invalid_pipeline depth s pip region vertex_index num_vertices primitive_type
      hpip]
    exact Or.inl rfl
  · by_cases hreg : region_out_of_bounds region
    · rw [queue_draw_out_of_bounds depth s pip region vertex_index num_vertices primitive_type
        hpip hreg]
      exact Or.inl rfl
    · rw [queue_draw_unfold depth s pip region vertex_index num_vertices primitive_type hpip hreg
        (merge_attempt depth s pip region vertex_index num_vertices primitive_type) rfl]
      have hm : error_kept s
          (merge_attempt depth s pip region vertex_index num_vertices primitive_type).2 := by
        unfold merge_attempt
        split
        · exact merge_batch_command_error _ _ _ _ _ _ _ _
        · exact Or.inl rfl
      split
      · exact hm
      · exact error_kept_trans hm (queue_draw_fresh_error _ _ _ _ _ _)

theorem lookup_pipeline_error (be : sg_backend) (s : _sgp_context)
    (primitive_type : sg_primitive_type) (blend_mode : sgp_blend_mode) :
    (_sgp_lookup_pipeline be s primitive_type blend_mode).2.last_error = s.last_error := by
  unfold _sgp_lookup_pipeline
  simp only []
  split
  · rfl
  · split <;> rfl

theorem next_vertices_cases (s : _sgp_context) (count : Nat) :
    _sgp_next_vertices s count = (none, _sgp_set_error s SGP_ERROR_VERTICES_FULL)
    ∨ _sgp_next_vertices s count
        = (some s.cur_vertex, { s with cur_vertex := u32 (s.cur_vertex + count) }) := by
  unfold _sgp_next_vertices
  by_cases h : u32 (s.cur_vertex + count) ≤ s.num_vertices
  · exact Or.inr (by rw [if_pos h])
  · exact Or.inl (by rw [if_neg h])

/-- The last two steps of every drawing function, pipeline lookup and queueing,
on a context that holds the error of `s`. -/
theorem lookup_and_queue_error (depth : Nat) (be : sg_backend) (s s2 : _sgp_context)
    (lookup_type : sg_primitive_type) (blend_mode : sgp_blend_mode) (region : _sgp_region)
    (vertex_index num_vertices : Nat) (primitive_type : sg_primitive_type)
    (h : s2.last_error = s.last_error) :
    error_kept s
      (_sgp_queue_draw depth (_sgp_lookup_pipeline be s2 lookup_type blend_mode).2
        (_sgp_lookup_pipeline be s2 lookup_type blend_mode).1 region vertex_index num_vertices
        primitive_type) :=
  error_kept_trans (Or.inl ((lookup_pipeline_error be s2 lookup_type blend_mode).trans h))
    (queue_draw_error _ _ _ _ _ _ _)

theorem vertices_full_error (s : _sgp_context) :
    error_kept s (_sgp_set_error s SGP_ERROR_VERTICES_FULL) :=
  Or.inr (Or.inl rfl)

theorem sgp_clear_error (depth : Nat) (be : sg_backend) (s : _sgp_context) :
    error_kept s (sgp_clear depth be s) := by
  unfold sgp_clear
  rcases next_vertices_cases s 6 with h | h
  · simp only [h]; exact vertices_full_error s
  · simp only [h]; exact lookup_and_queue_error _ _ _ _ _ _ _ _ _ _ rfl

theorem sgp_draw_error (depth : Nat) (be : sg_backend) (s : _sgp_context)
    (primitive_type : sg_primitive_type) (vertices : Nat → sgp_vertex) (count : Nat) :
    error_kept s (sgp_draw depth be s primitive_type vertices count) := by
  unfold sgp_draw
  split
  · exact Or.inl rfl
  · rcases next_vertices_cases s count with h | h
    · simp only [h]; exact vertices_full_error s
    · simp only [h]; exact lookup_and_queue_error _ _ _ _ _ _ _ _ _ _ rfl

theorem draw_solid_pip_error (depth : Nat) (be : sg_backend) (s : _sgp_context)
    (primitive_type : sg_primitive_type) (vertices : Nat → sgp_vec2) (num_vertices : Nat) :
    error_kept s (_sgp_draw_solid_pip depth be s primitive_type vertices num_vertices) := by
  unfold _sgp_draw_solid_pip
  split
  · exact Or.inl rfl
  · rcases next_vertices_cases s num_vertices with h | h
    · simp only [h]; exact vertices_full_error s
    · simp only [h]; exact lookup_and_queue_error _ _ _ _ _ _ _ _ _ _ rfl

theorem draw_filled_rects_error (depth : Nat) (be : sg_backend) (s : _sgp_context)
    (rects : Nat → sgp_rect) (count : Nat) :
    error_kept s (sgp_draw_filled_rects depth be s rects count) := by
  unfold sgp_draw_filled_rects
  split
  · exact Or.inl rfl
  · rcases next_vertices_cases s (u32 (count * 6)) with h | h
    · simp only [h]; exact vertices_full_error s
    · simp only [h]; exact lookup_and_queue_error _ _ _ _ _ _ _ _ _ _ rfl

theorem draw_textured_rects_error (depth : Nat) (be : sg_backend) (s : _sgp_context)
    (channel : Nat) (rects : Nat → sgp_textured_rect) (count : Nat) :
    error_kept s (sgp_draw_textured_rects depth be s channel rects count) := by
  unfold sgp_draw_textured_rects
  simp only []
  split
  · exact Or.inl rfl
  · rcases next_vertices_cases s (u32 (count * 6)) with h | h
    · simp only [h]; exact vertices_full_error s
    · simp only [h]
      split
      · exact Or.inl rfl
      · exact lookup_and_queue_error _ _ _ _ _ _ _ _ _ _ rfl

/-- A drawing call never clears the error: afterwards the context holds the
error it held before or one of the three errors a drawing call records. -/
theorem run_draw_call_error (depth : Nat) (be : sg_backend) (s : _sgp_context)
    (call : draw_call) : error_kept s (run_draw_call depth be s call) := by
  cases call with
  | clear => exact sgp_clear_error _ _ _
  | draw primitive_type vertices count => exact sgp_draw_error _ _ _ _ _ _
  | points points count => exact draw_solid_pip_error _ _ _ _ _ _
  | point x y => exact draw_solid_pip_error _ _ _ _ _ _
  | lines lines count => exact draw_solid_pip_error _ _ _ _ _ _
  | line ax ay bx b_y => exact draw_solid_pip_error _ _ _ _ _ _
  | lines_strip points count => exact draw_solid_pip_error _ _ _ _ _ _
  | filled_triangles triangles count => exact draw_solid_pip_error _ _ _ _ _ _
  | filled_triangle ax ay bx b_y cx cy => exact draw_solid_pip_error _ _ _ _ _ _
  | filled_triangles_strip points count => exact draw_solid_pip_error _ _ _ _ _ _
  | filled_rects rects count => exact draw_filled_rects_error _ _ _ _ _
  | filled_rect x y w h => exact draw_filled_rects_error _ _ _ _ _
  | textured_rects channel rects count => exact draw_textured_rects_error _ _ _ _ _ _
  | textured_rect channel dest_rect src_rect => exact draw_textured_rects_error _ _ _ _ _ _

theorem run_draw_calls_error (depth : Nat) (be : sg_backend) (calls : List draw_call) :
    ∀ s : _sgp_context, error_kept s (calls.foldl (run_draw_call depth be) s) := by
  induction calls with
  | nil => intro s; exact Or.inl rfl
  | cons call rest ih =>
    intro s
    exact error_kept_trans (run_draw_call_error depth be s call) (ih _)

/-! ### Claims on the full arenas and on the flush -/

/-- C15 fails on the code, for vertex counts that leave the range of
`uint32_t`. The segment has 12 of 1024 vertices in use. `sgp_draw_lines` with
2147483648 lines needs 4294967296 vertices; `count*2` wraps to 0 and the call
returns without recording an error. `_sgp_next_vertices` asked for 4294967290
vertices (`sgp_draw` or `sgp_draw_points` with that count) finds
`cur_vertex + count` wrapped to 6, below the capacity: it answers with index
12, records no error and moves the vertex cursor from 12 back to 6. For
715827883 rectangles `count*6` wraps to 2 and two vertices are reserved. -/
theorem vertex_count_wraps_around :
    scenario2_context.cur_vertex = 12
    ∧ scenario2_context.num_vertices = 1024
    ∧ scenario2_context.last_error = SGP_NO_ERROR
    ∧ draw_call_vertices (draw_call.lines zero_lines 2147483648) = 4294967296
    ∧ sgp_draw_lines 8 sample_backend scenario2_context zero_lines 2147483648
        = scenario2_context
    ∧ (_sgp_next_vertices scenario2_context 4294967290).1 = some 12
    ∧ (_sgp_next_vertices scenario2_context 4294967290).2.cur_vertex = 6
    ∧ (_sgp_next_vertices scenario2_context 4294967290).2.last_error = SGP_NO_ERROR
    ∧ u32 (715827883 * 6) = 2
    ∧ (_sgp_next_vertices scenario2_context (u32 (715827883 * 6))).1 = some 12
    ∧ (_sgp_next_vertices scenario2_context (u32 (715827883 * 6))).2.cur_vertex = 14
    ∧ (_sgp_next_vertices scenario2_context (u32 (715827883 * 6))).2.last_error
        = SGP_NO_ERROR :=
  ⟨by decide, by decide, by decide, by decide, rfl, by decide, by decide, by decide, by decide,
    by decide, by decide, by decide⟩

/-- C16: a draw whose region lies entirely outside the clip bounds is rolled
back. Context `s` is the context before the drawing call; the call reserves
`count` vertices at the vertex cursor, writes vertices and may cache a pipeline
(`vertices` and `pipelines` are the arrays afterwards), then queues the draw.
Queueing it changes nothing but the vertex cursor, which returns to its value
before the call: no draw command is written, none is changed by a merge, and
the command cursor is where it was. -/
theorem out_of_bounds_draw_rolls_back (depth : Nat) (s : _sgp_context)
    (vertices : Nat → sgp_vertex) (pipelines : Nat → sg_pipeline) (pip : sg_pipeline)
    (region : _sgp_region) (count : Nat) (primitive_type : sg_primitive_type)
    (hreg : region_out_of_bounds region) (hv : s.cur_vertex < 4294967296) :
    _sgp_queue_draw depth
        { s with
          cur_vertex := u32 (s.cur_vertex + count), vertices := vertices, pipelines := pipelines }
        pip region s.cur_vertex count primitive_type
      = { s with vertices := vertices, pipelines := pipelines }
    ∧ (_sgp_queue_draw depth
        { s with
          cur_vertex := u32 (s.cur_vertex + count), vertices := vertices, pipelines := pipelines }
        pip region s.cur_vertex count primitive_type).cur_vertex = s.cur_vertex
    ∧ (_sgp_queue_draw depth
        { s with
          cur_vertex := u32 (s.cur_vertex + count), vertices := vertices, pipelines := pipelines }
        pip region s.cur_vertex count primitive_type).cur_command = s.cur_command
    ∧ (_sgp_queue_draw depth
        { s with
          cur_vertex := u32 (s.cur_vertex + count), vertices := vertices, pipelines := pipelines }
        pip region s.cur_vertex count primitive_type).commands = s.commands := by
  have hback : u32_sub (u32 (s.cur_vertex + count)) count = s.cur_vertex := by
    unfold u32_sub u32; omega
  have key : _sgp_queue_draw depth
      { s with
        cur_vertex := u32 (s.cur_vertex + count), vertices := vertices, pipelines := pipelines }
      pip region s.cur_vertex count primitive_type
      = { s with vertices := vertices, pipelines := pipelines } := by
    by_cases hpip : (queue_pipeline { s with
        cur_vertex := u32 (s.cur_vertex + count), vertices := vertices, pipelines := pipelines }
        pip).id = SG_INVALID_ID
    · rw [queue_draw_invalid_pipeline depth _ pip region s.cur_vertex count primitive_type hpip]
      simp only [hback]
    · rw [queue_draw_out_of_bounds depth _ pip region s.cur_vertex count primitive_type hpip
        hreg]
      simp only [hback]
  rw [key]
  exact ⟨rfl, rfl, rfl, rfl⟩

/-- C16 at a segment with one rectangle queued: six more vertices are reserved
and queued with a region to the right of the clip bounds; the vertex cursor is
back at 12 and the command cursor still at 1. -/
theorem out_of_bounds_draw_rolls_back_witness :
    region_out_of_bounds (sample_region 2 0 3 1)
    ∧ (_sgp_queue_draw 8
        { scenario2_context with
          cur_vertex := u32 (scenario2_context.cur_vertex + 6)
          vertices := scenario2_context.vertices
          pipelines := scenario2_context.pipelines }
        { id := 1 } (sample_region 2 0 3 1) scenario2_context.cur_vertex 6
        SG_PRIMITIVETYPE_TRIANGLES).cur_vertex = 12
    ∧ (_sgp_queue_draw 8
        { scenario2_context with
          cur_vertex := u32 (scenario2_context.cur_vertex + 6)
          vertices := scenario2_context.vertices
          pipelines := scenario2_context.pipelines }
        { id := 1 } (sample_region 2 0 3 1) scenario2_context.cur_vertex 6
        SG_PRIMITIVETYPE_TRIANGLES).cur_command = 1 :=
  ⟨by decide,
    (out_of_bounds_draw_rolls_back 8 scenario2_context scenario2_context.vertices
      scenario2_context.pipelines { id := 1 } (sample_region 2 0 3 1) 6
      SG_PRIMITIVETYPE_TRIANGLES (by decide) (by decide)).2.1,
    (out_of_bounds_draw_rolls_back 8 scenario2_context scenario2_context.vertices
      scenario2_context.pipelines { id := 1 } (sample_region 2 0 3 1) 6
      SG_PRIMITIVETYPE_TRIANGLES (by decide) (by decide)).2.2.1⟩

theorem flush_on_error (s : _sgp_context) (offset : Int) (overflow : Bool)
    (herr : s.last_error ≠ SGP_NO_ERROR) :
    sgp_flush s offset overflow
      = ({ s with
            cur_vertex := s.state._base_vertex
            cur_uniform := s.state._base_uniform
            cur_command := s.state._base_command }, []) := by
  unfold sgp_flush
  simp only []
  rw [if_pos herr]

/-- C17: when the last-error slot is not `SGP_NO_ERROR`, `sgp_flush` makes no
backend call at all (the list of calls, which would hold the vertex upload and
every pipeline, binding, uniform, viewport, scissor and draw call, is empty),
and the three cursors are rewound to the base indices of the segment. -/
theorem flush_is_silent_on_error (s : _sgp_context) (offset : Int) (overflow : Bool)
    (herr : s.last_error ≠ SGP_NO_ERROR) :
    (sgp_flush s offset overflow).2 = []
    ∧ (sgp_flush s offset overflow).1.cur_vertex = s.state._base_vertex
    ∧ (sgp_flush s offset overflow).1.cur_uniform = s.state._base_uniform
    ∧ (sgp_flush s offset overflow).1.cur_command = s.state._base_command
    ∧ (sgp_flush s offset overflow).1.last_error = s.last_error := by
  rw [flush_on_error s offset overflow herr]
  exact ⟨rfl, rfl, rfl, rfl, rfl⟩

/-- C17 at a segment with one rectangle queued and `SGP_ERROR_COMMANDS_FULL`
recorded: no backend call, cursors at zero. -/
theorem flush_is_silent_on_error_witness :
    (_sgp_set_error scenario2_context SGP_ERROR_COMMANDS_FULL).cur_command = 1
    ∧ (sgp_flush (_sgp_set_error scenario2_context SGP_ERROR_COMMANDS_FULL) 0 false).2 = []
    ∧ (sgp_flush (_sgp_set_error scenario2_context SGP_ERROR_COMMANDS_FULL) 0 false).1.cur_vertex
        = 0
    ∧ (sgp_flush (_sgp_set_error scenario2_context SGP_ERROR_COMMANDS_FULL) 0 false).1.cur_command
        = 0 :=
  ⟨by decide,
    (flush_is_silent_on_error (_sgp_set_error scenario2_context SGP_ERROR_COMMANDS_FULL) 0 false
      (by decide)).1,
    (flush_is_silent_on_error (_sgp_set_error scenario2_context SGP_ERROR_COMMANDS_FULL) 0 false
      (by decide)).2.1,
    (flush_is_silent_on_error (_sgp_set_error scenario2_context SGP_ERROR_COMMANDS_FULL) 0 false
      (by decide)).2.2.2.1⟩

set_option maxRecDepth 100000 in
/-- C18 fails on the code. The outer segment queues one draw (`sgp_clear`, six
vertices) and then fails a draw of 400 rectangles with
`SGP_ERROR_VERTICES_FULL`. Flushed at once, the segment dispatches nothing. With
a nested segment begun and ended in between, `sgp_begin` has reset the last
error, `sgp_end` does not bring it back, and the flush of the outer segment
uploads the vertices and dispatches the draw of vertices 0 to 5. -/
theorem nested_segment_clears_error :
    (exhausted_frame 8).last_error = SGP_ERROR_VERTICES_FULL
    ∧ (exhausted_frame 8).cur_command = 1
    ∧ (sgp_flush (exhausted_frame 8) 0 false).2 = []
    ∧ (nested_segment_frame 8).last_error = SGP_NO_ERROR
    ∧ (nested_segment_frame 8).cur_state = (exhausted_frame 8).cur_state
    ∧ (nested_segment_frame 8).cur_command = 1
    ∧ dispatched_draws (sgp_flush (nested_segment_frame 8) 0 false).2 = [(0, 6)]
    ∧ (sgp_flush (nested_segment_frame 8) 0 false).2.length = 4 := by
  decide

set_option maxRecDepth 100000 in
/-- C19, as stated, fails: the segment queues one draw (`sgp_clear`, six
vertices) and then a draw of 400 rectangles that no longer fits. The failed call
records `SGP_ERROR_VERTICES_FULL` and the queue still holds the draw command
of `sgp_clear`, yet `sgp_flush` makes no backend call: the draw issued before
the exhaustion is not dispatched. -/
theorem flush_after_exhaustion_counterexample :
    (exhausted_frame 8).last_error = SGP_ERROR_VERTICES_FULL
    ∧ (exhausted_frame 8).cur_command = 1
    ∧ ((exhausted_frame 8).commands 0).cmd = SGP_COMMAND_DRAW
    ∧ ((exhausted_frame 8).commands 0).args.draw.vertex_index = 0
    ∧ ((exhausted_frame 8).commands 0).args.draw.num_vertices = 6
    ∧ (sgp_flush (exhausted_frame 8) 0 false).2 = []
    ∧ dispatched_draws (sgp_flush (exhausted_frame 8) 0 false).2 = []
    ∧ dispatched_draws
        (sgp_flush (sgp_clear 8 sample_backend (sgp_begin setup_context 2 2)) 0 false).2
        = [(0, 6)] := by
  decide

/-- C20: after `sgp_flush` the vertex, uniform and command cursors equal the
base indices of the segment and the render state is the one before the flush,
for every context and every answer of the backend: whether the flush returned
early on a recorded error or an empty queue, failed with
`SGP_ERROR_VERTICES_OVERFLOW`, or dispatched the queue. Nothing but the three
cursors and the last error differs from the context before. -/
theorem flush_rewinds_cursors (s : _sgp_context) (offset : Int) (overflow : Bool) :
    (sgp_flush s offset overflow).1.cur_vertex = s.state._base_vertex
    ∧ (sgp_flush s offset overflow).1.cur_uniform = s.state._base_uniform
    ∧ (sgp_flush s offset overflow).1.cur_command = s.state._base_command
    ∧ (sgp_flush s offset overflow).1.state = s.state
    ∧ (sgp_flush s offset overflow).1
        = { s with
            cur_vertex := s.state._base_vertex
            cur_uniform := s.state._base_uniform
            cur_command := s.state._base_command
            last_error := (sgp_flush s offset overflow).1.last_error } := by
  unfold sgp_flush
  simp only []
  split
  · exact ⟨rfl, rfl, rfl, rfl, rfl⟩
  · split
    · exact ⟨rfl, rfl, rfl, rfl, rfl⟩
    · split
      · exact ⟨rfl, rfl, rfl, rfl, rfl⟩
      · exact ⟨rfl, rfl, rfl, rfl, rfl⟩

/-! ### What the drawing functions leave alone -/

theorem draw_kept_refl (s : _sgp_context) : draw_kept s s :=
  ⟨rfl, rfl, rfl, rfl, rfl, rfl, rfl, rfl⟩

theorem draw_kept_trans {s t r : _sgp_context} (h1 : draw_kept s t) (h2 : draw_kept t r) :
    draw_kept s r := by
  obtain ⟨a1, a2, a3, a4, a5, a6, a7, a8⟩ := h1
  obtain ⟨b1, b2, b3, b4, b5, b6, b7, b8⟩ := h2
  exact ⟨b1.trans a1, b2.trans a2, b3.trans a3, b4.trans a4, b5.trans a5, b6.trans a6,
    b7.trans a7, b8.trans a8⟩

theorem merge_into_prev_kept (s : _sgp_context) (prev : Nat) (gap : List Nat)
    (prev_region region : _sgp_region) (vertex_index num_vertices : Nat) :
    draw_kept s (_sgp_merge_into_prev s prev gap prev_region region vertex_index
      num_vertices).2 := by
  unfold _sgp_merge_into_prev draw_kept
  by_cases hlen : gap.length > 0
  · simp only [hlen, if_true]
    by_cases h1 : u32 (s.cur_vertex + num_vertices) > s.num_vertices
    · simp [h1]
    · simp only [h1, if_false]
      by_cases h2 : u32_sub s.cur_vertex (u32 ((s.commands prev).args.draw.vertex_index
          + (s.commands prev).args.draw.num_vertices)) > _SGP_MAX_MOVE_VERTICES
      · simp [h2]
      · simp [h2]
  · simp [hlen]

theorem merge_into_next_kept (s : _sgp_context) (prev : Nat) (pip : sg_pipeline)
    (textures : sgp_textures_uniform) (prev_region region : _sgp_region)
    (vertex_index num_vertices : Nat) :
    draw_kept s (_sgp_merge_into_next s prev pip textures prev_region region vertex_index
      num_vertices).2 := by
  unfold _sgp_merge_into_next draw_kept
  by_cases hcmd : s.cur_command < s.num_commands
  · simp only [_sgp_next_command, hcmd, if_true]
    by_cases h1 : u32 (s.cur_vertex + (s.commands prev).args.draw.num_vertices) > s.num_vertices
    · simp [h1]
    · simp only [h1, if_false]
      by_cases h2 : num_vertices > _SGP_MAX_MOVE_VERTICES
      · simp [h2]
      · simp [h2]
  · simp [_sgp_next_command, hcmd, _sgp_set_error]

theorem merge_batch_command_kept (depth : Nat) (s : _sgp_context) (pip : sg_pipeline)
    (textures : sgp_textures_uniform) (uniform : Option sgp_uniform) (region : _sgp_region)
    (vertex_index num_vertices : Nat) :
    draw_kept s (_sgp_merge_batch_command depth s pip textures uniform region vertex_index
      num_vertices).2 := by
  unfold _sgp_merge_batch_command
  by_cases hd : depth = 0
  · simp only [hd, if_true]; exact draw_kept_refl s
  · simp only [hd, if_false]
    rcases hscan : _sgp_merge_scan s pip textures uniform
        (u32_sub s.cur_command s.state._base_command + 1) 0 depth [] with ⟨cand, inter⟩
    cases cand with
    | none => exact draw_kept_refl s
    | some prev =>
      simp only []
      rcases hov : _sgp_merge_overlaps s region (s.commands prev).args.draw.region inter
          false false with _ | ⟨a, b⟩
      · exact draw_kept_refl s
      · simp only []
        cases a with
        | false =>
          simp only [Bool.not_false, if_true]
          exact merge_into_prev_kept _ _ _ _ _ _ _
        | true =>
          simp only [Bool.not_true, Bool.false_eq_true, if_false]
          exact merge_into_next_kept _ _ _ _ _ _ _ _

theorem queue_draw_append_kept (s : _sgp_context) (pip : sg_pipeline) (region : _sgp_region)
    (uniform_index vertex_index num_vertices : Nat) :
    draw_kept s
      (_sgp_queue_draw_append s pip region uniform_index vertex_index num_vertices) := by
  unfold _sgp_queue_draw_append draw_kept
  by_cases hcmd : s.cur_command < s.num_commands
  · simp [_sgp_next_command, hcmd]
  · simp [_sgp_next_command, hcmd, _sgp_set_error]

theorem queue_draw_fresh_kept (s : _sgp_context) (pip : sg_pipeline)
    (uniform : Option sgp_uniform) (region : _sgp_region) (vertex_index num_vertices : Nat) :
    draw_kept s (_sgp_queue_draw_fresh s pip uniform region vertex_index num_vertices) := by
  unfold _sgp_queue_draw_fresh
  cases uniform with
  | none => exact queue_draw_append_kept _ _ _ _ _ _
  | some u =>
    simp only []
    split
    · by_cases huni : s.cur_uniform < s.num_uniforms
      · simp only [_sgp_next_uniform, huni, if_true]
        exact draw_kept_trans ⟨rfl, rfl, rfl, rfl, rfl, rfl, rfl, rfl⟩
          (queue_draw_append_kept _ _ _ _ _ _)
      · simp [_sgp_next_uniform, huni, _sgp_set_error, draw_kept]
    · exact queue_draw_append_kept _ _ _ _ _ _

theorem queue_draw_kept (depth : Nat) (s : _sgp_context) (pip : sg_pipeline)
    (region : _sgp_region) (vertex_index num_vertices : Nat) (primitive_type : sg_primitive_type) :
    draw_kept s
      (_sgp_queue_draw depth s pip region vertex_index num_vertices primitive_type) := by
  by_cases hpip : (queue_pipeline s pip).id = SG_INVALID_ID
  · rw [queue_draw_invalid_pipeline depth s pip region vertex_index num_vertices primitive_type
      hpip]
    exact ⟨rfl, rfl, rfl, rfl, rfl, rfl, rfl, rfl⟩
  · by_cases hreg : region_out_of_bounds region
    · rw [queue_draw_out_of_bounds depth s pip region vertex_index num_vertices primitive_type
        hpip hreg]
      exact ⟨rfl, rfl, rfl, rfl, rfl, rfl, rfl, rfl⟩
    · rw [queue_draw_unfold depth s pip region vertex_index num_vertices primitive_type hpip hreg
        (merge_attempt depth s pip region vertex_index num_vertices primitive_type) rfl]
      have hm : draw_kept s
          (merge_attempt depth s pip region vertex_index num_vertices primitive_type).2 := by
        unfold merge_attempt
        split
        · exact merge_batch_command_kept _ _ _ _ _ _ _ _
        · exact draw_kept_refl s
      split
      · exact hm
      · exact draw_kept_trans hm (queue_draw_fresh_kept _ _ _ _ _ _)

theorem lookup_pipeline_kept (be : sg_backend) (s : _sgp_context)
    (primitive_type : sg_primitive_type) (blend_mode : sgp_blend_mode) :
    draw_kept s (_sgp_lookup_pipeline be s primitive_type blend_mode).2 := by
  unfold _sgp_lookup_pipeline
  simp only []
  split
  · exact draw_kept_refl s
  · split
    · exact ⟨rfl, rfl, rfl, rfl, rfl, rfl, rfl, rfl⟩
    · exact draw_kept_refl s

/-- The last two steps of every drawing function, pipeline lookup and queueing,
on a context that differs from `s` in parts a drawing function may write. -/
theorem lookup_and_queue_kept (depth : Nat) (be : sg_backend) (s s2 : _sgp_context)
    (lookup_type : sg_primitive_type) (blend_mode : sgp_blend_mode) (region : _sgp_region)
    (vertex_index num_vertices : Nat) (primitive_type : sg_primitive_type)
    (h : draw_kept s s2) :
    draw_kept s
      (_sgp_queue_draw depth (_sgp_lookup_pipeline be s2 lookup_type blend_mode).2
        (_sgp_lookup_pipeline be s2 lookup_type blend_mode).1 region vertex_index num_vertices
        primitive_type) :=
  draw_kept_trans (draw_kept_trans h (lookup_pipeline_kept be s2 lookup_type blend_mode))
    (queue_draw_kept _ _ _ _ _ _ _)

theorem set_error_kept (s : _sgp_context) (e : sgp_error) : draw_kept s (_sgp_set_error s e) :=
  ⟨rfl, rfl, rfl, rfl, rfl, rfl, rfl, rfl⟩

theorem sgp_clear_kept (depth : Nat) (be : sg_backend) (s : _sgp_context) :
    draw_kept s (sgp_clear depth be s) := by
  unfold sgp_clear
  rcases next_vertices_cases s 6 with h | h
  · simp only [h]; exact set_error_kept s _
  · simp only [h]
    exact lookup_and_queue_kept _ _ _ _ _ _ _ _ _ _ ⟨rfl, rfl, rfl, rfl, rfl, rfl, rfl, rfl⟩

theorem sgp_draw_kept (depth : Nat) (be : sg_backend) (s : _sgp_context)
    (primitive_type : sg_primitive_type) (vertices : Nat → sgp_vertex) (count : Nat) :
    draw_kept s (sgp_draw depth be s primitive_type vertices count) := by
  unfold sgp_draw
  split
  · exact draw_kept_refl s
  · rcases next_vertices_cases s count with h | h
    · simp only [h]; exact set_error_kept s _
    · simp only [h]
      exact lookup_and_queue_kept _ _ _ _ _ _ _ _ _ _ ⟨rfl, rfl, rfl, rfl, rfl, rfl, rfl, rfl⟩

theorem draw_solid_pip_kept (depth : Nat) (be : sg_backend) (s : _sgp_context)
    (primitive_type : sg_primitive_type) (vertices : Nat → sgp_vec2) (num_vertices : Nat) :
    draw_kept s (_sgp_draw_solid_pip depth be s primitive_type vertices num_vertices) := by
  unfold _sgp_draw_solid_pip
  split
  · exact draw_kept_refl s
  · rcases next_vertices_cases s num_vertices with h | h
    · simp only [h]; exact set_error_kept s _
    · simp only [h]
      exact lookup_and_queue_kept _ _ _ _ _ _ _ _ _ _ ⟨rfl, rfl, rfl, rfl, rfl, rfl, rfl, rfl⟩

theorem draw_filled_rects_kept (depth : Nat) (be : sg_backend) (s : _sgp_context)
    (rects : Nat → sgp_rect) (count : Nat) :
    draw_kept s (sgp_draw_filled_rects depth be s rects count) := by
  unfold sgp_draw_filled_rects
  split
  · exact draw_kept_refl s
  · rcases next_vertices_cases s (u32 (count * 6)) with h | h
    · simp only [h]; exact set_error_kept s _
    · simp only [h]
      exact lookup_and_queue_kept _ _ _ _ _ _ _ _ _ _ ⟨rfl, rfl, rfl, rfl, rfl, rfl, rfl, rfl⟩

theorem draw_textured_rects_kept (depth : Nat) (be : sg_backend) (s : _sgp_context)
    (channel : Nat) (rects : Nat → sgp_textured_rect) (count : Nat) :
    draw_kept s (sgp_draw_textured_rects depth be s channel rects count) := by
  unfold sgp_draw_textured_rects
  simp only []
  split
  · exact draw_kept_refl s
  · rcases next_vertices_cases s (u32 (count * 6)) with h | h
    · simp only [h]; exact set_error_kept s _
    · simp only [h]
      split
      · exact ⟨rfl, rfl, rfl, rfl, rfl, rfl, rfl, rfl⟩
      · exact lookup_and_queue_kept _ _ _ _ _ _ _ _ _ _
          ⟨rfl, rfl, rfl, rfl, rfl, rfl, rfl, rfl⟩

/-- A drawing call leaves the render state, the two stacks and the capacities
as they were. -/
theorem run_draw_call_kept (depth : Nat) (be : sg_backend) (s : _sgp_context)
    (call : draw_call) : draw_kept s (run_draw_call depth be s call) := by
  cases call with
  | clear => exact sgp_clear_kept _ _ _
  | draw primitive_type vertices count => exact sgp_draw_kept _ _ _ _ _ _
  | points points count => exact draw_solid_pip_kept _ _ _ _ _ _
  | point x y => exact draw_solid_pip_kept _ _ _ _ _ _
  | lines lines count => exact draw_solid_pip_kept _ _ _ _ _ _
  | line ax ay bx b_y => exact draw_solid_pip_kept _ _ _ _ _ _
  | lines_strip points count => exact draw_solid_pip_kept _ _ _ _ _ _
  | filled_triangles triangles count => exact draw_solid_pip_kept _ _ _ _ _ _
  | filled_triangle ax ay bx b_y cx cy => exact draw_solid_pip_kept _ _ _ _ _ _
  | filled_triangles_strip points count => exact draw_solid_pip_kept _ _ _ _ _ _
  | filled_rects rects count => exact draw_filled_rects_kept _ _ _ _ _
  | filled_rect x y w h => exact draw_filled_rects_kept _ _ _ _ _
  | textured_rects channel rects count => exact draw_textured_rects_kept _ _ _ _ _ _
  | textured_rect channel dest_rect src_rect => exact draw_textured_rects_kept _ _ _ _ _ _

/-! ### The two stacks under a sequence of calls -/

theorem flush_context (s : _sgp_context) (offset : Int) (overflow : Bool) :
    (sgp_flush s offset overflow).1
      = { s with
          cur_vertex := s.state._base_vertex
          cur_uniform := s.state._base_uniform
          cur_command := s.state._base_command
          last_error := (sgp_flush s offset overflow).1.last_error } := by
  unfold sgp_flush
  simp only []
  split
  · rfl
  · split
    · rfl
    · split <;> rfl

/-- The slot a viewport or scissor call writes is the last command of the
segment, or the slot at the cursor, which the call takes; with a full queue the
call records the error. Nothing else changes. -/
theorem reuse_or_next_command_cases (s : _sgp_context) (tag : _sgp_command_type) :
    (∃ cmd, _sgp_reuse_or_next_command s tag = (some cmd, s))
    ∨ _sgp_reuse_or_next_command s tag
        = (some s.cur_command, { s with cur_command := u32 (s.cur_command + 1) })
    ∨ _sgp_reuse_or_next_command s tag = (none, _sgp_set_error s SGP_ERROR_COMMANDS_FULL) := by
  have hnext : _sgp_next_command s
        = (some s.cur_command, { s with cur_command := u32 (s.cur_command + 1) })
      ∨ _sgp_next_command s = (none, _sgp_set_error s SGP_ERROR_COMMANDS_FULL) := by
    unfold _sgp_next_command
    by_cases h : s.cur_command < s.num_commands
    · exact Or.inl (by rw [if_pos h])
    · exact Or.inr (by rw [if_neg h])
  unfold _sgp_reuse_or_next_command
  cases _sgp_prev_command s 1 with
  | none => exact Or.inr hnext
  | some cmd =>
    simp only []
    split
    · exact Or.inr hnext
    · exact Or.inl ⟨cmd, rfl⟩

theorem stacks_kept_trans {s t r : _sgp_context} (h1 : stacks_kept s t) (h2 : stacks_kept t r) :
    stacks_kept s r :=
  ⟨h2.1.trans h1.1, h2.2.1.trans h1.2.1, h2.2.2.1.trans h1.2.2.1, h2.2.2.2.trans h1.2.2.2⟩

theorem sgp_viewport_stacks (s : _sgp_context) (x y w h : Int) :
    stacks_kept s (sgp_viewport s x y w h) := by
  unfold sgp_viewport
  split
  · exact ⟨rfl, rfl, rfl, rfl⟩
  · rcases reuse_or_next_command_cases s SGP_COMMAND_VIEWPORT with ⟨cmd, h⟩ | h | h
    · rw [h]; exact ⟨rfl, rfl, rfl, rfl⟩
    · rw [h]; exact ⟨rfl, rfl, rfl, rfl⟩
    · rw [h]; exact ⟨rfl, rfl, rfl, rfl⟩

theorem sgp_scissor_stacks (s : _sgp_context) (x y w h : Int) :
    stacks_kept s (sgp_scissor s x y w h) := by
  unfold sgp_scissor
  split
  · exact ⟨rfl, rfl, rfl, rfl⟩
  · rcases reuse_or_next_command_cases s SGP_COMMAND_SCISSOR with ⟨cmd, h⟩ | h | h
    · rw [h]; exact ⟨rfl, rfl, rfl, rfl⟩
    · rw [h]; exact ⟨rfl, rfl, rfl, rfl⟩
    · rw [h]; exact ⟨rfl, rfl, rfl, rfl⟩

theorem sgp_set_image_stacks (s : _sgp_context) (channel : Nat) (image : sg_image) :
    stacks_kept s (sgp_set_image s channel image) := by
  unfold sgp_set_image
  split <;> exact ⟨rfl, rfl, rfl, rfl⟩

theorem state_update_stacks (s : _sgp_context) (state : sgp_state) :
    stacks_kept s { s with state := state } :=
  ⟨rfl, rfl, rfl, rfl⟩

theorem sgp_reset_project_stacks (s : _sgp_context) : stacks_kept s (sgp_reset_project s) :=
  state_update_stacks s _

theorem sgp_reset_transform_stacks (s : _sgp_context) : stacks_kept s (sgp_reset_transform s) :=
  state_update_stacks s _

theorem sgp_reset_blend_mode_stacks (s : _sgp_context) :
    stacks_kept s (sgp_reset_blend_mode s) :=
  state_update_stacks s _

theorem sgp_reset_color_stacks (s : _sgp_context) : stacks_kept s (sgp_reset_color s) :=
  state_update_stacks s _

theorem sgp_reset_uniform_stacks (s : _sgp_context) : stacks_kept s (sgp_reset_uniform s) :=
  state_update_stacks s _

theorem sgp_reset_pipeline_stacks (s : _sgp_context) : stacks_kept s (sgp_reset_pipeline s) :=
  state_update_stacks s _

theorem sgp_reset_state_stacks (s : _sgp_context) : stacks_kept s (sgp_reset_state s) := by
  unfold sgp_reset_state
  exact stacks_kept_trans (stacks_kept_trans (stacks_kept_trans (stacks_kept_trans
    (stacks_kept_trans (stacks_kept_trans (stacks_kept_trans
      (sgp_viewport_stacks s _ _ _ _) (sgp_scissor_stacks _ _ _ _ _))
      (sgp_reset_project_stacks _)) (sgp_reset_transform_stacks _))
      (sgp_reset_blend_mode_stacks _)) (sgp_reset_color_stacks _))
      (sgp_reset_uniform_stacks _)) (sgp_reset_pipeline_stacks _)

/-- Only `sgp_begin` and `sgp_end` touch the state stack and its depth, and only
`sgp_push_transform` and `sgp_pop_transform` the transform stack and its
depth. -/
theorem run_call_stacks (depth : Nat) (be : sg_backend) (s : _sgp_context) (call : sgp_call) :
    (state_move call = stack_move.keep →
      (run_call depth be s call).cur_state = s.cur_state
      ∧ (run_call depth be s call).state_stack = s.state_stack)
    ∧ (transform_move call = stack_move.keep →
      (run_call depth be s call).cur_transform = s.cur_transform
      ∧ (run_call depth be s call).transform_stack = s.transform_stack) := by
  cases call with
  | draw call =>
    obtain ⟨-, h2, h3, h4, h5, -⟩ := run_draw_call_kept depth be s call
    exact ⟨fun _ => ⟨h2, h3⟩, fun _ => ⟨h4, h5⟩⟩
  | sgp_begin width height =>
    refine ⟨fun h => by simp [state_move] at h, fun _ => ?_⟩
    simp only [run_call, sgp_begin]
    split <;> exact ⟨rfl, rfl⟩
  | sgp_flush offset overflow =>
    simp only [run_call]
    rw [flush_context]
    exact ⟨fun _ => ⟨rfl, rfl⟩, fun _ => ⟨rfl, rfl⟩⟩
  | sgp_end =>
    refine ⟨fun h => by simp [state_move] at h, fun _ => ?_⟩
    simp only [run_call, sgp_end]
    split <;> exact ⟨rfl, rfl⟩
  | sgp_push_transform =>
    refine ⟨fun _ => ?_, fun h => by simp [transform_move] at h⟩
    simp only [run_call, sgp_push_transform]
    split <;> exact ⟨rfl, rfl⟩
  | sgp_pop_transform =>
    refine ⟨fun _ => ?_, fun h => by simp [transform_move] at h⟩
    simp only [run_call, sgp_pop_transform]
    split <;> exact ⟨rfl, rfl⟩
  | sgp_viewport x y w h =>
    obtain ⟨h1, h2, h3, h4⟩ := sgp_viewport_stacks s x y w h
    exact ⟨fun _ => ⟨h1, h2⟩, fun _ => ⟨h3, h4⟩⟩
  | sgp_reset_viewport =>
    obtain ⟨h1, h2, h3, h4⟩ := sgp_viewport_stacks s 0 0 s.state.frame_size.w s.state.frame_size.h
    exact ⟨fun _ => ⟨h1, h2⟩, fun _ => ⟨h3, h4⟩⟩
  | sgp_scissor x y w h =>
    obtain ⟨h1, h2, h3, h4⟩ := sgp_scissor_stacks s x y w h
    exact ⟨fun _ => ⟨h1, h2⟩, fun _ => ⟨h3, h4⟩⟩
  | sgp_reset_scissor =>
    obtain ⟨h1, h2, h3, h4⟩ := sgp_scissor_stacks s 0 0 (-1) (-1)
    exact ⟨fun _ => ⟨h1, h2⟩, fun _ => ⟨h3, h4⟩⟩
  | sgp_set_image channel image =>
    obtain ⟨h1, h2, h3, h4⟩ := sgp_set_image_stacks s channel image
    exact ⟨fun _ => ⟨h1, h2⟩, fun _ => ⟨h3, h4⟩⟩
  | sgp_unset_image channel =>
    obtain ⟨h1, h2, h3, h4⟩ := sgp_set_image_stacks s channel { id := SG_INVALID_ID }
    exact ⟨fun _ => ⟨h1, h2⟩, fun _ => ⟨h3, h4⟩⟩
  | sgp_reset_image channel =>
    simp only [run_call, sgp_reset_image]
    split
    · obtain ⟨h1, h2, h3, h4⟩ := sgp_set_image_stacks s channel s.white_img
      exact ⟨fun _ => ⟨h1, h2⟩, fun _ => ⟨h3, h4⟩⟩
    · obtain ⟨h1, h2, h3, h4⟩ := sgp_set_image_stacks s channel { id := SG_INVALID_ID }
      exact ⟨fun _ => ⟨h1, h2⟩, fun _ => ⟨h3, h4⟩⟩
  | sgp_reset_state =>
    obtain ⟨h1, h2, h3, h4⟩ := sgp_reset_state_stacks s
    exact ⟨fun _ => ⟨h1, h2⟩, fun _ => ⟨h3, h4⟩⟩
  | _ => exact ⟨fun _ => ⟨rfl, rfl⟩, fun _ => ⟨rfl, rfl⟩⟩

/-- Under a list of calls whose pushes and pops of the transform stack are well
nested above the depth `base` and fit into the stack, the depth follows the
nesting level and the entries below `base` stay as they are. -/
theorem transform_walk (depth : Nat) (be : sg_backend) (base room : Nat)
    (hroom : base + room ≤ _SGP_MAX_STACK_DEPTH) :
    ∀ (calls : List sgp_call) (s : _sgp_context) (level final : Nat),
      level ≤ room → s.cur_transform = base + level →
      stack_walk room (calls.map transform_move) level = some final →
      (calls.foldl (run_call depth be) s).cur_transform = base + final
      ∧ ∀ i, i < base →
          (calls.foldl (run_call depth be) s).transform_stack i = s.transform_stack i := by
  unfold _SGP_MAX_STACK_DEPTH at hroom
  intro calls
  induction calls with
  | nil =>
    intro s level final hlv hc hw
    simp only [List.map_nil, stack_walk, Option.some.injEq] at hw
    subst hw
    exact ⟨hc, fun _ _ => rfl⟩
  | cons call rest ih =>
    intro s level final hlv hc hw
    simp only [List.map_cons] at hw
    simp only [List.foldl_cons]
    cases hmove : transform_move call with
    | save =>
      rw [hmove] at hw
      simp only [stack_walk] at hw
      by_cases hl : level < room
      · rw [if_pos hl] at hw
        have hcall : call = sgp_call.sgp_push_transform := by
          cases call <;> first | rfl | simp [transform_move] at hmove
        subst hcall
        have hlt : ¬ s.cur_transform ≥ _SGP_MAX_STACK_DEPTH := by
          unfold _SGP_MAX_STACK_DEPTH; omega
        have e : u32 (s.cur_transform + 1) = s.cur_transform + 1 := u32_of_lt (by omega)
        have hrun : run_call depth be s sgp_call.sgp_push_transform
            = { s with
                transform_stack :=
                  Function.update s.transform_stack s.cur_transform s.state.transform
                cur_transform := s.cur_transform + 1 } := by
          simp only [run_call, sgp_push_transform]
          rw [if_neg hlt, e]
        obtain ⟨h1, h2⟩ := ih (run_call depth be s sgp_call.sgp_push_transform) (level + 1) final
          (by omega) (by rw [hrun]; show s.cur_transform + 1 = _; omega) hw
        refine ⟨h1, fun i hi => ?_⟩
        rw [h2 i hi, hrun]
        show Function.update s.transform_stack s.cur_transform s.state.transform i = _
        exact Function.update_noteq (by omega) _ _
      · rw [if_neg hl] at hw
        exact absurd hw (by simp)
    | restore =>
      rw [hmove] at hw
      simp only [stack_walk] at hw
      by_cases hl : 0 < level
      · rw [if_pos hl] at hw
        have hcall : call = sgp_call.sgp_pop_transform := by
          cases call <;> first | rfl | simp [transform_move] at hmove
        subst hcall
        have hpos : ¬ s.cur_transform ≤ 0 := by omega
        have e : u32_sub s.cur_transform 1 = s.cur_transform - 1 :=
          u32_sub_of_le (by omega) (by omega)
        obtain ⟨h1, h2⟩ := ih (run_call depth be s sgp_call.sgp_pop_transform) (level - 1) final (by omega)
          (by
            simp only [run_call, sgp_pop_transform]
            rw [if_neg hpos]
            show u32_sub s.cur_transform 1 = _
            rw [e]; omega) hw
        refine ⟨h1, fun i hi => ?_⟩
        rw [h2 i hi]
        simp only [run_call, sgp_pop_transform]
        rw [if_neg hpos]
      · rw [if_neg hl] at hw
        exact absurd hw (by simp)
    | keep =>
      rw [hmove] at hw
      simp only [stack_walk] at hw
      obtain ⟨k1, k2⟩ := (run_call_stacks depth be s call).2 hmove
      obtain ⟨h1, h2⟩ := ih (run_call depth be s call) level final hlv (by rw [k1]; exact hc) hw
      refine ⟨h1, fun i hi => ?_⟩
      rw [h2 i hi, k2]

/-- The same for `sgp_begin` and `sgp_end` on the state stack. -/
theorem state_walk (depth : Nat) (be : sg_backend) (base room : Nat)
    (hroom : base + room ≤ _SGP_MAX_STACK_DEPTH) :
    ∀ (calls : List sgp_call) (s : _sgp_context) (level final : Nat),
      level ≤ room → s.cur_state = base + level →
      stack_walk room (calls.map state_move) level = some final →
      (calls.foldl (run_call depth be) s).cur_state = base + final
      ∧ ∀ i, i < base →
          (calls.foldl (run_call depth be) s).state_stack i = s.state_stack i := by
  unfold _SGP_MAX_STACK_DEPTH at hroom
  intro calls
  induction calls with
  | nil =>
    intro s level final hlv hc hw
    simp only [List.map_nil, stack_walk, Option.some.injEq] at hw
    subst hw
    exact ⟨hc, fun _ _ => rfl⟩
  | cons call rest ih =>
    intro s level final hlv hc hw
    simp only [List.map_cons] at hw
    simp only [List.foldl_cons]
    cases hmove : state_move call with
    | save =>
      rw [hmove] at hw
      simp only [stack_walk] at hw
      by_cases hl : level < room
      · rw [if_pos hl] at hw
        obtain ⟨width, height, hcall⟩ : ∃ width height, call = sgp_call.sgp_begin width height := by
          cases call <;> simp [state_move] at hmove
          exact ⟨_, _, rfl⟩
        subst hcall
        have hlt : ¬ s.cur_state ≥ _SGP_MAX_STACK_DEPTH := by
          unfold _SGP_MAX_STACK_DEPTH; omega
        have e : u32 (s.cur_state + 1) = s.cur_state + 1 := u32_of_lt (by omega)
        have hcur : (run_call depth be s (sgp_call.sgp_begin width height)).cur_state
            = s.cur_state + 1 := by
          simp only [run_call, sgp_begin]
          rw [if_neg hlt]
          exact e
        have hstack : (run_call depth be s (sgp_call.sgp_begin width height)).state_stack
            = Function.update s.state_stack s.cur_state s.state := by
          simp only [run_call, sgp_begin]
          rw [if_neg hlt]
        obtain ⟨h1, h2⟩ := ih (run_call depth be s (sgp_call.sgp_begin width height))
          (level + 1) final (by omega) (by rw [hcur]; omega) hw
        refine ⟨h1, fun i hi => ?_⟩
        rw [h2 i hi, hstack]
        exact Function.update_noteq (by omega) _ _
      · rw [if_neg hl] at hw
        exact absurd hw (by simp)
    | restore =>
      rw [hmove] at hw
      simp only [stack_walk] at hw
      by_cases hl : 0 < level
      · rw [if_pos hl] at hw
        have hcall : call = sgp_call.sgp_end := by
          cases call <;> first | rfl | simp [state_move] at hmove
        subst hcall
        have hpos : ¬ s.cur_state ≤ 0 := by omega
        have e : u32_sub s.cur_state 1 = s.cur_state - 1 :=
          u32_sub_of_le (by omega) (by omega)
        obtain ⟨h1, h2⟩ := ih (run_call depth be s sgp_call.sgp_end) (level - 1) final (by omega)
          (by
            simp only [run_call, sgp_end]
            rw [if_neg hpos]
            show u32_sub s.cur_state 1 = _
            rw [e]; omega) hw
        refine ⟨h1, fun i hi => ?_⟩
        rw [h2 i hi]
        simp only [run_call, sgp_end]
        rw [if_neg hpos]
      · rw [if_neg hl] at hw
        exact absurd hw (by simp)
    | keep =>
      rw [hmove] at hw
      simp only [stack_walk] at hw
      obtain ⟨k1, k2⟩ := (run_call_stacks depth be s call).1 hmove
      obtain ⟨h1, h2⟩ := ih (run_call depth be s call) level final hlv (by rw [k1]; exact hc) hw
      refine ⟨h1, fun i hi => ?_⟩
      rw [h2 i hi, k2]

/-! ### Claims on the stacks -/

/-- C23, as stated, fails: the transform stack holds 63 of 64 entries (it is
not full) and the model transform is a translation. After
`sgp_push_transform` the stack is full; the nested `sgp_push_transform`
records `SGP_ERROR_TRANSFORM_STACK_OVERFLOW` and saves nothing; the nested
`sgp_pop_transform` takes the outer entry; the closing `sgp_pop_transform`
takes entry 62, an identity saved earlier. The model transform is not the one
before the push, and the depth is 62 instead of 63. -/
theorem push_pop_round_trip_counterexample :
    deep_transform_context.cur_transform = 63
    ∧ (sgp_push_transform deep_transform_context).cur_transform = _SGP_MAX_STACK_DEPTH
    ∧ stack_walk 1
        ([sgp_call.sgp_push_transform, sgp_call.sgp_pop_transform].map transform_move) 0 = some 0
    ∧ (run_call 8 sample_backend (sgp_push_transform deep_transform_context)
        sgp_call.sgp_push_transform).last_error = SGP_ERROR_TRANSFORM_STACK_OVERFLOW
    ∧ (sgp_pop_transform
        ([sgp_call.sgp_push_transform, sgp_call.sgp_pop_transform].foldl
          (run_call 8 sample_backend) (sgp_push_transform deep_transform_context))).cur_transform
        = 62
    ∧ (sgp_pop_transform
        ([sgp_call.sgp_push_transform, sgp_call.sgp_pop_transform].foldl
          (run_call 8 sample_backend) (sgp_push_transform deep_transform_context))).state.transform
        = _sgp_mat3_identity
    ∧ (sgp_pop_transform
        ([sgp_call.sgp_push_transform, sgp_call.sgp_pop_transform].foldl
          (run_call 8 sample_backend) (sgp_push_transform deep_transform_context))).state.transform
        ≠ deep_transform_context.state.transform := by
  decide

/-- C23, amended: for every state whose transform stack is not full and every
sequence of calls (transform mutations, and any other call of the library) in
which `sgp_push_transform` and `sgp_pop_transform` are well nested and the
nesting fits into the free entries of the stack, so that no nested push
overflows, `sgp_push_transform` followed by the calls followed by
`sgp_pop_transform` leaves the model transform equal to its value before the
push and the depth of the transform stack unchanged. -/
theorem push_pop_restores_transform (depth : Nat) (be : sg_backend) (s : _sgp_context)
    (calls : List sgp_call) (hfull : s.cur_transform < _SGP_MAX_STACK_DEPTH)
    (hnest : stack_walk (_SGP_MAX_STACK_DEPTH - (s.cur_transform + 1))
      (calls.map transform_move) 0 = some 0) :
    (sgp_pop_transform
        (calls.foldl (run_call depth be) (sgp_push_transform s))).state.transform
      = s.state.transform
    ∧ (sgp_pop_transform
        (calls.foldl (run_call depth be) (sgp_push_transform s))).cur_transform
      = s.cur_transform := by
  have h64 : _SGP_MAX_STACK_DEPTH = 64 := rfl
  rw [h64] at hfull hnest
  have e : u32 (s.cur_transform + 1) = s.cur_transform + 1 := u32_of_lt (by omega)
  have hpush : sgp_push_transform s
      = { s with
          transform_stack := Function.update s.transform_stack s.cur_transform s.state.transform
          cur_transform := s.cur_transform + 1 } := by
    unfold sgp_push_transform
    rw [if_neg (by rw [h64]; omega), e]
  obtain ⟨h1, h2⟩ := transform_walk depth be (s.cur_transform + 1) (64 - (s.cur_transform + 1))
    (by rw [h64]; omega) calls (sgp_push_transform s) 0 0 (by omega) (by rw [hpush]) hnest
  have h3 := h2 s.cur_transform (by omega)
  rw [hpush] at h3
  simp only [Function.update_same] at h3
  rw [hpush] at h1
  rw [hpush]
  generalize calls.foldl (run_call depth be)
    { s with
      transform_stack := Function.update s.transform_stack s.cur_transform s.state.transform
      cur_transform := s.cur_transform + 1 } = t at h1 h3
  have hsub : u32_sub t.cur_transform 1 = s.cur_transform := by
    rw [u32_sub_of_le (by omega) (by omega), h1]; omega
  unfold sgp_pop_transform
  rw [if_neg (by omega)]
  simp only [hsub]
  exact ⟨h3, trivial⟩

/-- C23, amended, at a segment with an empty transform stack: a translation, a
nested push with a scaling and its pop, and a reset between the outer push and
pop; the model transform is the one of the context again. -/
theorem push_pop_restores_transform_witness :
    (sgp_pop_transform
        ([sgp_call.sgp_translate 1 2, sgp_call.sgp_push_transform, sgp_call.sgp_scale 2 2,
          sgp_call.sgp_pop_transform, sgp_call.sgp_reset_transform].foldl
          (run_call 8 sample_backend) (sgp_push_transform scenario2_context))).state.transform
      = scenario2_context.state.transform
    ∧ (sgp_pop_transform
        ([sgp_call.sgp_translate 1 2, sgp_call.sgp_push_transform, sgp_call.sgp_scale 2 2,
          sgp_call.sgp_pop_transform, sgp_call.sgp_reset_transform].foldl
          (run_call 8 sample_backend) (sgp_push_transform scenario2_context))).cur_transform
      = scenario2_context.cur_transform :=
  push_pop_restores_transform 8 sample_backend scenario2_context
    [sgp_call.sgp_translate 1 2, sgp_call.sgp_push_transform, sgp_call.sgp_scale 2 2,
      sgp_call.sgp_pop_transform, sgp_call.sgp_reset_transform] (by decide) (by decide)

/-- C24, as stated, fails: the context is at segment depth 63 of 64 (the state
stack is not full) and binds image 7. After `sgp_begin` the stack is full; the
nested `sgp_begin` records `SGP_ERROR_STATE_STACK_OVERFLOW` and saves
nothing; the nested `sgp_end` takes the outer entry; the closing `sgp_end`
takes entry 62, a state saved earlier that binds image 1. The render state is
not the one before the begin, and the depth is 62 instead of 63. -/
theorem begin_end_round_trip_counterexample :
    deep_state_context.cur_state = 63
    ∧ (sgp_begin deep_state_context 2 2).cur_state = _SGP_MAX_STACK_DEPTH
    ∧ stack_walk 1 ([sgp_call.sgp_begin 2 2, sgp_call.sgp_end].map state_move) 0 = some 0
    ∧ (run_call 8 sample_backend (sgp_begin deep_state_context 2 2)
        (sgp_call.sgp_begin 2 2)).last_error = SGP_ERROR_STATE_STACK_OVERFLOW
    ∧ (sgp_end
        ([sgp_call.sgp_begin 2 2, sgp_call.sgp_end].foldl
          (run_call 8 sample_backend) (sgp_begin deep_state_context 2 2))).cur_state = 62
    ∧ (sgp_end
        ([sgp_call.sgp_begin 2 2, sgp_call.sgp_end].foldl
          (run_call 8 sample_backend) (sgp_begin deep_state_context 2 2))).state.textures
        = sample_textures 1
    ∧ (sgp_end
        ([sgp_call.sgp_begin 2 2, sgp_call.sgp_end].foldl
          (run_call 8 sample_backend) (sgp_begin deep_state_context 2 2))).state.textures
        ≠ deep_state_context.state.textures := by
  decide

/-- C24, amended: for every state whose state stack is not full and every
sequence of calls (state changes, drawing calls, flushes) in which `sgp_begin`
and `sgp_end` are well nested and the nesting fits into the free entries of the
stack, so that no nested begin overflows, `sgp_begin` followed by the calls
followed by `sgp_end` leaves the whole render state equal to its value before
the begin and the depth of the state stack unchanged. -/
theorem begin_end_restores_state (depth : Nat) (be : sg_backend) (s : _sgp_context)
    (width height : Int) (calls : List sgp_call) (hfull : s.cur_state < _SGP_MAX_STACK_DEPTH)
    (hnest : stack_walk (_SGP_MAX_STACK_DEPTH - (s.cur_state + 1))
      (calls.map state_move) 0 = some 0) :
    (sgp_end (calls.foldl (run_call depth be) (sgp_begin s width height))).state = s.state
    ∧ (sgp_end (calls.foldl (run_call depth be) (sgp_begin s width height))).cur_state
      = s.cur_state := by
  have h64 : _SGP_MAX_STACK_DEPTH = 64 := rfl
  rw [h64] at hfull hnest
  have e : u32 (s.cur_state + 1) = s.cur_state + 1 := u32_of_lt (by omega)
  have hcur : (sgp_begin s width height).cur_state = s.cur_state + 1 := by
    unfold sgp_begin
    rw [if_neg (by rw [h64]; omega)]
    exact e
  have hstack : (sgp_begin s width height).state_stack
      = Function.update s.state_stack s.cur_state s.state := by
    unfold sgp_begin
    rw [if_neg (by rw [h64]; omega)]
  obtain ⟨h1, h2⟩ := state_walk depth be (s.cur_state + 1) (64 - (s.cur_state + 1))
    (by rw [h64]; omega) calls (sgp_begin s width height) 0 0 (by omega) hcur hnest
  have h3 := h2 s.cur_state (by omega)
  rw [hstack] at h3
  simp only [Function.update_same] at h3
  generalize calls.foldl (run_call depth be) (sgp_begin s width height) = t at h1 h3
  have hsub : u32_sub t.cur_state 1 = s.cur_state := by
    rw [u32_sub_of_le (by omega) (by omega), h1]; omega
  unfold sgp_end
  rw [if_neg (by omega)]
  simp only [hsub]
  exact ⟨h3, trivial⟩

set_option maxRecDepth 100000 in
/-- C24, amended, at the context after setup: a segment with a clear, a colour
change, a nested segment with a clear and a flush, and a viewport change; after
the closing `sgp_end` the render state and the depth are those after setup. -/
theorem begin_end_restores_state_witness :
    (sgp_end
        ([sgp_call.draw draw_call.clear, sgp_call.sgp_set_color 1 0 0 1, sgp_call.sgp_begin 4 4,
          sgp_call.draw draw_call.clear, sgp_call.sgp_flush 0 false, sgp_call.sgp_end,
          sgp_call.sgp_viewport 0 0 1 1].foldl
          (run_call 8 sample_backend) (sgp_begin setup_context 2 2))).state = setup_context.state
    ∧ (sgp_end
        ([sgp_call.draw draw_call.clear, sgp_call.sgp_set_color 1 0 0 1, sgp_call.sgp_begin 4 4,
          sgp_call.draw draw_call.clear, sgp_call.sgp_flush 0 false, sgp_call.sgp_end,
          sgp_call.sgp_viewport 0 0 1 1].foldl
          (run_call 8 sample_backend) (sgp_begin setup_context 2 2))).cur_state
      = setup_context.cur_state :=
  begin_end_restores_state 8 sample_backend setup_context 2 2
    [sgp_call.draw draw_call.clear, sgp_call.sgp_set_color 1 0 0 1, sgp_call.sgp_begin 4 4,
      sgp_call.draw draw_call.clear, sgp_call.sgp_flush 0 false, sgp_call.sgp_end,
      sgp_call.sgp_viewport 0 0 1 1] (by decide) (by decide)

/-- C25: stack misuse is reported and is otherwise without effect.
`sgp_pop_transform` on an empty transform stack, `sgp_push_transform` on a
stack holding 64 entries, `sgp_begin` at segment depth 64 and `sgp_end` with no
segment open each return the context with nothing but the last error changed,
to `SGP_ERROR_TRANSFORM_STACK_UNDERFLOW`,
`SGP_ERROR_TRANSFORM_STACK_OVERFLOW`, `SGP_ERROR_STATE_STACK_OVERFLOW` and
`SGP_ERROR_STATE_STACK_UNDERFLOW`: state, stacks, depths, cursors and queue
are the same. No call of the library takes a stack depth above 64: after every
call each depth is at most the larger of 64 and its value before. -/
theorem stack_misuse_is_reported (depth : Nat) (be : sg_backend) (s : _sgp_context)
    (width height : Int) :
    (s.cur_transform ≤ 0 →
      sgp_pop_transform s = _sgp_set_error s SGP_ERROR_TRANSFORM_STACK_UNDERFLOW)
    ∧ (_SGP_MAX_STACK_DEPTH ≤ s.cur_transform →
      sgp_push_transform s = _sgp_set_error s SGP_ERROR_TRANSFORM_STACK_OVERFLOW)
    ∧ (_SGP_MAX_STACK_DEPTH ≤ s.cur_state →
      sgp_begin s width height = _sgp_set_error s SGP_ERROR_STATE_STACK_OVERFLOW)
    ∧ (s.cur_state ≤ 0 → sgp_end s = _sgp_set_error s SGP_ERROR_STATE_STACK_UNDERFLOW)
    ∧ (∀ e, _sgp_set_error s e = { s with last_error := e })
    ∧ (∀ call, (run_call depth be s call).cur_transform
        ≤ max s.cur_transform _SGP_MAX_STACK_DEPTH)
    ∧ (∀ call, (run_call depth be s call).cur_state ≤ max s.cur_state _SGP_MAX_STACK_DEPTH) := by
  have h64 : _SGP_MAX_STACK_DEPTH = 64 := rfl
  refine ⟨fun h => ?_, fun h => ?_, fun h => ?_, fun h => ?_, fun _ => rfl, fun call => ?_,
    fun call => ?_⟩
  · unfold sgp_pop_transform; rw [if_pos h]
  · unfold sgp_push_transform; rw [if_pos h]
  · unfold sgp_begin; rw [if_pos h]
  · unfold sgp_end; rw [if_pos h]
  · rw [h64]
    cases hmove : transform_move call with
    | keep =>
      rw [((run_call_stacks depth be s call).2 hmove).1]
      exact le_max_left _ _
    | save =>
      have hcall : call = sgp_call.sgp_push_transform := by
        cases call <;> first | rfl | simp [transform_move] at hmove
      subst hcall
      simp only [run_call, sgp_push_transform, h64]
      split
      · exact le_max_left _ _
      · show u32 (s.cur_transform + 1) ≤ _
        rw [u32_of_lt (by omega)]
        omega
    | restore =>
      have hcall : call = sgp_call.sgp_pop_transform := by
        cases call <;> first | rfl | simp [transform_move] at hmove
      subst hcall
      simp only [run_call, sgp_pop_transform]
      split
      · exact le_max_left _ _
      · show u32_sub s.cur_transform 1 ≤ _
        have : u32_sub s.cur_transform 1 ≤ s.cur_transform := by
          unfold u32_sub
          norm_num
          omega
        omega
  · rw [h64]
    cases hmove : state_move call with
    | keep =>
      rw [((run_call_stacks depth be s call).1 hmove).1]
      exact le_max_left _ _
    | save =>
      obtain ⟨w2, h2, hcall⟩ : ∃ w2 h2, call = sgp_call.sgp_begin w2 h2 := by
        cases call <;> simp [state_move] at hmove
        exact ⟨_, _, rfl⟩
      subst hcall
      simp only [run_call, sgp_begin, h64]
      split
      · exact le_max_left _ _
      · show u32 (s.cur_state + 1) ≤ _
        rw [u32_of_lt (by omega)]
        omega
    | restore =>
      have hcall : call = sgp_call.sgp_end := by
        cases call <;> first | rfl | simp [state_move] at hmove
      subst hcall
      simp only [run_call, sgp_end]
      split
      · exact le_max_left _ _
      · show u32_sub s.cur_state 1 ≤ _
        have : u32_sub s.cur_state 1 ≤ s.cur_state := by
          unfold u32_sub
          norm_num
          omega
        omega

/-- C25 at concrete contexts: the context after setup has both stacks empty,
and the two deep contexts with one more entry have them full. -/
theorem stack_misuse_is_reported_witness :
    sgp_pop_transform setup_context
      = _sgp_set_error setup_context SGP_ERROR_TRANSFORM_STACK_UNDERFLOW
    ∧ sgp_end setup_context = _sgp_set_error setup_context SGP_ERROR_STATE_STACK_UNDERFLOW
    ∧ sgp_push_transform (sgp_push_transform deep_transform_context)
      = _sgp_set_error (sgp_push_transform deep_transform_context)
          SGP_ERROR_TRANSFORM_STACK_OVERFLOW
    ∧ sgp_begin (sgp_begin deep_state_context 2 2) 2 2
      = _sgp_set_error (sgp_begin deep_state_context 2 2) SGP_ERROR_STATE_STACK_OVERFLOW :=
  ⟨(stack_misuse_is_reported 8 sample_backend setup_context 2 2).1 (by decide),
    (stack_misuse_is_reported 8 sample_backend setup_context 2 2).2.2.2.1 (by decide),
    (stack_misuse_is_reported 8 sample_backend (sgp_push_transform deep_transform_context)
      2 2).2.1 (by decide),
    (stack_misuse_is_reported 8 sample_backend (sgp_begin deep_state_context 2 2)
      2 2).2.2.1 (by decide)⟩

/-! ### Claims on the state changes -/

/-- C29 fails on the code when the new uniform is smaller than the previous
one. The state's uniform holds 16 vertex-stage bytes (1 to 16);
`sgp_set_uniform` is called with 8 vertex-stage bytes (100 to 107) and no
fragment-stage bytes. The bytes are copied, and then the range to clear
is counted from the start of the structure instead of the start of its data:
`memset((uint8_t*)(&uniform) + 8, 0, 8)` clears the data bytes 4 to 11. After
the call the sizes are 8 and 0, the data bytes 4 to 7 are zero instead of 104
to 107, and the old bytes 13 to 16 are still there. -/
theorem set_uniform_clears_new_bytes :
    uniform16_context.state.uniform.vs_size = 16
    ∧ uniform16_context.state.uniform.fs_size = 0
    ∧ uniform16_context.state.uniform.data.take 16 = (List.range 16).map (fun k => k + 1)
    ∧ (sgp_set_uniform uniform16_context (fun k => 100 + k) 8 (fun _ => 0) 0).state.uniform.vs_size
        = 8
    ∧ (sgp_set_uniform uniform16_context (fun k => 100 + k) 8 (fun _ => 0) 0).state.uniform.fs_size
        = 0
    ∧ (sgp_set_uniform uniform16_context (fun k => 100 + k) 8 (fun _ => 0) 0).state.uniform.data
        = [100, 101, 102, 103, 0, 0, 0, 0, 0, 0, 0, 0, 13, 14, 15, 16,
           0, 0, 0, 0, 0, 0, 0, 0, 0, 0, 0, 0, 0, 0, 0, 0]
    ∧ (sgp_set_uniform uniform16_context (fun k => 100 + k) 8
        (fun _ => 0) 0).state.uniform.data.take 8
        ≠ (List.range 8).map (fun k => 100 + k) := by
  decide

/-- C30: consecutive viewport changes are coalesced, and so are consecutive
scissor changes. In a segment that holds at least one command: when the last
command is a viewport command, `sgp_viewport` with a rectangle other than the
current viewport leaves the command cursor and every other command as they
were and writes the new rectangle into that command; when the last command is a
scissor command, `sgp_scissor` with a rectangle other than the current scissor
does the same, the command holding the rectangle a scissor command always
holds (`_sgp_viewport_scissor`: the scissor moved into the viewport, or the
whole frame for a reset). A call with the current rectangle returns the
context as it is. -/
theorem viewport_changes_are_coalesced (s : _sgp_context) (x y w h : Int)
    (hbase : s.state._base_command < s.cur_command) (hrange : s.cur_command < 4294967296) :
    ((s.commands (s.cur_command - 1)).cmd = SGP_COMMAND_VIEWPORT →
      s.state.viewport ≠ { x := x, y := y, w := w, h := h } →
      (sgp_viewport s x y w h).cur_command = s.cur_command
      ∧ (sgp_viewport s x y w h).commands (s.cur_command - 1)
          = _sgp_rect_command SGP_COMMAND_VIEWPORT { x := x, y := y, w := w, h := h }
      ∧ (∀ i, i ≠ s.cur_command - 1 → (sgp_viewport s x y w h).commands i = s.commands i)
      ∧ (sgp_viewport s x y w h).state.viewport = { x := x, y := y, w := w, h := h })
    ∧ ((s.commands (s.cur_command - 1)).cmd = SGP_COMMAND_SCISSOR →
      s.state.scissor ≠ { x := x, y := y, w := w, h := h } →
      (sgp_scissor s x y w h).cur_command = s.cur_command
      ∧ (sgp_scissor s x y w h).commands (s.cur_command - 1)
          = _sgp_rect_command SGP_COMMAND_SCISSOR (_sgp_viewport_scissor s x y w h)
      ∧ (∀ i, i ≠ s.cur_command - 1 → (sgp_scissor s x y w h).commands i = s.commands i)
      ∧ (sgp_scissor s x y w h).state.scissor = { x := x, y := y, w := w, h := h })
    ∧ (s.state.viewport = { x := x, y := y, w := w, h := h } → sgp_viewport s x y w h = s)
    ∧ (s.state.scissor = { x := x, y := y, w := w, h := h } → sgp_scissor s x y w h = s) := by
  have hprev : _sgp_prev_command s 1 = some (s.cur_command - 1) := by
    unfold _sgp_prev_command
    rw [u32_sub_of_le (by omega) hrange, u32_sub_of_le (by omega) hrange, if_pos (by omega)]
  have hreuse : ∀ tag, (s.commands (s.cur_command - 1)).cmd = tag →
      _sgp_reuse_or_next_command s tag = (some (s.cur_command - 1), s) := by
    intro tag htag
    unfold _sgp_reuse_or_next_command
    rw [hprev]
    simp only []
    rw [if_neg (by rw [htag]; simp)]
  refine ⟨fun htag hdiff => ?_, fun htag hdiff => ?_, fun hsame => ?_, fun hsame => ?_⟩
  · have hne : ¬ (s.state.viewport.x = x ∧ s.state.viewport.y = y ∧ s.state.viewport.w = w
        ∧ s.state.viewport.h = h) := by
      rintro ⟨h1, h2, h3, h4⟩
      apply hdiff
      cases hv : s.state.viewport
      rw [hv] at h1 h2 h3 h4
      simp only at h1 h2 h3 h4
      subst h1 h2 h3 h4
      rfl
    unfold sgp_viewport
    rw [if_neg hne, hreuse _ htag]
    refine ⟨rfl, ?_, fun i hi => ?_, rfl⟩
    · simp only [Function.update_same]
    · simp only [Function.update_noteq hi]
  · have hne : ¬ (s.state.scissor.x = x ∧ s.state.scissor.y = y ∧ s.state.scissor.w = w
        ∧ s.state.scissor.h = h) := by
      rintro ⟨h1, h2, h3, h4⟩
      apply hdiff
      cases hv : s.state.scissor
      rw [hv] at h1 h2 h3 h4
      simp only at h1 h2 h3 h4
      subst h1 h2 h3 h4
      rfl
    unfold sgp_scissor
    rw [if_neg hne, hreuse _ htag]
    refine ⟨rfl, ?_, fun i hi => ?_, rfl⟩
    · simp only [Function.update_same]
    · simp only [Function.update_noteq hi]
  · unfold sgp_viewport
    rw [if_pos (by rw [hsame]; exact ⟨rfl, rfl, rfl, rfl⟩)]
  · unfold sgp_scissor
    rw [if_pos (by rw [hsame]; exact ⟨rfl, rfl, rfl, rfl⟩)]

/-- C30 at a queue whose last command is a viewport command and at one whose
last command is a scissor command: the new rectangles are written into slot 1
and the cursors stay at 2. -/
theorem viewport_changes_are_coalesced_witness :
    ((sgp_viewport barrier_context 0 0 3 3).cur_command = barrier_context.cur_command
      ∧ (sgp_viewport barrier_context 0 0 3 3).commands (barrier_context.cur_command - 1)
          = _sgp_rect_command SGP_COMMAND_VIEWPORT { x := 0, y := 0, w := 3, h := 3 })
    ∧ ((sgp_scissor scissor_context 1 1 3 3).cur_command = scissor_context.cur_command
      ∧ (sgp_scissor scissor_context 1 1 3 3).commands (scissor_context.cur_command - 1)
          = _sgp_rect_command SGP_COMMAND_SCISSOR { x := 1, y := 1, w := 3, h := 3 }) :=
  ⟨⟨((viewport_changes_are_coalesced barrier_context 0 0 3 3 (by decide) (by decide)).1
      (by decide) (by decide)).1,
    ((viewport_changes_are_coalesced barrier_context 0 0 3 3 (by decide) (by decide)).1
      (by decide) (by decide)).2.1⟩,
   ⟨((viewport_changes_are_coalesced scissor_context 1 1 3 3 (by decide) (by decide)).2.1
      (by decide) (by decide)).1,
    ((viewport_changes_are_coalesced scissor_context 1 1 3 3 (by decide) (by decide)).2.1
      (by decide) (by decide)).2.1⟩⟩

/-! ### Claims on the cursors and the vertex spans -/

set_option maxRecDepth 100000 in
/-- C26 fails on the code: `sgp_end` restores the saved state and leaves the
cursors where they are; only `sgp_flush` rewinds them. A segment that begins
with both bases at 0, queues `sgp_clear` and ends without a flush leaves the
vertex cursor at 6 and the command cursor at 1. For a nested segment the
commands stay in the queue of the outer segment, whose flush dispatches the
draw of the segment that was ended; for an outermost segment the next
`sgp_begin` takes the cursors as its bases, 6 and 1, and the arena below them
is lost. (A vertex count that wraps around moves the vertex cursor back inside
a drawing call: `_sgp_next_vertices` with 4294967290 vertices takes it from 12
to 6.) -/
theorem end_leaves_cursors :
    (sgp_begin setup_context 2 2).state._base_vertex = 0
    ∧ (sgp_begin setup_context 2 2).state._base_command = 0
    ∧ (sgp_clear 8 sample_backend (sgp_begin setup_context 2 2)).cur_vertex = 6
    ∧ (sgp_clear 8 sample_backend (sgp_begin setup_context 2 2)).cur_command = 1
    ∧ (unflushed_frame 8).cur_vertex = 6
    ∧ (unflushed_frame 8).cur_command = 1
    ∧ (unflushed_frame 8).cur_state = 0
    ∧ (unflushed_nested_frame 8).cur_state = 1
    ∧ (unflushed_nested_frame 8).cur_command = 1
    ∧ dispatched_draws (sgp_flush (unflushed_nested_frame 8) 0 false).2 = [(0, 6)]
    ∧ (sgp_begin (unflushed_frame 8) 2 2).state._base_vertex = 6
    ∧ (sgp_begin (unflushed_frame 8) 2 2).state._base_command = 1
    ∧ scenario2_context.cur_vertex = 12
    ∧ (_sgp_next_vertices scenario2_context 4294967290).2.cur_vertex = 6 := by
  decide

set_option maxRecDepth 100000 in
/-- C27 fails on the code. The first frame leaves a line strip of 500 vertices
(12 to 511) in slot 2 of the command array. In the second frame rectangle A,
line X and the batch B of 102 vertices are drawn; the abandoned merge of B
takes slot 2 without writing it and B is appended in slot 3. The segment then
has its base command at 0, the command cursor at 4 and the vertex cursor at
110, and the draw command in slot 2 spans the vertices 12 to 511, beyond the
vertex cursor. With the optimizer disabled the three commands are in slots 0 to
2 and the last span ends at the vertex cursor. -/
theorem stale_command_spans_past_cursor :
    (stale_span_frame 8).state._base_command = 0
    ∧ (stale_span_frame 8).state._base_vertex = 0
    ∧ (stale_span_frame 8).cur_command = 4
    ∧ (stale_span_frame 8).cur_vertex = 110
    ∧ (stale_span_frame 8).last_error = SGP_NO_ERROR
    ∧ ((stale_span_frame 8).commands 2).cmd = SGP_COMMAND_DRAW
    ∧ ((stale_span_frame 8).commands 2).args.draw.vertex_index = 12
    ∧ ((stale_span_frame 8).commands 2).args.draw.num_vertices = 500
    ∧ ¬ (((stale_span_frame 8).commands 2).args.draw.vertex_index
          + ((stale_span_frame 8).commands 2).args.draw.num_vertices
        ≤ (stale_span_frame 8).cur_vertex)
    ∧ (stale_span_frame 0).cur_command = 3
    ∧ (stale_span_frame 0).cur_vertex = 110
    ∧ ((stale_span_frame 0).commands 2).args.draw.vertex_index = 8
    ∧ ((stale_span_frame 0).commands 2).args.draw.num_vertices = 102 := by
  decide

/-! ### The regions of the draw commands -/

/-- The command the search loop answers with is a draw command that passes the
match test. -/
theorem merge_scan_some (s : _sgp_context) (pip : sg_pipeline)
    (textures : sgp_textures_uniform) (uniform : Option sgp_uniform) :
    ∀ (fuel depth lookup_depth : Nat) (inter_cmds gap : List Nat) (prev : Nat),
      _sgp_merge_scan s pip textures uniform fuel depth lookup_depth inter_cmds
        = (some prev, gap) →
      (s.commands prev).cmd = SGP_COMMAND_DRAW
        ∧ _sgp_batch_match s pip textures uniform (s.commands prev) = true := by
  intro fuel
  induction fuel with
  | zero =>
    intro depth lookup_depth inter_cmds gap prev h
    simp [_sgp_merge_scan] at h
  | succ fuel ih =>
    intro depth lookup_depth inter_cmds gap prev h
    simp only [_sgp_merge_scan] at h
    by_cases hd : depth < lookup_depth
    · rw [if_pos hd] at h
      cases hp : _sgp_prev_command s (u32 (depth + 1)) with
      | none => rw [hp] at h; simp at h
      | some i =>
        rw [hp] at h
        simp only [] at h
        by_cases h1 : (s.commands i).cmd = SGP_COMMAND_NONE
        · rw [if_pos h1] at h
          exact ih _ _ _ _ _ h
        · rw [if_neg h1] at h
          by_cases h2 : (s.commands i).cmd ≠ SGP_COMMAND_DRAW
          · rw [if_pos h2] at h; simp at h
          · rw [if_neg h2] at h
            by_cases h3 : _sgp_batch_match s pip textures uniform (s.commands i) = true
            · rw [if_pos h3] at h
              have hi : i = prev := Option.some.inj (Prod.mk.inj h).1
              subst hi
              exact ⟨not_not.mp h2, h3⟩
            · rw [if_neg h3] at h
              exact ih _ _ _ _ _ h
    · rw [if_neg hd] at h
      simp at h

theorem setup_context_visible : draw_regions_visible setup_context := by
  intro i hi
  simp [setup_context, sample_context, zero_command] at hi

/-! ### The bytes of the uniform -/

theorem write_bytes_getD (data : List Nat) (offset : Nat) (src : Nat → Nat) (n k : Nat)
    (hk : k < data.length) :
    (_sgp_write_bytes data offset src n).getD k 0
      = if offset ≤ k ∧ k < offset + n then src (k - offset) else data.getD k 0 := by
  unfold _sgp_write_bytes
  rw [List.getD_eq_getElem?_getD, List.getElem?_map, List.getElem?_range hk]
  rfl

theorem write_bytes_length (data : List Nat) (offset : Nat) (src : Nat → Nat) (n : Nat) :
    (_sgp_write_bytes data offset src n).length = data.length := by
  unfold _sgp_write_bytes
  simp

/-- When the new uniform is not smaller than the previous one, `sgp_set_uniform`
stores the sizes and the bytes of both stages. -/
theorem set_uniform_stores_bytes (s : _sgp_context) (vs_data : Nat → Nat) (vs_size : Nat)
    (fs_data : Nat → Nat) (fs_size : Nat)
    (hsize : vs_size + fs_size ≤ s.state.uniform.data.length)
    (hlen : s.state.uniform.data.length < 65536)
    (hgrow : s.state.uniform.vs_size + s.state.uniform.fs_size ≤ vs_size + fs_size) :
    (sgp_set_uniform s vs_data vs_size fs_data fs_size).state.uniform.vs_size = vs_size
    ∧ (sgp_set_uniform s vs_data vs_size fs_data fs_size).state.uniform.fs_size = fs_size
    ∧ (∀ k, k < vs_size →
        (sgp_set_uniform s vs_data vs_size fs_data fs_size).state.uniform.data.getD k 0
          = vs_data k)
    ∧ (∀ k, k < fs_size →
        (sgp_set_uniform s vs_data vs_size fs_data fs_size).state.uniform.data.getD
          (vs_size + k) 0 = fs_data k) := by
  have e : u32 (vs_size + fs_size) = vs_size + fs_size := u32_of_lt (by omega)
  unfold sgp_set_uniform
  simp only [e]
  rw [if_neg (by omega)]
  refine ⟨Nat.mod_eq_of_lt (by omega), Nat.mod_eq_of_lt (by omega), fun k hk => ?_,
    fun k hk => ?_⟩
  · have hv : vs_size > 0 := by omega
    simp only [hv, if_true]
    by_cases hf : fs_size > 0
    · simp only [hf, if_true]
      rw [write_bytes_getD _ _ _ _ _ (by rw [write_bytes_length]; omega),
        if_neg (by omega), write_bytes_getD _ _ _ _ _ (by omega), if_pos (by omega)]
      simp
    · simp only [hf, if_false]
      rw [write_bytes_getD _ _ _ _ _ (by omega), if_pos (by omega)]
      simp
  · have hf : fs_size > 0 := by omega
    simp only [hf, if_true]
    by_cases hv : vs_size > 0
    · simp only [hv, if_true]
      rw [write_bytes_getD _ _ _ _ _ (by rw [write_bytes_length]; omega), if_pos (by omega)]
      simp
    · simp only [hv, if_false]
      rw [write_bytes_getD _ _ _ _ _ (by omega), if_pos (by omega)]
      simp

/-! ### Claims on the regions -/

theorem foldl_range_one {α : Type} (f : α → Nat → α) (init : α) :
    List.foldl f init (List.range 1) = f init 0 := rfl

set_option maxRecDepth 100000 in
/-- C21 fails on the code: a change of sampler alone is not seen by
`sgp_flush`. The segment queues `sgp_clear`, sets the sampler of channel 0 to
sampler 7 and queues `sgp_clear` again; the two draw commands differ in their
sampler (1 and 7) and are not merged. The flush makes five backend calls: the
upload, one pipeline application, one binding application with image 1 and
sampler 1 in slot 0, and the two draws. The second draw is dispatched with
sampler 1 bound, while its command holds sampler 7: bindings are re-applied
only when an image id or the pipeline changes. -/
theorem sampler_change_is_not_applied :
    (sampler_change_frame 8).cur_command = 2
    ∧ ((sampler_change_frame 8).commands 0).args.draw.textures.samplers
        = [{ id := 1 }, { id := 1 }, { id := 1 }, { id := 1 }]
    ∧ ((sampler_change_frame 8).commands 1).args.draw.textures.samplers
        = [{ id := 7 }, { id := 1 }, { id := 1 }, { id := 1 }]
    ∧ ((sampler_change_frame 8).commands 1).args.draw.textures.images
        = ((sampler_change_frame 8).commands 0).args.draw.textures.images
    ∧ ((sampler_change_frame 8).commands 1).args.draw.pip
        = ((sampler_change_frame 8).commands 0).args.draw.pip
    ∧ (sgp_flush (sampler_change_frame 8) 0 false).2
        = [sg_call.append_buffer { id := 1 } 0 240,
           sg_call.apply_pipeline { id := 1 },
           sg_call.apply_bindings
             { vertex_buffer := { id := 1 }, vertex_buffer_offset := 0,
               images := [1, 0, 0, 0], samplers := [1, 0, 0, 0] },
           sg_call.draw 0 6 1,
           sg_call.draw 6 6 1] := by
  decide

theorem flush_slot_calls (args : _sgp_draw_args) (acc : _sgp_flush_locals × Bool) (j : Nat) :
    (_sgp_flush_slot args acc j).1.calls = acc.1.calls := by
  unfold _sgp_flush_slot
  simp only []
  split_ifs <;> rfl

theorem flush_slots_calls (args : _sgp_draw_args) (slots : List Nat) :
    ∀ acc : _sgp_flush_locals × Bool,
      (slots.foldl (_sgp_flush_slot args) acc).1.calls = acc.1.calls := by
  induction slots with
  | nil => intro acc; rfl
  | cons j rest ih =>
    intro acc
    simp only [List.foldl_cons]
    rw [ih, flush_slot_calls]

theorem int_of_u32_of_lt {x : Nat} (h : x < 2147483648) : int_of_u32 x = (x : Int) := by
  unfold int_of_u32
  have e : x % 4294967296 = x := Nat.mod_eq_of_lt (by omega)
  rw [e, if_pos h]

/-- The calls one command adds in the loop of `sgp_flush`: among them, the
dispatch call the command stands for, and no other dispatch call. -/
theorem flush_command_dispatch (s : _sgp_context) (l : _sgp_flush_locals) (i : Nat)
    (hspan : (s.commands i).cmd = SGP_COMMAND_DRAW →
      s.state._base_vertex ≤ (s.commands i).args.draw.vertex_index
      ∧ (s.commands i).args.draw.vertex_index < 2147483648
      ∧ (s.commands i).args.draw.num_vertices < 2147483648) :
    (_sgp_flush_command s s.state._base_vertex l i).calls.filter is_dispatch_call
      = l.calls.filter is_dispatch_call ++ (reference_command_call s i).toList := by
  unfold _sgp_flush_command reference_command_call
  cases hcmd : (s.commands i).cmd with
  | SGP_COMMAND_NONE => simp
  | SGP_COMMAND_VIEWPORT => simp [is_dispatch_call]
  | SGP_COMMAND_SCISSOR => simp [is_dispatch_call]
  | SGP_COMMAND_DRAW =>
    obtain ⟨h1, h2, h3⟩ := hspan hcmd
    simp only []
    by_cases hn : (s.commands i).args.draw.num_vertices = 0
    · simp [hn]
    · rw [if_neg hn, if_neg hn]
      have e1 : int_of_u32 (u32_sub (s.commands i).args.draw.vertex_index s.state._base_vertex)
          = ((s.commands i).args.draw.vertex_index : Int) - (s.state._base_vertex : Int) := by
        rw [u32_sub_of_le h1 (by omega), int_of_u32_of_lt (by omega)]
        omega
      have e2 : int_of_u32 (s.commands i).args.draw.num_vertices
          = ((s.commands i).args.draw.num_vertices : Int) := int_of_u32_of_lt h3
      rw [e1, e2]
      split_ifs <;>
        simp [flush_slots_calls, is_dispatch_call, List.filter_append, Option.toList]

theorem flush_loop_dispatch (s : _sgp_context) (indices : List Nat)
    (hspan : ∀ i ∈ indices, (s.commands i).cmd = SGP_COMMAND_DRAW →
      s.state._base_vertex ≤ (s.commands i).args.draw.vertex_index
      ∧ (s.commands i).args.draw.vertex_index < 2147483648
      ∧ (s.commands i).args.draw.num_vertices < 2147483648) :
    ∀ l : _sgp_flush_locals,
      (indices.foldl (_sgp_flush_command s s.state._base_vertex) l).calls.filter is_dispatch_call
        = l.calls.filter is_dispatch_call ++ indices.filterMap (reference_command_call s) := by
  induction indices with
  | nil => intro l; simp
  | cons i rest ih =>
    intro l
    simp only [List.foldl_cons]
    rw [ih (fun j hj => hspan j (List.mem_cons_of_mem _ hj)),
      flush_command_dispatch s l i (hspan i (List.mem_cons_self _ _))]
    cases h : reference_command_call s i with
    | none => simp [List.filterMap_cons, h]
    | some call => simp [List.filterMap_cons, h]

/-- C22: for an error-free segment whose vertex upload succeeds, the viewport,
scissor and draw calls `sgp_flush` makes are, in this order, the calls the
commands of the segment stand for, from the base command to the command cursor
(`reference_dispatch`): nothing for a NoOp and for a draw command of zero
vertices, the stored rectangle for a viewport or scissor command, and for a
draw command the draw with first vertex `vertex_index - _base_vertex`,
`num_vertices` vertices and one instance. The vertex spans of the draw commands
start at the base vertex or later and their indices and counts are in the range
of `int`. -/
theorem flush_dispatches_queue_in_order (s : _sgp_context) (offset : Int)
    (herr : s.last_error = SGP_NO_ERROR)
    (hspan : ∀ i, s.state._base_command ≤ i → i < s.cur_command →
      (s.commands i).cmd = SGP_COMMAND_DRAW →
      s.state._base_vertex ≤ (s.commands i).args.draw.vertex_index
      ∧ (s.commands i).args.draw.vertex_index < 2147483648
      ∧ (s.commands i).args.draw.num_vertices < 2147483648) :
    (sgp_flush s offset false).2.filter is_dispatch_call = reference_dispatch s := by
  unfold sgp_flush reference_dispatch
  simp only []
  rw [if_neg (by simp [herr])]
  by_cases hempty : s.cur_command ≤ s.state._base_command
  · rw [if_pos hempty]
    have e : s.cur_command - s.state._base_command = 0 := by omega
    simp [e]
  · rw [if_neg hempty]
    simp only [Bool.false_eq_true, if_false]
    have hloop := flush_loop_dispatch
      { s with
        cur_vertex := s.state._base_vertex
        cur_uniform := s.state._base_uniform
        cur_command := s.state._base_command }
      (List.range' s.state._base_command (s.cur_command - s.state._base_command))
      (fun i hi => by
        rw [List.mem_range'_1] at hi
        exact hspan i hi.1 (by omega))
    have href : reference_command_call
        { s with
          cur_vertex := s.state._base_vertex
          cur_uniform := s.state._base_uniform
          cur_command := s.state._base_command } = reference_command_call s := rfl
    rw [hloop, href]
    simp [is_dispatch_call]

set_option maxRecDepth 100000 in
/-- C22 at a queue of a draw, a NoOp, a draw, and two more NoOps, and at a
queue of a draw and a viewport command: the flush dispatches the two draws,
and the draw and the viewport, in queue order. -/
theorem flush_dispatches_queue_in_order_witness :
    ((sgp_flush noop_context 0 false).2.filter is_dispatch_call = reference_dispatch noop_context
      ∧ reference_dispatch noop_context = [sg_call.draw 0 6 1, sg_call.draw 6 6 1])
    ∧ ((sgp_flush barrier_context 0 false).2.filter is_dispatch_call
        = reference_dispatch barrier_context
      ∧ reference_dispatch barrier_context
        = [sg_call.draw 0 6 1, sg_call.apply_viewport 0 0 1 1 true]) :=
  ⟨⟨flush_dispatches_queue_in_order noop_context 0 (by decide)
      (fun i _ hi _ => by
        have hcases : i = 0 ∨ i = 1 ∨ i = 2 ∨ i = 3 ∨ i = 4 := by
          have : i < 5 := hi
          omega
        rcases hcases with h | h | h | h | h <;> subst h <;> decide),
    by decide⟩,
   ⟨flush_dispatches_queue_in_order barrier_context 0 (by decide)
      (fun i _ hi _ => by
        have hcases : i = 0 ∨ i = 1 := by
          have : i < 2 := hi
          omega
        rcases hcases with h | h <;> subst h <;> decide),
    by decide⟩⟩

/-! ### Claims on the matrices and the resets -/

theorem reference_compose_apply (a b : sgp_mat2x3) (p : sgp_vec2) :
    _sgp_mat3_vec2_mul (reference_compose a b) p
      = _sgp_mat3_vec2_mul a (_sgp_mat3_vec2_mul b p) := by
  simp only [_sgp_mat3_vec2_mul, reference_compose, sgp_vec2.mk.injEq]
  constructor <;> ring

theorem mul_proj_transform_eq_compose (proj transform : sgp_mat2x3)
    (h01 : proj.v01 = 0) (h10 : proj.v10 = 0) :
    _sgp_mul_proj_transform proj transform = reference_compose proj transform := by
  simp only [_sgp_mul_proj_transform, reference_compose, h01, h10, sgp_mat2x3.mk.injEq]
  refine ⟨?_, ?_, ?_, ?_, ?_, ?_⟩ <;> ring

theorem sgp_viewport_proj (s : _sgp_context) (x y w h : Int) :
    stored_proj_diagonal s (sgp_viewport s x y w h) := by
  unfold sgp_viewport
  split
  · exact Or.inl rfl
  · rcases reuse_or_next_command_cases s SGP_COMMAND_VIEWPORT with ⟨cmd, hc⟩ | hc | hc
    · rw [hc]; exact Or.inr ⟨rfl, rfl⟩
    · rw [hc]; exact Or.inr ⟨rfl, rfl⟩
    · rw [hc]; exact Or.inl rfl

/-- C35: for a projection whose off-diagonal entries are zero, the optimized
product `_sgp_mul_proj_transform proj transform` is the full affine composition
"apply `transform`, then `proj`" (`reference_compose`, which maps a point as the
two matrices do one after the other), and so maps every point as the two
matrices do; and the projection that `sgp_project` and `sgp_reset_project`
store, and the one `sgp_begin` and `sgp_viewport` store when they change the
state, has zero off-diagonal entries. -/
theorem mul_proj_transform_is_composition (proj transform : sgp_mat2x3) (s : _sgp_context)
    (left right top bottom : ℚ) (width height x y w h : Int)
    (h01 : proj.v01 = 0) (h10 : proj.v10 = 0) :
    _sgp_mul_proj_transform proj transform = reference_compose proj transform
    ∧ (∀ a b p, _sgp_mat3_vec2_mul (reference_compose a b) p
        = _sgp_mat3_vec2_mul a (_sgp_mat3_vec2_mul b p))
    ∧ (∀ p, _sgp_mat3_vec2_mul (_sgp_mul_proj_transform proj transform) p
        = _sgp_mat3_vec2_mul proj (_sgp_mat3_vec2_mul transform p))
    ∧ off_diagonal_zero (_sgp_default_proj width height)
    ∧ off_diagonal_zero (sgp_project s left right top bottom).state.proj
    ∧ off_diagonal_zero (sgp_reset_project s).state.proj
    ∧ stored_proj_diagonal s (sgp_begin s width height)
    ∧ (s.cur_state < _SGP_MAX_STACK_DEPTH →
        (sgp_begin s width height).state.proj = _sgp_default_proj width height)
    ∧ stored_proj_diagonal s (sgp_viewport s x y w h) := by
  refine ⟨mul_proj_transform_eq_compose proj transform h01 h10, reference_compose_apply, ?_,
    ⟨rfl, rfl⟩, ⟨rfl, rfl⟩, ⟨rfl, rfl⟩, ?_, ?_, sgp_viewport_proj s x y w h⟩
  · intro p
    rw [mul_proj_transform_eq_compose proj transform h01 h10]
    exact reference_compose_apply proj transform p
  · unfold sgp_begin
    split
    · exact Or.inl rfl
    · exact Or.inr ⟨rfl, rfl⟩
  · intro hroom
    unfold sgp_begin
    rw [if_neg (by omega)]

/-- C35 at the projection of a segment of 100 by 100 pixels and a transform
that rotates by a quarter turn and translates by (3, 4). -/
theorem mul_proj_transform_is_composition_witness :
    (sgp_begin setup_context 100 100).state.proj.v01 = 0
    ∧ (sgp_begin setup_context 100 100).state.proj.v10 = 0
    ∧ _sgp_mul_proj_transform (sgp_begin setup_context 100 100).state.proj
        { v00 := 0, v01 := -1, v02 := 3, v10 := 1, v11 := 0, v12 := 4 }
      = reference_compose (sgp_begin setup_context 100 100).state.proj
        { v00 := 0, v01 := -1, v02 := 3, v10 := 1, v11 := 0, v12 := 4 } :=
  ⟨rfl, rfl,
    (mul_proj_transform_is_composition (sgp_begin setup_context 100 100).state.proj
      { v00 := 0, v01 := -1, v02 := 3, v10 := 1, v11 := 0, v12 := 4 } setup_context
      0 100 0 100 100 100 0 0 100 100 rfl rfl).1⟩

/-- C36: each transform operation multiplies the model transform on the right
by its matrix. For every context, with model transform `T`, and every point
`p`: after `sgp_translate x y` the model transform maps `p` to `T (p + (x, y))`,
after `sgp_scale sx sy` to `T (sx * p.x, sy * p.y)`, and after `sgp_rotate` with
sine `sint` and cosine `cost` to `T (R p)`, where `R` has the rows
`(cost, -sint)` and `(sint, cost)`. In matrix form the new transform is the
composition of `T` with the matrix of the operation. -/
theorem transform_ops_multiply_on_the_right (s : _sgp_context) (p : sgp_vec2)
    (x y sx sy sint cost : ℚ) :
    _sgp_mat3_vec2_mul (sgp_translate s x y).state.transform p
        = _sgp_mat3_vec2_mul s.state.transform { x := p.x + x, y := p.y + y }
    ∧ _sgp_mat3_vec2_mul (sgp_scale s sx sy).state.transform p
        = _sgp_mat3_vec2_mul s.state.transform { x := sx * p.x, y := sy * p.y }
    ∧ _sgp_mat3_vec2_mul (sgp_rotate s sint cost).state.transform p
        = _sgp_mat3_vec2_mul s.state.transform
            { x := cost * p.x - sint * p.y, y := sint * p.x + cost * p.y }
    ∧ (sgp_translate s x y).state.transform
        = reference_compose s.state.transform
            { v00 := 1, v01 := 0, v02 := x, v10 := 0, v11 := 1, v12 := y }
    ∧ (sgp_scale s sx sy).state.transform
        = reference_compose s.state.transform
            { v00 := sx, v01 := 0, v02 := 0, v10 := 0, v11 := sy, v12 := 0 }
    ∧ (sgp_rotate s sint cost).state.transform
        = reference_compose s.state.transform
            { v00 := cost, v01 := -sint, v02 := 0, v10 := sint, v11 := cost, v12 := 0 } := by
  refine ⟨?_, ?_, ?_, ?_, ?_, ?_⟩
  · simp only [sgp_translate, _sgp_mat3_vec2_mul, sgp_vec2.mk.injEq]
    constructor <;> ring
  · simp only [sgp_scale, _sgp_mat3_vec2_mul, sgp_vec2.mk.injEq]
    constructor <;> ring
  · simp only [sgp_rotate, _sgp_mat3_vec2_mul, sgp_vec2.mk.injEq]
    constructor <;> ring
  · simp only [sgp_translate, reference_compose, sgp_mat2x3.mk.injEq]
    refine ⟨?_, ?_, ?_, ?_, ?_, ?_⟩ <;> ring
  · simp only [sgp_scale, reference_compose, sgp_mat2x3.mk.injEq]
    refine ⟨?_, ?_, ?_, ?_, ?_, ?_⟩ <;> ring
  · simp only [sgp_rotate, reference_compose, sgp_mat2x3.mk.injEq]
    refine ⟨?_, ?_, ?_, ?_, ?_, ?_⟩ <;> ring

/-- C34: the reset operations are idempotent. For every context, calling
`sgp_reset_color` twice gives the same context as calling it once, and the same
holds for `sgp_reset_blend_mode`, `sgp_reset_pipeline` and
`sgp_reset_uniform`. -/
theorem reset_operations_are_idempotent (s : _sgp_context) :
    sgp_reset_color (sgp_reset_color s) = sgp_reset_color s
    ∧ sgp_reset_blend_mode (sgp_reset_blend_mode s) = sgp_reset_blend_mode s
    ∧ sgp_reset_pipeline (sgp_reset_pipeline s) = sgp_reset_pipeline s
    ∧ sgp_reset_uniform (sgp_reset_uniform s) = sgp_reset_uniform s := by
  refine ⟨rfl, rfl, rfl, ?_⟩
  simp only [sgp_reset_uniform, sgp_set_uniform]
  simp

/-! ### The cached matrix -/

theorem default_proj_mvp (width height : Int) :
    _sgp_default_proj width height
      = _sgp_mul_proj_transform (_sgp_default_proj width height) _sgp_mat3_identity := by
  simp [_sgp_mul_proj_transform, _sgp_default_proj, _sgp_mat3_identity]

/-- A call that leaves the state stack alone and ends in a state with a current
matrix keeps the matrices up to date. -/
theorem mvp_up_to_date_of_stacks {s t : _sgp_context} (hs : mvp_up_to_date s)
    (hk : stacks_kept s t) (hm : mvp_current t.state) : mvp_up_to_date t := by
  refine ⟨hm, fun i hi => ?_⟩
  rw [hk.2.1]
  exact hs.2 i (by rw [← hk.1]; exact hi)

theorem sgp_begin_mvp (s : _sgp_context) (width height : Int) (hs : mvp_up_to_date s) :
    mvp_up_to_date (sgp_begin s width height) := by
  unfold sgp_begin
  split
  · exact hs
  · rename_i hroom
    unfold _SGP_MAX_STACK_DEPTH at hroom
    refine ⟨default_proj_mvp width height, fun i hi => ?_⟩
    have hi1 : i < s.cur_state + 1 := by
      have h1 : u32 (s.cur_state + 1) = s.cur_state + 1 := u32_of_lt (by omega)
      have h2 : i < u32 (s.cur_state + 1) := hi
      omega
    show mvp_current (Function.update s.state_stack s.cur_state s.state i)
    by_cases hc : i = s.cur_state
    · rw [hc, Function.update_same]; exact hs.1
    · rw [Function.update_noteq hc]; exact hs.2 i (by omega)

theorem sgp_end_mvp (s : _sgp_context) (hs : mvp_up_to_date s) :
    mvp_up_to_date (sgp_end s) := by
  unfold sgp_end
  split
  · exact hs
  · rename_i hpos
    have hlt : u32_sub s.cur_state 1 < s.cur_state := by unfold u32_sub; omega
    exact ⟨hs.2 _ hlt, fun i hi => hs.2 i (lt_trans hi hlt)⟩

theorem sgp_viewport_mvp (s : _sgp_context) (x y w h : Int) (hs : mvp_current s.state) :
    mvp_current (sgp_viewport s x y w h).state := by
  unfold sgp_viewport
  split
  · exact hs
  · rcases reuse_or_next_command_cases s SGP_COMMAND_VIEWPORT with ⟨cmd, hc⟩ | hc | hc
    · rw [hc]; rfl
    · rw [hc]; rfl
    · rw [hc]; exact hs

theorem sgp_scissor_mvp (s : _sgp_context) (x y w h : Int) (hs : mvp_current s.state) :
    mvp_current (sgp_scissor s x y w h).state := by
  unfold sgp_scissor
  split
  · exact hs
  · rcases reuse_or_next_command_cases s SGP_COMMAND_SCISSOR with ⟨cmd, hc⟩ | hc | hc
    · rw [hc]; exact hs
    · rw [hc]; exact hs
    · rw [hc]; exact hs

theorem sgp_set_image_mvp (s : _sgp_context) (channel : Nat) (image : sg_image)
    (hs : mvp_current s.state) : mvp_current (sgp_set_image s channel image).state := by
  unfold sgp_set_image
  split
  · exact hs
  · exact hs

theorem sgp_reset_state_mvp (s : _sgp_context) : mvp_current (sgp_reset_state s).state :=
  rfl

/-- The state after a call other than `sgp_end` has a current matrix when the
state before has one. -/
theorem run_call_mvp_current (depth : Nat) (be : sg_backend) (s : _sgp_context)
    (call : sgp_call) (hkeep : state_move call = stack_move.keep) (hs : mvp_current s.state) :
    mvp_current (run_call depth be s call).state := by
  cases call with
  | draw call =>
    simp only [run_call]
    rw [(run_draw_call_kept depth be s call).1]
    exact hs
  | sgp_begin width height => simp [state_move] at hkeep
  | sgp_end => simp [state_move] at hkeep
  | sgp_flush offset overflow =>
    simp only [run_call]
    rw [flush_context]
    exact hs
  | sgp_push_transform =>
    simp only [run_call, sgp_push_transform]
    split <;> exact hs
  | sgp_pop_transform =>
    simp only [run_call, sgp_pop_transform]
    split
    · exact hs
    · rfl
  | sgp_viewport x y w h => exact sgp_viewport_mvp s x y w h hs
  | sgp_reset_viewport => exact sgp_viewport_mvp s _ _ _ _ hs
  | sgp_scissor x y w h => exact sgp_scissor_mvp s x y w h hs
  | sgp_reset_scissor => exact sgp_scissor_mvp s _ _ _ _ hs
  | sgp_set_image channel image => exact sgp_set_image_mvp s channel image hs
  | sgp_unset_image channel => exact sgp_set_image_mvp s channel _ hs
  | sgp_reset_image channel =>
    simp only [run_call, sgp_reset_image]
    split <;> exact sgp_set_image_mvp s channel _ hs
  | sgp_reset_state => exact sgp_reset_state_mvp s
  | _ => first | exact hs | rfl

/-- Every call keeps the cached matrices up to date. -/
theorem run_call_mvp (depth : Nat) (be : sg_backend) (s : _sgp_context) (call : sgp_call)
    (hs : mvp_up_to_date s) : mvp_up_to_date (run_call depth be s call) := by
  by_cases hkeep : state_move call = stack_move.keep
  · have hst := (run_call_stacks depth be s call).1 hkeep
    refine ⟨run_call_mvp_current depth be s call hkeep hs.1, fun i hi => ?_⟩
    rw [hst.2]
    exact hs.2 i (by rw [← hst.1]; exact hi)
  · cases call with
    | sgp_begin width height => exact sgp_begin_mvp s width height hs
    | sgp_end => exact sgp_end_mvp s hs
    | _ => exact absurd rfl hkeep

theorem run_calls_mvp (depth : Nat) (be : sg_backend) (calls : List sgp_call) :
    ∀ s : _sgp_context, mvp_up_to_date s → mvp_up_to_date (calls.foldl (run_call depth be) s) := by
  induction calls with
  | nil => exact fun s hs => hs
  | cons call rest ih => exact fun s hs => ih _ (run_call_mvp depth be s call hs)

/-- C32: the cached model-view-projection matrix is always up to date. From a
context in which the matrix of the state and the matrices of the saved states
are the product of their projection and transform (as after `sgp_setup`), every
sequence of library calls, among them `sgp_begin`, `sgp_end`, `sgp_project`,
`sgp_reset_project`, `sgp_viewport`, the transform stack and the transform
operations, ends in a context whose `state.mvp` equals
`_sgp_mul_proj_transform state.proj state.transform`, and the same holds for the
states saved on the state stack. -/
theorem mvp_is_always_up_to_date (depth : Nat) (be : sg_backend) (s : _sgp_context)
    (calls : List sgp_call) (hs : mvp_up_to_date s) :
    (calls.foldl (run_call depth be) s).state.mvp
        = _sgp_mul_proj_transform (calls.foldl (run_call depth be) s).state.proj
            (calls.foldl (run_call depth be) s).state.transform
    ∧ mvp_up_to_date (calls.foldl (run_call depth be) s) :=
  ⟨(run_calls_mvp depth be calls s hs).1, run_calls_mvp depth be calls s hs⟩

theorem setup_context_mvp : mvp_up_to_date setup_context := by
  refine ⟨?_, fun i hi => absurd hi (Nat.not_lt_zero i)⟩
  simp [mvp_current, setup_context, sample_state, _sgp_mul_proj_transform, _sgp_mat3_identity]

/-- C32 at the context after setup: a segment with a translation, a viewport
change, a pushed and rotated transform, a pop and the end of the segment. -/
theorem mvp_is_always_up_to_date_witness :
    mvp_up_to_date setup_context
    ∧ ([sgp_call.sgp_begin 100 100, sgp_call.sgp_translate 3 4,
        sgp_call.sgp_viewport 5 5 50 50, sgp_call.sgp_push_transform, sgp_call.sgp_rotate 1 0,
        sgp_call.sgp_scale 2 2, sgp_call.sgp_pop_transform, sgp_call.sgp_project 0 10 0 10,
        sgp_call.sgp_reset_project].foldl (run_call 8 sample_backend) setup_context).state.mvp
      = _sgp_mul_proj_transform
          ([sgp_call.sgp_begin 100 100, sgp_call.sgp_translate 3 4,
            sgp_call.sgp_viewport 5 5 50 50, sgp_call.sgp_push_transform,
            sgp_call.sgp_rotate 1 0, sgp_call.sgp_scale 2 2, sgp_call.sgp_pop_transform,
            sgp_call.sgp_project 0 10 0 10, sgp_call.sgp_reset_project].foldl
            (run_call 8 sample_backend) setup_context).state.proj
          ([sgp_call.sgp_begin 100 100, sgp_call.sgp_translate 3 4,
            sgp_call.sgp_viewport 5 5 50 50, sgp_call.sgp_push_transform,
            sgp_call.sgp_rotate 1 0, sgp_call.sgp_scale 2 2, sgp_call.sgp_pop_transform,
            sgp_call.sgp_project 0 10 0 10, sgp_call.sgp_reset_project].foldl
            (run_call 8 sample_backend) setup_context).state.transform :=
  ⟨setup_context_mvp,
    (mvp_is_always_up_to_date 8 sample_backend setup_context
      [sgp_call.sgp_begin 100 100, sgp_call.sgp_translate 3 4, sgp_call.sgp_viewport 5 5 50 50,
        sgp_call.sgp_push_transform, sgp_call.sgp_rotate 1 0, sgp_call.sgp_scale 2 2,
        sgp_call.sgp_pop_transform, sgp_call.sgp_project 0 10 0 10, sgp_call.sgp_reset_project]
      setup_context_mvp).1⟩

/-! ### A draw into an empty segment -/

/-- The pipeline lookup changes nothing but the pipeline cache. -/
theorem lookup_pipeline_context (be : sg_backend) (s : _sgp_context)
    (primitive_type : sg_primitive_type) (blend_mode : sgp_blend_mode) :
    (_sgp_lookup_pipeline be s primitive_type blend_mode).2
      = { s with pipelines :=
            (_sgp_lookup_pipeline be s primitive_type blend_mode).2.pipelines } := by
  unfold _sgp_lookup_pipeline
  simp only []
  split
  · rfl
  · split <;> rfl

/-- The pipeline the lookup answers with depends on the pipeline cache and the
backend alone. -/
theorem lookup_pipeline_of_pipelines (be : sg_backend) (s t : _sgp_context)
    (primitive_type : sg_primitive_type) (blend_mode : sgp_blend_mode)
    (h : t.pipelines = s.pipelines) :
    (_sgp_lookup_pipeline be t primitive_type blend_mode).1
      = (_sgp_lookup_pipeline be s primitive_type blend_mode).1 := by
  unfold _sgp_lookup_pipeline
  simp only [h]
  split
  · rfl
  · split <;> rfl

/-- In an empty segment the optimizer finds no candidate. -/
theorem merge_batch_command_empty (depth : Nat) (s : _sgp_context) (pip : sg_pipeline)
    (textures : sgp_textures_uniform) (uniform : Option sgp_uniform) (region : _sgp_region)
    (vertex_index num_vertices : Nat) (hempty : s.cur_command = s.state._base_command) :
    _sgp_merge_batch_command depth s pip textures uniform region vertex_index num_vertices
      = (false, s) := by
  have h0 : u32_sub s.cur_command s.state._base_command = 0 := by
    rw [← hempty]; unfold u32_sub; omega
  have hprev : _sgp_prev_command s (u32 (0 + 1)) = none := by
    unfold _sgp_prev_command
    rw [h0, if_neg (by decide)]
  have hscan : _sgp_merge_scan s pip textures uniform (0 + 1) 0 depth [] = (none, []) := by
    simp only [_sgp_merge_scan, hprev]
    split <;> rfl
  unfold _sgp_merge_batch_command
  split
  · rfl
  · rw [h0, hscan]

/-- A draw without a custom pipeline into an empty segment, with a valid
pipeline and a region inside the bounds, goes straight to the append step. -/
theorem queue_draw_empty_segment (depth : Nat) (s : _sgp_context) (pip : sg_pipeline)
    (region : _sgp_region) (vertex_index num_vertices : Nat) (primitive_type : sg_primitive_type)
    (hempty : s.cur_command = s.state._base_command)
    (hnone : s.state.pipeline.id = SG_INVALID_ID) (hpip : pip.id ≠ SG_INVALID_ID)
    (hreg : ¬ region_out_of_bounds region) :
    _sgp_queue_draw depth s pip region vertex_index num_vertices primitive_type
      = _sgp_queue_draw_append s pip region _SGP_IMPOSSIBLE_ID vertex_index num_vertices := by
  have hq : queue_pipeline s pip = pip := by
    unfold queue_pipeline; rw [if_neg (fun h => h hnone)]
  have hu : queue_uniform s = none := by
    unfold queue_uniform; rw [if_neg (fun h => h hnone)]
  rw [queue_draw_unfold depth s pip region vertex_index num_vertices primitive_type
    (by rw [hq]; exact hpip) hreg (false, s)
    (by split
        · exact merge_batch_command_empty depth s _ _ _ region vertex_index num_vertices hempty
        · rfl)]
  rw [hq, hu]
  rfl

/-- C33: one filled rectangle drawn into an empty segment becomes exactly one
draw command. In a segment without commands, with room for six vertices and
one command, no custom pipeline, a valid default pipeline for triangles and the
current blend mode, and a rectangle whose transformed region is not outside the
clip bounds, `sgp_draw_filled_rect` appends one draw command at the command
cursor: it has 6 vertices from the vertex cursor on, the default pipeline for
triangles and the current blend mode, and the six vertices are the transformed
corners bottom left, bottom right, top right, top left, bottom left, top
right, all with the current color. Nothing else in the queue changes. -/
theorem filled_rect_appends_one_draw (depth : Nat) (be : sg_backend) (s : _sgp_context)
    (x y w h : ℚ)
    (hempty : s.cur_command = s.state._base_command)
    (hverts : s.cur_vertex + 6 ≤ s.num_vertices) (hvcap : s.num_vertices < 4294967296)
    (hcmds : s.cur_command < s.num_commands) (hccap : s.num_commands < 4294967296)
    (hnone : s.state.pipeline.id = SG_INVALID_ID)
    (hpip : (_sgp_lookup_pipeline be s SG_PRIMITIVETYPE_TRIANGLES s.state.blend_mode).1.id
      ≠ SG_INVALID_ID)
    (hreg : ¬ region_out_of_bounds (_sgp_region_add_quad _sgp_region_empty
      (_sgp_rect_quad s.state.mvp { x := x, y := y, w := w, h := h }))) :
    rect_drawn_as_new_draw s (sgp_draw_filled_rect depth be s x y w h)
      (_sgp_lookup_pipeline be s SG_PRIMITIVETYPE_TRIANGLES s.state.blend_mode).1
      { x := x, y := y, w := w, h := h } := by
  have hn : _sgp_next_vertices s (u32 (1 * 6))
      = (some s.cur_vertex, { s with cur_vertex := s.cur_vertex + 6 }) := by
    have h6 : u32 (1 * 6) = 6 := by decide
    have hu : u32 (s.cur_vertex + 6) = s.cur_vertex + 6 := u32_of_lt (by omega)
    unfold _sgp_next_vertices
    rw [h6, hu, if_pos hverts]
  simp only [sgp_draw_filled_rect, sgp_draw_filled_rects]
  rw [if_neg (by decide), hn]
  simp only [foldl_range_one]
  rw [lookup_pipeline_context]
  rw [queue_draw_empty_segment]
  rotate_left
  · exact hempty
  · exact hnone
  · rw [lookup_pipeline_of_pipelines be s]
    · exact hpip
    · rfl
  · exact hreg
  unfold _sgp_queue_draw_append _sgp_next_command
  rw [if_pos hcmds]
  have hc1 : u32 (s.cur_command + 1) = s.cur_command + 1 := u32_of_lt (by omega)
  refine ⟨hc1, fun i hi => Function.update_noteq hi _ _, ?_, ?_, ?_, ?_, ?_, ?_, ?_, rfl, ?_, ?_,
    ?_, rfl⟩
  · simp only [Function.update_same]
  · simp only [Function.update_same]; decide
  · simp only [Function.update_same]
  · simp only [Function.update_same]
    refine lookup_pipeline_of_pipelines be s _ _ _ ?_
    rfl
  · simp only [Function.update_same]
  · simp only [Function.update_same]
  · simp only [Function.update_same]
  · simp [List.range, List.range.loop, rect_triangle_corners, _sgp_rect_quad, _sgp_quad_order]
  · intro k hk
    show (if s.cur_vertex ≤ s.cur_vertex + k ∧ s.cur_vertex + k < s.cur_vertex + 1 * 6 then _
      else _ : sgp_vertex).color = _
    rw [if_pos ⟨by omega, by omega⟩]
  · intro k hk
    show (if s.cur_vertex ≤ k ∧ k < s.cur_vertex + 1 * 6 then _ else _ : sgp_vertex) = _
    rw [if_neg (by omega)]

theorem half_frame_rect_region :
    _sgp_region_add_quad _sgp_region_empty
        (_sgp_rect_quad (sgp_begin setup_context 100 100).state.mvp
          { x := 0, y := 0, w := 50, h := 50 })
      = sample_region (-1) 0 0 1 := by
  simp only [sgp_begin, setup_context, sample_context, _SGP_MAX_STACK_DEPTH, _sgp_default_proj,
    _sgp_rect_quad, _sgp_mat3_vec2_mul, _sgp_region_add_quad, List.foldl, _sgp_region_add,
    _sgp_region_empty, FLT_MAX, _sg_min, _sg_max, sample_region]
  norm_num

set_option maxRecDepth 100000 in
/-- C33 at the scenario of the specification: after setup and
`sgp_begin(100, 100)`, the rectangle (0, 0, 50, 50) becomes one draw command of
six vertices with the cached pipeline 1. -/
theorem filled_rect_appends_one_draw_witness :
    (sgp_begin setup_context 100 100).cur_command
        = (sgp_begin setup_context 100 100).state._base_command
    ∧ (sgp_begin setup_context 100 100).state.pipeline.id = SG_INVALID_ID
    ∧ (_sgp_lookup_pipeline sample_backend (sgp_begin setup_context 100 100)
        SG_PRIMITIVETYPE_TRIANGLES (sgp_begin setup_context 100 100).state.blend_mode).1
        = { id := 1 }
    ∧ rect_drawn_as_new_draw (sgp_begin setup_context 100 100)
        (sgp_draw_filled_rect 8 sample_backend (sgp_begin setup_context 100 100) 0 0 50 50)
        (_sgp_lookup_pipeline sample_backend (sgp_begin setup_context 100 100)
          SG_PRIMITIVETYPE_TRIANGLES (sgp_begin setup_context 100 100).state.blend_mode).1
        { x := 0, y := 0, w := 50, h := 50 } :=
  ⟨by decide, by decide, by decide,
    filled_rect_appends_one_draw 8 sample_backend (sgp_begin setup_context 100 100) 0 0 50 50
      (by decide) (by decide) (by decide) (by decide) (by decide) (by decide) (by decide)
      (by rw [half_frame_rect_region]; decide)⟩

/-! ### The size of the intermediate command array -/

/-- The search loop never collects more intermediate commands than its budget:
the commands collected plus the iterations the loop may still make for commands
that are not NoOps stay within `bound`. -/
theorem merge_scan_inter_bound (s : _sgp_context) (pip : sg_pipeline)
    (textures : sgp_textures_uniform) (uniform : Option sgp_uniform) (bound : Nat) :
    ∀ (fuel depth lookup_depth : Nat) (inter_cmds : List Nat),
      lookup_depth < 4294967296 → inter_cmds.length + (lookup_depth - depth) ≤ bound →
      (_sgp_merge_scan s pip textures uniform fuel depth lookup_depth inter_cmds).2.length
        ≤ bound := by
  intro fuel
  induction fuel with
  | zero =>
    intro depth lookup_depth inter_cmds _ h
    simp only [_sgp_merge_scan]
    omega
  | succ fuel ih =>
    intro depth lookup_depth inter_cmds hl h
    simp only [_sgp_merge_scan]
    by_cases hd : depth < lookup_depth
    · rw [if_pos hd]
      cases _sgp_prev_command s (u32 (depth + 1)) with
      | none => simp only []; omega
      | some i =>
        simp only []
        split_ifs
        · apply ih
          · unfold u32; omega
          · unfold u32; omega
        · simp only []; omega
        · simp only []; omega
        · apply ih _ _ _ hl
          rw [List.length_append, List.length_singleton]
          unfold u32; omega
    · rw [if_neg hd]
      simp only []
      omega

/-- C37: the intermediate commands fit the array `inter_cmds`, and the search
ends inside the segment. For every context and every configured depth (a
`uint32_t` value), the search loop of `_sgp_merge_batch_command` collects at
most `depth` intermediate commands, whatever the number of NoOp commands it
skips and however long it runs; so every index written and read in
`inter_cmds` is below `depth`. In a segment (base at most the cursor, indices
in the `uint32_t` range) the loop ends by itself within one iteration per
command of the segment and one more: more fuel than that does not change its
result, and the commands it collects are draw commands of the segment. -/
theorem scan_fits_inter_cmds (depth : Nat) (hd : depth < 4294967296) :
    (∀ (s : _sgp_context) (pip : sg_pipeline) (textures : sgp_textures_uniform)
        (uniform : Option sgp_uniform) (fuel : Nat),
      (_sgp_merge_scan s pip textures uniform fuel 0 depth []).2.length ≤ depth)
    ∧ (∀ (s : _sgp_context) (pip : sg_pipeline) (textures : sgp_textures_uniform)
        (uniform : Option sgp_uniform) (extra : Nat),
      s.state._base_command ≤ s.cur_command → s.cur_command + depth < 4294967295 →
      u32_sub s.cur_command s.state._base_command = s.cur_command - s.state._base_command
      ∧ _sgp_merge_scan s pip textures uniform
          (u32_sub s.cur_command s.state._base_command + 1 + extra) 0 depth []
        = _sgp_merge_scan s pip textures uniform
          (u32_sub s.cur_command s.state._base_command + 1) 0 depth []
      ∧ ∀ i, i ∈ (_sgp_merge_scan s pip textures uniform
          (u32_sub s.cur_command s.state._base_command + 1) 0 depth []).2 →
        s.state._base_command ≤ i ∧ i < s.cur_command
          ∧ (s.commands i).cmd = SGP_COMMAND_DRAW) := by
  refine ⟨fun s pip textures uniform fuel => ?_, fun s pip textures uniform extra hb hc => ?_⟩
  · exact merge_scan_inter_bound s pip textures uniform depth fuel 0 depth [] hd
      (by rw [List.length_nil]; omega)
  · have h1 : u32_sub s.cur_command s.state._base_command
        = s.cur_command - s.state._base_command := u32_sub_of_le hb (by omega)
    refine ⟨h1, merge_scan_fuel_enough s pip textures uniform depth extra hb hc, fun i hi => ?_⟩
    · rw [merge_scan_eq_reference s pip textures uniform depth hb hc] at hi
      have hw := (reference_gap_sublist s pip textures uniform depth).subset hi
      have := mem_reference_window s depth i hw
      exact ⟨this.1.1, this.1.2, this.2⟩

/-- C37 at a queue with NoOp commands and depth 8: at most 8 intermediate
commands with fuel 100, and seven more units of fuel than the segment has
commands change nothing. -/
theorem scan_fits_inter_cmds_witness :
    8 < 4294967296
    ∧ (_sgp_merge_scan noop_context { id := 1 } (sample_textures 1) none 100 0 8 []).2.length ≤ 8
    ∧ _sgp_merge_scan noop_context { id := 1 } (sample_textures 1) none
          (u32_sub noop_context.cur_command noop_context.state._base_command + 1 + 7) 0 8 []
        = _sgp_merge_scan noop_context { id := 1 } (sample_textures 1) none
          (u32_sub noop_context.cur_command noop_context.state._base_command + 1) 0 8 [] :=
  ⟨by decide,
    (scan_fits_inter_cmds 8 (by decide)).1 noop_context { id := 1 } (sample_textures 1) none 100,
    ((scan_fits_inter_cmds 8 (by decide)).2 noop_context { id := 1 } (sample_textures 1) none 7
      (by decide) (by decide)).2.1⟩

/-! ### Claims on the viewport and the scissor -/

/-- A successful viewport change adds the move of the viewport origin to the
offset of a scissor that is set, and leaves its width and height alone. -/
theorem viewport_scissor_offset (s : _sgp_context) (x y w h : Int) (slot : Nat)
    (t : _sgp_context)
    (hnew : ¬ (s.state.viewport.x = x ∧ s.state.viewport.y = y ∧ s.state.viewport.w = w
      ∧ s.state.viewport.h = h))
    (hslot : _sgp_reuse_or_next_command s SGP_COMMAND_VIEWPORT = (some slot, t))
    (hset : ¬ (s.state.scissor.w < 0 ∧ s.state.scissor.h < 0)) :
    (sgp_viewport s x y w h).state.scissor
      = { x := s.state.scissor.x + (x - s.state.viewport.x)
          y := s.state.scissor.y + (y - s.state.viewport.y)
          w := s.state.scissor.w
          h := s.state.scissor.h } := by
  have ht : t.state = s.state := by
    rcases reuse_or_next_command_cases s SGP_COMMAND_VIEWPORT with ⟨c, hc⟩ | hc | hc
    · rw [hc] at hslot; rw [← (Prod.mk.inj hslot).2]
    · rw [hc] at hslot; rw [← (Prod.mk.inj hslot).2]
    · rw [hc] at hslot; exact absurd (Prod.mk.inj hslot).1 (by simp)
  unfold sgp_viewport
  rw [if_neg hnew, hslot]
  simp only [ht]
  rw [if_pos hset]

set_option maxRecDepth 100000 in
/-- C31 fails on the code: a viewport change moves the scissor offset the wrong
way. In a segment of 100 by 100 pixels with the viewport at the origin,
`sgp_scissor(10, 10, 20, 20)` queues the scissor rectangle at the frame position
(10, 10). `sgp_viewport(5, 5, 50, 50)` succeeds and queues a viewport command;
it stores the scissor offset (15, 15), so that viewport origin plus scissor
offset is (20, 20), not (10, 10) as before; width and height stay 20. No scissor
command is queued, the rectangle the backend will apply is still at (10, 10),
and a following `sgp_scissor(15, 15, 20, 20)`, which asks for the frame position
(20, 20), is skipped as "the same scissor". -/
theorem viewport_moves_scissor_position :
    scissor_frame.state.viewport = { x := 0, y := 0, w := 100, h := 100 }
    ∧ scissor_frame.state.scissor = { x := 10, y := 10, w := 20, h := 20 }
    ∧ scissor_frame.cur_command = 1
    ∧ (scissor_frame.commands 0).cmd = SGP_COMMAND_SCISSOR
    ∧ (scissor_frame.commands 0).args.viewport = { x := 10, y := 10, w := 20, h := 20 }
    ∧ moved_viewport_frame.last_error = SGP_NO_ERROR
    ∧ moved_viewport_frame.cur_command = 2
    ∧ (moved_viewport_frame.commands 1).cmd = SGP_COMMAND_VIEWPORT
    ∧ (moved_viewport_frame.commands 1).args.viewport = { x := 5, y := 5, w := 50, h := 50 }
    ∧ moved_viewport_frame.state.viewport = { x := 5, y := 5, w := 50, h := 50 }
    ∧ moved_viewport_frame.state.scissor = { x := 15, y := 15, w := 20, h := 20 }
    ∧ scissor_frame.state.viewport.x + scissor_frame.state.scissor.x = 10
    ∧ scissor_frame.state.viewport.y + scissor_frame.state.scissor.y = 10
    ∧ moved_viewport_frame.state.viewport.x + moved_viewport_frame.state.scissor.x = 20
    ∧ moved_viewport_frame.state.viewport.y + moved_viewport_frame.state.scissor.y = 20
    ∧ (moved_viewport_frame.commands 0).cmd = SGP_COMMAND_SCISSOR
    ∧ (moved_viewport_frame.commands 0).args.viewport = { x := 10, y := 10, w := 20, h := 20 }
    ∧ _sgp_viewport_scissor moved_viewport_frame 15 15 20 20
        = { x := 20, y := 20, w := 20, h := 20 }
    ∧ (sgp_scissor moved_viewport_frame 15 15 20 20).cur_command = 2
    ∧ ((sgp_scissor moved_viewport_frame 15 15 20 20).commands 0).args.viewport
        = { x := 10, y := 10, w := 20, h := 20 } := by
  repeat' apply And.intro
  all_goals decide

/-! ### Claims on the vertex allocation -/

/-- The region of any number of unit squares at the origin, under the
projection of the sample contexts. -/
theorem unit_rects_region (count : Nat) (hcount : 0 < count) :
    (List.range count).foldl
        (fun region i => _sgp_region_add_quad region
          (_sgp_rect_quad ten_vertex_context.state.mvp (unit_rects i)))
        _sgp_region_empty
      = sample_region (-1) 0 0 1 := by
  induction count with
  | zero => exact absurd hcount (by decide)
  | succ n ih =>
    rw [List.range_succ, List.foldl_append]
    by_cases hn : 0 < n
    · rw [ih hn]
      simp only [ten_vertex_context, sample_context, sample_state, _sgp_rect_quad, _sgp_mat3_vec2_mul, unit_rects,
        _sgp_region_add_quad, List.foldl, _sgp_region_add, _sg_min, _sg_max, sample_region]
      norm_num
    · have h0 : n = 0 := by omega
      subst h0
      simp only [ten_vertex_context, sample_context, sample_state, _sgp_rect_quad, _sgp_mat3_vec2_mul, unit_rects,
        _sgp_region_add_quad, List.foldl, List.range_zero, _sgp_region_add, _sgp_region_empty,
        FLT_MAX, _sg_min, _sg_max, sample_region]
      norm_num

/-- Rectangles drawn into an empty segment, with room for the vertices the
function reserves and for one command, no custom pipeline, a valid default
pipeline and a region inside the bounds: the function reserves
`u32 (count * 6)` vertices and appends one draw command for them, and records no
error; the vertices it writes are those of all `count` rectangles. -/
theorem filled_rects_into_empty_segment (depth : Nat) (be : sg_backend) (s : _sgp_context)
    (rects : Nat → sgp_rect) (count : Nat) (hcount : count ≠ 0)
    (hempty : s.cur_command = s.state._base_command)
    (hverts : s.cur_vertex + u32 (count * 6) ≤ s.num_vertices)
    (hvcap : s.num_vertices < 4294967296)
    (hcmds : s.cur_command < s.num_commands) (hccap : s.num_commands < 4294967296)
    (hnone : s.state.pipeline.id = SG_INVALID_ID)
    (hpip : (_sgp_lookup_pipeline be s SG_PRIMITIVETYPE_TRIANGLES s.state.blend_mode).1.id
      ≠ SG_INVALID_ID)
    (hreg : ¬ region_out_of_bounds ((List.range count).foldl
      (fun region i => _sgp_region_add_quad region (_sgp_rect_quad s.state.mvp (rects i)))
      _sgp_region_empty)) :
    (sgp_draw_filled_rects depth be s rects count).last_error = s.last_error
    ∧ (sgp_draw_filled_rects depth be s rects count).cur_vertex
        = s.cur_vertex + u32 (count * 6)
    ∧ (sgp_draw_filled_rects depth be s rects count).cur_command = s.cur_command + 1
    ∧ ((sgp_draw_filled_rects depth be s rects count).commands s.cur_command).cmd
        = SGP_COMMAND_DRAW
    ∧ ((sgp_draw_filled_rects depth be s rects count).commands
        s.cur_command).args.draw.vertex_index = s.cur_vertex
    ∧ ((sgp_draw_filled_rects depth be s rects count).commands
        s.cur_command).args.draw.num_vertices = u32 (count * 6)
    ∧ ∀ k, s.cur_vertex ≤ k → k < s.cur_vertex + count * 6 →
        ((sgp_draw_filled_rects depth be s rects count).vertices k).color = s.state.color := by
  have hn : _sgp_next_vertices s (u32 (count * 6))
      = (some s.cur_vertex, { s with cur_vertex := s.cur_vertex + u32 (count * 6) }) := by
    have hu : u32 (s.cur_vertex + u32 (count * 6)) = s.cur_vertex + u32 (count * 6) :=
      u32_of_lt (by omega)
    unfold _sgp_next_vertices
    rw [hu, if_pos hverts]
  simp only [sgp_draw_filled_rects]
  rw [if_neg hcount, hn]
  simp only []
  rw [lookup_pipeline_context]
  rw [queue_draw_empty_segment]
  rotate_left
  · exact hempty
  · exact hnone
  · rw [lookup_pipeline_of_pipelines be s]
    · exact hpip
    · rfl
  · exact hreg
  unfold _sgp_queue_draw_append _sgp_next_command
  rw [if_pos hcmds]
  have hc1 : u32 (s.cur_command + 1) = s.cur_command + 1 := u32_of_lt (by omega)
  refine ⟨rfl, rfl, hc1, ?_, ?_, ?_, ?_⟩
  · simp only [Function.update_same]
  · simp only [Function.update_same]
  · simp only [Function.update_same]
  · intro k hk1 hk2
    show (if s.cur_vertex ≤ k ∧ k < s.cur_vertex + count * 6 then _ else _ : sgp_vertex).color
      = _
    rw [if_pos ⟨hk1, hk2⟩]

set_option maxRecDepth 100000 in
/-- C38 fails on the code: the vertex allocation wraps around in `uint32_t`.
The segment has no commands and 10 of 1024 vertices in use.
`_sgp_next_vertices(4294967295)` succeeds although 10 + 4294967295 is above the
capacity: the sum wraps to 9, the call answers with index 10, records no error
and sets the cursor to 9, not to 10 + 4294967295. `sgp_draw_filled_rects` with
715827883 rectangles computes `count * 6` as 2: it reserves two vertices
(cursor 12), records no error and queues a draw command of two vertices, while
the vertex written at index 14, outside the reserved span, is one of the
rectangles. -/
theorem vertex_allocation_wraps_around :
    ten_vertex_context.cur_vertex = 10
    ∧ ten_vertex_context.num_vertices = 1024
    ∧ ten_vertex_context.cur_command = ten_vertex_context.state._base_command
    ∧ ¬ (ten_vertex_context.cur_vertex + 4294967295 ≤ ten_vertex_context.num_vertices)
    ∧ (_sgp_next_vertices ten_vertex_context 4294967295).1 = some 10
    ∧ (_sgp_next_vertices ten_vertex_context 4294967295).2.cur_vertex = 9
    ∧ (_sgp_next_vertices ten_vertex_context 4294967295).2.last_error = SGP_NO_ERROR
    ∧ 715827883 * 6 = 4294967298
    ∧ (sgp_draw_filled_rects 8 sample_backend ten_vertex_context unit_rects
        715827883).last_error = SGP_NO_ERROR
    ∧ (sgp_draw_filled_rects 8 sample_backend ten_vertex_context unit_rects
        715827883).cur_vertex = 12
    ∧ (sgp_draw_filled_rects 8 sample_backend ten_vertex_context unit_rects
        715827883).cur_command = 1
    ∧ ((sgp_draw_filled_rects 8 sample_backend ten_vertex_context unit_rects
        715827883).commands 0).cmd = SGP_COMMAND_DRAW
    ∧ ((sgp_draw_filled_rects 8 sample_backend ten_vertex_context unit_rects
        715827883).commands 0).args.draw.vertex_index = 10
    ∧ ((sgp_draw_filled_rects 8 sample_backend ten_vertex_context unit_rects
        715827883).commands 0).args.draw.num_vertices = 2
    ∧ (ten_vertex_context.vertices 14).color = { r := 14, g := 0, b := 0, a := 255 }
    ∧ ((sgp_draw_filled_rects 8 sample_backend ten_vertex_context unit_rects
        715827883).vertices 14).color = _sgp_white_color := by
  have hr : ¬ region_out_of_bounds ((List.range 715827883).foldl
      (fun region i => _sgp_region_add_quad region
        (_sgp_rect_quad ten_vertex_context.state.mvp (unit_rects i)))
      _sgp_region_empty) := by
    rw [unit_rects_region 715827883 (by decide)]
    decide
  have h := filled_rects_into_empty_segment 8 sample_backend ten_vertex_context unit_rects
    715827883 (by decide) (by decide) (by decide) (by decide) (by decide) (by decide)
    (by decide) (by decide) hr
  rw [show ten_vertex_context.cur_command = 0 from by decide] at h
  exact ⟨by decide, by decide, by decide, by decide, by decide, by decide, by decide, by decide,
    h.1.trans (by decide), h.2.1.trans (by decide), h.2.2.1.trans (by decide), h.2.2.2.1,
    h.2.2.2.2.1.trans (by decide), h.2.2.2.2.2.1.trans (by decide), by decide,
    (h.2.2.2.2.2.2 14 (by decide) (by decide)).trans (by decide)⟩

/-! ### Claims on the vertex cursor -/

set_option maxRecDepth 100000 in
/-- C39 fails on the code: a textured rectangle whose image has no size keeps
its vertices reserved. In a segment with the image 9 bound to channel 0, an
image of 0 by 0 pixels, `sgp_draw_textured_rect` reserves six vertices, finds
the image size zero and returns: no command is appended or changed and no error
is recorded, but the vertex cursor stays at 6 instead of going back to 0. The
same call for channel 1, where no image is bound, leaves the cursor at 0. -/
theorem zero_size_image_leaks_vertices :
    failed_image_frame.cur_vertex = 0
    ∧ failed_image_frame.cur_command = 0
    ∧ (failed_image_frame.state.textures.images.getD 0 { id := SG_INVALID_ID }).id = 9
    ∧ (failed_image_backend.image_size { id := 9 }).w = 0
    ∧ (sgp_draw_textured_rect 8 failed_image_backend failed_image_frame 0
        { x := 0, y := 0, w := 50, h := 50 } { x := 0, y := 0, w := 2, h := 2 }).cur_vertex = 6
    ∧ (sgp_draw_textured_rect 8 failed_image_backend failed_image_frame 0
        { x := 0, y := 0, w := 50, h := 50 } { x := 0, y := 0, w := 2, h := 2 }).cur_command = 0
    ∧ (sgp_draw_textured_rect 8 failed_image_backend failed_image_frame 0
        { x := 0, y := 0, w := 50, h := 50 } { x := 0, y := 0, w := 2, h := 2 }).last_error
        = SGP_NO_ERROR
    ∧ sgp_draw_textured_rect 8 failed_image_backend failed_image_frame 0
        { x := 0, y := 0, w := 50, h := 50 } { x := 0, y := 0, w := 2, h := 2 }
        = { failed_image_frame with cur_vertex := 6 }
    ∧ (sgp_draw_textured_rect 8 failed_image_backend failed_image_frame 1
        { x := 0, y := 0, w := 50, h := 50 } { x := 0, y := 0, w := 2, h := 2 }).cur_vertex
        = 0 := by
  refine ⟨by decide, by decide, by decide, by decide, by decide, by decide, by decide, ?_,
    by decide⟩
  have hn : _sgp_next_vertices failed_image_frame (u32 (1 * 6))
      = (some 0, { failed_image_frame with cur_vertex := 6 }) := by
    unfold _sgp_next_vertices
    rw [if_pos (by decide)]
    rfl
  simp only [sgp_draw_textured_rect, sgp_draw_textured_rects]
  rw [if_neg (by decide), hn]
  simp only []
  rw [if_pos (by decide)]

/-! ### Claims on the assertions -/

/-- Without a custom pipeline the assertion of `sgp_reset_uniform` fails, and
with it the run of `sgp_reset_state`. -/
theorem reset_state_asserts_need_pipeline (s : _sgp_context)
    (hnone : s.state.pipeline.id = SG_INVALID_ID) : sgp_reset_state_asserts s = false := by
  have hkeep : (sgp_reset_color (sgp_reset_blend_mode (sgp_reset_transform (sgp_reset_project
      (sgp_reset_scissor (sgp_reset_viewport s)))))).state.pipeline = s.state.pipeline := by
    have h1 : (sgp_reset_viewport s).state.pipeline = s.state.pipeline := by
      unfold sgp_reset_viewport sgp_viewport
      split
      · rfl
      · rcases reuse_or_next_command_cases s SGP_COMMAND_VIEWPORT with ⟨cmd, hc⟩ | hc | hc
        · rw [hc]
        · rw [hc]
        · rw [hc]; rfl
    have h2 : (sgp_reset_scissor (sgp_reset_viewport s)).state.pipeline
        = (sgp_reset_viewport s).state.pipeline := by
      unfold sgp_reset_scissor sgp_scissor
      split
      · rfl
      · rcases reuse_or_next_command_cases (sgp_reset_viewport s) SGP_COMMAND_SCISSOR
          with ⟨cmd, hc⟩ | hc | hc
        · rw [hc]
        · rw [hc]
        · rw [hc]; rfl
    exact h2.trans h1
  have hu : sgp_reset_uniform_asserts (sgp_reset_color (sgp_reset_blend_mode (sgp_reset_transform
      (sgp_reset_project (sgp_reset_scissor (sgp_reset_viewport s)))))) = false := by
    unfold sgp_reset_uniform_asserts
    rw [hkeep, hnone]
    simp
  unfold sgp_reset_state_asserts
  rw [hu]
  simp

set_option maxRecDepth 100000 in
/-- C40 fails on the code: in the default state of a segment `sgp_reset_state`
violates an assertion. After `sgp_setup` and `sgp_begin(100, 100)` a segment is
active and no custom pipeline is set. The assertions of the first six calls of
`sgp_reset_state` hold; the seventh call, `sgp_reset_uniform`, asserts
`_sgp.state.pipeline.id != SG_INVALID_ID`, which is false. With a custom
pipeline set before, all assertions hold. -/
theorem reset_state_violates_assertion :
    0 < (sgp_begin setup_context 100 100).cur_state
    ∧ (sgp_begin setup_context 100 100).init_cookie = _SGP_INIT_COOKIE
    ∧ (sgp_begin setup_context 100 100).state.pipeline.id = SG_INVALID_ID
    ∧ sgp_reset_viewport_asserts (sgp_begin setup_context 100 100) = true
    ∧ sgp_reset_scissor_asserts (sgp_reset_viewport (sgp_begin setup_context 100 100)) = true
    ∧ sgp_reset_project_asserts
        (sgp_reset_scissor (sgp_reset_viewport (sgp_begin setup_context 100 100))) = true
    ∧ sgp_reset_transform_asserts
        (sgp_reset_project (sgp_reset_scissor
          (sgp_reset_viewport (sgp_begin setup_context 100 100)))) = true
    ∧ sgp_reset_blend_mode_asserts
        (sgp_reset_transform (sgp_reset_project (sgp_reset_scissor
          (sgp_reset_viewport (sgp_begin setup_context 100 100))))) = true
    ∧ sgp_reset_color_asserts
        (sgp_reset_blend_mode (sgp_reset_transform (sgp_reset_project (sgp_reset_scissor
          (sgp_reset_viewport (sgp_begin setup_context 100 100)))))) = true
    ∧ sgp_reset_uniform_asserts
        (sgp_reset_color (sgp_reset_blend_mode (sgp_reset_transform (sgp_reset_project
          (sgp_reset_scissor (sgp_reset_viewport (sgp_begin setup_context 100 100)))))))
        = false
    ∧ sgp_reset_state_asserts (sgp_begin setup_context 100 100) = false
    ∧ sgp_reset_state_asserts (sgp_set_pipeline (sgp_begin setup_context 100 100) { id := 5 })
        = true := by
  repeat' apply And.intro
  all_goals decide

/-! ### Only `sgp_begin` clears the error -/

theorem sgp_viewport_keeps_error (s : _sgp_context) (x y w h : Int)
    (he : s.last_error ≠ SGP_NO_ERROR) : (sgp_viewport s x y w h).last_error ≠ SGP_NO_ERROR := by
  unfold sgp_viewport
  split
  · exact he
  · rcases reuse_or_next_command_cases s SGP_COMMAND_VIEWPORT with ⟨cmd, h⟩ | h | h
    · rw [h]; exact he
    · rw [h]; exact he
    · rw [h]; simp [_sgp_set_error]

theorem sgp_scissor_keeps_error (s : _sgp_context) (x y w h : Int)
    (he : s.last_error ≠ SGP_NO_ERROR) : (sgp_scissor s x y w h).last_error ≠ SGP_NO_ERROR := by
  unfold sgp_scissor
  split
  · exact he
  · rcases reuse_or_next_command_cases s SGP_COMMAND_SCISSOR with ⟨cmd, h⟩ | h | h
    · rw [h]; exact he
    · rw [h]; exact he
    · rw [h]; simp [_sgp_set_error]

theorem sgp_reset_state_keeps_error (s : _sgp_context) (he : s.last_error ≠ SGP_NO_ERROR) :
    (sgp_reset_state s).last_error ≠ SGP_NO_ERROR := by
  have h1 : (sgp_reset_viewport s).last_error ≠ SGP_NO_ERROR :=
    sgp_viewport_keeps_error s _ _ _ _ he
  have h2 : (sgp_reset_scissor (sgp_reset_viewport s)).last_error ≠ SGP_NO_ERROR :=
    sgp_scissor_keeps_error _ _ _ _ _ h1
  have p1 : ∀ x : _sgp_context, (sgp_reset_pipeline x).last_error = x.last_error := fun _ => rfl
  have p2 : ∀ x : _sgp_context, (sgp_reset_uniform x).last_error = x.last_error := fun _ => rfl
  have p3 : ∀ x : _sgp_context, (sgp_reset_color x).last_error = x.last_error := fun _ => rfl
  have p4 : ∀ x : _sgp_context, (sgp_reset_blend_mode x).last_error = x.last_error :=
    fun _ => rfl
  have p5 : ∀ x : _sgp_context, (sgp_reset_transform x).last_error = x.last_error :=
    fun _ => rfl
  have p6 : ∀ x : _sgp_context, (sgp_reset_project x).last_error = x.last_error := fun _ => rfl
  unfold sgp_reset_state
  rw [p1, p2, p3, p4, p5, p6]
  exact h2

/-- No call of the library other than `sgp_begin` clears a recorded error: the
error slot is assigned only by `_sgp_set_error`, which records an error, and
by `sgp_begin`. -/
theorem run_call_keeps_error (depth : Nat) (be : sg_backend) (s : _sgp_context) (call : sgp_call)
    (hcall : ∀ width height, call ≠ sgp_call.sgp_begin width height)
    (he : s.last_error ≠ SGP_NO_ERROR) :
    (run_call depth be s call).last_error ≠ SGP_NO_ERROR := by
  cases call with
  | draw call => exact error_kept_of_error (run_draw_call_error depth be s call) he
  | sgp_begin width height => exact absurd rfl (hcall width height)
  | sgp_flush offset overflow =>
    simp only [run_call]
    rw [flush_on_error s offset overflow he]
    exact he
  | sgp_end =>
    simp only [run_call, sgp_end]
    split
    · simp [_sgp_set_error]
    · exact he
  | sgp_push_transform =>
    simp only [run_call, sgp_push_transform]
    split
    · simp [_sgp_set_error]
    · exact he
  | sgp_pop_transform =>
    simp only [run_call, sgp_pop_transform]
    split
    · simp [_sgp_set_error]
    · exact he
  | sgp_viewport x y w h => exact sgp_viewport_keeps_error s x y w h he
  | sgp_reset_viewport => exact sgp_viewport_keeps_error s _ _ _ _ he
  | sgp_scissor x y w h => exact sgp_scissor_keeps_error s x y w h he
  | sgp_reset_scissor => exact sgp_scissor_keeps_error s _ _ _ _ he
  | sgp_set_image channel image =>
    simp only [run_call, sgp_set_image]
    split <;> exact he
  | sgp_unset_image channel =>
    simp only [run_call, sgp_unset_image, sgp_set_image]
    split <;> exact he
  | sgp_reset_image channel =>
    simp only [run_call, sgp_reset_image, sgp_set_image]
    split <;> split <;> exact he
  | sgp_reset_state => exact sgp_reset_state_keeps_error s he
  | _ => exact he

theorem run_calls_keep_error (depth : Nat) (be : sg_backend) (calls : List sgp_call) :
    ∀ s : _sgp_context,
      (∀ c ∈ calls, ∀ width height, c ≠ sgp_call.sgp_begin width height) →
      s.last_error ≠ SGP_NO_ERROR →
      (calls.foldl (run_call depth be) s).last_error ≠ SGP_NO_ERROR := by
  induction calls with
  | nil => intro s _ he; exact he
  | cons call rest ih =>
    intro s hc he
    exact ih _ (fun c hm => hc c (List.mem_cons_of_mem _ hm))
      (run_call_keeps_error depth be s call (hc call (List.mem_cons_self _ _)) he)

/-- C19, amended: when a drawing call that gets as far as reserving vertices
(its count is not zero and, for a textured rectangle, an image is bound in its
channel) needs more vertices than the arena has free, the sum of vertex cursor
and count being in the range of `uint32_t` (beyond it the sum wraps, C15), the
call records `SGP_ERROR_VERTICES_FULL` and changes nothing else. Whatever
calls of the library follow, as long as none of them is `sgp_begin` (which
resets the error, C18), `sgp_flush` then makes no backend call, so that the
draws issued before the exhaustion are not dispatched either, and rewinds the
three cursors to the base indices of the segment. -/
theorem exhausted_segment_dispatches_nothing (depth : Nat) (be : sg_backend) (s : _sgp_context)
    (call : draw_call) (later : List sgp_call) (offset : Int) (overflow : Bool)
    (hres : draw_call_reserves s call)
    (hrange : s.cur_vertex + draw_call_vertices call < 4294967296)
    (hfull : s.num_vertices < s.cur_vertex + draw_call_vertices call)
    (hlater : ∀ c ∈ later, ∀ width height, c ≠ sgp_call.sgp_begin width height) :
    run_draw_call depth be s call = _sgp_set_error s SGP_ERROR_VERTICES_FULL
    ∧ (later.foldl (run_call depth be) (run_draw_call depth be s call)).last_error
        ≠ SGP_NO_ERROR
    ∧ (sgp_flush (later.foldl (run_call depth be) (run_draw_call depth be s call))
        offset overflow).2 = []
    ∧ (sgp_flush (later.foldl (run_call depth be) (run_draw_call depth be s call))
        offset overflow).1.cur_vertex
        = (later.foldl (run_call depth be) (run_draw_call depth be s call)).state._base_vertex
    ∧ (sgp_flush (later.foldl (run_call depth be) (run_draw_call depth be s call))
        offset overflow).1.cur_uniform
        = (later.foldl (run_call depth be) (run_draw_call depth be s call)).state._base_uniform
    ∧ (sgp_flush (later.foldl (run_call depth be) (run_draw_call depth be s call))
        offset overflow).1.cur_command
        = (later.foldl (run_call depth be)
            (run_draw_call depth be s call)).state._base_command := by
  have h1 := draw_call_vertices_full depth be s call hres hrange hfull
  have herr : (later.foldl (run_call depth be) (run_draw_call depth be s call)).last_error
      ≠ SGP_NO_ERROR := by
    apply run_calls_keep_error depth be later _ hlater
    rw [h1]
    simp [_sgp_set_error]
  refine ⟨h1, herr, ?_⟩
  rw [flush_on_error _ offset overflow herr]
  exact ⟨rfl, rfl, rfl, rfl⟩

set_option maxRecDepth 100000 in
/-- C19, amended, at the segment that has queued `sgp_clear`: 400 rectangles
do not fit; a colour change, a second `sgp_clear` and a viewport change follow,
and the flush makes no backend call. -/
theorem exhausted_segment_dispatches_nothing_witness :
    (sgp_clear 8 sample_backend (sgp_begin setup_context 2 2)).cur_command = 1
    ∧ run_draw_call 8 sample_backend (sgp_clear 8 sample_backend (sgp_begin setup_context 2 2))
        (draw_call.filled_rects unit_rects 400)
      = _sgp_set_error (sgp_clear 8 sample_backend (sgp_begin setup_context 2 2))
          SGP_ERROR_VERTICES_FULL
    ∧ (sgp_flush
        ([sgp_call.sgp_set_color 1 0 0 1, sgp_call.draw draw_call.clear,
            sgp_call.sgp_viewport 0 0 1 1].foldl (run_call 8 sample_backend)
          (run_draw_call 8 sample_backend
            (sgp_clear 8 sample_backend (sgp_begin setup_context 2 2))
            (draw_call.filled_rects unit_rects 400))) 0 false).2 = [] :=
  ⟨by decide,
    (exhausted_segment_dispatches_nothing 8 sample_backend
      (sgp_clear 8 sample_backend (sgp_begin setup_context 2 2))
      (draw_call.filled_rects unit_rects 400)
      [sgp_call.sgp_set_color 1 0 0 1, sgp_call.draw draw_call.clear,
        sgp_call.sgp_viewport 0 0 1 1] 0 false
      ⟨by decide, fun _ h => by simp [draw_call_channel] at h⟩ (by decide) (by decide)
      (by simp)).1,
    (exhausted_segment_dispatches_nothing 8 sample_backend
      (sgp_clear 8 sample_backend (sgp_begin setup_context 2 2))
      (draw_call.filled_rects unit_rects 400)
      [sgp_call.sgp_set_color 1 0 0 1, sgp_call.draw draw_call.clear,
        sgp_call.sgp_viewport 0 0 1 1] 0 false
      ⟨by decide, fun _ h => by simp [draw_call_channel] at h⟩ (by decide) (by decide)
      (by simp)).2.2.1⟩

/-! ### Merging behind leaked vertices -/

set_option maxRecDepth 100000 in
/-- C4 fails on the code, for a merge without intermediate commands behind
leaked vertices. The segment has drawn `sgp_clear` (command 0, vertices 0 to 5)
and a textured rectangle whose image has no size, which left the vertices 6 to
11 reserved (the missing rollback of C39). The next draw of six vertices has
the bindings of command 0 and its vertices reserved at 12 to 17. The candidate
is command 0, there is no intermediate command, and the optimizer returns true:
command 0 now counts 12 vertices from index 0 and no vertex has been moved, so
the second half of its span holds the leaked vertices 6 to 11 and not the
vertices of the new draw, which stay at 12 to 17 outside every command. -/
theorem merge_over_leaked_vertices :
    (_sgp_next_vertices (leaked_vertices_frame 8) 6).1 = some 12
    ∧ (leaked_vertices_reserved 8).cur_command = 1
    ∧ (leaked_vertices_reserved 8).cur_vertex = 18
    ∧ ((leaked_vertices_reserved 8).commands 0).args.draw.vertex_index = 0
    ∧ ((leaked_vertices_reserved 8).commands 0).args.draw.num_vertices = 6
    ∧ reference_candidate (leaked_vertices_reserved 8) { id := 1 }
        (leaked_vertices_reserved 8).state.textures none 8 = some 0
    ∧ reference_gap (leaked_vertices_reserved 8) { id := 1 }
        (leaked_vertices_reserved 8).state.textures none 8 = []
    ∧ (_sgp_merge_batch_command 8 (leaked_vertices_reserved 8) { id := 1 }
        (leaked_vertices_reserved 8).state.textures none (sample_region (-1) (-1) 1 1)
        12 6).1 = true
    ∧ ((_sgp_merge_batch_command 8 (leaked_vertices_reserved 8) { id := 1 }
        (leaked_vertices_reserved 8).state.textures none (sample_region (-1) (-1) 1 1)
        12 6).2.commands 0).args.draw.vertex_index = 0
    ∧ ((_sgp_merge_batch_command 8 (leaked_vertices_reserved 8) { id := 1 }
        (leaked_vertices_reserved 8).state.textures none (sample_region (-1) (-1) 1 1)
        12 6).2.commands 0).args.draw.num_vertices = 12
    ∧ (_sgp_merge_batch_command 8 (leaked_vertices_reserved 8) { id := 1 }
        (leaked_vertices_reserved 8).state.textures none (sample_region (-1) (-1) 1 1)
        12 6).2.vertices 6 = (leaked_vertices_reserved 8).vertices 6
    ∧ (_sgp_merge_batch_command 8 (leaked_vertices_reserved 8) { id := 1 }
        (leaked_vertices_reserved 8).state.textures none (sample_region (-1) (-1) 1 1)
        12 6).2.vertices 6 ≠ (leaked_vertices_reserved 8).vertices 12
    ∧ ¬ extended_in_place (leaked_vertices_reserved 8)
        (_sgp_merge_batch_command 8 (leaked_vertices_reserved 8) { id := 1 }
          (leaked_vertices_reserved 8).state.textures none (sample_region (-1) (-1) 1 1)
          12 6).2
        0 [] (sample_region (-1) (-1) 1 1) 12 6 := by
  have hne : (_sgp_merge_batch_command 8 (leaked_vertices_reserved 8) { id := 1 }
      (leaked_vertices_reserved 8).state.textures none (sample_region (-1) (-1) 1 1)
      12 6).2.vertices 6 ≠ (leaked_vertices_reserved 8).vertices 12 := by decide
  refine ⟨by decide, by decide, by decide, by decide, by decide, by decide, by decide,
    by decide, by decide, by decide, by decide, hne, ?_⟩
  intro h
  exact hne (h.2.1 0 (by decide))

set_option maxRecDepth 100000 in
/-- C10 fails on the code, for a draw that follows leaked vertices. The segment
draws `sgp_clear`, then a textured rectangle whose image has no size, which
leaves the vertices 6 to 11 reserved (the missing rollback of C39), then
`sgp_clear` again with the bindings of the first. Before the second call the
most recent command is the draw command of the first (vertices 0 to 5), with
the pipeline and textures of the new draw and no uniform, and the vertex cursor
is at 12. The second call is merged into it without moving any vertex: the
queue still holds one command, which now counts 12 vertices from index 0; but
the vertices 6 to 11 of its span are the leaked ones, as they were in the arena
before the frame, and the six vertices of the second `sgp_clear` are at 12 to
17, which `sgp_flush` does not dispatch. -/
theorem adjacent_merge_spans_leaked_vertices :
    (leaked_vertices_frame 8).cur_command = 1
    ∧ (leaked_vertices_frame 8).state._base_command = 0
    ∧ (leaked_vertices_frame 8).cur_vertex = 12
    ∧ (leaked_vertices_frame 8).last_error = SGP_NO_ERROR
    ∧ ((leaked_vertices_frame 8).commands 0).cmd = SGP_COMMAND_DRAW
    ∧ ((leaked_vertices_frame 8).commands 0).args.draw.pip
        = (_sgp_lookup_pipeline failed_image_backend (leaked_vertices_frame 8)
            SG_PRIMITIVETYPE_TRIANGLES sgp_blend_mode.SGP_BLENDMODE_NONE).1
    ∧ ((leaked_vertices_frame 8).commands 0).args.draw.textures
        = (leaked_vertices_frame 8).state.textures
    ∧ ((leaked_vertices_frame 8).commands 0).args.draw.uniform_index = _SGP_IMPOSSIBLE_ID
    ∧ queue_uniform (leaked_vertices_frame 8) = none
    ∧ ((leaked_vertices_frame 8).commands 0).args.draw.vertex_index = 0
    ∧ ((leaked_vertices_frame 8).commands 0).args.draw.num_vertices = 6
    ∧ (sgp_clear 8 failed_image_backend (leaked_vertices_frame 8)).cur_command = 1
    ∧ (sgp_clear 8 failed_image_backend (leaked_vertices_frame 8)).cur_vertex = 18
    ∧ ((sgp_clear 8 failed_image_backend
        (leaked_vertices_frame 8)).commands 0).args.draw.vertex_index = 0
    ∧ ((sgp_clear 8 failed_image_backend
        (leaked_vertices_frame 8)).commands 0).args.draw.num_vertices = 12
    ∧ (sgp_clear 8 failed_image_backend (leaked_vertices_frame 8)).vertices 6
        = setup_context.vertices 6
    ∧ (sgp_clear 8 failed_image_backend (leaked_vertices_frame 8)).vertices 12
        = (sgp_clear 8 failed_image_backend (leaked_vertices_frame 8)).vertices 0
    ∧ (sgp_clear 8 failed_image_backend (leaked_vertices_frame 8)).vertices 6
        ≠ (sgp_clear 8 failed_image_backend (leaked_vertices_frame 8)).vertices 12
    ∧ dispatched_draws
        (sgp_flush (sgp_clear 8 failed_image_backend (leaked_vertices_frame 8)) 0 false).2
        = [(0, 12)] := by
  decide

/-! ### Default and custom pipelines in the queue -/

theorem pipelines_sound_of_commands {D : Nat → Prop} {s t : _sgp_context}
    (hs : pipelines_sound D s)
    (h1 : ∀ i, (t.commands i).cmd = SGP_COMMAND_DRAW → draw_uniform_classified D (t.commands i))
    (h2 : t.pipelines = s.pipelines) (h3 : t.state.pipeline = s.state.pipeline)
    (h4 : t.state._base_uniform = s.state._base_uniform)
    (h5 : t.state_stack = s.state_stack) (h6 : t.num_uniforms = s.num_uniforms)
    (h7 : t.cur_uniform < 4294967296) : pipelines_sound D t :=
  ⟨h1, by rw [h2]; exact hs.cache, by rw [h3]; exact hs.custom, by rw [h5]; exact hs.saved,
    ⟨by rw [h6]; exact hs.uniforms.1, h7⟩, by rw [h4, h5]; exact hs.bases⟩

theorem pipelines_sound_of_eq {D : Nat → Prop} {s t : _sgp_context}
    (hs : pipelines_sound D s)
    (h1 : t.commands = s.commands)
    (h2 : t.pipelines = s.pipelines) (h3 : t.state.pipeline = s.state.pipeline)
    (h4 : t.state._base_uniform = s.state._base_uniform)
    (h5 : t.state_stack = s.state_stack) (h6 : t.num_uniforms = s.num_uniforms)
    (h7 : t.cur_uniform = s.cur_uniform) : pipelines_sound D t :=
  pipelines_sound_of_commands hs (by rw [h1]; exact hs.commands) h2 h3 h4 h5 h6
    (by rw [h7]; exact hs.uniforms.2)

theorem classified_of_eq {D : Nat → Prop} {c d : _sgp_command}
    (hp : d.args.draw.pip = c.args.draw.pip)
    (hu : d.args.draw.uniform_index = c.args.draw.uniform_index)
    (hc : draw_uniform_classified D c) : draw_uniform_classified D d := by
  unfold draw_uniform_classified at *
  rw [hp, hu]
  exact hc

theorem offset_inter_cmds_bindings (num_vertices : Nat) (gap : List Nat) :
    ∀ (commands : Nat → _sgp_command) (i : Nat),
      (_sgp_offset_inter_cmds commands num_vertices gap i).cmd = (commands i).cmd
      ∧ (_sgp_offset_inter_cmds commands num_vertices gap i).args.draw.pip
          = (commands i).args.draw.pip
      ∧ (_sgp_offset_inter_cmds commands num_vertices gap i).args.draw.uniform_index
          = (commands i).args.draw.uniform_index := by
  induction gap with
  | nil => intro commands i; exact ⟨rfl, rfl, rfl⟩
  | cons j rest ih =>
    intro commands i
    simp only [_sgp_offset_inter_cmds]
    obtain ⟨h1, h2, h3⟩ := ih (Function.update commands j
      { commands j with args := { (commands j).args with draw :=
          { (commands j).args.draw with
            vertex_index := u32 ((commands j).args.draw.vertex_index + num_vertices) } } }) i
    rw [h1, h2, h3]
    by_cases hij : i = j
    · subst hij; simp
    · simp [Function.update_noteq hij]

theorem merge_into_prev_sound {D : Nat → Prop} (s : _sgp_context) (prev : Nat) (gap : List Nat)
    (prev_region region : _sgp_region) (vertex_index num_vertices : Nat)
    (hs : pipelines_sound D s) :
    pipelines_sound D (_sgp_merge_into_prev s prev gap prev_region region vertex_index
      num_vertices).2 := by
  unfold _sgp_merge_into_prev
  by_cases hlen : gap.length > 0
  · simp only [hlen, if_true]
    by_cases h1 : u32 (s.cur_vertex + num_vertices) > s.num_vertices
    · simp only [h1, if_true]; exact hs
    · simp only [h1, if_false]
      by_cases h2 : u32_sub s.cur_vertex (u32 ((s.commands prev).args.draw.vertex_index
          + (s.commands prev).args.draw.num_vertices)) > _SGP_MAX_MOVE_VERTICES
      · simp only [h2, if_true]; exact hs
      · simp only [h2, if_false]
        refine pipelines_sound_of_commands hs ?_ rfl rfl rfl rfl rfl hs.uniforms.2
        intro i hi
        obtain ⟨e1, e2, e3⟩ := offset_inter_cmds_bindings num_vertices gap s.commands i
        by_cases hip : i = prev
        · subst hip
          simp only [Function.update_same] at hi ⊢
          exact classified_of_eq e2 e3 (hs.commands i (e1 ▸ hi))
        · simp only [Function.update_noteq hip] at hi ⊢
          exact classified_of_eq e2 e3 (hs.commands i (e1 ▸ hi))
  · simp only [hlen, if_false]
    refine pipelines_sound_of_commands hs ?_ rfl rfl rfl rfl rfl hs.uniforms.2
    intro i hi
    by_cases hip : i = prev
    · subst hip
      simp only [Function.update_same] at hi ⊢
      exact classified_of_eq rfl rfl (hs.commands i hi)
    · simp only [Function.update_noteq hip] at hi ⊢
      exact hs.commands i hi

theorem merge_into_next_sound {D : Nat → Prop} (s : _sgp_context) (prev : Nat)
    (pip : sg_pipeline) (textures : sgp_textures_uniform) (prev_region region : _sgp_region)
    (vertex_index num_vertices : Nat)
    (hdraw : (s.commands prev).cmd = SGP_COMMAND_DRAW)
    (hpip : (s.commands prev).args.draw.pip.id = pip.id)
    (hs : pipelines_sound D s) :
    pipelines_sound D (_sgp_merge_into_next s prev pip textures prev_region region
      vertex_index num_vertices).2 := by
  have hprev := hs.commands prev hdraw
  unfold _sgp_merge_into_next
  by_cases hcmd : s.cur_command < s.num_commands
  · simp only [_sgp_next_command, hcmd, if_true]
    by_cases h1 : u32 (s.cur_vertex + (s.commands prev).args.draw.num_vertices) > s.num_vertices
    · simp only [h1, if_true]
      exact pipelines_sound_of_eq hs rfl rfl rfl rfl rfl rfl rfl
    · simp only [h1, if_false]
      by_cases h2 : num_vertices > _SGP_MAX_MOVE_VERTICES
      · simp only [h2, if_true]
        exact pipelines_sound_of_eq hs rfl rfl rfl rfl rfl rfl rfl
      · simp only [h2, if_false]
        refine pipelines_sound_of_commands hs ?_ rfl rfl rfl rfl rfl hs.uniforms.2
        intro i hi
        by_cases hip : i = prev
        · subst hip
          simp only [Function.update_same] at hi
          exact absurd hi (by simp)
        · simp only [Function.update_noteq hip] at hi ⊢
          by_cases hic : i = s.cur_command
          · subst hic
            simp only [Function.update_same]
            unfold draw_uniform_classified at hprev ⊢
            simp only []
            rw [← hpip]
            exact hprev
          · simp only [Function.update_noteq hic] at hi ⊢
            exact hs.commands i hi
  · simp only [_sgp_next_command, hcmd, if_false]
    exact pipelines_sound_of_eq hs rfl rfl rfl rfl rfl rfl rfl

/-- A merge attempt that returns true has found a command in the scan and
acted on it by one of the two merge branches. -/
theorem merge_batch_command_true (depth : Nat) (s : _sgp_context) (pip : sg_pipeline)
    (textures : sgp_textures_uniform) (uniform : Option sgp_uniform) (region : _sgp_region)
    (vertex_index num_vertices : Nat)
    (hm : (_sgp_merge_batch_command depth s pip textures uniform region vertex_index
      num_vertices).1 = true) :
    ∃ prev inter_cmds,
      (s.commands prev).cmd = SGP_COMMAND_DRAW
      ∧ _sgp_batch_match s pip textures uniform (s.commands prev) = true
      ∧ (_sgp_merge_batch_command depth s pip textures uniform region vertex_index num_vertices
            = _sgp_merge_into_prev s prev inter_cmds (s.commands prev).args.draw.region region
                vertex_index num_vertices
          ∨ _sgp_merge_batch_command depth s pip textures uniform region vertex_index
              num_vertices
            = _sgp_merge_into_next s prev pip textures (s.commands prev).args.draw.region region
                vertex_index num_vertices) := by
  unfold _sgp_merge_batch_command at hm ⊢
  by_cases hd : depth = 0
  · simp [hd] at hm
  · simp only [hd, if_false] at hm ⊢
    rcases hscan : _sgp_merge_scan s pip textures uniform
        (u32_sub s.cur_command s.state._base_command + 1) 0 depth [] with ⟨cand, inter⟩
    rw [hscan] at hm
    cases cand with
    | none => simp at hm
    | some prev =>
      obtain ⟨hdraw, hmatch⟩ := merge_scan_some s pip textures uniform _ _ _ _ _ _ hscan
      simp only [] at hm ⊢
      rcases hov : _sgp_merge_overlaps s region (s.commands prev).args.draw.region inter
          false false with _ | ⟨a, b⟩
      · rw [hov] at hm; simp at hm
      · simp only []
        refine ⟨prev, inter, hdraw, hmatch, ?_⟩
        cases a with
        | false =>
          simp only [Bool.not_false, if_true]
          exact Or.inl trivial
        | true =>
          simp only [Bool.not_true, Bool.false_eq_true, if_false]
          exact Or.inr trivial

theorem merge_batch_command_sound {D : Nat → Prop} (depth : Nat) (s : _sgp_context)
    (pip : sg_pipeline) (textures : sgp_textures_uniform) (uniform : Option sgp_uniform)
    (region : _sgp_region) (vertex_index num_vertices : Nat) (hs : pipelines_sound D s) :
    pipelines_sound D (_sgp_merge_batch_command depth s pip textures uniform region
      vertex_index num_vertices).2 := by
  unfold _sgp_merge_batch_command
  by_cases hd : depth = 0
  · simp only [hd, if_true]; exact hs
  · simp only [hd, if_false]
    rcases hscan : _sgp_merge_scan s pip textures uniform
        (u32_sub s.cur_command s.state._base_command + 1) 0 depth [] with ⟨cand, inter⟩
    cases cand with
    | none => exact hs
    | some prev =>
      obtain ⟨hdraw, hmatch⟩ := merge_scan_some s pip textures uniform _ _ _ _ _ _ hscan
      simp only []
      rcases hov : _sgp_merge_overlaps s region (s.commands prev).args.draw.region inter
          false false with _ | ⟨a, b⟩
      · exact hs
      · simp only []
        cases a with
        | false =>
          simp only [Bool.not_false, if_true]
          exact merge_into_prev_sound _ _ _ _ _ _ _ hs
        | true =>
          simp only [Bool.not_true, Bool.false_eq_true, if_false]
          exact merge_into_next_sound _ _ _ _ _ _ _ _ hdraw
            ((batch_match_iff s pip textures uniform _).1 hmatch).1 hs

theorem queue_draw_append_sound {D : Nat → Prop} (s : _sgp_context) (pip : sg_pipeline)
    (region : _sgp_region) (uniform_index vertex_index num_vertices : Nat)
    (hcl : (D pip.id ∧ uniform_index = _SGP_IMPOSSIBLE_ID)
      ∨ (¬ D pip.id ∧ uniform_index ≠ _SGP_IMPOSSIBLE_ID))
    (hs : pipelines_sound D s) :
    pipelines_sound D
      (_sgp_queue_draw_append s pip region uniform_index vertex_index num_vertices) := by
  unfold _sgp_queue_draw_append
  by_cases hcmd : s.cur_command < s.num_commands
  · simp only [_sgp_next_command, hcmd, if_true]
    refine pipelines_sound_of_commands hs ?_ rfl rfl rfl rfl rfl hs.uniforms.2
    intro i hi
    by_cases hic : i = s.cur_command
    · subst hic
      simp only [Function.update_same]
      exact hcl
    · simp only [Function.update_noteq hic] at hi ⊢
      exact hs.commands i hi
  · simp only [_sgp_next_command, hcmd, if_false]
    exact pipelines_sound_of_eq hs rfl rfl rfl rfl rfl rfl rfl

theorem queue_draw_fresh_sound {D : Nat → Prop} (s : _sgp_context) (pip : sg_pipeline)
    (uniform : Option sgp_uniform) (region : _sgp_region) (vertex_index num_vertices : Nat)
    (hnone : uniform = none → D pip.id) (hsome : ∀ u, uniform = some u → ¬ D pip.id)
    (hs : pipelines_sound D s) :
    pipelines_sound D
      (_sgp_queue_draw_fresh s pip uniform region vertex_index num_vertices) := by
  obtain ⟨hnu, hcu⟩ := hs.uniforms
  unfold _sgp_queue_draw_fresh
  cases uniform with
  | none => exact queue_draw_append_sound _ _ _ _ _ _ (Or.inl ⟨hnone rfl, rfl⟩) hs
  | some u =>
    have hnd : ¬ D pip.id := hsome u rfl
    simp only []
    split
    · by_cases huni : s.cur_uniform < s.num_uniforms
      · simp only [_sgp_next_uniform, huni, if_true]
        have hidx : u32_sub (u32 (s.cur_uniform + 1)) 1 ≠ _SGP_IMPOSSIBLE_ID := by
          unfold u32_sub u32 _SGP_IMPOSSIBLE_ID; omega
        have hcu2 : u32 (s.cur_uniform + 1) < 4294967296 := by unfold u32; omega
        exact queue_draw_append_sound _ _ _ _ _ _ (Or.inr ⟨hnd, hidx⟩)
          (pipelines_sound_of_commands hs hs.commands rfl rfl rfl rfl rfl hcu2)
      · simp only [_sgp_next_uniform, huni, if_false]
        exact pipelines_sound_of_eq hs rfl rfl rfl rfl rfl rfl rfl
    · rename_i hreuse
      have hpos : s.cur_uniform > 0 := by
        by_contra hz
        apply hreuse
        simp [_sgp_prev_uniform, hz]
      have hidx : u32_sub s.cur_uniform 1 ≠ _SGP_IMPOSSIBLE_ID := by
        unfold u32_sub _SGP_IMPOSSIBLE_ID; omega
      exact queue_draw_append_sound _ _ _ _ _ _ (Or.inr ⟨hnd, hidx⟩) hs

/-- The pipeline a draw is queued with is one of the library's when the draw
has no uniform snapshot and none of them when it has one. -/
theorem queue_pipeline_classified {D : Nat → Prop} (s : _sgp_context) (pip : sg_pipeline)
    (hs : pipelines_sound D s) (hD : pip.id ≠ SG_INVALID_ID → D pip.id)
    (hpip : (queue_pipeline s pip).id ≠ SG_INVALID_ID) :
    (queue_uniform s = none → D (queue_pipeline s pip).id)
    ∧ (∀ u, queue_uniform s = some u → ¬ D (queue_pipeline s pip).id) := by
  unfold queue_pipeline at hpip ⊢
  unfold queue_uniform
  by_cases hc : s.state.pipeline.id ≠ SG_INVALID_ID
  · rw [if_pos hc] at hpip ⊢
    rw [if_pos hc]
    refine ⟨fun h => by simp at h, fun _ _ => ?_⟩
    rcases hs.custom with h | h
    · exact absurd h hc
    · exact h
  · rw [if_neg hc] at hpip ⊢
    rw [if_neg hc]
    exact ⟨fun _ => hD hpip, fun u h => by simp at h⟩

theorem queue_draw_sound {D : Nat → Prop} (depth : Nat) (s : _sgp_context) (pip : sg_pipeline)
    (region : _sgp_region) (vertex_index num_vertices : Nat) (primitive_type : sg_primitive_type)
    (hD : pip.id ≠ SG_INVALID_ID → D pip.id) (hs : pipelines_sound D s) :
    pipelines_sound D
      (_sgp_queue_draw depth s pip region vertex_index num_vertices primitive_type) := by
  by_cases hpip : (queue_pipeline s pip).id = SG_INVALID_ID
  · rw [queue_draw_invalid_pipeline depth s pip region vertex_index num_vertices primitive_type
      hpip]
    exact pipelines_sound_of_eq hs rfl rfl rfl rfl rfl rfl rfl
  · by_cases hreg : region_out_of_bounds region
    · rw [queue_draw_out_of_bounds depth s pip region vertex_index num_vertices primitive_type
        hpip hreg]
      exact pipelines_sound_of_eq hs rfl rfl rfl rfl rfl rfl rfl
    · rw [queue_draw_unfold depth s pip region vertex_index num_vertices primitive_type hpip hreg
        (merge_attempt depth s pip region vertex_index num_vertices primitive_type) rfl]
      have hm : pipelines_sound D
          (merge_attempt depth s pip region vertex_index num_vertices primitive_type).2 := by
        unfold merge_attempt
        split
        · exact merge_batch_command_sound _ _ _ _ _ _ _ _ hs
        · exact hs
      obtain ⟨c1, c2⟩ := queue_pipeline_classified s pip hs hD hpip
      split
      · exact hm
      · exact queue_draw_fresh_sound _ _ _ _ _ _ c1 c2 hm

theorem lookup_pipeline_sound {D : Nat → Prop} (be : sg_backend) (s : _sgp_context)
    (primitive_type : sg_primitive_type) (blend_mode : sgp_blend_mode)
    (hbe : backend_sound D be) (hs : pipelines_sound D s) :
    pipelines_sound D (_sgp_lookup_pipeline be s primitive_type blend_mode).2
    ∧ ((_sgp_lookup_pipeline be s primitive_type blend_mode).1.id ≠ SG_INVALID_ID →
        D (_sgp_lookup_pipeline be s primitive_type blend_mode).1.id) := by
  unfold _sgp_lookup_pipeline
  simp only []
  split
  · rename_i h
    exact ⟨hs, fun _ => hs.cache _ h⟩
  · split
    · rename_i h
      refine ⟨⟨hs.commands, ?_, hs.custom, hs.saved, hs.uniforms, hs.bases⟩,
        fun _ => hbe _ _ h⟩
      intro k hk
      simp only [] at hk ⊢
      by_cases hki : k = u32 (primitive_type_value primitive_type * _SGP_BLENDMODE_NUM
          + blend_mode_value blend_mode)
      · subst hki
        simp only [Function.update_same] at hk ⊢
        exact hbe _ _ h
      · simp only [Function.update_noteq hki] at hk ⊢
        exact hs.cache k hk
    · rename_i h
      exact ⟨hs, fun h2 => absurd h2 h⟩

theorem lookup_and_queue_sound {D : Nat → Prop} (depth : Nat) (be : sg_backend)
    (s2 : _sgp_context) (lookup_type : sg_primitive_type) (blend_mode : sgp_blend_mode)
    (region : _sgp_region) (vertex_index num_vertices : Nat) (primitive_type : sg_primitive_type)
    (hbe : backend_sound D be) (hs : pipelines_sound D s2) :
    pipelines_sound D
      (_sgp_queue_draw depth (_sgp_lookup_pipeline be s2 lookup_type blend_mode).2
        (_sgp_lookup_pipeline be s2 lookup_type blend_mode).1 region vertex_index num_vertices
        primitive_type) :=
  queue_draw_sound _ _ _ _ _ _ _ (lookup_pipeline_sound be s2 lookup_type blend_mode hbe hs).2
    (lookup_pipeline_sound be s2 lookup_type blend_mode hbe hs).1

theorem sgp_clear_sound {D : Nat → Prop} (depth : Nat) (be : sg_backend) (s : _sgp_context)
    (hbe : backend_sound D be) (hs : pipelines_sound D s) :
    pipelines_sound D (sgp_clear depth be s) := by
  unfold sgp_clear
  rcases next_vertices_cases s 6 with h | h
  · simp only [h]; exact pipelines_sound_of_eq hs rfl rfl rfl rfl rfl rfl rfl
  · simp only [h]
    exact lookup_and_queue_sound _ _ _ _ _ _ _ _ _ hbe
      (pipelines_sound_of_eq hs rfl rfl rfl rfl rfl rfl rfl)

theorem sgp_draw_sound {D : Nat → Prop} (depth : Nat) (be : sg_backend) (s : _sgp_context)
    (primitive_type : sg_primitive_type) (vertices : Nat → sgp_vertex) (count : Nat)
    (hbe : backend_sound D be) (hs : pipelines_sound D s) :
    pipelines_sound D (sgp_draw depth be s primitive_type vertices count) := by
  unfold sgp_draw
  split
  · exact hs
  · rcases next_vertices_cases s count with h | h
    · simp only [h]; exact pipelines_sound_of_eq hs rfl rfl rfl rfl rfl rfl rfl
    · simp only [h]
      exact lookup_and_queue_sound _ _ _ _ _ _ _ _ _ hbe
        (pipelines_sound_of_eq hs rfl rfl rfl rfl rfl rfl rfl)

theorem draw_solid_pip_sound {D : Nat → Prop} (depth : Nat) (be : sg_backend)
    (s : _sgp_context) (primitive_type : sg_primitive_type) (vertices : Nat → sgp_vec2)
    (num_vertices : Nat) (hbe : backend_sound D be) (hs : pipelines_sound D s) :
    pipelines_sound D (_sgp_draw_solid_pip depth be s primitive_type vertices num_vertices) := by
  unfold _sgp_draw_solid_pip
  split
  · exact hs
  · rcases next_vertices_cases s num_vertices with h | h
    · simp only [h]; exact pipelines_sound_of_eq hs rfl rfl rfl rfl rfl rfl rfl
    · simp only [h]
      exact lookup_and_queue_sound _ _ _ _ _ _ _ _ _ hbe
        (pipelines_sound_of_eq hs rfl rfl rfl rfl rfl rfl rfl)

theorem draw_filled_rects_sound {D : Nat → Prop} (depth : Nat) (be : sg_backend)
    (s : _sgp_context) (rects : Nat → sgp_rect) (count : Nat)
    (hbe : backend_sound D be) (hs : pipelines_sound D s) :
    pipelines_sound D (sgp_draw_filled_rects depth be s rects count) := by
  unfold sgp_draw_filled_rects
  split
  · exact hs
  · rcases next_vertices_cases s (u32 (count * 6)) with h | h
    · simp only [h]; exact pipelines_sound_of_eq hs rfl rfl rfl rfl rfl rfl rfl
    · simp only [h]
      exact lookup_and_queue_sound _ _ _ _ _ _ _ _ _ hbe
        (pipelines_sound_of_eq hs rfl rfl rfl rfl rfl rfl rfl)

theorem draw_textured_rects_sound {D : Nat → Prop} (depth : Nat) (be : sg_backend)
    (s : _sgp_context) (channel : Nat) (rects : Nat → sgp_textured_rect) (count : Nat)
    (hbe : backend_sound D be) (hs : pipelines_sound D s) :
    pipelines_sound D (sgp_draw_textured_rects depth be s channel rects count) := by
  unfold sgp_draw_textured_rects
  simp only []
  split
  · exact hs
  · rcases next_vertices_cases s (u32 (count * 6)) with h | h
    · simp only [h]; exact pipelines_sound_of_eq hs rfl rfl rfl rfl rfl rfl rfl
    · simp only [h]
      split
      · exact pipelines_sound_of_eq hs rfl rfl rfl rfl rfl rfl rfl
      · exact lookup_and_queue_sound _ _ _ _ _ _ _ _ _ hbe
          (pipelines_sound_of_eq hs rfl rfl rfl rfl rfl rfl rfl)

theorem run_draw_call_sound {D : Nat → Prop} (depth : Nat) (be : sg_backend) (s : _sgp_context)
    (call : draw_call) (hbe : backend_sound D be) (hs : pipelines_sound D s) :
    pipelines_sound D (run_draw_call depth be s call) := by
  cases call with
  | clear => exact sgp_clear_sound _ _ _ hbe hs
  | draw primitive_type vertices count => exact sgp_draw_sound _ _ _ _ _ _ hbe hs
  | points points count => exact draw_solid_pip_sound depth be s _ _ _ hbe hs
  | point x y =>
    simp only [run_draw_call, sgp_draw_point, sgp_draw_points]
    exact draw_solid_pip_sound depth be s _ _ _ hbe hs
  | lines lines count => exact draw_solid_pip_sound depth be s _ _ _ hbe hs
  | line ax ay bx b_y =>
    simp only [run_draw_call, sgp_draw_line, sgp_draw_lines]
    exact draw_solid_pip_sound depth be s _ _ _ hbe hs
  | lines_strip points count => exact draw_solid_pip_sound depth be s _ _ _ hbe hs
  | filled_triangles triangles count => exact draw_solid_pip_sound depth be s _ _ _ hbe hs
  | filled_triangle ax ay bx b_y cx cy =>
    simp only [run_draw_call, sgp_draw_filled_triangle, sgp_draw_filled_triangles]
    exact draw_solid_pip_sound depth be s _ _ _ hbe hs
  | filled_triangles_strip points count => exact draw_solid_pip_sound depth be s _ _ _ hbe hs
  | filled_rects rects count => exact draw_filled_rects_sound depth be s _ _ hbe hs
  | filled_rect x y w h =>
    simp only [run_draw_call, sgp_draw_filled_rect]
    exact draw_filled_rects_sound depth be s _ _ hbe hs
  | textured_rects channel rects count => exact draw_textured_rects_sound depth be s _ _ _ hbe hs
  | textured_rect channel dest_rect src_rect =>
    simp only [run_draw_call, sgp_draw_textured_rect]
    exact draw_textured_rects_sound depth be s _ _ _ hbe hs

theorem rect_command_sound {D : Nat → Prop} (s1 : _sgp_context) (cmd : Nat)
    (tag : _sgp_command_type) (rect : sgp_irect) (state : sgp_state)
    (htag : tag ≠ SGP_COMMAND_DRAW) (hp : state.pipeline = s1.state.pipeline)
    (hb : state._base_uniform = s1.state._base_uniform) (hs : pipelines_sound D s1) :
    pipelines_sound D
      { s1 with
        commands := Function.update s1.commands cmd (_sgp_rect_command tag rect)
        state := state } := by
  refine pipelines_sound_of_commands hs ?_ rfl hp hb rfl rfl hs.uniforms.2
  intro i hi
  by_cases hic : i = cmd
  · subst hic
    simp only [Function.update_same, _sgp_rect_command] at hi
    exact absurd hi htag
  · simp only [Function.update_noteq hic] at hi ⊢
    exact hs.commands i hi

theorem sgp_viewport_sound {D : Nat → Prop} (s : _sgp_context) (x y w h : Int)
    (hs : pipelines_sound D s) : pipelines_sound D (sgp_viewport s x y w h) := by
  unfold sgp_viewport
  split
  · exact hs
  · rcases reuse_or_next_command_cases s SGP_COMMAND_VIEWPORT with ⟨cmd, h⟩ | h | h
    · rw [h]; exact rect_command_sound s _ _ _ _ (by decide) rfl rfl hs
    · rw [h]
      exact rect_command_sound _ _ _ _ _ (by decide) rfl rfl
        (pipelines_sound_of_eq hs rfl rfl rfl rfl rfl rfl rfl)
    · rw [h]; exact pipelines_sound_of_eq hs rfl rfl rfl rfl rfl rfl rfl

theorem sgp_scissor_sound {D : Nat → Prop} (s : _sgp_context) (x y w h : Int)
    (hs : pipelines_sound D s) : pipelines_sound D (sgp_scissor s x y w h) := by
  unfold sgp_scissor
  split
  · exact hs
  · rcases reuse_or_next_command_cases s SGP_COMMAND_SCISSOR with ⟨cmd, h⟩ | h | h
    · rw [h]; exact rect_command_sound s _ _ _ _ (by decide) rfl rfl hs
    · rw [h]
      exact rect_command_sound _ _ _ _ _ (by decide) rfl rfl
        (pipelines_sound_of_eq hs rfl rfl rfl rfl rfl rfl rfl)
    · rw [h]; exact pipelines_sound_of_eq hs rfl rfl rfl rfl rfl rfl rfl

theorem sgp_set_pipeline_sound {D : Nat → Prop} (s : _sgp_context) (pipeline : sg_pipeline)
    (hp : custom_pipeline D pipeline) (hs : pipelines_sound D s) :
    pipelines_sound D (sgp_set_pipeline s pipeline) :=
  ⟨hs.commands, hs.cache, hp, hs.saved, hs.uniforms, hs.bases⟩

theorem sgp_reset_state_sound {D : Nat → Prop} (s : _sgp_context) (hs : pipelines_sound D s) :
    pipelines_sound D (sgp_reset_state s) := by
  have h1 : pipelines_sound D (sgp_reset_viewport s) := sgp_viewport_sound s _ _ _ _ hs
  have h2 : pipelines_sound D (sgp_reset_scissor (sgp_reset_viewport s)) :=
    sgp_scissor_sound _ _ _ _ _ h1
  have p1 : ∀ x : _sgp_context, pipelines_sound D x → pipelines_sound D (sgp_reset_project x) :=
    fun x hx => pipelines_sound_of_eq hx rfl rfl rfl rfl rfl rfl rfl
  have p2 : ∀ x : _sgp_context, pipelines_sound D x →
      pipelines_sound D (sgp_reset_transform x) :=
    fun x hx => pipelines_sound_of_eq hx rfl rfl rfl rfl rfl rfl rfl
  have p3 : ∀ x : _sgp_context, pipelines_sound D x →
      pipelines_sound D (sgp_reset_blend_mode x) :=
    fun x hx => pipelines_sound_of_eq hx rfl rfl rfl rfl rfl rfl rfl
  have p4 : ∀ x : _sgp_context, pipelines_sound D x → pipelines_sound D (sgp_reset_color x) :=
    fun x hx => pipelines_sound_of_eq hx rfl rfl rfl rfl rfl rfl rfl
  have p5 : ∀ x : _sgp_context, pipelines_sound D x → pipelines_sound D (sgp_reset_uniform x) :=
    fun x hx => pipelines_sound_of_eq hx rfl rfl rfl rfl rfl rfl rfl
  unfold sgp_reset_state
  exact sgp_set_pipeline_sound _ _ (Or.inl rfl) (p5 _ (p4 _ (p3 _ (p2 _ (p1 _ h2)))))

theorem sgp_begin_sound {D : Nat → Prop} (s : _sgp_context) (width height : Int)
    (hs : pipelines_sound D s) : pipelines_sound D (sgp_begin s width height) := by
  unfold sgp_begin
  split
  · exact pipelines_sound_of_eq hs rfl rfl rfl rfl rfl rfl rfl
  · refine ⟨hs.commands, hs.cache, hs.custom, ?_, hs.uniforms, ⟨hs.uniforms.2, ?_⟩⟩
    · intro j
      simp only []
      by_cases hj : j = s.cur_state
      · subst hj
        simp only [Function.update_same]
        exact hs.custom
      · simp only [Function.update_noteq hj]
        exact hs.saved j
    · intro j
      simp only []
      by_cases hj : j = s.cur_state
      · subst hj
        simp only [Function.update_same]
        exact hs.bases.1
      · simp only [Function.update_noteq hj]
        exact hs.bases.2 j

theorem sgp_end_sound {D : Nat → Prop} (s : _sgp_context) (hs : pipelines_sound D s) :
    pipelines_sound D (sgp_end s) := by
  unfold sgp_end
  split
  · exact pipelines_sound_of_eq hs rfl rfl rfl rfl rfl rfl rfl
  · exact ⟨hs.commands, hs.cache, hs.saved _, hs.saved, hs.uniforms, ⟨hs.bases.2 _, hs.bases.2⟩⟩

theorem sgp_flush_sound {D : Nat → Prop} (s : _sgp_context) (offset : Int) (overflow : Bool)
    (hs : pipelines_sound D s) : pipelines_sound D (sgp_flush s offset overflow).1 := by
  rw [flush_context]
  exact ⟨hs.commands, hs.cache, hs.custom, hs.saved, ⟨hs.uniforms.1, hs.bases.1⟩, hs.bases⟩

/-- Every call of the library keeps the pipelines told apart, when the handle
given to `sgp_set_pipeline` is a custom one. -/
theorem run_call_sound {D : Nat → Prop} (depth : Nat) (be : sg_backend) (s : _sgp_context)
    (call : sgp_call) (hbe : backend_sound D be)
    (hcall : ∀ p, call = sgp_call.sgp_set_pipeline p → custom_pipeline D p)
    (hs : pipelines_sound D s) : pipelines_sound D (run_call depth be s call) := by
  cases call with
  | draw call => exact run_draw_call_sound depth be s call hbe hs
  | sgp_begin width height => exact sgp_begin_sound s width height hs
  | sgp_flush offset overflow => exact sgp_flush_sound s offset overflow hs
  | sgp_end => exact sgp_end_sound s hs
  | sgp_push_transform =>
    simp only [run_call, sgp_push_transform]
    split <;> exact pipelines_sound_of_eq hs rfl rfl rfl rfl rfl rfl rfl
  | sgp_pop_transform =>
    simp only [run_call, sgp_pop_transform]
    split <;> exact pipelines_sound_of_eq hs rfl rfl rfl rfl rfl rfl rfl
  | sgp_set_pipeline pipeline => exact sgp_set_pipeline_sound s pipeline (hcall pipeline rfl) hs
  | sgp_reset_pipeline => exact sgp_set_pipeline_sound s _ (Or.inl rfl) hs
  | sgp_viewport x y w h => exact sgp_viewport_sound s x y w h hs
  | sgp_reset_viewport => exact sgp_viewport_sound s _ _ _ _ hs
  | sgp_scissor x y w h => exact sgp_scissor_sound s x y w h hs
  | sgp_reset_scissor => exact sgp_scissor_sound s _ _ _ _ hs
  | sgp_set_image channel image =>
    simp only [run_call, sgp_set_image]
    split <;> exact pipelines_sound_of_eq hs rfl rfl rfl rfl rfl rfl rfl
  | sgp_unset_image channel =>
    simp only [run_call, sgp_unset_image, sgp_set_image]
    split <;> exact pipelines_sound_of_eq hs rfl rfl rfl rfl rfl rfl rfl
  | sgp_reset_image channel =>
    simp only [run_call, sgp_reset_image, sgp_set_image]
    split <;> split <;> exact pipelines_sound_of_eq hs rfl rfl rfl rfl rfl rfl rfl
  | sgp_reset_state => exact sgp_reset_state_sound s hs
  | _ => exact pipelines_sound_of_eq hs rfl rfl rfl rfl rfl rfl rfl

theorem run_calls_sound {D : Nat → Prop} (depth : Nat) (be : sg_backend)
    (hbe : backend_sound D be) (calls : List sgp_call) :
    ∀ s : _sgp_context,
      (∀ p, sgp_call.sgp_set_pipeline p ∈ calls → custom_pipeline D p) →
      pipelines_sound D s → pipelines_sound D (calls.foldl (run_call depth be) s) := by
  induction calls with
  | nil => intro s _ hs; exact hs
  | cons call rest ih =>
    intro s hc hs
    exact ih _ (fun p hm => hc p (List.mem_cons_of_mem _ hm))
      (run_call_sound depth be s call hbe
        (fun p hp => hc p (by rw [hp]; exact List.mem_cons_self _ _)) hs)

/-- In a context with the pipelines told apart, a draw queued with one of the
library's pipelines (or with the custom pipeline of the state) is merged only
into a command with its bindings and its kind of uniform. -/
theorem merged_only_into_match_of_sound {D : Nat → Prop} (depth : Nat) (s : _sgp_context)
    (pip : sg_pipeline) (hs : pipelines_sound D s)
    (hD : pip.id ≠ SG_INVALID_ID → D pip.id)
    (hpip : (queue_pipeline s pip).id ≠ SG_INVALID_ID) :
    merged_only_into_match depth s pip := by
  obtain ⟨c1, c2⟩ := queue_pipeline_classified s pip hs hD hpip
  have key : ∀ i, (s.commands i).cmd = SGP_COMMAND_DRAW →
      (s.commands i).args.draw.pip.id = (queue_pipeline s pip).id →
      (queue_uniform s = none → (s.commands i).args.draw.uniform_index = _SGP_IMPOSSIBLE_ID)
      ∧ (∀ u, queue_uniform s = some u →
          (s.commands i).args.draw.uniform_index ≠ _SGP_IMPOSSIBLE_ID) := by
    intro i hd hp
    have hcl := hs.commands i hd
    unfold draw_uniform_classified at hcl
    rw [hp] at hcl
    refine ⟨fun hn => ?_, fun u hu => ?_⟩
    · rcases hcl with h | h
      · exact h.2
      · exact absurd (c1 hn) h.1
    · rcases hcl with h | h
      · exact absurd h.1 (c2 u hu)
      · exact h.2
  refine ⟨?_, fun i u hd hp hu => (key i hd hp).2 u hu⟩
  intro region vertex_index num_vertices primitive_type hm
  unfold merge_attempt at hm ⊢
  by_cases hprim : primitive_type ≠ SG_PRIMITIVETYPE_TRIANGLE_STRIP
      ∧ primitive_type ≠ SG_PRIMITIVETYPE_LINE_STRIP
  · rw [if_pos hprim] at hm ⊢
    obtain ⟨prev, inter, hdraw, hmatch, hbranch⟩ := merge_batch_command_true depth s _ _ _
      region vertex_index num_vertices hm
    obtain ⟨m1, m2, m3⟩ := (batch_match_iff s _ _ _ _).1 hmatch
    exact ⟨prev, inter, hdraw, m1, m2.symm, (key prev hdraw m1).1,
      fun u hu => ⟨(key prev hdraw m1).2 u hu, (m3 u hu).symm⟩, hbranch⟩
  · rw [if_neg hprim] at hm
    simp at hm

/-- C6: a new draw is merged only into a draw command with its pipeline id,
its texture set and its uniform. The pipelines are told apart by their ids:
`default_id` holds of the ids of the pipelines the backend makes for the
library (`backend_sound`), and the handles the application passes to
`sgp_set_pipeline` are custom ones, the invalid handle or a handle with
another id. From a context in which the pipelines are told apart
(`pipelines_sound`, as after setup), after every sequence of calls of the
library they still are, and for every draw a drawing function then queues
(`queue_draw_entry`: vertices reserved and written, default pipeline looked up)
that passes the pipeline guard, `merged_only_into_match` holds: a merge
attempt that returns true has acted on a draw command whose pipeline id and
texture set equal the new draw's; a new draw without a uniform snapshot is
merged only into a command that has none, a new draw with a snapshot only
into a command that has one, equal to it; and no command without a snapshot
passes the pipeline test, after which alone a snapshot is compared. -/
theorem merge_only_into_same_bindings (default_id : Nat → Prop) (depth : Nat) (be : sg_backend)
    (s : _sgp_context) (calls : List sgp_call)
    (hs : pipelines_sound default_id s) (hbe : backend_sound default_id be)
    (hcalls : ∀ p, sgp_call.sgp_set_pipeline p ∈ calls → custom_pipeline default_id p) :
    pipelines_sound default_id (calls.foldl (run_call depth be) s)
    ∧ ∀ (vertices : Nat → sgp_vertex) (cur_vertex : Nat) (lookup_type : sg_primitive_type)
        (blend_mode : sgp_blend_mode),
        (queue_pipeline
          (queue_draw_entry be (calls.foldl (run_call depth be) s) vertices cur_vertex
            lookup_type blend_mode).2
          (queue_draw_entry be (calls.foldl (run_call depth be) s) vertices cur_vertex
            lookup_type blend_mode).1).id ≠ SG_INVALID_ID →
        merged_only_into_match depth
          (queue_draw_entry be (calls.foldl (run_call depth be) s) vertices cur_vertex
            lookup_type blend_mode).2
          (queue_draw_entry be (calls.foldl (run_call depth be) s) vertices cur_vertex
            lookup_type blend_mode).1 := by
  have ht := run_calls_sound depth be hbe calls s hcalls hs
  refine ⟨ht, ?_⟩
  intro vertices cur_vertex lookup_type blend_mode hpip
  have hx := lookup_pipeline_sound be
    { calls.foldl (run_call depth be) s with cur_vertex := cur_vertex, vertices := vertices }
    lookup_type blend_mode hbe (pipelines_sound_of_eq ht rfl rfl rfl rfl rfl rfl rfl)
  exact merged_only_into_match_of_sound depth _ _ hx.1 hx.2 hpip

set_option maxRecDepth 100000 in
/-- C6 at a segment that draws under a custom pipeline, with 1 as the only id
of a default pipeline. After setup the pipelines are told apart; the segment
sets the pipeline 7 and draws `sgp_clear`. For the second `sgp_clear` (six
vertices reserved at 6, default pipeline looked up) the merge test holds, and
its merge attempt does return true: the draw has the snapshot of the state's
uniform and is merged into command 0, which has pipeline 7 and the snapshot at
index 0. -/
theorem merge_only_into_same_bindings_witness :
    pipelines_sound (fun id => id = 1) setup_context
    ∧ backend_sound (fun id => id = 1) sample_backend
    ∧ pipelines_sound (fun id => id = 1)
        (custom_pipeline_calls.foldl (run_call 8 sample_backend) setup_context)
    ∧ merged_only_into_match 8
        (queue_draw_entry sample_backend
          (custom_pipeline_calls.foldl (run_call 8 sample_backend) setup_context)
          sample_vertex 12 SG_PRIMITIVETYPE_TRIANGLES sgp_blend_mode.SGP_BLENDMODE_NONE).2
        (queue_draw_entry sample_backend
          (custom_pipeline_calls.foldl (run_call 8 sample_backend) setup_context)
          sample_vertex 12 SG_PRIMITIVETYPE_TRIANGLES sgp_blend_mode.SGP_BLENDMODE_NONE).1
    ∧ (merge_attempt 8
        (queue_draw_entry sample_backend
          (custom_pipeline_calls.foldl (run_call 8 sample_backend) setup_context)
          sample_vertex 12 SG_PRIMITIVETYPE_TRIANGLES sgp_blend_mode.SGP_BLENDMODE_NONE).2
        (queue_draw_entry sample_backend
          (custom_pipeline_calls.foldl (run_call 8 sample_backend) setup_context)
          sample_vertex 12 SG_PRIMITIVETYPE_TRIANGLES sgp_blend_mode.SGP_BLENDMODE_NONE).1
        (sample_region (-1) (-1) 1 1) 6 6 SG_PRIMITIVETYPE_TRIANGLES).1 = true
    ∧ queue_uniform
        (queue_draw_entry sample_backend
          (custom_pipeline_calls.foldl (run_call 8 sample_backend) setup_context)
          sample_vertex 12 SG_PRIMITIVETYPE_TRIANGLES sgp_blend_mode.SGP_BLENDMODE_NONE).2
        = some _sgp_zero_uniform
    ∧ (((custom_pipeline_calls.foldl (run_call 8 sample_backend) setup_context).commands
        0).args.draw.pip.id = 7
      ∧ ((custom_pipeline_calls.foldl (run_call 8 sample_backend) setup_context).commands
        0).args.draw.uniform_index = 0) := by
  have hs : pipelines_sound (fun id => id = 1) setup_context :=
    ⟨fun i hi => by simp [setup_context, sample_context, zero_command] at hi,
      fun _ _ => rfl, Or.inl rfl, fun _ => Or.inl rfl, ⟨by decide, by decide⟩,
      ⟨by decide, fun _ => (by decide : (sample_state 1 0)._base_uniform < 4294967296)⟩⟩
  have hbe : backend_sound (fun id => id = 1) sample_backend := fun _ _ _ => rfl
  have hcalls : ∀ p, sgp_call.sgp_set_pipeline p ∈ custom_pipeline_calls →
      custom_pipeline (fun id => id = 1) p := by
    intro p hp
    simp [custom_pipeline_calls] at hp
    subst hp
    exact Or.inr (by decide)
  have h := merge_only_into_same_bindings (fun id => id = 1) 8 sample_backend setup_context
    custom_pipeline_calls hs hbe hcalls
  exact ⟨hs, hbe, h.1,
    h.2 sample_vertex 12 SG_PRIMITIVETYPE_TRIANGLES sgp_blend_mode.SGP_BLENDMODE_NONE
      (by decide),
    by decide, by decide, by decide, by decide⟩

end SokolGP
